import Mathlib

/-!
# CDC stream and xCluster bookkeeping of the master (`xrepl_catalog_manager.cc`)

A shallow embedding of the master-side CDC stream / xCluster metadata code of
`src/yb/master/xrepl_catalog_manager.cc`, and theorems about it.

Conventions of the embedding

* a `std::string` is a `String`, one `Char` per C++ `char`;
* an `xrepl::StreamId` (a 128-bit UUID) is a natural number, `StreamId.Nil` is `0`;
* a `std::unordered_map` is an association list; `mapFind`, `mapErase`, `mapAssign`
  are `find`, `erase` and `operator[] =` / `insert_or_assign`;
* a `scoped_refptr<CDCStreamInfo>` taken from `cdc_stream_map_` is the key of its entry; writing
  through the pointer rewrites the entry; likewise a `scoped_refptr<UniverseReplicationInfo>` is
  the key of its entry of `universe_replication_map_`, and a function that takes one has no
  result (`none`) for a key without an entry;
* the locks (`mutex_`, the per-entity copy-on-write locks) are not part of the embedding: every
  function is one sequential step; a write lock that goes out of scope without `Commit` leaves
  the entity as it was;
* the sys catalog and the other collaborators are part of the state; the status that a write to
  the sys catalog returns is a field of the state (`sys_catalog_status`), and so is the status of
  the CDC state table (`cdc_state_table_status`);
* a `DCHECK` is a debug assertion and not part of the embedding; an `RSTATUS_DCHECK` returns its
  status.
-/

namespace yb.master

/-! ## Status -/

/-- The `Status` codes used by the embedded functions. -/
inductive StatusCode where
  | InvalidArgument
  | NotFound
  | AlreadyPresent
  | IllegalState
  | NotSupported
  | ReplicationSlotLimitReached
  | InternalError
  | IOError
  | Aborted
  | TimedOut
  deriving DecidableEq, Repr

/-- The `MasterErrorPB::Code` values used by the embedded functions. -/
inductive MasterErrorPB where
  | INVALID_REQUEST
  | OBJECT_NOT_FOUND
  | OBJECT_ALREADY_PRESENT
  | REPLICATION_SLOT_LIMIT_REACHED
  deriving DecidableEq, Repr

/-- A `yb::Status`: `OK`, or an error code with its message and the optional `MasterError`. -/
inductive Status where
  | OK
  | error (code : StatusCode) (msg : String) (master_error : Option MasterErrorPB)
  deriving DecidableEq, Repr

/-- The function `Status::ok()`. -/
def Status.ok : Status → Bool
  | Status.OK => true
  | Status.error _ _ _ => false

/-- The macro `RETURN_INVALID_REQUEST_STATUS(error_msg)`: the status it returns. -/
def RETURN_INVALID_REQUEST_STATUS (error_msg : String) : Status :=
  Status.error StatusCode.InvalidArgument error_msg (some MasterErrorPB.INVALID_REQUEST)

/-! ## Replication slot names -/

/-- The test of one character in the loop of `ReplicationSlotValidateName`. -/
def slotNameCharOk (c : Char) : Bool :=
  (decide ('a' ≤ c) && decide (c ≤ 'z')) || (decide ('0' ≤ c) && decide (c ≤ '9')) || c == '_'

/-- The `for (auto c : replication_slot_name)` loop of `ReplicationSlotValidateName`: it returns
at the first character that fails the test. -/
def ReplicationSlotValidateName.loop : List Char → Status
  | [] => Status.OK
  | c :: rest =>
    if !slotNameCharOk c then
      RETURN_INVALID_REQUEST_STATUS
        ("Replication slot names may only contain lower case letters, numbers, and the " ++
          "underscore character.")
    else ReplicationSlotValidateName.loop rest

/-- The function `CatalogManager::ReplicationSlotValidateName`. -/
def ReplicationSlotValidateName (replication_slot_name : String) : Status :=
  if replication_slot_name.data.isEmpty then
    RETURN_INVALID_REQUEST_STATUS "Replication slot name cannot be empty"
  else if replication_slot_name.length ≥ 64 then
    RETURN_INVALID_REQUEST_STATUS "Replication slot name length must be < 64"
  else ReplicationSlotValidateName.loop replication_slot_name.data

/-! ## Maps -/

/-- The `find` of a `std::unordered_map` (`FindOrNull`, `FindPtrOrNull`): the value of the first
entry with the key. -/
def mapFind {K V : Type} [DecidableEq K] : List (K × V) → K → Option V
  | [], _ => none
  | (k1, v) :: rest, k => if k1 = k then some v else mapFind rest k

/-- The `contains` of a map. -/
def mapContains {K V : Type} [DecidableEq K] (m : List (K × V)) (k : K) : Bool :=
  (mapFind m k).isSome

/-- The `erase(key)` of a map. -/
def mapErase {K V : Type} [DecidableEq K] (m : List (K × V)) (k : K) : List (K × V) :=
  m.filter (fun e => decide (e.1 ≠ k))

/-- The `m[key] = value` and `insert_or_assign` of a map: the entry with the key is replaced, or
a new entry is added. -/
def mapAssign {K V : Type} [DecidableEq K] (m : List (K × V)) (k : K) (v : V) : List (K × V) :=
  if mapContains m k then m.map (fun e => (e.1, if e.1 = k then v else e.2)) else m ++ [(k, v)]

/-- The `size()` of a map. -/
def mapSize {K V : Type} (m : List (K × V)) : Nat := m.length

/-! ## The stream record -/

/-- An `xrepl::StreamId`. -/
abbrev StreamId := Nat

/-- The nil id `xrepl::StreamId::Nil()`. -/
def StreamId.Nil : StreamId := 0

abbrev TableId := String
abbrev NamespaceId := String
abbrev TabletId := String
abbrev ReplicationSlotName := String

/-- Modelled from the spec: the enum `SysCDCStreamEntryPB::State` of the stream record, declared
in a proto file that is not part of the sources ("lifecycle state (ACTIVE, INITIATED,
DELETING_METADATA, DELETING, DELETED-equivalents)"). -/
inductive SysCDCStreamEntryPB.State where
  | ACTIVE
  | DELETING
  | DELETED
  | INITIATED
  | DELETING_METADATA
  deriving DecidableEq, Repr

/-- The name `PgReplicaIdentity` of a table's replica identity. -/
inductive PgReplicaIdentity where
  | DEFAULT
  | NOTHING
  | FULL
  | CHANGE
  deriving DecidableEq, Repr

/-- The consistent snapshot option of a create request. -/
inductive CDCSDKSnapshotOption where
  | NOEXPORT_SNAPSHOT
  | USE_SNAPSHOT
  deriving DecidableEq, Repr

/-- One entry of the option bag, `CDCStreamOptionsPB`. -/
structure CDCStreamOptionsPB where
  key : String
  value : String
  deriving DecidableEq, Repr

/-- The consistent-snapshot metadata `cdcsdk_stream_metadata` of a stream record. -/
structure CDCSDKStreamMetadataPB where
  snapshot_time : Option Nat := none
  consistent_snapshot_option : Option CDCSDKSnapshotOption := none
  deriving DecidableEq, Repr

/-- Modelled from the spec: the persisted stream record `SysCDCStreamEntryPB`, declared in a proto
file that is not part of the sources ("CDCStream record (namespace/table ids, option bag, state
enum, replica-identity map, slot name, snapshot metadata)"). The fields are those the code reads
and writes; an `optional` proto field is an `Option`. -/
structure SysCDCStreamEntryPB where
  table_id : List TableId := []
  options : List CDCStreamOptionsPB := []
  state : Option SysCDCStreamEntryPB.State := none
  namespace_id : Option NamespaceId := none
  transactional : Bool := false
  cdcsdk_ysql_replication_slot_name : Option String := none
  cdcsdk_ysql_replication_slot_plugin_name : Option String := none
  cdcsdk_stream_metadata : Option CDCSDKStreamMetadataPB := none
  stream_creation_time : Option Nat := none
  replica_identity_map : List (TableId × PgReplicaIdentity) := []
  cdcsdk_disable_dynamic_table_addition : Option Bool := none
  unqualified_table_id : List TableId := []
  deriving DecidableEq, Repr

/-- Modelled from the spec: the proto getter `pb.state()`; a record without a state reads as
ACTIVE (the loader marks such a record ACTIVE). -/
def SysCDCStreamEntryPB.get_state (pb : SysCDCStreamEntryPB) : SysCDCStreamEntryPB.State :=
  pb.state.getD SysCDCStreamEntryPB.State.ACTIVE

/-- Modelled from the spec: `PersistentCDCStreamInfo::is_deleting` of the header
`catalog_entity_info.h`, which is not part of the sources: the stream is in state DELETING. -/
def SysCDCStreamEntryPB.is_deleting (pb : SysCDCStreamEntryPB) : Bool :=
  decide (pb.get_state = SysCDCStreamEntryPB.State.DELETING)

/-- Modelled from the spec: `PersistentCDCStreamInfo::started_deleting` of the header
`catalog_entity_info.h`, which is not part of the sources: the stream is in state DELETING or
DELETED. -/
def SysCDCStreamEntryPB.started_deleting (pb : SysCDCStreamEntryPB) : Bool :=
  decide (pb.get_state = SysCDCStreamEntryPB.State.DELETING) ||
    decide (pb.get_state = SysCDCStreamEntryPB.State.DELETED)

/-- Modelled from the spec: `CDCStreamInfo::namespace_id` of the header `catalog_entity_info.h`:
the namespace id of the record, the empty string when the record has none. -/
def SysCDCStreamEntryPB.get_namespace_id (pb : SysCDCStreamEntryPB) : NamespaceId :=
  pb.namespace_id.getD ""

/-- Modelled from the spec: `CDCStreamInfo::GetCdcsdkYsqlReplicationSlotName` of the header
`catalog_entity_info.h`: the slot name of the record, the empty string when the record has
none. -/
def SysCDCStreamEntryPB.GetCdcsdkYsqlReplicationSlotName (pb : SysCDCStreamEntryPB) :
    ReplicationSlotName :=
  pb.cdcsdk_ysql_replication_slot_name.getD ""

/-- Modelled from the spec: the option key `cdc::kIdType` of `cdc_service.h`, which is not part
of the sources (the "id-type" option of the option bag). -/
def cdc.kIdType : String := "id_type"

/-- Modelled from the spec: the option value `cdc::kNamespaceId` of `cdc_service.h`, which is not
part of the sources (the id type of a namespace stream). -/
def cdc.kNamespaceId : String := "NAMESPACEID"

/-- Modelled from the spec: the option value `cdc::kTableId` of `cdc_service.h`, which is not part
of the sources (the id type of a table stream). -/
def cdc.kTableId : String := "TABLEID"

/-- Modelled from the spec: the option key `cdc::kStreamState` of `cdc_service.h`, which is not
part of the sources (the lifecycle state, sent as an option). -/
def cdc.kStreamState : String := "state"

/-- Modelled from the spec: the option key `cdc::kRecordType` of `cdc_service.h`, which is not
part of the sources (the "record type" option of the option bag). -/
def cdc.kRecordType : String := "record_type"

/-! ## The catalog manager state -/

/-- The database type of a namespace. -/
inductive YQLDatabase where
  | YQL_DATABASE_CQL
  | YQL_DATABASE_PGSQL
  deriving DecidableEq, Repr

/-- Modelled from the spec: the enum `SysNamespaceEntryPB::State` of the namespace record,
declared in a proto file that is not part of the sources; the embedded code tests a namespace
for RUNNING and for DELETING. -/
inductive SysNamespaceEntryPB.State where
  | UNKNOWN
  | PREPARING
  | RUNNING
  | FAILED
  | DELETING
  | DELETED
  deriving DecidableEq, Repr

/-- What the embedded code reads of a `NamespaceInfo`. -/
structure NamespaceInfo where
  database_type : YQLDatabase := YQLDatabase.YQL_DATABASE_PGSQL
  state : SysNamespaceEntryPB.State := SysNamespaceEntryPB.State.RUNNING
  deriving DecidableEq, Repr

/-- What the embedded code reads of a `TableInfo`. The kind of the table (`IsMatviewTable`,
`IsUserTableUnlocked`, `IsUserIndexUnlocked`, which are not part of the sources) is a field of
its own each. -/
structure TableInfo where
  namespace_id : NamespaceId := ""
  replica_identity : PgReplicaIdentity := PgReplicaIdentity.CHANGE
  is_matview : Bool := false
  is_user_table : Bool := true
  is_user_index : Bool := false
  is_deleting : Bool := false
  deriving DecidableEq, Repr

/-- The key of a row of the CDC state table. -/
structure CDCStateTableKey where
  tablet_id : TabletId
  stream_id : StreamId
  colocated_table_id : Option TableId := none
  deriving DecidableEq, Repr

/-- A row of the CDC state table: its key and its checkpoint (term, index). -/
structure CDCStateTableEntry where
  key : CDCStateTableKey
  checkpoint : Option (Int × Int) := none
  active_time : Option Nat := none
  cdc_sdk_safe_time : Option Nat := none
  last_replication_time : Option Nat := none
  deriving DecidableEq, Repr

/-- A hidden parent tablet of a split that is retained for CDCSDK,
`HiddenReplicationParentTabletInfo`: its table, its own parent tablet (the empty string when it
has none) and its two children. -/
structure HiddenReplicationParentTabletInfo where
  table_id_ : TableId
  parent_tablet_id_ : TabletId := ""
  split_tablets_ : TabletId × TabletId
  deriving DecidableEq, Repr

/-- The schema versions of a stream as the consumer registry stores them,
`cdc::SchemaVersionsPB`. -/
structure SchemaVersionsPB where
  current_producer_schema_version : Nat := 0
  current_consumer_schema_version : Nat := 0
  old_producer_schema_version : Nat := 0
  old_consumer_schema_version : Nat := 0
  deriving DecidableEq, Repr

/-- The cached producer schema of a stream entry; `Clear()` makes it the empty message. -/
structure ProducerSchemaPB where
  validated_schema_version : Option Nat := none
  pending_schema_version : Option Nat := none
  deriving DecidableEq, Repr

/-- A stream entry of the consumer registry, `StreamEntryPB`. -/
structure StreamEntryPB where
  consumer_table_id : TableId := ""
  producer_schema : Option ProducerSchemaPB := none
  schema_versions : Option SchemaVersionsPB := none
  colocated_schema_versions : List (Nat × SchemaVersionsPB) := []
  deriving DecidableEq, Repr

/-- A producer entry of the consumer registry: the streams of one replication group, keyed by
the stream id (by its string in the proto). -/
structure ProducerEntryPB where
  stream_map : List (StreamId × StreamEntryPB) := []
  deriving DecidableEq, Repr

/-- The consumer registry of the cluster config. -/
structure ConsumerRegistryPB where
  producer_map : List (String × ProducerEntryPB) := []
  deriving DecidableEq, Repr

/-- The cluster config record, `SysClusterConfigEntryPB`; `version` is an `int32`. -/
structure SysClusterConfigEntryPB where
  version : Int := 0
  consumer_registry : Option ConsumerRegistryPB := none
  deriving DecidableEq, Repr

/-- An `xcluster::ReplicationGroupId`: the name of a replication group. -/
abbrev ReplicationGroupId := String

/-- The lifecycle states of a replication group, `SysUniverseReplicationEntryPB::State`. -/
inductive SysUniverseReplicationEntryPB.State where
  | INITIALIZING
  | VALIDATED
  | ACTIVE
  | FAILED
  | DELETED
  | DELETED_ERROR
  | DELETING
  deriving DecidableEq, Repr

/-- A pair of schema versions, `SchemaVersionMappingPB`. -/
structure SchemaVersionMappingPB where
  producer_schema_version : Nat := 0
  consumer_schema_version : Nat := 0
  deriving DecidableEq, Repr

/-- The schema versions of one colocated table, `ColocatedSchemaVersionMappingPB`. -/
structure ColocatedSchemaVersionMappingPB where
  colocation_id : Nat := 0
  schema_version_mapping : SchemaVersionMappingPB := {}
  deriving DecidableEq, Repr

/-- The schema versions validated for a producer table, `SchemaVersionMappingEntryPB`. -/
structure SchemaVersionMappingEntryPB where
  schema_version_mapping : Option SchemaVersionMappingPB := none
  colocated_schema_versions : List ColocatedSchemaVersionMappingPB := []
  deriving DecidableEq, Repr

/-- Modelled from the spec: the persisted record of a replication group,
`SysUniverseReplicationEntryPB`, declared in a proto file that is not part of the sources
("producer master addresses, transactional flag, optional DB-scoped namespace-pair list,
table→stream map, producer-table→consumer-table validated map, per-table schema-version mapping,
lifecycle state"). `tables` is a repeated field, the maps are proto maps; `db_scoped_info` holds
the namespace pairs of a DB-scoped group. -/
structure SysUniverseReplicationEntryPB where
  replication_group_id : ReplicationGroupId := ""
  producer_master_addresses : List String := []
  tables : List TableId := []
  state : SysUniverseReplicationEntryPB.State := SysUniverseReplicationEntryPB.State.INITIALIZING
  validated_tables : List (TableId × TableId) := []
  table_streams : List (TableId × String) := []
  schema_version_mappings : List (TableId × SchemaVersionMappingEntryPB) := []
  transactional : Bool := false
  db_scoped_info : Option (List (NamespaceId × NamespaceId)) := none
  deriving DecidableEq, Repr

/-- Modelled from the spec: `PersistentUniverseReplicationInfo::is_deleted_or_failed` of the
header `catalog_entity_info.h`, which is not part of the sources: the group is in one of the
states DELETED, DELETED_ERROR and FAILED. -/
def SysUniverseReplicationEntryPB.is_deleted_or_failed (pb : SysUniverseReplicationEntryPB) :
    Bool :=
  decide (pb.state = SysUniverseReplicationEntryPB.State.DELETED) ||
    decide (pb.state = SysUniverseReplicationEntryPB.State.DELETED_ERROR) ||
    decide (pb.state = SysUniverseReplicationEntryPB.State.FAILED)

/-- Modelled from the spec: `PersistentUniverseReplicationInfo::IsDbScoped` of the header
`catalog_entity_info.h`, which is not part of the sources: the group has a namespace-pair
list. -/
def SysUniverseReplicationEntryPB.IsDbScoped (pb : SysUniverseReplicationEntryPB) : Bool :=
  match pb.db_scoped_info with
  | some namespace_infos => !namespace_infos.isEmpty
  | none => false

/-- The lifecycle states of a replication bootstrap,
`SysUniverseReplicationBootstrapEntryPB::State`. -/
inductive SysUniverseReplicationBootstrapEntryPB.State where
  | INITIALIZING
  | BOOTSTRAP_PRODUCER
  | CREATE_PRODUCER_SNAPSHOT
  | IMPORT_SNAPSHOT
  | CREATE_CONSUMER_SNAPSHOT
  | TRANSFER_SNAPSHOT
  | RESTORE_SNAPSHOT
  | SETUP_REPLICATION
  | DONE
  | FAILED
  | DELETED
  | DELETED_ERROR
  | DELETING
  deriving DecidableEq, Repr

/-- A replication bootstrap in memory, `UniverseReplicationBootstrapInfo`: what the embedded
code reads of it, the state of its record and the error status of the bootstrap. -/
structure UniverseReplicationBootstrapInfo where
  state : SysUniverseReplicationBootstrapEntryPB.State :=
    SysUniverseReplicationBootstrapEntryPB.State.INITIALIZING
  replication_bootstrap_error_ : Status := Status.OK
  deriving DecidableEq, Repr

/-- Modelled from the spec: `PersistentUniverseReplicationBootstrapInfo::is_done` of the header
`catalog_entity_info.h`, which is not part of the sources: the bootstrap is in state DONE
("Terminal states are DONE or some failure state"). -/
def UniverseReplicationBootstrapInfo.is_done (info : UniverseReplicationBootstrapInfo) : Bool :=
  decide (info.state = SysUniverseReplicationBootstrapEntryPB.State.DONE)

/-- Modelled from the spec: `PersistentUniverseReplicationBootstrapInfo::is_deleted_or_failed`
of the header `catalog_entity_info.h`, which is not part of the sources: the bootstrap is in one
of the states DELETED, DELETED_ERROR and FAILED. -/
def UniverseReplicationBootstrapInfo.is_deleted_or_failed
    (info : UniverseReplicationBootstrapInfo) : Bool :=
  decide (info.state = SysUniverseReplicationBootstrapEntryPB.State.DELETED) ||
    decide (info.state = SysUniverseReplicationBootstrapEntryPB.State.DELETED_ERROR) ||
    decide (info.state = SysUniverseReplicationBootstrapEntryPB.State.FAILED)

/-- One write to the sys catalog. `Mutate` is the multi-row write of a `SysCatalogWriter`: the
two replication groups and the cluster config in one write. -/
inductive SysCatalogWrite where
  | UpsertStreams (streams : List (StreamId × SysCDCStreamEntryPB))
  | DeleteStreams (streams : List StreamId)
  | UpsertClusterConfig (config : SysClusterConfigEntryPB)
  | UpsertUniverseReplication (universe_ : SysUniverseReplicationEntryPB)
  | Mutate (original_universe : SysUniverseReplicationEntryPB)
      (universe_ : SysUniverseReplicationEntryPB) (cluster_config : SysClusterConfigEntryPB)
  deriving DecidableEq, Repr

/-- A replication group in memory, `UniverseReplicationInfo`: its record and the error status of
its setup (`setup_universe_replication_error_`, outside the copy-on-write record). -/
structure UniverseReplicationInfo where
  pb : SysUniverseReplicationEntryPB := {}
  setup_universe_replication_error_ : Status := Status.OK
  deriving DecidableEq, Repr

/-- The runtime flags the embedded code reads. The flags defined in the file have the defaults of
their definition; the others are declared there and defined elsewhere, and their default here is
the one of a cluster with replication slots in use. -/
structure Flags where
  max_replication_slots : Nat := 10
  enable_backfilling_cdc_stream_with_replication_slot : Bool := false
  xcluster_skip_schema_compatibility_checks_on_alter : Bool := false
  TEST_disable_cdc_state_insert_on_setup : Bool := false
  cdcsdk_enable_dynamic_tables_disable_option : Bool := true
  ysql_yb_enable_replication_commands : Bool := true
  ysql_yb_enable_replica_identity : Bool := true
  yb_enable_cdc_consistent_snapshot_streams : Bool := true
  TEST_fail_universe_replication_merge : Bool := false
  TEST_exit_unfinished_merging : Bool := false
  TEST_cdcsdk_add_indexes_to_stream : Bool := false
  ysql_yb_enable_replication_slot_consumption : Bool := true
  cdcsdk_table_processing_limit_per_run : Int := 2
  deriving DecidableEq, Repr

/-- The state of the catalog manager that the embedded code reads and writes, with its
collaborators: the in-memory maps, the table and namespace catalog, the cluster config, the sys
catalog (the writes it has accepted, and the status its next write returns) and the CDC state
table. -/
structure CatalogManager where
  cdc_stream_map_ : List (StreamId × SysCDCStreamEntryPB) := []
  cdcsdk_tables_to_stream_map_ : List (TableId × List StreamId) := []
  cdcsdk_replication_slots_to_stream_map_ : List (ReplicationSlotName × StreamId) := []
  xrepl_stream_ids_in_use_ : List StreamId := []
  namespace_ids_map_ : List (NamespaceId × NamespaceInfo) := []
  tables_ : List (TableId × TableInfo) := []
  xcluster_consumer_table_stream_ids_map_ : List (TableId × List (String × StreamId)) := []
  cluster_config_ : SysClusterConfigEntryPB := {}
  sys_catalog_ : List SysCatalogWrite := []
  sys_catalog_status : Status := Status.OK
  cdc_state_table_ : List CDCStateTableEntry := []
  flags : Flags := {}
  universe_replication_map_ : List (ReplicationGroupId × UniverseReplicationInfo) := []
  universes_to_clear_ : List ReplicationGroupId := []
  cdc_state_table_status : Status := Status.OK
  universe_replication_bootstrap_map_ :
    List (ReplicationGroupId × UniverseReplicationBootstrapInfo) := []
  replication_bootstraps_to_clear_ : List ReplicationGroupId := []
  namespace_to_cdcsdk_unprocessed_table_map_ : List (NamespaceId × List TableId) := []
  retained_by_cdcsdk_ : List (TabletId × HiddenReplicationParentTabletInfo) := []
  cdc_enabled_ : Bool := false
  deriving DecidableEq, Repr

/-- Modelled from the spec: `CatalogManager::FindTableById`, which is not part of the sources:
the table of the catalog with the id, or NotFound. -/
def FindTableById (cm : CatalogManager) (table_id : TableId) : Except Status TableInfo :=
  match mapFind cm.tables_ table_id with
  | some table => Except.ok table
  | none =>
    Except.error (Status.error StatusCode.NotFound "Table not found"
      (some MasterErrorPB.OBJECT_NOT_FOUND))

/-- Modelled from the spec: `CatalogManager::FindNamespaceById`, which is not part of the sources:
the namespace of the catalog with the id, or NotFound. -/
def FindNamespaceById (cm : CatalogManager) (namespace_id : NamespaceId) :
    Except Status NamespaceInfo :=
  match mapFind cm.namespace_ids_map_ namespace_id with
  | some ns => Except.ok ns
  | none =>
    Except.error (Status.error StatusCode.NotFound "Keyspace identifier not found"
      (some MasterErrorPB.OBJECT_NOT_FOUND))

/-! ## Stream ids -/

/-- The function `CatalogManager::GenerateNewXreplStreamId`. The random ids that `StreamId::GenerateRandom`
draws are the list `random`, in the order of the draws; the loop returns at the first draw that
is not in `xrepl_stream_ids_in_use_`. The result is the id, the state when the call returns and
the draws left; `none` when the loop is still running after the last draw of the list. -/
def GenerateNewXreplStreamId (cm : CatalogManager) :
    List StreamId → Option (StreamId × CatalogManager × List StreamId)
  | [] => none
  | stream_id :: random =>
    if !cm.xrepl_stream_ids_in_use_.contains stream_id then some (stream_id, cm, random)
    else GenerateNewXreplStreamId cm random

/-- The function `CatalogManager::RecoverXreplStreamId`. -/
def RecoverXreplStreamId (cm : CatalogManager) (stream_id : StreamId) : CatalogManager :=
  { cm with xrepl_stream_ids_in_use_ := cm.xrepl_stream_ids_in_use_.filter (· ≠ stream_id) }

/-- The function `CatalogManager::InitNewXReplStream`: a new id, and a stream with an empty record under that
id in `cdc_stream_map_`. -/
def InitNewXReplStream (cm : CatalogManager) (random : List StreamId) :
    Option (StreamId × CatalogManager × List StreamId) :=
  match GenerateNewXreplStreamId cm random with
  | none => none
  | some (stream_id, cm1, rest) =>
    some (stream_id, { cm1 with cdc_stream_map_ := mapAssign cm1.cdc_stream_map_ stream_id {} },
      rest)

/-! ## Creating a CDCSDK stream -/

/-- The dynamic tables option of a create request. -/
inductive CDCSDKDynamicTablesOption where
  | DYNAMIC_TABLES_ENABLED
  | DYNAMIC_TABLES_DISABLED
  deriving DecidableEq, Repr

/-- The request of `CreateCDCStream`. -/
structure CreateCDCStreamRequestPB where
  table_id : Option String := none
  namespace_id : Option String := none
  options : List CDCStreamOptionsPB := []
  initial_state : Option SysCDCStreamEntryPB.State := none
  transactional : Bool := false
  cdcsdk_ysql_replication_slot_name : Option String := none
  cdcsdk_consistent_snapshot_option : Option CDCSDKSnapshotOption := none
  cdcsdk_ysql_replication_slot_plugin_name : Option String := none
  cdcsdk_dynamic_tables_option : Option CDCSDKDynamicTablesOption := none
  deriving DecidableEq, Repr

/-- The response of `CreateCDCStream`. -/
structure CreateCDCStreamResponsePB where
  stream_id : Option StreamId := none
  cdcsdk_consistent_snapshot_time : Option Nat := none
  deriving DecidableEq, Repr

/-- The creation state that the rollback of `CreateNewCdcsdkStream` is keyed by. -/
inductive CDCSDKStreamCreationState where
  | kInitialized
  | kAddedToMaps
  | kPreCommitMutation
  | kPostCommitMutation
  | kReady
  deriving DecidableEq, Repr

/-- What the collaborators of `CreateNewCdcsdkStream` answer during one call: the draws of
`StreamId::GenerateRandom`, the status of the creation of the CDC state table, of the two
`PopulateCDCStateTable` calls and of `SetAllCDCSDKRetentionBarriers`, and the two clock
readings. -/
structure CreateStreamEnv where
  random : List StreamId := []
  create_cdc_state_table : Status := Status.OK
  populate_cdc_state_table_first : Status := Status.OK
  set_retention_barriers : Status := Status.OK
  populate_cdc_state_table_second : Status := Status.OK
  consistent_snapshot_time : Nat := 0
  stream_creation_time : Nat := 0
  deriving DecidableEq, Repr

/-- The first block of `CreateNewCdcsdkStream` under `mutex_`, for a request with a slot name:
the duplicate detection, which drops the index entry of a stream that is deleting, and the limit
on the number of slots. The result is the status of an early return, if any, and the slot
index. -/
def CreateNewCdcsdkStream.check_slot (cm : CatalogManager) (slot_name : ReplicationSlotName) :
    Option Status × List (ReplicationSlotName × StreamId) :=
  let duplicate : Option Status × List (ReplicationSlotName × StreamId) :=
    if mapContains cm.cdcsdk_replication_slots_to_stream_map_ slot_name then
      match mapFind cm.cdcsdk_replication_slots_to_stream_map_ slot_name with
      | none =>
        (some (Status.error StatusCode.IllegalState
          "Stream with slot name was not found unexpectedly" none),
          cm.cdcsdk_replication_slots_to_stream_map_)
      | some stream_id =>
        match mapFind cm.cdc_stream_map_ stream_id with
        | none =>
          (some (Status.error StatusCode.IllegalState
            "Stream with id was not found unexpectedly" none),
            cm.cdcsdk_replication_slots_to_stream_map_)
        | some stream =>
          if !stream.is_deleting then
            (some (Status.error StatusCode.AlreadyPresent
              "CDC stream with the given replication slot name already exists"
              (some MasterErrorPB.OBJECT_ALREADY_PRESENT)),
              cm.cdcsdk_replication_slots_to_stream_map_)
          else (none, mapErase cm.cdcsdk_replication_slots_to_stream_map_ slot_name)
    else (none, cm.cdcsdk_replication_slots_to_stream_map_)
  match duplicate with
  | (some status, slots) => (some status, slots)
  | (none, slots) =>
    if mapSize slots ≥ cm.flags.max_replication_slots then
      (some (Status.error StatusCode.ReplicationSlotLimitReached
        "Replication slot limit reached"
        (some MasterErrorPB.REPLICATION_SLOT_LIMIT_REACHED)), slots)
    else (none, slots)

/-- The loop of `CreateNewCdcsdkStream` over `cdc_stream_map_`: a namespace has either streams
with a slot or streams without one. The result is the status of an early return, if any. -/
def CreateNewCdcsdkStream.check_namespace (namespace_id : NamespaceId)
    (has_replication_slot_name : Bool) : List (StreamId × SysCDCStreamEntryPB) → Option Status
  | [] => none
  | (_, stream) :: rest =>
    if stream.get_namespace_id = namespace_id then
      if has_replication_slot_name ∧ stream.GetCdcsdkYsqlReplicationSlotName = "" then
        some (Status.error StatusCode.IllegalState
          ("Cannot create a replication slot on the same namespace which already has a " ++
            "yb-admin stream on it. ")
          (some MasterErrorPB.INVALID_REQUEST))
      else if ¬ has_replication_slot_name ∧ stream.GetCdcsdkYsqlReplicationSlotName ≠ "" then
        some (Status.error StatusCode.IllegalState
          ("Cannot create a stream on the same namespace which already has replication slot " ++
            "on it. ")
          (some MasterErrorPB.INVALID_REQUEST))
      else CreateNewCdcsdkStream.check_namespace namespace_id has_replication_slot_name rest
    else CreateNewCdcsdkStream.check_namespace namespace_id has_replication_slot_name rest

/-- The loop of `CreateNewCdcsdkStream` over the table ids that fills the table list and, for a
slot with the replica identities enabled, the replica identity map; it returns the status of
`FindTableById` when a table is missing. -/
def CreateNewCdcsdkStream.add_tables (cm : CatalogManager) (with_replica_identity : Bool) :
    List TableId → SysCDCStreamEntryPB → Except Status SysCDCStreamEntryPB
  | [], metadata => Except.ok metadata
  | table_id :: rest, metadata =>
    if with_replica_identity then
      match FindTableById cm table_id with
      | Except.error status => Except.error status
      | Except.ok table =>
        CreateNewCdcsdkStream.add_tables cm with_replica_identity rest
          { metadata with
            table_id := metadata.table_id ++ [table_id]
            replica_identity_map :=
              if mapContains metadata.replica_identity_map table_id then
                metadata.replica_identity_map
              else metadata.replica_identity_map ++ [(table_id, table.replica_identity)] }
    else
      CreateNewCdcsdkStream.add_tables cm with_replica_identity rest
        { metadata with table_id := metadata.table_id ++ [table_id] }

/-- The record that `CreateNewCdcsdkStream` builds for the new stream. -/
def CreateNewCdcsdkStream.metadata (cm : CatalogManager) (req : CreateCDCStreamRequestPB)
    (table_ids : List TableId) (namespace_id : NamespaceId) :
    Except Status SysCDCStreamEntryPB :=
  let has_replication_slot_name := req.cdcsdk_ysql_replication_slot_name.isSome
  let has_consistent_snapshot_option :=
    req.cdcsdk_consistent_snapshot_option.isSome &&
      cm.flags.yb_enable_cdc_consistent_snapshot_streams
  match CreateNewCdcsdkStream.add_tables cm
      (cm.flags.ysql_yb_enable_replica_identity && has_replication_slot_name) table_ids
      { namespace_id := some namespace_id } with
  | Except.error status => Except.error status
  | Except.ok metadata =>
    Except.ok
      { metadata with
        transactional := req.transactional
        options := req.options
        state := some
          (match req.initial_state with
            | some state => state
            | none =>
              if has_consistent_snapshot_option then SysCDCStreamEntryPB.State.INITIATED
              else SysCDCStreamEntryPB.State.ACTIVE)
        cdcsdk_ysql_replication_slot_name := req.cdcsdk_ysql_replication_slot_name
        cdcsdk_disable_dynamic_table_addition := some
          (decide (req.cdcsdk_dynamic_tables_option =
            some CDCSDKDynamicTablesOption.DYNAMIC_TABLES_DISABLED))
        cdcsdk_ysql_replication_slot_plugin_name :=
          req.cdcsdk_ysql_replication_slot_plugin_name }

/-- The insertion `cdcsdk_tables_to_stream_map_[table_id].insert(stream_id)` for every table of
the list. -/
def addToTablesToStreamMap (m : List (TableId × List StreamId)) (stream_id : StreamId) :
    List TableId → List (TableId × List StreamId)
  | [] => m
  | table_id :: rest =>
    let streams := (mapFind m table_id).getD []
    addToTablesToStreamMap
      (mapAssign m table_id (if stream_id ∈ streams then streams else streams ++ [stream_id]))
      stream_id rest

/-- The erasure `cdcsdk_tables_to_stream_map_[id].erase(stream_id)` for every table of the
list. -/
def eraseFromTablesToStreamMap (m : List (TableId × List StreamId)) (stream_id : StreamId) :
    List TableId → List (TableId × List StreamId)
  | [] => m
  | table_id :: rest =>
    let streams := (mapFind m table_id).getD []
    eraseFromTablesToStreamMap
      (mapAssign m table_id (streams.filter (fun id => decide (id ≠ stream_id)))) stream_id rest

/-- The function `CatalogManager::CleanupXReplStreamFromMaps`; `stream` is the record of the stream as a
reader sees it (`stream->table_id()`, `stream->GetCdcsdkYsqlReplicationSlotName()`). The part of
the xCluster manager (`CleanupStreamFromMaps`) is not part of the embedding. -/
def CleanupXReplStreamFromMaps (cm : CatalogManager) (stream_id : StreamId)
    (stream : SysCDCStreamEntryPB) : Status × CatalogManager :=
  if ¬ mapContains cm.cdc_stream_map_ stream_id then
    (Status.error StatusCode.IllegalState "XRepl stream not found in map" none, cm)
  else
    let cdcsdk_ysql_replication_slot_name := stream.GetCdcsdkYsqlReplicationSlotName
    (Status.OK,
      RecoverXreplStreamId
        { cm with
          cdc_stream_map_ := mapErase cm.cdc_stream_map_ stream_id
          cdcsdk_tables_to_stream_map_ :=
            eraseFromTablesToStreamMap cm.cdcsdk_tables_to_stream_map_ stream_id stream.table_id
          cdcsdk_replication_slots_to_stream_map_ :=
            if cdcsdk_ysql_replication_slot_name ≠ "" ∧
                mapFind cm.cdcsdk_replication_slots_to_stream_map_
                  cdcsdk_ysql_replication_slot_name = some stream_id then
              mapErase cm.cdcsdk_replication_slots_to_stream_map_
                cdcsdk_ysql_replication_slot_name
            else cm.cdcsdk_replication_slots_to_stream_map_ }
        stream_id)

/-! ## Deleting streams -/

/-- The request of `DeleteCDCStream`. -/
structure DeleteCDCStreamRequestPB where
  stream_id : List String := []
  ignore_errors : Bool := false
  force_delete : Bool := false
  cdcsdk_ysql_replication_slot_name : List String := []
  deriving DecidableEq, Repr

/-- The response of `DeleteCDCStream`. -/
structure DeleteCDCStreamResponsePB where
  not_found_stream_ids : List String := []
  not_found_cdcsdk_ysql_replication_slot_names : List String := []
  deriving DecidableEq, Repr

/-- The status that `GetStreamIfValidForDelete` returns for an ACTIVE stream with the record
format WAL. -/
def GetStreamIfValidForDelete.not_supported : Status :=
  Status.error StatusCode.NotSupported
    "Cannot delete an xCluster Stream in replication. Use 'force_delete' to override"
    (some MasterErrorPB.INVALID_REQUEST)

/-- The loop of `GetStreamIfValidForDelete` over the options of an ACTIVE stream: the status it
returns from inside the loop, or `none` when the loop ends or breaks (at the first option with
the key `record_format`). -/
def GetStreamIfValidForDelete.loop : List CDCStreamOptionsPB → Option Status
  | [] => none
  | option :: rest =>
    if option.key = "record_format" then
      if option.value = "WAL" then
        some GetStreamIfValidForDelete.not_supported
      else none
    else GetStreamIfValidForDelete.loop rest

/-- The function `CatalogManager::GetStreamIfValidForDelete`: an error, no stream (`nullopt`), or the
stream. -/
def GetStreamIfValidForDelete (cm : CatalogManager) (stream_id : StreamId) (force_delete : Bool) :
    Except Status (Option StreamId) :=
  match mapFind cm.cdc_stream_map_ stream_id with
  | none => Except.ok none
  | some ltm =>
    if ltm.started_deleting then Except.ok none
    else if !force_delete && decide (ltm.get_state = SysCDCStreamEntryPB.State.ACTIVE) then
      match GetStreamIfValidForDelete.loop ltm.options with
      | some status => Except.error status
      | none => Except.ok (some stream_id)
    else Except.ok (some stream_id)

/-- The record of a stream with its state set, `pb.set_state(delete_state)`. -/
def SysCDCStreamEntryPB.set_state (pb : SysCDCStreamEntryPB)
    (state : SysCDCStreamEntryPB.State) : SysCDCStreamEntryPB :=
  { pb with state := some state }

/-- The records that `DropXReplStreams` stages under the write locks: for each stream of the
list, its record with the state set. -/
def DropXReplStreams.staged (cm : CatalogManager) (delete_state : SysCDCStreamEntryPB.State) :
    List StreamId → List (StreamId × SysCDCStreamEntryPB)
  | [] => []
  | stream :: rest =>
    match mapFind cm.cdc_stream_map_ stream with
    | none => DropXReplStreams.staged cm delete_state rest
    | some pb => (stream, pb.set_state delete_state) :: DropXReplStreams.staged cm delete_state rest

/-- The commit of the write locks of `DropXReplStreams`: every listed stream has its state
set. -/
def DropXReplStreams.commit (delete_state : SysCDCStreamEntryPB.State) (streams : List StreamId)
    (m : List (StreamId × SysCDCStreamEntryPB)) : List (StreamId × SysCDCStreamEntryPB) :=
  m.map (fun e => (e.1, if e.1 ∈ streams then e.2.set_state delete_state else e.2))

/-- The function `CatalogManager::DropXReplStreams`: the write lock of each stream of the list
is taken, in the order of the list, and held; the streams get the delete state in a staged
copy, the staged records are written to the sys catalog, and only then committed; when the
write fails its status is returned and nothing is committed. The result is `none` when the list
holds a stream twice: the loop asks for the write lock of that stream while it holds it, and
the second lock is never granted. -/
def DropXReplStreams (cm : CatalogManager) (streams : List StreamId)
    (delete_state : SysCDCStreamEntryPB.State) : Option (Status × CatalogManager) :=
  if streams.isEmpty then some (Status.OK, cm)
  else if !(decide (delete_state = SysCDCStreamEntryPB.State.DELETING_METADATA) ||
      decide (delete_state = SysCDCStreamEntryPB.State.DELETING)) then
    some (Status.error StatusCode.IllegalState "Invalid delete state provided" none, cm)
  else if ¬ streams.Nodup then none
  else
    match cm.sys_catalog_status with
    | Status.OK =>
      some (Status.OK,
        { cm with
          cdc_stream_map_ := DropXReplStreams.commit delete_state streams cm.cdc_stream_map_
          sys_catalog_ := cm.sys_catalog_ ++
            [SysCatalogWrite.UpsertStreams (DropXReplStreams.staged cm delete_state streams)] })
    | Status.error code msg master_error => some (Status.error code msg master_error, cm)

/-- The first loop of `DeleteCDCStream`, over the stream ids of the request. `FromString` is
`xrepl::StreamId::FromString`, which is not part of the sources. The result is the status the
function returns from inside the loop (`none` when the loop ends), the streams collected and the
response. -/
def DeleteCDCStream.ids_loop (FromString : String → Except Status StreamId) (cm : CatalogManager)
    (force_delete : Bool) : List String → List StreamId → DeleteCDCStreamResponsePB →
    Option Status × List StreamId × DeleteCDCStreamResponsePB
  | [], streams, resp => (none, streams, resp)
  | stream_id :: rest, streams, resp =>
    match FromString stream_id with
    | Except.error status => (some status, streams, resp)
    | Except.ok id =>
      match GetStreamIfValidForDelete cm id force_delete with
      | Except.error status => (some status, streams, resp)
      | Except.ok (some stream) =>
        DeleteCDCStream.ids_loop FromString cm force_delete rest (streams ++ [stream]) resp
      | Except.ok none =>
        DeleteCDCStream.ids_loop FromString cm force_delete rest streams
          { resp with not_found_stream_ids := resp.not_found_stream_ids ++ [stream_id] }

/-- The second loop of `DeleteCDCStream`, over the replication slot names of the request: a name
that the slot index does not have is looked up as the nil stream id. -/
def DeleteCDCStream.slots_loop (cm : CatalogManager) (force_delete : Bool) :
    List String → List StreamId → DeleteCDCStreamResponsePB →
    Option Status × List StreamId × DeleteCDCStreamResponsePB
  | [], streams, resp => (none, streams, resp)
  | replication_slot_name :: rest, streams, resp =>
    let stream_id :=
      match mapFind cm.cdcsdk_replication_slots_to_stream_map_ replication_slot_name with
      | some id => id
      | none => StreamId.Nil
    match GetStreamIfValidForDelete cm stream_id force_delete with
    | Except.error status => (some status, streams, resp)
    | Except.ok (some stream) =>
      DeleteCDCStream.slots_loop cm force_delete rest (streams ++ [stream]) resp
    | Except.ok none =>
      DeleteCDCStream.slots_loop cm force_delete rest streams
        { resp with
          not_found_cdcsdk_ysql_replication_slot_names :=
            resp.not_found_cdcsdk_ysql_replication_slot_names ++ [replication_slot_name] }

/-- The message of the NotFound status of `DeleteCDCStream`; the vector `missing_streams` starts
with as many empty strings as there are missing names. The dump of the request that ends the
message is left out. -/
def DeleteCDCStream.missing_message (resp : DeleteCDCStreamResponsePB) : String :=
  let missing_streams :=
    List.replicate (resp.not_found_stream_ids.length +
      resp.not_found_cdcsdk_ysql_replication_slot_names.length) "" ++
    resp.not_found_stream_ids ++ resp.not_found_cdcsdk_ysql_replication_slot_names
  "Did not find all requested CDC streams. Missing streams: [" ++
    ",".intercalate missing_streams ++ "]."

/-- The function `CatalogManager::DeleteCDCStream`: the status, the response and the state
after the call. The two loops collect a stream once for each id and each slot name that names
it, and the list goes to `DropXReplStreams` as it is; the result is `none` when
`DropXReplStreams` does not return. -/
def DeleteCDCStream (FromString : String → Except Status StreamId) (cm : CatalogManager)
    (req : DeleteCDCStreamRequestPB) :
    Option (Status × DeleteCDCStreamResponsePB × CatalogManager) :=
  if req.stream_id.length = 0 ∧ req.cdcsdk_ysql_replication_slot_name.length = 0 then
    some (Status.error StatusCode.InvalidArgument
      "No CDC Stream ID or YSQL Replication Slot Name given"
      (some MasterErrorPB.INVALID_REQUEST), {}, cm)
  else
    match DeleteCDCStream.ids_loop FromString cm req.force_delete req.stream_id [] {} with
    | (some status, _, resp) => some (status, resp, cm)
    | (none, streams1, resp1) =>
      match DeleteCDCStream.slots_loop cm req.force_delete
          req.cdcsdk_ysql_replication_slot_name streams1 resp1 with
      | (some status, _, resp) => some (status, resp, cm)
      | (none, streams, resp) =>
        if (!resp.not_found_stream_ids.isEmpty ||
            !resp.not_found_cdcsdk_ysql_replication_slot_names.isEmpty) &&
            !req.ignore_errors then
          some (Status.error StatusCode.NotFound (DeleteCDCStream.missing_message resp)
            (some MasterErrorPB.OBJECT_NOT_FOUND), resp, cm)
        else
          (DropXReplStreams cm streams SysCDCStreamEntryPB.State.DELETING).map
            (fun r => (r.1, resp, r.2))

/-! ## Creating a CDCSDK stream: the call -/

/-- The function `CatalogManager::RollbackFailedCreateCDCSDKStream`, run by the scope exit of
`CreateNewCdcsdkStream`; its status is only logged. The getters of a stream that
`CleanupXReplStreamFromMaps` and `DropXReplStreams` read it with belong to the header
`catalog_entity_info.h`, which is not part of the sources; they are modelled from the spec
("`LockForWrite` yields a mutable staging copy", "readers never see partial state"): a reader
sees the committed record, so a new stream whose mutation is not committed, or is aborted, reads
as an empty record. `DropXReplStreams` is called on the one stream, whose write lock is free by
then (the mutation is committed, or aborted), so it takes one lock and returns: a list of one
stream holds no stream twice, and the `none` branches below are never taken. -/
def RollbackFailedCreateCDCSDKStream (cm : CatalogManager) (stream_id : StreamId)
    (cdcsdk_stream_creation_state : CDCSDKStreamCreationState) : CatalogManager :=
  if cdcsdk_stream_creation_state = CDCSDKStreamCreationState.kInitialized ∨
      cdcsdk_stream_creation_state = CDCSDKStreamCreationState.kReady ∨
      stream_id = StreamId.Nil then cm
  else
    match cdcsdk_stream_creation_state with
    | CDCSDKStreamCreationState.kAddedToMaps => (CleanupXReplStreamFromMaps cm stream_id {}).2
    | CDCSDKStreamCreationState.kPreCommitMutation =>
      match DropXReplStreams
          { cm with
            cdc_stream_map_ := cm.cdc_stream_map_.map
              (fun e => (e.1, if e.1 = stream_id then {} else e.2)) }
          [stream_id] SysCDCStreamEntryPB.State.DELETING with
      | some dropped => dropped.2
      | none => cm
    | CDCSDKStreamCreationState.kPostCommitMutation =>
      match DropXReplStreams cm [stream_id] SysCDCStreamEntryPB.State.DELETING with
      | some dropped => dropped.2
      | none => cm
    | CDCSDKStreamCreationState.kInitialized => cm
    | CDCSDKStreamCreationState.kReady => cm

/-- The record of a stream with the consistent snapshot details that `CreateNewCdcsdkStream`
stores in its third step. -/
def CreateNewCdcsdkStream.with_snapshot (req : CreateCDCStreamRequestPB) (env : CreateStreamEnv)
    (pb : SysCDCStreamEntryPB) : SysCDCStreamEntryPB :=
  { pb with
    cdcsdk_stream_metadata := some
      { snapshot_time := some env.consistent_snapshot_time
        consistent_snapshot_option := some
          (req.cdcsdk_consistent_snapshot_option.getD CDCSDKSnapshotOption.NOEXPORT_SNAPSHOT) }
    stream_creation_time := some env.stream_creation_time
    state := some SysCDCStreamEntryPB.State.ACTIVE }

/-- The steps of `CreateNewCdcsdkStream` after the commit of the in-memory state: the rows of
the CDC state table, the retention barriers and the consistent snapshot time. The rows that
`PopulateCDCStateTable` writes are not part of the embedding, only its status is; a failure
rolls back from `kPostCommitMutation`. -/
def CreateNewCdcsdkStream.post_commit (cm : CatalogManager) (req : CreateCDCStreamRequestPB)
    (stream_id : StreamId) (env : CreateStreamEnv) (resp : CreateCDCStreamResponsePB) :
    Status × CreateCDCStreamResponsePB × CatalogManager :=
  let has_consistent_snapshot_option :=
    req.cdcsdk_consistent_snapshot_option.isSome &&
      cm.flags.yb_enable_cdc_consistent_snapshot_streams
  match env.populate_cdc_state_table_first with
  | Status.error code msg master_error =>
    (Status.error code msg master_error, resp,
      RollbackFailedCreateCDCSDKStream cm stream_id
        CDCSDKStreamCreationState.kPostCommitMutation)
  | Status.OK =>
    match env.set_retention_barriers with
    | Status.error code msg master_error =>
      (Status.error code msg master_error, resp,
        RollbackFailedCreateCDCSDKStream cm stream_id
          CDCSDKStreamCreationState.kPostCommitMutation)
    | Status.OK =>
      let stored : Option Status × CreateCDCStreamResponsePB × CatalogManager :=
        if has_consistent_snapshot_option then
          match cm.sys_catalog_status with
          | Status.error code msg master_error =>
            (some (Status.error code msg master_error),
              { resp with cdcsdk_consistent_snapshot_time := some env.consistent_snapshot_time },
              cm)
          | Status.OK =>
            (none,
              { resp with cdcsdk_consistent_snapshot_time := some env.consistent_snapshot_time },
              { cm with
                cdc_stream_map_ := cm.cdc_stream_map_.map
                  (fun e =>
                    (e.1, if e.1 = stream_id then CreateNewCdcsdkStream.with_snapshot req env e.2
                      else e.2))
                sys_catalog_ := cm.sys_catalog_ ++
                  [SysCatalogWrite.UpsertStreams
                    (match mapFind cm.cdc_stream_map_ stream_id with
                      | some pb => [(stream_id, CreateNewCdcsdkStream.with_snapshot req env pb)]
                      | none => [])] })
        else (none, resp, cm)
      match stored with
      | (some status, resp1, cm1) =>
        (status, resp1,
          RollbackFailedCreateCDCSDKStream cm1 stream_id
            CDCSDKStreamCreationState.kPostCommitMutation)
      | (none, resp1, cm1) =>
        match env.populate_cdc_state_table_second with
        | Status.error code msg master_error =>
          (Status.error code msg master_error, resp1,
            RollbackFailedCreateCDCSDKStream cm1 stream_id
              CDCSDKStreamCreationState.kPostCommitMutation)
        | Status.OK => (Status.OK, resp1, cm1)

/-- The function `CatalogManager::CreateNewCdcsdkStream`: the status, the response and the state after the
call (with the rollback of the scope exits done); `none` when `GenerateNewXreplStreamId` is still
looking for an id after the last draw. `namespace_id` is the namespace of the request (the code
asserts that it is set). The hooks `TEST_CDCSDKFailCreateStreamRequestIfNeeded` are test sync
points and are not part of the embedding. -/
def CreateNewCdcsdkStream (cm : CatalogManager) (req : CreateCDCStreamRequestPB)
    (table_ids : List TableId) (namespace_id : NamespaceId) (env : CreateStreamEnv) :
    Option (Status × CreateCDCStreamResponsePB × CatalogManager) :=
  match env.create_cdc_state_table with
  | Status.error code msg master_error => some (Status.error code msg master_error, {}, cm)
  | Status.OK =>
    let has_replication_slot_name := req.cdcsdk_ysql_replication_slot_name.isSome
    let slot_name := req.cdcsdk_ysql_replication_slot_name.getD ""
    let checked : Option Status × List (ReplicationSlotName × StreamId) :=
      if has_replication_slot_name then CreateNewCdcsdkStream.check_slot cm slot_name
      else (none, cm.cdcsdk_replication_slots_to_stream_map_)
    let cm1 : CatalogManager := { cm with cdcsdk_replication_slots_to_stream_map_ := checked.2 }
    match checked.1 with
    | some status => some (status, {}, cm1)
    | none =>
      match CreateNewCdcsdkStream.check_namespace namespace_id has_replication_slot_name
          cm1.cdc_stream_map_ with
      | some status => some (status, {}, cm1)
      | none =>
        match GenerateNewXreplStreamId cm1 env.random with
        | none => none
        | some (stream_id, cm2, _) =>
          match CreateNewCdcsdkStream.metadata cm2 req table_ids namespace_id with
          | Except.error status => some (status, {}, RecoverXreplStreamId cm2 stream_id)
          | Except.ok metadata =>
            if has_replication_slot_name ∧
                mapContains cm2.cdcsdk_replication_slots_to_stream_map_ slot_name then
              some (Status.error StatusCode.AlreadyPresent
                "CDC stream with the given replication slot name already exists"
                (some MasterErrorPB.OBJECT_ALREADY_PRESENT), {},
                RecoverXreplStreamId cm2 stream_id)
            else
              let cm3 : CatalogManager :=
                { cm2 with
                  cdc_stream_map_ := mapAssign cm2.cdc_stream_map_ stream_id metadata
                  cdcsdk_tables_to_stream_map_ :=
                    addToTablesToStreamMap cm2.cdcsdk_tables_to_stream_map_ stream_id table_ids
                  cdcsdk_replication_slots_to_stream_map_ :=
                    if has_replication_slot_name then
                      mapAssign cm2.cdcsdk_replication_slots_to_stream_map_ slot_name stream_id
                    else cm2.cdcsdk_replication_slots_to_stream_map_ }
              match cm3.sys_catalog_status with
              | Status.error code msg master_error =>
                some (Status.error code msg master_error, {},
                  RollbackFailedCreateCDCSDKStream cm3 stream_id
                    CDCSDKStreamCreationState.kAddedToMaps)
              | Status.OK =>
                let cm4 : CatalogManager :=
                  { cm3 with
                    sys_catalog_ := cm3.sys_catalog_ ++
                      [SysCatalogWrite.UpsertStreams [(stream_id, metadata)]] }
                if cm.flags.TEST_disable_cdc_state_insert_on_setup ∨
                    (req.initial_state.isSome ∧
                      req.initial_state ≠ some SysCDCStreamEntryPB.State.ACTIVE) then
                  some (Status.OK, { stream_id := some stream_id }, cm4)
                else
                  some (CreateNewCdcsdkStream.post_commit cm4 req stream_id env
                    { stream_id := some stream_id })

/-! ## Backfilling a slot name -/

/-- The request of `YsqlBackfillReplicationSlotNameToCDCSDKStream`. -/
structure YsqlBackfillReplicationSlotNameToCDCSDKStreamRequestPB where
  stream_id : Option String := none
  cdcsdk_ysql_replication_slot_name : Option String := none
  deriving DecidableEq, Repr

/-- The function `GetReplicaIdentityFromRecordType`: the record type named by the string (CHANGE when the
string names none, as `CDCRecordType_Parse` then leaves the default), and its replica
identity. -/
def GetReplicaIdentityFromRecordType (record_type_name : String) : PgReplicaIdentity :=
  if record_type_name = "ALL" ∨ record_type_name = "PG_FULL" then PgReplicaIdentity.FULL
  else if record_type_name = "PG_DEFAULT" then PgReplicaIdentity.DEFAULT
  else if record_type_name = "PG_NOTHING" then PgReplicaIdentity.NOTHING
  else PgReplicaIdentity.CHANGE

/-- The `insert` of the replica identity of every table of the stream into its replica identity
map; an `insert` leaves the entry of a table that has one. -/
def insertReplicaIdentities (replica_identity : PgReplicaIdentity) :
    List TableId → List (TableId × PgReplicaIdentity) → List (TableId × PgReplicaIdentity)
  | [], m => m
  | table_id :: rest, m =>
    insertReplicaIdentities replica_identity rest
      (if mapContains m table_id then m else m ++ [(table_id, replica_identity)])

/-- The function `CatalogManager::YsqlBackfillReplicationSlotNameToCDCSDKStream`: the status and the state
after the call. `FromString` is `xrepl::StreamId::FromString`, which is not part of the
sources. -/
def YsqlBackfillReplicationSlotNameToCDCSDKStream
    (FromString : String → Except Status StreamId) (cm : CatalogManager)
    (req : YsqlBackfillReplicationSlotNameToCDCSDKStreamRequestPB) : Status × CatalogManager :=
  if ¬ cm.flags.ysql_yb_enable_replication_commands ∨
      ¬ cm.flags.ysql_yb_enable_replica_identity ∨
      ¬ cm.flags.enable_backfilling_cdc_stream_with_replication_slot then
    (RETURN_INVALID_REQUEST_STATUS "Backfilling replication slot name is disabled", cm)
  else
    match req.stream_id, req.cdcsdk_ysql_replication_slot_name with
    | some stream_id_str, some replication_slot_name =>
      match ReplicationSlotValidateName replication_slot_name with
      | Status.error code msg master_error => (Status.error code msg master_error, cm)
      | Status.OK =>
        match FromString stream_id_str with
        | Except.error status => (status, cm)
        | Except.ok stream_id =>
          match mapFind cm.cdc_stream_map_ stream_id with
          | none =>
            (Status.error StatusCode.NotFound "Could not find CDC stream"
              (some MasterErrorPB.OBJECT_NOT_FOUND), cm)
          | some stream =>
            if stream.is_deleting then
              (Status.error StatusCode.NotFound "Could not find CDC stream"
                (some MasterErrorPB.OBJECT_NOT_FOUND), cm)
            else
              match FindNamespaceById cm stream.get_namespace_id with
              | Except.error status => (status, cm)
              | Except.ok ns =>
                if ns.database_type ≠ YQLDatabase.YQL_DATABASE_PGSQL then
                  (RETURN_INVALID_REQUEST_STATUS
                    ("Only CDCSDK streams created on PGSQL namespaces can have a replication " ++
                      "slot name"), cm)
                else if stream.GetCdcsdkYsqlReplicationSlotName ≠ "" then
                  (RETURN_INVALID_REQUEST_STATUS
                    "Cannot update the replication slot name of a CDCSDK stream", cm)
                else if mapContains cm.cdcsdk_replication_slots_to_stream_map_
                    replication_slot_name then
                  (Status.error StatusCode.AlreadyPresent
                    "A CDC stream with the replication slot name already exists"
                    (some MasterErrorPB.OBJECT_ALREADY_PRESENT), cm)
                else
                  let cm1 : CatalogManager :=
                    { cm with
                      cdcsdk_replication_slots_to_stream_map_ :=
                        mapAssign cm.cdcsdk_replication_slots_to_stream_map_
                          replication_slot_name stream_id }
                  match stream.options.find? (fun o => decide (o.key = cdc.kRecordType)) with
                  | none =>
                    (Status.error StatusCode.NotFound "Option record_type not present in stream"
                      none, cm1)
                  | some option =>
                    (Status.OK,
                      { cm1 with
                        cdc_stream_map_ := cm1.cdc_stream_map_.map
                          (fun e =>
                            (e.1,
                              if e.1 = stream_id then
                                { stream with
                                  cdcsdk_ysql_replication_slot_name := some replication_slot_name
                                  replica_identity_map :=
                                    insertReplicaIdentities
                                      (GetReplicaIdentityFromRecordType option.value)
                                      stream.table_id stream.replica_identity_map }
                              else e.2)) })
    | _, _ =>
      (RETURN_INVALID_REQUEST_STATUS
        "Both CDC Stream ID and Replication slot name must be provided", cm)

/-! ### The words of the claims about slots -/

/-- A namespace has at the same time a CDCSDK stream with a slot name and a CDCSDK stream
without one. -/
def namespaceHasBothKinds (cm : CatalogManager) (namespace_id : NamespaceId) : Bool :=
  cm.cdc_stream_map_.any (fun e =>
    decide (e.2.namespace_id = some namespace_id) &&
      decide (e.2.GetCdcsdkYsqlReplicationSlotName ≠ "")) &&
  cm.cdc_stream_map_.any (fun e =>
    decide (e.2.namespace_id = some namespace_id) &&
      decide (e.2.GetCdcsdkYsqlReplicationSlotName = ""))

/-! ### The words of the claims about deletion -/

/-- A stream that is still live: it is in the stream map and has not started deleting. -/
def liveStream (cm : CatalogManager) (id : StreamId) : Bool :=
  match mapFind cm.cdc_stream_map_ id with
  | some pb => !pb.started_deleting
  | none => false

/-- The `record_format` option of an option bag: the value of the first option with that key. -/
def recordFormat (options : List CDCStreamOptionsPB) : Option String :=
  (options.find? (fun o => decide (o.key = "record_format"))).map (fun o => o.value)

/-- The streams that the force-delete check protects: in state ACTIVE, with the record format
WAL. -/
def activeWalStream (cm : CatalogManager) (id : StreamId) : Bool :=
  match mapFind cm.cdc_stream_map_ id with
  | some pb =>
    decide (pb.get_state = SysCDCStreamEntryPB.State.ACTIVE) &&
      decide (recordFormat pb.options = some "WAL")
  | none => false

/-- A requested stream id that names no live stream. -/
def idMissing (FromString : String → Except Status StreamId) (cm : CatalogManager)
    (stream_id : String) : Bool :=
  match FromString stream_id with
  | Except.ok id => !liveStream cm id
  | Except.error _ => true

/-- A requested slot name that names no live stream. -/
def slotMissing (cm : CatalogManager) (name : String) : Bool :=
  match mapFind cm.cdcsdk_replication_slots_to_stream_map_ name with
  | some id => !liveStream cm id
  | none => true

/-- The live streams that the stream ids of a request name. -/
def idsFound (FromString : String → Except Status StreamId) (cm : CatalogManager)
    (ids : List String) : List StreamId :=
  ids.filterMap (fun s =>
    match FromString s with
    | Except.ok id => if liveStream cm id then some id else none
    | Except.error _ => none)

/-- The live streams that the slot names of a request name. -/
def slotsFound (cm : CatalogManager) (names : List String) : List StreamId :=
  names.filterMap (fun n =>
    match mapFind cm.cdcsdk_replication_slots_to_stream_map_ n with
    | some id => if liveStream cm id then some id else none
    | none => none)

/-- The stream map with the state of the listed streams set to DELETING and nothing else
changed. -/
def markDeleting (found : List StreamId) (m : List (StreamId × SysCDCStreamEntryPB)) :
    List (StreamId × SysCDCStreamEntryPB) :=
  m.map (fun e =>
    (e.1, if e.1 ∈ found then e.2.set_state SysCDCStreamEntryPB.State.DELETING else e.2))

/-! ## Listing streams -/

/-- The enum `IdTypePB` of a list request. -/
inductive IdTypePB where
  | TABLE_ID
  | NAMESPACE_ID
  deriving DecidableEq, Repr

/-- The request of `ListCDCStreams`. -/
structure ListCDCStreamsRequestPB where
  table_id : Option String := none
  namespace_id : Option String := none
  id_type : Option IdTypePB := none
  deriving DecidableEq, Repr

/-- Modelled from the spec: the proto getter `req->id_type()`; a request without an id type reads
as TABLE_ID ("table id when the option is absent"). -/
def ListCDCStreamsRequestPB.get_id_type (req : ListCDCStreamsRequestPB) : IdTypePB :=
  req.id_type.getD IdTypePB.TABLE_ID

/-- A stream of the response of `ListCDCStreams`, `CDCStreamInfoPB`. -/
structure CDCStreamInfoPB where
  stream_id : StreamId
  table_id : List TableId := []
  unqualified_table_id : List TableId := []
  options : List CDCStreamOptionsPB := []
  namespace_id : Option NamespaceId := none
  cdcsdk_ysql_replication_slot_name : Option String := none
  cdcsdk_ysql_replication_slot_plugin_name : Option String := none
  cdcsdk_consistent_snapshot_time : Option Nat := none
  cdcsdk_consistent_snapshot_option : Option CDCSDKSnapshotOption := none
  stream_creation_time : Option Nat := none
  cdcsdk_disable_dynamic_table_addition : Option Bool := none
  deriving DecidableEq, Repr

/-- The response of `ListCDCStreams`. -/
structure ListCDCStreamsResponsePB where
  streams : List CDCStreamInfoPB := []
  deriving DecidableEq, Repr

/-- The names of the states, `SysCDCStreamEntryPB::State_Name`. -/
def SysCDCStreamEntryPB.State_Name : SysCDCStreamEntryPB.State → String
  | SysCDCStreamEntryPB.State.ACTIVE => "ACTIVE"
  | SysCDCStreamEntryPB.State.DELETING => "DELETING"
  | SysCDCStreamEntryPB.State.DELETED => "DELETED"
  | SysCDCStreamEntryPB.State.INITIATED => "INITIATED"
  | SysCDCStreamEntryPB.State.DELETING_METADATA => "DELETING_METADATA"

/-- The loop of `ListCDCStreams` over the options of a stream: `skip_stream` and
`id_type_option_present` when the loop ends or breaks. -/
def ListCDCStreams.options_loop (req : ListCDCStreamsRequestPB) :
    List CDCStreamOptionsPB → Bool → Bool × Bool
  | [], id_type_option_present => (false, id_type_option_present)
  | option :: rest, id_type_option_present =>
    if option.key = cdc.kIdType then
      if req.id_type.isSome then
        if req.get_id_type = IdTypePB.NAMESPACE_ID ∧ option.value ≠ cdc.kNamespaceId then
          (true, true)
        else if req.get_id_type = IdTypePB.TABLE_ID ∧ option.value = cdc.kNamespaceId then
          (true, true)
        else ListCDCStreams.options_loop req rest true
      else ListCDCStreams.options_loop req rest true
    else ListCDCStreams.options_loop req rest id_type_option_present

/-- The stream that `ListCDCStreams` adds to the response for an entry of the stream map. -/
def ListCDCStreams.add_stream (cm : CatalogManager) (id : StreamId) (ltm : SysCDCStreamEntryPB) :
    CDCStreamInfoPB :=
  { stream_id := id
    table_id := ltm.table_id
    unqualified_table_id := ltm.unqualified_table_id
    options :=
      match ltm.state with
      | some state => ltm.options ++ [⟨cdc.kStreamState, SysCDCStreamEntryPB.State_Name state⟩]
      | none => ltm.options
    namespace_id := ltm.namespace_id
    cdcsdk_ysql_replication_slot_name := ltm.cdcsdk_ysql_replication_slot_name
    cdcsdk_ysql_replication_slot_plugin_name := ltm.cdcsdk_ysql_replication_slot_plugin_name
    cdcsdk_consistent_snapshot_time :=
      match ltm.cdcsdk_stream_metadata with
      | some metadata => metadata.snapshot_time
      | none => none
    cdcsdk_consistent_snapshot_option :=
      match ltm.cdcsdk_stream_metadata with
      | some metadata => metadata.consistent_snapshot_option
      | none => none
    stream_creation_time := ltm.stream_creation_time
    cdcsdk_disable_dynamic_table_addition :=
      if cm.flags.cdcsdk_enable_dynamic_tables_disable_option then
        ltm.cdcsdk_disable_dynamic_table_addition
      else none }

/-- The loop of `ListCDCStreams` over `cdc_stream_map_`; `filter_table` is the id of the table of
the request when the request has one. -/
def ListCDCStreams.loop (cm : CatalogManager) (req : ListCDCStreamsRequestPB)
    (filter_table : Option TableId) :
    List (StreamId × SysCDCStreamEntryPB) → List CDCStreamInfoPB
  | [] => []
  | (id, ltm) :: rest =>
    if req.namespace_id.isSome ∧ req.namespace_id.getD "" ≠ ltm.get_namespace_id then
      ListCDCStreams.loop cm req filter_table rest
    else if filter_table.isSome ∧ ltm.table_id.length > 0 ∧
        filter_table ≠ ltm.table_id.head? then
      ListCDCStreams.loop cm req filter_table rest
    else if ltm.is_deleting then ListCDCStreams.loop cm req filter_table rest
    else
      let (skip_stream, id_type_option_present) :=
        ListCDCStreams.options_loop req ltm.options false
      if (!id_type_option_present && decide (req.get_id_type = IdTypePB.NAMESPACE_ID)) ||
          skip_stream then
        ListCDCStreams.loop cm req filter_table rest
      else ListCDCStreams.add_stream cm id ltm :: ListCDCStreams.loop cm req filter_table rest

/-- The function `CatalogManager::ListCDCStreams`. -/
def ListCDCStreams (cm : CatalogManager) (req : ListCDCStreamsRequestPB) :
    Status × ListCDCStreamsResponsePB :=
  match req.table_id with
  | some table_id =>
    match FindTableById cm table_id with
    | Except.error status => (status, {})
    | Except.ok _ =>
      (Status.OK, { streams := ListCDCStreams.loop cm req (some table_id) cm.cdc_stream_map_ })
  | none => (Status.OK, { streams := ListCDCStreams.loop cm req none cm.cdc_stream_map_ })

/-! ### The words of the claim about listing -/

/-- The id-type filter of a list request: every id-type option of the stream agrees with the id
type of the request, a stream without the option counting as a table stream. -/
def idTypeAgrees (id_type : IdTypePB) (options : List CDCStreamOptionsPB) : Bool :=
  match id_type with
  | IdTypePB.NAMESPACE_ID =>
    options.any (fun o => decide (o.key = cdc.kIdType)) &&
      options.all (fun o => decide (o.key = cdc.kIdType → o.value = cdc.kNamespaceId))
  | IdTypePB.TABLE_ID =>
    options.all (fun o => decide (o.key = cdc.kIdType → o.value ≠ cdc.kNamespaceId))

/-- The filter of the claim as it is written: the stream is not deleting, its namespace id is
the one of the request, its table list contains the table of the request, its id type agrees
with the one of the request (each filter when the request has it). -/
def listedAsClaimed (req : ListCDCStreamsRequestPB) (pb : SysCDCStreamEntryPB) : Bool :=
  !pb.is_deleting &&
  (match req.namespace_id with
    | some ns => decide (pb.get_namespace_id = ns)
    | none => true) &&
  (match req.table_id with
    | some t => decide (t ∈ pb.table_id)
    | none => true) &&
  (match req.id_type with
    | some id_type => idTypeAgrees id_type pb.options
    | none => true)

/-- The filter of the code: as `listedAsClaimed`, but the table filter passes a stream whose table
list is empty or starts with the table of the request. -/
def listedByFirstTable (req : ListCDCStreamsRequestPB) (pb : SysCDCStreamEntryPB) : Bool :=
  !pb.is_deleting &&
  (match req.namespace_id with
    | some ns => decide (pb.get_namespace_id = ns)
    | none => true) &&
  (match req.table_id with
    | some t => decide (pb.table_id = [] ∨ pb.table_id.head? = some t)
    | none => true) &&
  (match req.id_type with
    | some id_type => idTypeAgrees id_type pb.options
    | none => true)

/-! ## Schema versions of the producer -/

/-- The request of `UpdateConsumerOnProducerMetadata`; the schema versions are `uint32`. -/
structure UpdateConsumerOnProducerMetadataRequestPB where
  replication_group_id : String := ""
  stream_id : String := ""
  colocation_id : Nat := 0
  producer_schema_version : Nat := 0
  consumer_schema_version : Nat := 0
  deriving DecidableEq, Repr

/-- The response of `UpdateConsumerOnProducerMetadata`. -/
structure UpdateConsumerOnProducerMetadataResponsePB where
  should_wait : Option Bool := none
  schema_versions : Option SchemaVersionsPB := none
  deriving DecidableEq, Repr

/-- Modelled from the spec: the constant `kColocationIdNotSet`, which is not part of the sources:
the colocation id of a request for a table that is not colocated. -/
def kColocationIdNotSet : Nat := 0

/-- The increment `pb.version() + 1` of the `int32` version of the cluster config, with the
wrap-around of the 32-bit two's complement. -/
def int32_incr (version : Int) : Int :=
  if version + 1 ≥ 2 ^ 31 then version + 1 - 2 ^ 32 else version + 1

/-- The consumer table of a stream: the first entry of
`xcluster_consumer_table_stream_ids_map_` that has the pair of the replication group and the
stream (`std::find_if` with `ContainsKeyValuePair`). -/
def findConsumerTable
    (xcluster_consumer_table_stream_ids_map_ : List (TableId × List (String × StreamId)))
    (replication_group_id : String) (stream_id : StreamId) : Option TableId :=
  (xcluster_consumer_table_stream_ids_map_.find?
    (fun id_map => decide (mapFind id_map.2 replication_group_id = some stream_id))).map
    (fun id_map => id_map.1)

/-- The comparison of the versions of the request with the cached ones in
`UpdateConsumerOnProducerMetadata`: the four versions to store and `schema_versions_updated`, or
the status of the failed `SCHECK`. The `DCHECK` of the branch of an older producer version is a
debug assertion and is not part of the embedding. -/
def UpdateConsumerOnProducerMetadata.compare (req : UpdateConsumerOnProducerMetadataRequestPB)
    (schema_versions_pb : SchemaVersionsPB) (schema_versions_updated : Bool) :
    Except Status (SchemaVersionsPB × Bool) :=
  let current_producer_schema_version := schema_versions_pb.current_producer_schema_version
  let current_consumer_schema_version := schema_versions_pb.current_consumer_schema_version
  let old_producer_schema_version := schema_versions_pb.old_producer_schema_version
  let old_consumer_schema_version := schema_versions_pb.old_consumer_schema_version
  if req.producer_schema_version > current_producer_schema_version then
    Except.ok
      ({ current_producer_schema_version := req.producer_schema_version
         current_consumer_schema_version := req.consumer_schema_version
         old_producer_schema_version := current_producer_schema_version
         old_consumer_schema_version := current_consumer_schema_version }, true)
  else if req.producer_schema_version < current_producer_schema_version then
    if req.producer_schema_version > old_producer_schema_version then
      Except.ok
        ({ current_producer_schema_version := current_producer_schema_version
           current_consumer_schema_version := current_consumer_schema_version
           old_producer_schema_version := req.producer_schema_version
           old_consumer_schema_version := req.consumer_schema_version }, true)
    else
      Except.ok
        ({ current_producer_schema_version := current_producer_schema_version
           current_consumer_schema_version := current_consumer_schema_version
           old_producer_schema_version := old_producer_schema_version
           old_consumer_schema_version := old_consumer_schema_version }, schema_versions_updated)
  else if req.consumer_schema_version ≥ current_consumer_schema_version then
    Except.ok
      ({ current_producer_schema_version := current_producer_schema_version
         current_consumer_schema_version := current_consumer_schema_version
         old_producer_schema_version := old_producer_schema_version
         old_consumer_schema_version := old_consumer_schema_version }, schema_versions_updated)
  else
    Except.error (Status.error StatusCode.InternalError
      "Received Older Consumer schema version" none)

/-- The stream entry with the versions stored: in the colocated map under the colocation id for
a colocated table, in `schema_versions` otherwise; the cached producer schema is cleared. -/
def UpdateConsumerOnProducerMetadata.store (colocated : Bool) (colocation_id : Nat)
    (stream_entry : StreamEntryPB) (versions : SchemaVersionsPB) : StreamEntryPB :=
  if colocated then
    { stream_entry with
      producer_schema := some {}
      colocated_schema_versions :=
        mapAssign stream_entry.colocated_schema_versions colocation_id versions }
  else
    { stream_entry with
      producer_schema := some {}
      schema_versions := some versions }

/-- What `UpdateConsumerOnProducerMetadata` looks up before it compares versions: the stream id,
the consumer table of the stream, and the producer entry and the stream entry of the consumer
registry. -/
structure UpdateConsumerOnProducerMetadata.Located where
  stream_id : StreamId
  consumer_table_id : TableId
  registry : ConsumerRegistryPB
  producer_entry : ProducerEntryPB
  stream_entry : StreamEntryPB
  deriving DecidableEq, Repr

/-- The lookups of `UpdateConsumerOnProducerMetadata`, each with the status it returns when it
fails. `FromString` is `xrepl::StreamId::FromString`, which is not part of the sources. The
streams of a producer entry are keyed by the stream id (by its string in the proto). -/
def UpdateConsumerOnProducerMetadata.locate (FromString : String → Except Status StreamId)
    (cm : CatalogManager) (req : UpdateConsumerOnProducerMetadataRequestPB) :
    Except Status UpdateConsumerOnProducerMetadata.Located :=
  match FromString req.stream_id with
  | Except.error status => Except.error status
  | Except.ok stream_id =>
    match findConsumerTable cm.xcluster_consumer_table_stream_ids_map_ req.replication_group_id stream_id with
    | none => Except.error (Status.error StatusCode.NotFound "Unable to find the stream id" none)
    | some consumer_table_id =>
      match mapFind cm.tables_ consumer_table_id with
      | none => Except.error (Status.error StatusCode.NotFound "Missing table id" none)
      | some _ =>
        match mapFind (cm.cluster_config_.consumer_registry.getD {}).producer_map
            req.replication_group_id with
        | none =>
          Except.error (Status.error StatusCode.NotFound "Missing replication group" none)
        | some producer_entry =>
          match mapFind producer_entry.stream_map stream_id with
          | none =>
            Except.error
              (Status.error StatusCode.NotFound "Missing replication group, stream" none)
          | some stream_entry =>
            Except.ok
              { stream_id := stream_id
                consumer_table_id := consumer_table_id
                registry := cm.cluster_config_.consumer_registry.getD {}
                producer_entry := producer_entry
                stream_entry := stream_entry }

/-- The cluster config that `UpdateConsumerOnProducerMetadata` stages: the version incremented,
and the stream entry of the registry with the new versions. -/
def UpdateConsumerOnProducerMetadata.staged (cm : CatalogManager)
    (req : UpdateConsumerOnProducerMetadataRequestPB)
    (at_ : UpdateConsumerOnProducerMetadata.Located) (colocated : Bool)
    (versions : SchemaVersionsPB) : SysClusterConfigEntryPB :=
  { version := int32_incr cm.cluster_config_.version
    consumer_registry := some
      { at_.registry with
        producer_map := mapAssign at_.registry.producer_map req.replication_group_id
          { at_.producer_entry with
            stream_map := mapAssign at_.producer_entry.stream_map at_.stream_id
              (UpdateConsumerOnProducerMetadata.store colocated req.colocation_id
                at_.stream_entry versions) } } }

/-- The function `CatalogManager::UpdateConsumerOnProducerMetadata`: the status, the response and the state
after the call. `IsColocationParentTableId` is the test of `colocated_util.h`, which is not part
of the sources. The staged cluster config is written and committed only when
`schema_versions_updated` is set; otherwise the write lock is released and the staged copy
dropped. -/
def UpdateConsumerOnProducerMetadata (FromString : String → Except Status StreamId)
    (IsColocationParentTableId : TableId → Bool) (cm : CatalogManager)
    (req : UpdateConsumerOnProducerMetadataRequestPB) :
    Status × UpdateConsumerOnProducerMetadataResponsePB × CatalogManager :=
  if cm.flags.xcluster_skip_schema_compatibility_checks_on_alter then
    (Status.OK, { should_wait := some false }, cm)
  else
    match UpdateConsumerOnProducerMetadata.locate FromString cm req with
    | Except.error status => (status, {}, cm)
    | Except.ok at_ =>
      let colocated := IsColocationParentTableId at_.consumer_table_id &&
        decide (req.colocation_id ≠ kColocationIdNotSet)
      let found : Option SchemaVersionsPB :=
        if colocated then mapFind at_.stream_entry.colocated_schema_versions req.colocation_id
        else some (at_.stream_entry.schema_versions.getD {})
      match UpdateConsumerOnProducerMetadata.compare req (found.getD {}) found.isNone with
      | Except.error status => (status, {}, cm)
      | Except.ok (versions, schema_versions_updated) =>
        if schema_versions_updated then
          match cm.sys_catalog_status with
          | Status.OK =>
            (Status.OK, { schema_versions := some versions },
              { cm with
                cluster_config_ :=
                  UpdateConsumerOnProducerMetadata.staged cm req at_ colocated versions
                sys_catalog_ := cm.sys_catalog_ ++
                  [SysCatalogWrite.UpsertClusterConfig
                    (UpdateConsumerOnProducerMetadata.staged cm req at_ colocated versions)] })
          | Status.error code msg master_error => (Status.error code msg master_error, {}, cm)
        else (Status.OK, { schema_versions := some versions }, cm)

/-! ### The words of the claims about the schema versions -/

/-- The schema versions that the consumer registry of a cluster config stores for a stream of a
replication group:
under the colocation id when `colocated`, the ones of the stream itself otherwise; `none` when
the registry has no entry for them. -/
def storedSchemaVersions (cluster_config_ : SysClusterConfigEntryPB)
    (replication_group_id : String) (stream_id : StreamId) (colocated : Bool)
    (colocation_id : Nat) : Option SchemaVersionsPB :=
  match cluster_config_.consumer_registry with
  | none => none
  | some registry =>
    match mapFind registry.producer_map replication_group_id with
    | none => none
    | some producer_entry =>
      match mapFind producer_entry.stream_map stream_id with
      | none => none
      | some stream_entry =>
        if colocated then mapFind stream_entry.colocated_schema_versions colocation_id
        else stream_entry.schema_versions

/-- The schema versions that the consumer registry of `cm` stores for the stream of a request
(under the colocation id of the request when the consumer table of the stream is a colocation
parent and the request has a colocation id); `none` when there is no such stream. -/
def requestSchemaVersions (FromString : String → Except Status StreamId)
    (IsColocationParentTableId : TableId → Bool) (cm : CatalogManager)
    (req : UpdateConsumerOnProducerMetadataRequestPB) : Option SchemaVersionsPB :=
  match FromString req.stream_id with
  | Except.error _ => none
  | Except.ok stream_id =>
    match findConsumerTable cm.xcluster_consumer_table_stream_ids_map_ req.replication_group_id stream_id with
    | none => none
    | some consumer_table_id =>
      storedSchemaVersions cm.cluster_config_ req.replication_group_id stream_id
        (IsColocationParentTableId consumer_table_id &&
          decide (req.colocation_id ≠ kColocationIdNotSet))
        req.colocation_id

/-! ## Replication groups: validation and failure -/

/-- The function `Status::CloneAndPrepend`, as the macro `RETURN_NOT_OK_PREPEND` uses it: the
same error with the message prepended. -/
def Status.CloneAndPrepend : Status → String → Status
  | Status.OK, _ => Status.OK
  | Status.error code msg master_error, prepended =>
    Status.error code (prepended ++ ": " ++ msg) master_error

/-- The overload of `CatalogManager::MarkUniverseReplicationFailed` that takes the write lock of
the group: `l` is the staged record under the lock. The setup error status is set on the object
(outside the copy-on-write record), the staged record is written to the sys catalog, and
`CommitOrWarn` publishes it only when that write succeeded. -/
def MarkUniverseReplicationFailed.locked (cm : CatalogManager) (failure_status : Status)
    (l : SysUniverseReplicationEntryPB) (universe_id : ReplicationGroupId) : CatalogManager :=
  let staged : SysUniverseReplicationEntryPB :=
    if l.state = SysUniverseReplicationEntryPB.State.DELETED then
      { l with state := SysUniverseReplicationEntryPB.State.DELETED_ERROR }
    else { l with state := SysUniverseReplicationEntryPB.State.FAILED }
  match mapFind cm.universe_replication_map_ universe_id with
  | none => cm
  | some info =>
    match cm.sys_catalog_status with
    | Status.OK =>
      { cm with
        universe_replication_map_ := mapAssign cm.universe_replication_map_ universe_id
          { pb := staged, setup_universe_replication_error_ := failure_status }
        sys_catalog_ := cm.sys_catalog_ ++ [SysCatalogWrite.UpsertUniverseReplication staged] }
    | Status.error _ _ _ =>
      { cm with
        universe_replication_map_ := mapAssign cm.universe_replication_map_ universe_id
          { info with setup_universe_replication_error_ := failure_status } }

/-- The function `CatalogManager::MarkUniverseReplicationFailed(universe, failure_status)`: it
takes the write lock of the group and calls the overload above. The group is the entry of
`universe_replication_map_` with the id; the result is `none` when there is no such entry (the
pointer of the source always has an object). -/
def MarkUniverseReplicationFailed (cm : CatalogManager) (universe_id : ReplicationGroupId)
    (failure_status : Status) : Option CatalogManager :=
  match mapFind cm.universe_replication_map_ universe_id with
  | none => none
  | some info => some (MarkUniverseReplicationFailed.locked cm failure_status info.pb universe_id)

/-- The schema-version entry that `AddValidatedTableToUniverseReplication` builds for a table;
a colocated schema version is (colocation id, producer version, consumer version). -/
def AddValidatedTableToUniverseReplication.entry (colocation_parent : Bool)
    (producer_schema_version consumer_schema_version : Nat)
    (colocated_schema_versions : List (Nat × Nat × Nat)) : SchemaVersionMappingEntryPB :=
  if colocation_parent then
    { colocated_schema_versions := colocated_schema_versions.map (fun v =>
        { colocation_id := v.1
          schema_version_mapping :=
            { producer_schema_version := v.2.1, consumer_schema_version := v.2.2 } }) }
  else
    { schema_version_mapping := some
        { producer_schema_version := producer_schema_version
          consumer_schema_version := consumer_schema_version } }

/-- The function `CatalogManager::AddValidatedTableToUniverseReplication`: the producer table is
recorded as validated (with its consumer table and its schema versions) in the staged record,
the record is written to the sys catalog and then committed. `IsColocationParentTableId` is the
test of `colocated_util.h`, which is not part of the sources. The result is `none` when the map
has no group with the id. -/
def AddValidatedTableToUniverseReplication (IsColocationParentTableId : TableId → Bool)
    (cm : CatalogManager) (universe_id : ReplicationGroupId)
    (producer_table consumer_table : TableId)
    (producer_schema_version consumer_schema_version : Nat)
    (colocated_schema_versions : List (Nat × Nat × Nat)) : Option (Status × CatalogManager) :=
  match mapFind cm.universe_replication_map_ universe_id with
  | none => none
  | some info =>
    let staged : SysUniverseReplicationEntryPB :=
      { info.pb with
        validated_tables := mapAssign info.pb.validated_tables producer_table consumer_table
        schema_version_mappings := mapAssign info.pb.schema_version_mappings producer_table
          (AddValidatedTableToUniverseReplication.entry (IsColocationParentTableId consumer_table)
            producer_schema_version consumer_schema_version colocated_schema_versions) }
    match cm.sys_catalog_status with
    | Status.OK =>
      some (Status.OK,
        { cm with
          universe_replication_map_ := mapAssign cm.universe_replication_map_ universe_id
            { info with pb := staged }
          sys_catalog_ := cm.sys_catalog_ ++ [SysCatalogWrite.UpsertUniverseReplication staged] })
    | Status.error code msg master_error =>
      some ((Status.error code msg master_error).CloneAndPrepend
        "An error occurred while updating universe replication info in sys-catalog", cm)

/-- Modelled from the spec: the option key `cdc::kRecordFormat` of `cdc_service.h`, which is not
part of the sources (the "record format" option of the option bag). -/
def cdc.kRecordFormat : String := "record_format"

/-- Modelled from the spec: the option key `cdc::kSourceType` of `cdc_service.h`, which is not
part of the sources (the "source type" option of the option bag). -/
def cdc.kSourceType : String := "source_type"

/-- Modelled from the spec: the option key `cdc::kCheckpointType` of `cdc_service.h`, which is not
part of the sources (the "checkpoint type" option of the option bag). -/
def cdc.kCheckpointType : String := "checkpoint_type"

/-- An asynchronous call to the producer that `CreateCdcStreamsIfReplicationValidated` starts for
a table: the lookup of its bootstrap stream, or the creation of a stream. -/
inductive XClusterRpcCall where
  | GetCDCStream (producer_bootstrap_id : StreamId) (table : TableId)
  | CreateCDCStream (table : TableId) (options : List (String × String)) (transactional : Bool)
  deriving DecidableEq, Repr

/-- The options of the streams that `CreateCdcStreamsIfReplicationValidated` creates. -/
def CreateCdcStreamsIfReplicationValidated.options : List (String × String) :=
  [(cdc.kRecordType, "CHANGE"), (cdc.kRecordFormat, "WAL"), (cdc.kSourceType, "XCLUSTER"),
    (cdc.kCheckpointType, "IMPLICIT")]

/-- The loop of `CreateCdcStreamsIfReplicationValidated` over the validated tables: one call per
table, the lookup of the bootstrap stream when the table has a bootstrap id that is not nil, the
creation of a stream otherwise. -/
def CreateCdcStreamsIfReplicationValidated.loop (table_bootstrap_ids : List (TableId × StreamId))
    (transactional : Bool) : List TableId → List XClusterRpcCall
  | [] => []
  | table :: rest =>
    (match mapFind table_bootstrap_ids table with
      | some producer_bootstrap_id =>
        if producer_bootstrap_id ≠ StreamId.Nil then
          XClusterRpcCall.GetCDCStream producer_bootstrap_id table
        else
          XClusterRpcCall.CreateCDCStream table CreateCdcStreamsIfReplicationValidated.options
            transactional
      | none =>
        XClusterRpcCall.CreateCDCStream table CreateCdcStreamsIfReplicationValidated.options
          transactional) ::
      CreateCdcStreamsIfReplicationValidated.loop table_bootstrap_ids transactional rest

/-- The function `CatalogManager::CreateCdcStreamsIfReplicationValidated`: the status, the state
after the call and the calls to the producer that were started. `GetOrCreateXClusterRpcTasks` is
the status of `UniverseReplicationInfo::GetOrCreateXClusterRpcTasks` (of the header
`catalog_entity_info.h`, which is not part of the sources) for the group and its producer master
addresses. The result is `none` when the map has no group with the id. -/
def CreateCdcStreamsIfReplicationValidated
    (GetOrCreateXClusterRpcTasks : ReplicationGroupId → List String → Status)
    (cm : CatalogManager) (universe_id : ReplicationGroupId)
    (table_bootstrap_ids : List (TableId × StreamId)) :
    Option (Status × CatalogManager × List XClusterRpcCall) :=
  match mapFind cm.universe_replication_map_ universe_id with
  | none => none
  | some info =>
    if info.pb.is_deleted_or_failed then
      some (Status.error StatusCode.Aborted "Universe is being deleted" none, cm, [])
    else if info.pb.state ≠ SysUniverseReplicationEntryPB.State.INITIALIZING then
      some (Status.OK, cm, [])
    else if mapSize info.pb.validated_tables ≠ info.pb.tables.length then
      some (Status.OK, cm, [])
    else
      match GetOrCreateXClusterRpcTasks universe_id info.pb.producer_master_addresses with
      | Status.error code msg master_error =>
        some (Status.error StatusCode.InternalError
            ("Error while setting up client for producer " ++ universe_id ++ ": " ++ msg) none,
          MarkUniverseReplicationFailed.locked cm (Status.error code msg master_error) info.pb
            universe_id, [])
      | Status.OK =>
        let staged : SysUniverseReplicationEntryPB :=
          { info.pb with state := SysUniverseReplicationEntryPB.State.VALIDATED }
        match cm.sys_catalog_status with
        | Status.error code msg master_error =>
          some ((Status.error code msg master_error).CloneAndPrepend
            "An error occurred while updating universe replication info in sys-catalog", cm, [])
        | Status.OK =>
          some (Status.OK,
            { cm with
              universe_replication_map_ := mapAssign cm.universe_replication_map_ universe_id
                { info with pb := staged }
              sys_catalog_ := cm.sys_catalog_ ++
                [SysCatalogWrite.UpsertUniverseReplication staged] },
            CreateCdcStreamsIfReplicationValidated.loop table_bootstrap_ids
              info.pb.transactional info.pb.tables)

/-- One per-table validation callback: the arguments of
`AddValidatedTableToUniverseReplication` and of `CreateCdcStreamsIfReplicationValidated`. -/
structure ValidationCallback where
  producer_table : TableId
  consumer_table : TableId
  producer_schema_version : Nat := 0
  consumer_schema_version : Nat := 0
  colocated_schema_versions : List (Nat × Nat × Nat) := []
  table_bootstrap_ids : List (TableId × StreamId) := []
  deriving DecidableEq, Repr

/-- The tail of a validation callback (`ValidateTableAndCreateCdcStreams`,
`AddValidatedTableAndCreateCdcStreams`): `AddValidatedTableToUniverseReplication`, and when it
returns OK, `CreateCdcStreamsIfReplicationValidated`. -/
def validationCallback (IsColocationParentTableId : TableId → Bool)
    (GetOrCreateXClusterRpcTasks : ReplicationGroupId → List String → Status)
    (cm : CatalogManager) (universe_id : ReplicationGroupId) (cb : ValidationCallback) :
    Option (Status × CatalogManager × List XClusterRpcCall) :=
  match AddValidatedTableToUniverseReplication IsColocationParentTableId cm universe_id
      cb.producer_table cb.consumer_table cb.producer_schema_version cb.consumer_schema_version
      cb.colocated_schema_versions with
  | none => none
  | some (Status.OK, cm1) =>
    CreateCdcStreamsIfReplicationValidated GetOrCreateXClusterRpcTasks cm1 universe_id
      cb.table_bootstrap_ids
  | some (Status.error code msg master_error, cm1) =>
    some (Status.error code msg master_error, cm1, [])

/-- The state of a group of the map, `none` when the map has no group with the id. -/
def universeState (cm : CatalogManager) (universe_id : ReplicationGroupId) :
    Option SysUniverseReplicationEntryPB.State :=
  (mapFind cm.universe_replication_map_ universe_id).map (fun info => info.pb.state)

/-- A sequence of validation callbacks on a group, one after the other: for each callback its
status, the state of the group after it and the calls to the producer it started. -/
def runValidationCallbacks (IsColocationParentTableId : TableId → Bool)
    (GetOrCreateXClusterRpcTasks : ReplicationGroupId → List String → Status)
    (universe_id : ReplicationGroupId) : CatalogManager → List ValidationCallback →
    Option (List (Status × Option SysUniverseReplicationEntryPB.State × List XClusterRpcCall))
  | _, [] => some []
  | cm, cb :: rest =>
    match validationCallback IsColocationParentTableId GetOrCreateXClusterRpcTasks cm universe_id
        cb with
    | none => none
    | some (status, cm1, calls) =>
      (runValidationCallbacks IsColocationParentTableId GetOrCreateXClusterRpcTasks universe_id
        cm1 rest).map (fun t => (status, universeState cm1 universe_id, calls) :: t)

/-- The number of distinct tables of a list. -/
def distinctTables (tables : List TableId) : Nat := tables.dedup.length

/-- The validated-table map `m` of a group lists the tables of `seen`, each once. -/
def validatedInv (m : List (TableId × TableId)) (seen : List TableId) : Prop :=
  mapSize m = distinctTables seen ∧ ∀ k, mapContains m k = true ↔ k ∈ seen

/-- The words of the claim about the validation barrier: what the callback `cb` does to a group
with the tables `tables` when `before` lists the producer tables of the callbacks before it: the
group stays INITIALIZING while fewer tables than the group has are validated, the callback that
validates the last one makes it VALIDATED and starts the creation of the streams, and a later
callback starts nothing. -/
def validationOutcome (tables : List TableId) (transactional : Bool) (before : List TableId)
    (cb : ValidationCallback) :
    Status × Option SysUniverseReplicationEntryPB.State × List XClusterRpcCall :=
  if distinctTables (before ++ [cb.producer_table]) < tables.length then
    (Status.OK, some SysUniverseReplicationEntryPB.State.INITIALIZING, [])
  else if distinctTables before < tables.length then
    (Status.OK, some SysUniverseReplicationEntryPB.State.VALIDATED,
      CreateCdcStreamsIfReplicationValidated.loop cb.table_bootstrap_ids transactional tables)
  else (Status.OK, some SysUniverseReplicationEntryPB.State.VALIDATED, [])

/-! ## Replication groups: alter and merge -/

/-- The request of `AlterUniverseReplication`; an `optional` proto field is an `Option`. -/
structure AlterUniverseReplicationRequestPB where
  replication_group_id : Option String := none
  universe_uuid : Option String := none
  producer_master_addresses : List String := []
  producer_table_ids_to_add : List TableId := []
  producer_table_ids_to_remove : List TableId := []
  new_replication_group_id : Option String := none
  producer_namespace_id_to_remove : Option NamespaceId := none
  deriving DecidableEq, Repr

/-- The five operations that `AlterUniverseReplication` hands a request to. -/
inductive AlterOperation where
  | UpdateProducerAddress
  | RemoveNamespaceFromReplicationGroup
  | RemoveTablesFromReplicationGroup
  | AddTablesToReplication
  | RenameUniverseReplication
  deriving DecidableEq, Repr

/-- Modelled from the spec: the macro `SCHECK_PB_FIELDS_NOT_EMPTY` of a header that is not part
of the sources ("Each validates required fields first, returning an INVALID_REQUEST-coded error
on omission"): the status it returns for a field that is missing or empty. -/
def SCHECK_PB_FIELDS_NOT_EMPTY (field_name : String) : Status :=
  Status.error StatusCode.InvalidArgument (field_name ++ " is not set")
    (some MasterErrorPB.INVALID_REQUEST)

/-- The function `ValidateUniverseUUID`: a request that names a universe must name this one.
`universe_uuid` is the result of `GetUniverseUuidIfExists`, which is not part of the sources. -/
def ValidateUniverseUUID (req_universe_uuid : Option String) (universe_uuid : Option String) :
    Status :=
  match req_universe_uuid with
  | none => Status.OK
  | some uuid =>
    if uuid ≠ "" then
      match universe_uuid with
      | some own =>
        if own = uuid then Status.OK
        else Status.error StatusCode.InvalidArgument
          ("Invalid Universe UUID " ++ uuid ++ ". Expected " ++ own) none
      | none =>
        Status.error StatusCode.InvalidArgument
          ("Invalid Universe UUID " ++ uuid ++ ". Expected empty") none
    else Status.OK

/-- The number of alter operations that `AlterUniverseReplication` counts in a request
(`config_count`). -/
def AlterUniverseReplication.config_count (req : AlterUniverseReplicationRequestPB) : Nat :=
  (if req.producer_master_addresses.length > 0 then 1 else 0) +
    (if req.producer_table_ids_to_remove.length > 0 then 1 else 0) +
    (if req.producer_table_ids_to_add.length > 0 then 1 else 0) +
    (if req.new_replication_group_id.isSome then 1 else 0) +
    (if req.producer_namespace_id_to_remove.getD "" ≠ "" then 1 else 0)

/-- The function `CatalogManager::AlterUniverseReplication`. The five operations are functions of
their own (two of them of other files); `perform` is what each of them does to the state for the
request. `universe_uuid` is the result of `GetUniverseUuidIfExists`. -/
def AlterUniverseReplication
    (perform : AlterOperation → CatalogManager → AlterUniverseReplicationRequestPB →
      Status × CatalogManager)
    (universe_uuid : Option String) (cm : CatalogManager)
    (req : AlterUniverseReplicationRequestPB) : Status × CatalogManager :=
  if req.replication_group_id.getD "" = "" then
    (SCHECK_PB_FIELDS_NOT_EMPTY "replication_group_id", cm)
  else
    match ValidateUniverseUUID req.universe_uuid universe_uuid with
    | Status.error code msg master_error => (Status.error code msg master_error, cm)
    | Status.OK =>
      match mapFind cm.universe_replication_map_ (req.replication_group_id.getD "") with
      | none =>
        (Status.error StatusCode.NotFound
          ("Could not find xCluster replication group " ++ req.replication_group_id.getD "")
          (some MasterErrorPB.OBJECT_NOT_FOUND), cm)
      | some _ =>
        if AlterUniverseReplication.config_count req ≠ 1 then
          (Status.error StatusCode.InvalidArgument
            "Only 1 Alter operation per request currently supported"
            (some MasterErrorPB.INVALID_REQUEST), cm)
        else if req.producer_master_addresses.length > 0 then
          perform AlterOperation.UpdateProducerAddress cm req
        else if req.producer_namespace_id_to_remove.isSome then
          perform AlterOperation.RemoveNamespaceFromReplicationGroup cm req
        else if req.producer_table_ids_to_remove.length > 0 then
          perform AlterOperation.RemoveTablesFromReplicationGroup cm req
        else if req.producer_table_ids_to_add.length > 0 then
          match perform AlterOperation.AddTablesToReplication cm req with
          | (Status.error code msg master_error, cm1) =>
            (Status.error code msg master_error, cm1)
          | (Status.OK, cm1) => (Status.OK, cm1)
        else if req.new_replication_group_id.isSome then
          perform AlterOperation.RenameUniverseReplication cm req
        else (Status.OK, cm)

/-- The range insert of a map, `insert(first, last)`: every entry of `other` whose key the map
does not have yet is added; an entry whose key the map has is left as it is. -/
def mapInsertRange {K V : Type} [DecidableEq K] (m other : List (K × V)) : List (K × V) :=
  other.foldl (fun acc e => if mapContains acc e.1 then acc else acc ++ [e]) m

/-- The producer map of the consumer registry after the merge of `MergeUniverseReplication`:
when the registry has an entry for both groups, the streams of the shadow group are inserted
into the entry of the original group and the entry of the shadow group is erased; otherwise the
map is left as it is. -/
def MergeUniverseReplication.producer_map (pm : List (String × ProducerEntryPB))
    (original_id universe_id : ReplicationGroupId) : List (String × ProducerEntryPB) :=
  match mapFind pm original_id, mapFind pm universe_id with
  | some original_producer_entry, some alter_producer_entry =>
    mapErase (mapAssign pm original_id
      { original_producer_entry with
        stream_map :=
          mapInsertRange original_producer_entry.stream_map alter_producer_entry.stream_map })
      universe_id
  | _, _ => pm

/-- The staged record of the original group in `MergeUniverseReplication`. -/
def MergeUniverseReplication.original (original_pb alter_pb : SysUniverseReplicationEntryPB) :
    SysUniverseReplicationEntryPB :=
  { original_pb with
    tables := original_pb.tables ++ alter_pb.tables
    table_streams := mapInsertRange original_pb.table_streams alter_pb.table_streams
    validated_tables := mapInsertRange original_pb.validated_tables alter_pb.validated_tables
    db_scoped_info :=
      if alter_pb.IsDbScoped then
        some (original_pb.db_scoped_info.getD [] ++ alter_pb.db_scoped_info.getD [])
      else original_pb.db_scoped_info }

/-- The staged record of the shadow group in `MergeUniverseReplication`. -/
def MergeUniverseReplication.alter (alter_pb : SysUniverseReplicationEntryPB) :
    SysUniverseReplicationEntryPB :=
  { alter_pb with
    tables := []
    table_streams := []
    validated_tables := []
    db_scoped_info := if alter_pb.IsDbScoped then some [] else alter_pb.db_scoped_info
    state := SysUniverseReplicationEntryPB.State.DELETED }

/-- The staged cluster config in `MergeUniverseReplication`. -/
def MergeUniverseReplication.cluster_config (cluster_config_ : SysClusterConfigEntryPB)
    (original_id universe_id : ReplicationGroupId) : SysClusterConfigEntryPB :=
  { version := int32_incr cluster_config_.version
    consumer_registry := some
      { cluster_config_.consumer_registry.getD {} with
        producer_map := MergeUniverseReplication.producer_map
          (cluster_config_.consumer_registry.getD {}).producer_map original_id universe_id } }

/-- The function `CatalogManager::MergeUniverseReplication`: the shadow group `universe_id` is
merged into the group `original_id`. `on_success_cb` is the status of the callback, `none` when
there is no callback. The status of the multi-row write to the sys catalog is assigned to a local
and not read again: the three write locks are committed whatever it is. The result is `none`
when the map has no group `universe_id`, and when the two ids are the same (the second write lock
on the same object is never granted). -/
def MergeUniverseReplication (cm : CatalogManager) (universe_id original_id : ReplicationGroupId)
    (on_success_cb : Option Status) : Option (Status × CatalogManager) :=
  if cm.flags.TEST_fail_universe_replication_merge then
    some (Status.error StatusCode.IllegalState "TEST_fail_universe_replication_merge" none, cm)
  else
    match mapFind cm.universe_replication_map_ original_id with
    | none => some (Status.OK, cm)
    | some original_universe =>
      if universe_id = original_id then none
      else
        match mapFind cm.universe_replication_map_ universe_id with
        | none => none
        | some universe_ =>
          let cl := MergeUniverseReplication.cluster_config cm.cluster_config_ original_id
            universe_id
          let original_pb := MergeUniverseReplication.original original_universe.pb universe_.pb
          let alter_pb := MergeUniverseReplication.alter universe_.pb
          if cm.flags.TEST_exit_unfinished_merging then some (Status.OK, cm)
          else
            match on_success_cb with
            | some (Status.error code msg master_error) =>
              some (Status.error code msg master_error, cm)
            | _ =>
              some (Status.OK,
                { cm with
                  cluster_config_ := cl
                  universe_replication_map_ :=
                    mapAssign
                      (mapAssign cm.universe_replication_map_ universe_id
                        { universe_ with pb := alter_pb })
                      original_id { original_universe with pb := original_pb }
                  sys_catalog_ :=
                    match cm.sys_catalog_status with
                    | Status.OK =>
                      cm.sys_catalog_ ++ [SysCatalogWrite.Mutate original_pb alter_pb cl]
                    | Status.error _ _ _ => cm.sys_catalog_
                  universes_to_clear_ := cm.universes_to_clear_ ++ [universe_id] })

/-! ## Tablet splits -/

/-- A column of a schema: what the embedded code reads of it, its order. -/
structure ColumnSchema where
  order : Int
  deriving DecidableEq, Repr

/-- A table schema: its columns. -/
structure Schema where
  columns : List ColumnSchema := []
  deriving DecidableEq, Repr

/-- Modelled from the spec: `PgSystemAttrNum::kYBRowId` of a header that is not part of the
sources, the order of the synthetic `ybrowid` column of a table without a user primary key. -/
def kYBRowId : Int := -100

/-- The function `CatalogManager::IsTableEligibleForCDCSDKStream`. -/
def IsTableEligibleForCDCSDKStream (flags : Flags) (table_info : TableInfo)
    (schema : Option Schema) : Bool :=
  let by_kind : Bool :=
    if table_info.is_matview then false
    else if !table_info.is_user_table then false
    else true
  match schema with
  | some schema =>
    if schema.columns.any (fun col => decide (col.order = kYBRowId)) then false
    else if flags.TEST_cdcsdk_add_indexes_to_stream && table_info.is_user_index then true
    else by_kind
  | none => by_kind

/-- The two sources of CDC requests, `cdc::CDCRequestSource`. -/
inductive CDCRequestSource where
  | XCLUSTER
  | CDCSDK
  deriving DecidableEq, Repr

/-- The function `CatalogManager::GetXReplStreamsForTable`: the streams of `cdc_stream_map_`, in
the order of the map, that have the table in their table list and have not started deleting;
for xCluster the streams without a namespace id, for CDCSDK the streams with a namespace id that
do not have the table in their unqualified list. -/
def GetXReplStreamsForTable (cm : CatalogManager) (table_id : TableId)
    (cdc_request_source : CDCRequestSource) : List (StreamId × SysCDCStreamEntryPB) :=
  cm.cdc_stream_map_.filter (fun entry =>
    let ltm := entry.2
    !ltm.table_id.isEmpty && decide (table_id ∈ ltm.table_id) && !ltm.started_deleting &&
      (match cdc_request_source with
        | CDCRequestSource.XCLUSTER => decide (ltm.get_namespace_id = "")
        | CDCRequestSource.CDCSDK =>
          decide (ltm.get_namespace_id ≠ "") &&
            (ltm.unqualified_table_id.isEmpty || !decide (table_id ∈ ltm.unqualified_table_id))))

/-- Modelled from the spec: `CDCStreamInfo::IsConsistentSnapshotStream` of the header
`catalog_entity_info.h`, which is not part of the sources: the record has the snapshot metadata
of a consistent snapshot stream, with a snapshot time and a snapshot option. -/
def SysCDCStreamEntryPB.IsConsistentSnapshotStream (pb : SysCDCStreamEntryPB) : Bool :=
  match pb.cdcsdk_stream_metadata with
  | some metadata => metadata.snapshot_time.isSome && metadata.consistent_snapshot_option.isSome
  | none => false

/-- The tablets of a split: the parent and the two children. -/
structure SplitTabletIds where
  source : TabletId
  children : TabletId × TabletId
  deriving DecidableEq, Repr

/-- Modelled from the spec: `OpId::Min()` of a header that is not part of the sources, the
checkpoint 0.0 ("insert two child CDC-state rows with checkpoint=Min"; the source says "set the
opid to 0.0"). -/
def OpId.Min : Int × Int := (0, 0)

/-- Modelled from the spec: `OpId::Max()` of a header that is not part of the sources, the
largest checkpoint. -/
def OpId.Max : Int × Int := (2 ^ 63 - 1, 2 ^ 63 - 1)

/-- Modelled from the spec: `CDCStateTable::TryFetchEntry` of a class that is not part of the
sources: the row of the CDC state table with the key, if there is one; the table failing, its
status. -/
def TryFetchEntry (cm : CatalogManager) (key : CDCStateTableKey) :
    Except Status (Option CDCStateTableEntry) :=
  match cm.cdc_state_table_status with
  | Status.OK => Except.ok (cm.cdc_state_table_.find? (fun row => decide (row.key = key)))
  | Status.error code msg master_error => Except.error (Status.error code msg master_error)

/-- The two rows that `UpdateCDCProducerOnTabletSplit` builds for a stream, one per child
tablet, with the checkpoint `OpId::Min`; the rows of a CDCSDK stream have the active time
`last_active_time` and the safe time of the parent row, or `last_active_time` when the parent
row has none. -/
def UpdateCDCProducerOnTabletSplit.children_entries (stream_type : CDCRequestSource)
    (stream_id : StreamId) (split_tablet_ids : SplitTabletIds) (last_active_time : Nat)
    (parent_entry_opt : Option CDCStateTableEntry) : List CDCStateTableEntry :=
  [split_tablet_ids.children.1, split_tablet_ids.children.2].map (fun child_tablet_id =>
    match stream_type with
    | CDCRequestSource.XCLUSTER =>
      { key := { tablet_id := child_tablet_id, stream_id := stream_id }
        checkpoint := some OpId.Min }
    | CDCRequestSource.CDCSDK =>
      { key := { tablet_id := child_tablet_id, stream_id := stream_id }
        checkpoint := some OpId.Min
        active_time := some last_active_time
        cdc_sdk_safe_time := some
          (match parent_entry_opt.bind (fun parent => parent.cdc_sdk_safe_time) with
            | some cdc_sdk_safe_time => cdc_sdk_safe_time
            | none => last_active_time) })

/-- The fetch of the row of the parent tablet in `UpdateCDCProducerOnTabletSplit`: for a CDCSDK
stream the row of the parent tablet and the stream, for an xCluster stream no fetch. -/
def UpdateCDCProducerOnTabletSplit.fetch_parent (cm : CatalogManager)
    (stream_type : CDCRequestSource) (split_tablet_ids : SplitTabletIds) (stream_id : StreamId) :
    Except Status (Option CDCStateTableEntry) :=
  match stream_type with
  | CDCRequestSource.CDCSDK =>
    TryFetchEntry cm { tablet_id := split_tablet_ids.source, stream_id := stream_id }
  | CDCRequestSource.XCLUSTER => Except.ok none

/-- The active time that `UpdateCDCProducerOnTabletSplit` gives the rows of a stream: the
reading of the clock, or, for a consistent snapshot stream whose parent row has an active time,
that active time. -/
def UpdateCDCProducerOnTabletSplit.last_active_time (stream : SysCDCStreamEntryPB)
    (GetCurrentTimeMicros : Nat) (parent_entry_opt : Option CDCStateTableEntry) : Nat :=
  if stream.IsConsistentSnapshotStream then
    match parent_entry_opt.bind (fun parent => parent.active_time) with
    | some active_time => active_time
    | none => GetCurrentTimeMicros
  else GetCurrentTimeMicros

/-- The loop of `UpdateCDCProducerOnTabletSplit` over the streams of one type: the rows built,
or the status of a failed fetch of a parent row. `GetCurrentTimeMicros` is the reading of the
clock (one reading for the call). The `DCHECK`s of the loop are debug assertions and not part of
the embedding. -/
def UpdateCDCProducerOnTabletSplit.stream_loop (cm : CatalogManager)
    (stream_type : CDCRequestSource) (split_tablet_ids : SplitTabletIds)
    (GetCurrentTimeMicros : Nat) :
    List (StreamId × SysCDCStreamEntryPB) → Except Status (List CDCStateTableEntry)
  | [] => Except.ok []
  | stream :: rest =>
    match UpdateCDCProducerOnTabletSplit.fetch_parent cm stream_type split_tablet_ids
        stream.1 with
    | Except.error status => Except.error status
    | Except.ok parent_entry_opt =>
      match UpdateCDCProducerOnTabletSplit.stream_loop cm stream_type split_tablet_ids
          GetCurrentTimeMicros rest with
      | Except.error status => Except.error status
      | Except.ok entries =>
        Except.ok (UpdateCDCProducerOnTabletSplit.children_entries stream_type stream.1
          split_tablet_ids
          (UpdateCDCProducerOnTabletSplit.last_active_time stream.2 GetCurrentTimeMicros
            parent_entry_opt)
          parent_entry_opt ++ entries)

/-- Modelled from the spec: `CDCStateTable::UpdateEntries` of a class that is not part of the
sources: every row of the table with the key of an update gets the checkpoint of the update. -/
def UpdateEntries (table : List CDCStateTableEntry) (updates : List CDCStateTableEntry) :
    List CDCStateTableEntry :=
  table.map (fun row =>
    match updates.find? (fun u => decide (u.key = row.key)) with
    | some u => { row with checkpoint := u.checkpoint }
    | none => row)

/-- The function `CatalogManager::ReVerifyChildrenEntriesOnTabletSplit`: the rows just inserted
for a CDCSDK stream that no longer covers the table get the checkpoint `OpId::Max`. -/
def ReVerifyChildrenEntriesOnTabletSplit (cm : CatalogManager) (producer_table_id : TableId)
    (entries : List CDCStateTableEntry) (cdcsdk_stream_ids : List StreamId) :
    Status × CatalogManager :=
  let refetched_cdcsdk_stream_ids : List StreamId :=
    (GetXReplStreamsForTable cm producer_table_id CDCRequestSource.CDCSDK).map (fun s => s.1)
  let entries_to_update : List CDCStateTableEntry :=
    (entries.filter (fun entry =>
      decide (entry.key.stream_id ∈ cdcsdk_stream_ids) &&
        !decide (entry.key.stream_id ∈ refetched_cdcsdk_stream_ids))).map
      (fun entry => { entry with checkpoint := some OpId.Max })
  if !entries_to_update.isEmpty then
    match cm.cdc_state_table_status with
    | Status.OK =>
      (Status.OK,
        { cm with cdc_state_table_ := UpdateEntries cm.cdc_state_table_ entries_to_update })
    | Status.error code msg master_error => (Status.error code msg master_error, cm)
  else (Status.OK, cm)

/-- The streams that `UpdateCDCProducerOnTabletSplit` builds rows for, by type: the streams of
the table of that type (`GetXReplStreamsForTable`); for CDCSDK none when the table is in the
catalog and is not eligible for a CDCSDK stream (an index, a materialized view, a system table:
the loop body is skipped). -/
def UpdateCDCProducerOnTabletSplit.streams (cm : CatalogManager) (producer_table_id : TableId) :
    CDCRequestSource → List (StreamId × SysCDCStreamEntryPB)
  | CDCRequestSource.XCLUSTER =>
    GetXReplStreamsForTable cm producer_table_id CDCRequestSource.XCLUSTER
  | CDCRequestSource.CDCSDK =>
    match mapFind cm.tables_ producer_table_id with
    | some table_info =>
      if !IsTableEligibleForCDCSDKStream cm.flags table_info none then []
      else GetXReplStreamsForTable cm producer_table_id CDCRequestSource.CDCSDK
    | none => GetXReplStreamsForTable cm producer_table_id CDCRequestSource.CDCSDK

/-- The function `CatalogManager::UpdateCDCProducerOnTabletSplit`: the status and the state after
the call. The rows of the xCluster streams of the table come first, then those of its CDCSDK
streams. `InsertEntries` appends the rows to the CDC state table. -/
def UpdateCDCProducerOnTabletSplit (cm : CatalogManager) (producer_table_id : TableId)
    (split_tablet_ids : SplitTabletIds) (GetCurrentTimeMicros : Nat) : Status × CatalogManager :=
  match UpdateCDCProducerOnTabletSplit.stream_loop cm CDCRequestSource.XCLUSTER split_tablet_ids
      GetCurrentTimeMicros
      (UpdateCDCProducerOnTabletSplit.streams cm producer_table_id CDCRequestSource.XCLUSTER) with
  | Except.error status => (status, cm)
  | Except.ok xcluster_entries =>
    match UpdateCDCProducerOnTabletSplit.stream_loop cm CDCRequestSource.CDCSDK
        split_tablet_ids GetCurrentTimeMicros
        (UpdateCDCProducerOnTabletSplit.streams cm producer_table_id CDCRequestSource.CDCSDK) with
    | Except.error status => (status, cm)
    | Except.ok cdcsdk_entries =>
      match cm.cdc_state_table_status with
      | Status.error code msg master_error => (Status.error code msg master_error, cm)
      | Status.OK =>
        if !(xcluster_entries ++ cdcsdk_entries).isEmpty &&
            !((UpdateCDCProducerOnTabletSplit.streams cm producer_table_id
              CDCRequestSource.CDCSDK).map (fun s => s.1)).isEmpty then
          ReVerifyChildrenEntriesOnTabletSplit
            { cm with cdc_state_table_ := cm.cdc_state_table_ ++
                (xcluster_entries ++ cdcsdk_entries) }
            producer_table_id (xcluster_entries ++ cdcsdk_entries)
            ((UpdateCDCProducerOnTabletSplit.streams cm producer_table_id
              CDCRequestSource.CDCSDK).map (fun s => s.1))
        else
          (Status.OK,
            { cm with cdc_state_table_ := cm.cdc_state_table_ ++
                (xcluster_entries ++ cdcsdk_entries) })

/-- The streams that `UpdateCDCProducerOnTabletSplit` inserts rows for: the xCluster streams of
the table, and its CDCSDK streams unless the table is in the catalog and is not eligible for a
CDCSDK stream. -/
def splitStreams (cm : CatalogManager) (producer_table_id : TableId) : List StreamId :=
  (UpdateCDCProducerOnTabletSplit.streams cm producer_table_id CDCRequestSource.XCLUSTER ++
    UpdateCDCProducerOnTabletSplit.streams cm producer_table_id CDCRequestSource.CDCSDK).map
    (fun s => s.1)

/-! ## Required request fields -/

/-- The request of `IsBootstrapRequired`. -/
structure IsBootstrapRequiredRequestPB where
  table_ids : List TableId := []
  stream_ids : List String := []
  deriving DecidableEq, Repr

/-- The response of `IsBootstrapRequired`: the tables with their answer, and the error set on a
timeout. -/
structure IsBootstrapRequiredResponsePB where
  results : List (TableId × Bool) := []
  error : Option Status := none
  deriving DecidableEq, Repr

/-- The stream ids of the tables of an `IsBootstrapRequired` request, as the loop of the function
reads them: `StreamId::Nil` when the request has no stream id, the parsed stream id of the same
position otherwise; the status of the first stream id that does not parse. -/
def IsBootstrapRequired.parse (FromString : String → Except Status StreamId) :
    List TableId → Option (List String) → Except Status (List (TableId × StreamId))
  | [], _ => Except.ok []
  | table_id :: rest, none =>
    match IsBootstrapRequired.parse FromString rest none with
    | Except.error status => Except.error status
    | Except.ok tasks => Except.ok ((table_id, StreamId.Nil) :: tasks)
  | _ :: _, some [] => Except.ok []
  | table_id :: rest, some (stream_id :: stream_ids) =>
    match FromString stream_id with
    | Except.error status => Except.error status
    | Except.ok id =>
      match IsBootstrapRequired.parse FromString rest (some stream_ids) with
      | Except.error status => Except.error status
      | Except.ok tasks => Except.ok ((table_id, id) :: tasks)

/-- The tasks of `IsBootstrapRequired`, run one after the other in the order of the request
(in the source each runs on a thread of its own): a task records the answer for its table, and
the first task that fails ends the wait with its status; the tasks after it record nothing.
`IsTableBootstrapRequired` is the function of that name, which asks the tablet servers and is
not part of the sources. -/
def IsBootstrapRequired.tasks (IsTableBootstrapRequired : TableId → StreamId → Status × Bool) :
    List (TableId × StreamId) → List (TableId × Bool) → Status × List (TableId × Bool)
  | [], table_bootstrap_required => (Status.OK, table_bootstrap_required)
  | (table_id, stream_id) :: rest, table_bootstrap_required =>
    match IsTableBootstrapRequired table_id stream_id with
    | (Status.OK, bootstrap_required) =>
      IsBootstrapRequired.tasks IsTableBootstrapRequired rest
        (mapAssign table_bootstrap_required table_id bootstrap_required)
    | (Status.error code msg master_error, bootstrap_required) =>
      (Status.error code msg master_error,
        mapAssign table_bootstrap_required table_id bootstrap_required)

/-- The function `CatalogManager::IsBootstrapRequired`: the status, the response and the state
after the call. `timed_out` says that the deadline passed before the tasks ended. The function
writes no member of the catalog manager. -/
def IsBootstrapRequired (FromString : String → Except Status StreamId)
    (IsTableBootstrapRequired : TableId → StreamId → Status × Bool) (timed_out : Bool)
    (cm : CatalogManager) (req : IsBootstrapRequiredRequestPB) :
    Status × IsBootstrapRequiredResponsePB × CatalogManager :=
  if ¬ (req.table_ids.length > 0) then
    (Status.error StatusCode.InvalidArgument "Table ID required" none, {}, cm)
  else if ¬ (req.stream_ids.length = 0 ∨ req.stream_ids.length = req.table_ids.length) then
    (Status.error StatusCode.InvalidArgument
      "Stream ID optional, but must match table IDs if specified" none, {}, cm)
  else
    match IsBootstrapRequired.parse FromString req.table_ids
        (if req.stream_ids.length > 0 then some req.stream_ids else none) with
    | Except.error status => (status, {}, cm)
    | Except.ok tasks =>
      if timed_out then
        (Status.error StatusCode.TimedOut
          "Timed out waiting for IsTableBootstrapRequired to finish" none,
          { error := some (Status.error StatusCode.TimedOut
              "Timed out waiting for IsTableBootstrapRequired to finish" none) }, cm)
      else
        match IsBootstrapRequired.tasks IsTableBootstrapRequired tasks [] with
        | (Status.error code msg master_error, _) =>
          (Status.error code msg master_error, {}, cm)
        | (Status.OK, table_bootstrap_required) =>
          (Status.OK, { results := table_bootstrap_required }, cm)

/-- The request of `IsSetupNamespaceReplicationWithBootstrapDone`. -/
structure IsSetupNamespaceReplicationWithBootstrapDoneRequestPB where
  replication_group_id : Option String := none
  deriving DecidableEq, Repr

/-- The response of `IsSetupNamespaceReplicationWithBootstrapDone`. -/
structure IsSetupNamespaceReplicationWithBootstrapDoneResponsePB where
  state : Option SysUniverseReplicationBootstrapEntryPB.State := none
  done : Option Bool := none
  bootstrap_error : Option Status := none
  deriving DecidableEq, Repr

/-- The function `CatalogManager::IsSetupNamespaceReplicationWithBootstrapDone`: the status, the
response and the state after the call; a bootstrap that has failed is added to the bootstraps to
clear. -/
def IsSetupNamespaceReplicationWithBootstrapDone (cm : CatalogManager)
    (req : IsSetupNamespaceReplicationWithBootstrapDoneRequestPB) :
    Status × IsSetupNamespaceReplicationWithBootstrapDoneResponsePB × CatalogManager :=
  match req.replication_group_id with
  | none =>
    (Status.error StatusCode.InvalidArgument "Replication group ID must be provided" none, {}, cm)
  | some replication_group_id =>
    match mapFind cm.universe_replication_bootstrap_map_ replication_group_id with
    | none =>
      (Status.error StatusCode.NotFound
        ("Could not find universe replication bootstrap " ++ replication_group_id) none, {}, cm)
    | some bootstrap_info =>
      if bootstrap_info.is_done then
        (Status.OK,
          { state := some bootstrap_info.state, done := some true
            bootstrap_error := some Status.OK }, cm)
      else if bootstrap_info.is_deleted_or_failed then
        (Status.OK,
          { state := some bootstrap_info.state, done := some true
            bootstrap_error := some
              (if !bootstrap_info.replication_bootstrap_error_.ok then
                bootstrap_info.replication_bootstrap_error_
              else Status.error StatusCode.InternalError "unknown error" none) },
          { cm with
            replication_bootstraps_to_clear_ :=
              cm.replication_bootstraps_to_clear_ ++ [replication_group_id] })
      else
        (Status.OK, { state := some bootstrap_info.state, done := some false }, cm)

/-! ## Updating streams -/

/-- The assignment `m[key] = value` of a `std::map` with `StreamId` keys: the entries are kept
in ascending order of the key, and an entry with the key is replaced. -/
def stdMapAssign {V : Type} : List (StreamId × V) → StreamId → V → List (StreamId × V)
  | [], k, v => [(k, v)]
  | (k1, v1) :: rest, k, v =>
    if k < k1 then (k, v) :: (k1, v1) :: rest
    else if k = k1 then (k, v) :: rest
    else (k1, v1) :: stdMapAssign rest k v

/-- The first loop of `UpdateCDCStreams`: the map `id_to_update_infos` from the stream ids to
their update entries, or NotFound for a stream id that is not in `cdc_stream_map_`. -/
def UpdateCDCStreams.collect (cm : CatalogManager) :
    List StreamId → List SysCDCStreamEntryPB → List (StreamId × SysCDCStreamEntryPB) →
    Except Status (List (StreamId × SysCDCStreamEntryPB))
  | stream_id :: stream_ids, entry :: update_entries, id_to_update_infos =>
    match mapFind cm.cdc_stream_map_ stream_id with
    | none =>
      Except.error (Status.error StatusCode.NotFound "Could not find CDC stream"
        (some MasterErrorPB.OBJECT_NOT_FOUND))
    | some _ =>
      UpdateCDCStreams.collect cm stream_ids update_entries
        (stdMapAssign id_to_update_infos stream_id entry)
  | _, _, id_to_update_infos => Except.ok id_to_update_infos

/-- The loop of `UpdateCDCStreams` that drops the options with the key `cdc::kStreamState`. The
loop erases through the iterator it advances: after an erase the iterator stands on the option
that followed the erased one, and the increment of the loop steps over it unexamined; when the
erased option was the last one, the increment steps past the new end and the loop reads beyond
the options, which is undefined (`none`). -/
def UpdateCDCStreams.erase_state_options :
    List CDCStreamOptionsPB → Option (List CDCStreamOptionsPB)
  | [] => some []
  | option :: rest =>
    if option.key = cdc.kStreamState then
      match rest with
      | [] => none
      | next :: rest1 => (UpdateCDCStreams.erase_state_options rest1).map (fun l => next :: l)
    else (UpdateCDCStreams.erase_state_options rest).map (fun l => option :: l)

/-- The test `stream_lock->is_deleting()` of `UpdateCDCStreams` on the stream with the id. -/
def UpdateCDCStreams.is_deleting (cm : CatalogManager) (stream_id : StreamId) : Bool :=
  match mapFind cm.cdc_stream_map_ stream_id with
  | some pb => pb.is_deleting
  | none => false

/-- The second loop of `UpdateCDCStreams`, over `id_to_update_infos` in the order of the map: the
write lock of each stream is taken (the stream ids of the locks taken are the second component
of the result); a stream that is deleting ends the call with NotFound; otherwise the update
entry, without its state options, is staged. -/
def UpdateCDCStreams.lock_loop (cm : CatalogManager) :
    List (StreamId × SysCDCStreamEntryPB) →
    Option (Except Status (List (StreamId × SysCDCStreamEntryPB)) × List StreamId)
  | [] => some (Except.ok [], [])
  | (stream_id, entry) :: rest =>
    if UpdateCDCStreams.is_deleting cm stream_id then
      some (Except.error (Status.error StatusCode.NotFound "CDC stream has been deleted"
        (some MasterErrorPB.OBJECT_NOT_FOUND)), [stream_id])
    else
      match UpdateCDCStreams.erase_state_options entry.options with
      | none => none
      | some options =>
        match UpdateCDCStreams.lock_loop cm rest with
        | none => none
        | some (Except.ok streams_to_update, stream_locks) =>
          some (Except.ok ((stream_id, { entry with options := options }) :: streams_to_update),
            stream_id :: stream_locks)
        | some (Except.error status, stream_locks) =>
          some (Except.error status, stream_id :: stream_locks)

/-- The function `CatalogManager::UpdateCDCStreams`: the status, the state after the call, the
stream ids of the write locks in the order they were taken, and the stream ids of the locks in
the order they were committed. The result is `none` when the loop over the options of an entry
reads beyond them. -/
def UpdateCDCStreams (cm : CatalogManager) (stream_ids : List StreamId)
    (update_entries : List SysCDCStreamEntryPB) :
    Option (Status × CatalogManager × List StreamId × List StreamId) :=
  if ¬ (stream_ids.length > 0) then
    some (Status.error StatusCode.InvalidArgument "No stream ID provided." none, cm, [], [])
  else if ¬ (stream_ids.length = update_entries.length) then
    some (Status.error StatusCode.InvalidArgument
      "Mismatched number of stream IDs and update entries provided." none, cm, [], [])
  else
    match UpdateCDCStreams.collect cm stream_ids update_entries [] with
    | Except.error status => some (status, cm, [], [])
    | Except.ok id_to_update_infos =>
      match UpdateCDCStreams.lock_loop cm id_to_update_infos with
      | none => none
      | some (Except.error status, stream_locks) => some (status, cm, stream_locks, [])
      | some (Except.ok streams_to_update, stream_locks) =>
        match cm.sys_catalog_status with
        | Status.error code msg master_error =>
          some (Status.error code msg master_error, cm, stream_locks, [])
        | Status.OK =>
          some (Status.OK,
            { cm with
              cdc_stream_map_ := streams_to_update.foldl (fun m s => mapAssign m s.1 s.2)
                cm.cdc_stream_map_
              sys_catalog_ := cm.sys_catalog_ ++
                [SysCatalogWrite.UpsertStreams streams_to_update] },
            stream_locks, stream_locks)

/-! ### The words of the claim about sequences of calls -/

/-- The relation between the versions stored before a call (`a`) and after it (`b`) that the
claim about sequences of calls states: the current and the old producer version have not
decreased, and the old producer version is at most the current one. -/
def schemaVersionsNotOlder (a b : SchemaVersionsPB) : Prop :=
  a.current_producer_schema_version ≤ b.current_producer_schema_version ∧
  a.old_producer_schema_version ≤ b.old_producer_schema_version ∧
  b.old_producer_schema_version ≤ b.current_producer_schema_version

/-- The versions stored for the stream (or colocation id) of the request `probe` after each call
of a sequence of `UpdateConsumerOnProducerMetadata` calls, the state of each call being the
state the call before it left; zeros when nothing is stored. -/
def schemaVersionsAfterCalls (FromString : String → Except Status StreamId)
    (IsColocationParentTableId : TableId → Bool)
    (probe : UpdateConsumerOnProducerMetadataRequestPB) :
    CatalogManager → List UpdateConsumerOnProducerMetadataRequestPB → List SchemaVersionsPB
  | _, [] => []
  | cm, req :: rest =>
    (requestSchemaVersions FromString IsColocationParentTableId
        (UpdateConsumerOnProducerMetadata FromString IsColocationParentTableId cm req).2.2
        probe).getD {} ::
      schemaVersionsAfterCalls FromString IsColocationParentTableId probe
        (UpdateConsumerOnProducerMetadata FromString IsColocationParentTableId cm req).2.2 rest

/-! ## Clearing a failed replication bootstrap -/

/-- A `TxnSnapshotId`; the nil id is 0. -/
abbrev TxnSnapshotId := Nat

/-- The nil snapshot id, the one `IsNil()` holds for. -/
def TxnSnapshotId.Nil : TxnSnapshotId := 0

/-- What `DoClearFailedReplicationBootstrap` reads of a
`CleanupFailedReplicationBootstrapInfo`: the state the bootstrap failed in, the bootstrap
streams of the producer, the snapshot of the producer (`old_snapshot_id`) and of the consumer
(`new_snapshot_id`), and the objects of the imported snapshot, which are the lists of their ids
here. The RPC task and the epoch are not part of the embedding. -/
structure CleanupFailedReplicationBootstrapInfo where
  state : SysUniverseReplicationBootstrapEntryPB.State
  bootstrap_ids : List StreamId := []
  old_snapshot_id : TxnSnapshotId := TxnSnapshotId.Nil
  new_snapshot_id : TxnSnapshotId := TxnSnapshotId.Nil
  namespace_map : List NamespaceId := []
  type_map : List String := []
  tables_data : List TableId := []
  deriving DecidableEq, Repr

/-- A call of `DoClearFailedReplicationBootstrap` to a collaborator, with its arguments:
`snapshot_coordinator_.Delete` on the consumer, `DeleteNewSnapshotObjects`, and the calls
`DeleteSnapshot` and `DeleteCDCStream` of the client of the producer. -/
inductive BootstrapCleanupCall where
  | SnapshotCoordinatorDelete (snapshot_id : TxnSnapshotId)
  | DeleteNewSnapshotObjects (namespace_map : List NamespaceId) (type_map : List String)
      (tables_data : List TableId)
  | ClientDeleteSnapshot (snapshot_id : TxnSnapshotId)
  | ClientDeleteCDCStream (stream_ids : List StreamId) (force_delete : Bool)
      (ignore_failures : Bool)
  deriving DecidableEq, Repr

/-- What the collaborators of `DoClearFailedReplicationBootstrap` answer during one call: the
status of the three calls that return one. -/
structure BootstrapCleanupEnv where
  snapshot_coordinator_delete : Status := Status.OK
  client_delete_snapshot : Status := Status.OK
  client_delete_cdc_stream : Status := Status.OK
  deriving DecidableEq, Repr

/-- The case BOOTSTRAP_PRODUCER of the switch of `DoClearFailedReplicationBootstrap`, which
falls through to the `break`; `s` is the status and `calls` the calls made so far. -/
def DoClearFailedReplicationBootstrap.bootstrap_producer (env : BootstrapCleanupEnv)
    (info : CleanupFailedReplicationBootstrapInfo) (_s : Status)
    (calls : List BootstrapCleanupCall) : Status × List BootstrapCleanupCall :=
  (env.client_delete_cdc_stream,
    calls ++ [BootstrapCleanupCall.ClientDeleteCDCStream info.bootstrap_ids true false])

/-- The case CREATE_PRODUCER_SNAPSHOT of the switch, which falls through to
BOOTSTRAP_PRODUCER. -/
def DoClearFailedReplicationBootstrap.create_producer_snapshot (env : BootstrapCleanupEnv)
    (info : CleanupFailedReplicationBootstrapInfo) (s : Status)
    (calls : List BootstrapCleanupCall) : Status × List BootstrapCleanupCall :=
  if info.old_snapshot_id ≠ TxnSnapshotId.Nil then
    DoClearFailedReplicationBootstrap.bootstrap_producer env info env.client_delete_snapshot
      (calls ++ [BootstrapCleanupCall.ClientDeleteSnapshot info.old_snapshot_id])
  else DoClearFailedReplicationBootstrap.bootstrap_producer env info s calls

/-- The case IMPORT_SNAPSHOT of the switch, which falls through to
CREATE_PRODUCER_SNAPSHOT. -/
def DoClearFailedReplicationBootstrap.import_snapshot (env : BootstrapCleanupEnv)
    (info : CleanupFailedReplicationBootstrapInfo) (s : Status)
    (calls : List BootstrapCleanupCall) : Status × List BootstrapCleanupCall :=
  DoClearFailedReplicationBootstrap.create_producer_snapshot env info s
    (calls ++ [BootstrapCleanupCall.DeleteNewSnapshotObjects info.namespace_map info.type_map
      info.tables_data])

/-- The case CREATE_CONSUMER_SNAPSHOT of the switch, which the cases SETUP_REPLICATION,
RESTORE_SNAPSHOT and TRANSFER_SNAPSHOT fall through to, and which falls through to
IMPORT_SNAPSHOT. -/
def DoClearFailedReplicationBootstrap.create_consumer_snapshot (env : BootstrapCleanupEnv)
    (info : CleanupFailedReplicationBootstrapInfo) (s : Status)
    (calls : List BootstrapCleanupCall) : Status × List BootstrapCleanupCall :=
  if info.new_snapshot_id ≠ TxnSnapshotId.Nil then
    DoClearFailedReplicationBootstrap.import_snapshot env info env.snapshot_coordinator_delete
      (calls ++ [BootstrapCleanupCall.SnapshotCoordinatorDelete info.new_snapshot_id])
  else DoClearFailedReplicationBootstrap.import_snapshot env info s calls

/-- The function `CatalogManager::DoClearFailedReplicationBootstrap`: the status it returns (the
one of the last call that returns a status) and the calls it makes to its collaborators, in
their order. -/
def DoClearFailedReplicationBootstrap (env : BootstrapCleanupEnv)
    (info : CleanupFailedReplicationBootstrapInfo) : Status × List BootstrapCleanupCall :=
  match info.state with
  | SysUniverseReplicationBootstrapEntryPB.State.SETUP_REPLICATION =>
    DoClearFailedReplicationBootstrap.create_consumer_snapshot env info Status.OK []
  | SysUniverseReplicationBootstrapEntryPB.State.RESTORE_SNAPSHOT =>
    DoClearFailedReplicationBootstrap.create_consumer_snapshot env info Status.OK []
  | SysUniverseReplicationBootstrapEntryPB.State.TRANSFER_SNAPSHOT =>
    DoClearFailedReplicationBootstrap.create_consumer_snapshot env info Status.OK []
  | SysUniverseReplicationBootstrapEntryPB.State.CREATE_CONSUMER_SNAPSHOT =>
    DoClearFailedReplicationBootstrap.create_consumer_snapshot env info Status.OK []
  | SysUniverseReplicationBootstrapEntryPB.State.IMPORT_SNAPSHOT =>
    DoClearFailedReplicationBootstrap.import_snapshot env info Status.OK []
  | SysUniverseReplicationBootstrapEntryPB.State.CREATE_PRODUCER_SNAPSHOT =>
    DoClearFailedReplicationBootstrap.create_producer_snapshot env info Status.OK []
  | SysUniverseReplicationBootstrapEntryPB.State.BOOTSTRAP_PRODUCER =>
    DoClearFailedReplicationBootstrap.bootstrap_producer env info Status.OK []
  | SysUniverseReplicationBootstrapEntryPB.State.INITIALIZING => (Status.OK, [])
  | SysUniverseReplicationBootstrapEntryPB.State.DONE => (Status.OK, [])
  | SysUniverseReplicationBootstrapEntryPB.State.FAILED => (Status.OK, [])
  | SysUniverseReplicationBootstrapEntryPB.State.DELETED => (Status.OK, [])
  | SysUniverseReplicationBootstrapEntryPB.State.DELETED_ERROR => (Status.OK, [])
  | SysUniverseReplicationBootstrapEntryPB.State.DELETING => (Status.OK, [])

/-! ## Cleaning up deleted streams -/

/-- Modelled from the spec: `PersistentCDCStreamInfo::is_deleting_metadata` of the header
`catalog_entity_info.h`, which is not part of the sources: the stream is in state
DELETING_METADATA. -/
def SysCDCStreamEntryPB.is_deleting_metadata (pb : SysCDCStreamEntryPB) : Bool :=
  decide (pb.get_state = SysCDCStreamEntryPB.State.DELETING_METADATA)

/-- The function `CatalogManager::FindXReplStreamsMarkedForDeletion`: the streams of
`cdc_stream_map_`, in the order of the map, that are in the deletion state asked for. -/
def FindXReplStreamsMarkedForDeletion (cm : CatalogManager)
    (deletion_state : SysCDCStreamEntryPB.State) : List (StreamId × SysCDCStreamEntryPB) :=
  cm.cdc_stream_map_.filter (fun entry =>
    if decide (deletion_state = SysCDCStreamEntryPB.State.DELETING_METADATA) &&
        entry.2.is_deleting_metadata then true
    else if decide (deletion_state = SysCDCStreamEntryPB.State.DELETING) &&
        entry.2.is_deleting then true
    else false)

/-- Modelled from the spec: `CDCStateTable::DeleteEntries` of a class that is not part of the
sources: every row of the table with one of the keys is deleted. -/
def DeleteEntries (table : List CDCStateTableEntry) (keys : List CDCStateTableKey) :
    List CDCStateTableEntry :=
  table.filter (fun row => decide (row.key ∉ keys))

/-- What the writes of the CDC state table and the xCluster manager answer during one call of a
background task: the status of `UpdateEntries`, of `DeleteEntries` and of
`RemoveStreamsFromSysCatalog`. -/
structure CleanupWriteEnv where
  update_entries : Status := Status.OK
  delete_entries : Status := Status.OK
  remove_streams_from_sys_catalog : Status := Status.OK
  deriving DecidableEq, Repr

/-- The test of `CleanUpDeletedXReplStreams` on a row of the CDC state table: the stream of the
row is one of the streams to delete and has a namespace id (a CDCSDK stream). -/
def CleanUpDeletedXReplStreams.is_cdcsdk_row (streams : List (StreamId × SysCDCStreamEntryPB))
    (entry : CDCStateTableEntry) : Bool :=
  match mapFind streams entry.key.stream_id with
  | none => false
  | some stream => decide (stream.get_namespace_id ≠ "")

/-- The test of `CleanUpDeletedXReplStreams` on a row of the CDC state table: the stream of the
row is one of the streams to delete and has no namespace id (an xCluster stream). -/
def CleanUpDeletedXReplStreams.is_xcluster_row (streams : List (StreamId × SysCDCStreamEntryPB))
    (entry : CDCStateTableEntry) : Bool :=
  match mapFind streams entry.key.stream_id with
  | none => false
  | some stream => decide (stream.get_namespace_id = "")

/-- The rows `entries_to_update` that `CleanUpDeletedXReplStreams` collects from the CDC state
table: for each row of a CDCSDK stream to delete, its key with the checkpoint `OpId::Max`. -/
def CleanUpDeletedXReplStreams.entries_to_update
    (streams : List (StreamId × SysCDCStreamEntryPB)) (table : List CDCStateTableEntry) :
    List CDCStateTableEntry :=
  (table.filter (CleanUpDeletedXReplStreams.is_cdcsdk_row streams)).map
    (fun entry => { key := entry.key, checkpoint := some OpId.Max })

/-- The keys `entries_to_delete` that `CleanUpDeletedXReplStreams` collects from the CDC state
table: the keys of the rows of the xCluster streams to delete. -/
def CleanUpDeletedXReplStreams.entries_to_delete
    (streams : List (StreamId × SysCDCStreamEntryPB)) (table : List CDCStateTableEntry) :
    List CDCStateTableKey :=
  (table.filter (CleanUpDeletedXReplStreams.is_xcluster_row streams)).map (fun entry => entry.key)

/-- The last loop of `CleanUpDeletedXReplStreams`: `CleanupXReplStreamFromMaps` for each stream,
the first failure ending the call. The write locks are held and nothing is staged, so a reader
sees the record of the stream. -/
def CleanUpDeletedXReplStreams.cleanup :
    List (StreamId × SysCDCStreamEntryPB) → CatalogManager → Status × CatalogManager
  | [], cm => (Status.OK, cm)
  | stream :: rest, cm =>
    match (CleanupXReplStreamFromMaps cm stream.1 stream.2).1 with
    | Status.OK =>
      CleanUpDeletedXReplStreams.cleanup rest (CleanupXReplStreamFromMaps cm stream.1 stream.2).2
    | Status.error code msg master_error =>
      (Status.error code msg master_error, (CleanupXReplStreamFromMaps cm stream.1 stream.2).2)

/-- The function `CatalogManager::CleanUpDeletedXReplStreams`: the status and the state after
the call. The scan of the CDC state table answers with `cdc_state_table_status`; the writes
answer with the statuses of `env`. -/
def CleanUpDeletedXReplStreams (env : CleanupWriteEnv) (cm : CatalogManager) :
    Status × CatalogManager :=
  let streams := FindXReplStreamsMarkedForDeletion cm SysCDCStreamEntryPB.State.DELETING
  if streams.isEmpty then (Status.OK, cm)
  else
    match cm.cdc_state_table_status with
    | Status.error code msg master_error => (Status.error code msg master_error, cm)
    | Status.OK =>
      match env.update_entries with
      | Status.error code msg master_error =>
        ((Status.error code msg master_error).CloneAndPrepend
          "Error setting checkpoint to OpId::Max() in cdc_state table", cm)
      | Status.OK =>
        let updated := UpdateEntries cm.cdc_state_table_
          (CleanUpDeletedXReplStreams.entries_to_update streams cm.cdc_state_table_)
        match env.delete_entries with
        | Status.error code msg master_error =>
          ((Status.error code msg master_error).CloneAndPrepend
            "Error deleting XRepl stream rows from cdc_state table",
            { cm with cdc_state_table_ := updated })
        | Status.OK =>
          let cm1 : CatalogManager :=
            { cm with
              cdc_state_table_ := DeleteEntries updated
                (CleanUpDeletedXReplStreams.entries_to_delete streams cm.cdc_state_table_) }
          match env.remove_streams_from_sys_catalog with
          | Status.error code msg master_error => (Status.error code msg master_error, cm1)
          | Status.OK =>
            match cm1.sys_catalog_status with
            | Status.error code msg master_error =>
              ((Status.error code msg master_error).CloneAndPrepend
                "Error deleting XRepl streams from sys-catalog", cm1)
            | Status.OK =>
              CleanUpDeletedXReplStreams.cleanup streams
                { cm1 with
                  sys_catalog_ := cm1.sys_catalog_ ++
                    [SysCatalogWrite.DeleteStreams (streams.map (fun stream => stream.1))] }

/-! ### The words of the claim about the rows of deleted streams -/

/-- What the claim says `CleanUpDeletedXReplStreams` does to a row of the CDC state table:
`none` for a row that is deleted. The row of a stream marked DELETING gets the checkpoint
`OpId::Max` when the stream has a namespace id and is deleted when it has none; any other row
is left as it is. -/
def cleanedRow (cm : CatalogManager) (row : CDCStateTableEntry) : Option CDCStateTableEntry :=
  match mapFind cm.cdc_stream_map_ row.key.stream_id with
  | none => some row
  | some stream =>
    if stream.is_deleting then
      if stream.get_namespace_id ≠ "" then some { row with checkpoint := some OpId.Max }
      else none
    else some row

/-! ## Hidden tablets retained for CDCSDK -/

/-- Modelled from the spec: `OpId::Invalid()` of a header that is not part of the sources, the
checkpoint -1.-1 of a stream that has not streamed from the tablet (the source says "The
checkpoint is -1.-1 (which is the case when a stream is bootstrapped)"). -/
def OpId.Invalid : Int × Int := (-1, -1)

/-- The function `CatalogManager::GetCDCSDKStreamsForTable`: the streams that
`cdcsdk_tables_to_stream_map_` has for the table, none when it has no entry. -/
def GetCDCSDKStreamsForTable (cm : CatalogManager) (table_id : TableId) : List StreamId :=
  match mapFind cm.cdcsdk_tables_to_stream_map_ table_id with
  | none => []
  | some table_ids => table_ids

/-- The test of `DoProcessCDCSDKTabletDeletion` on a hidden tablet: it has a parent tablet and
the parent is among the hidden tablets. -/
def DoProcessCDCSDKTabletDeletion.parent_retained
    (hidden_tablets : List (TabletId × HiddenReplicationParentTabletInfo))
    (hidden_tablet : HiddenReplicationParentTabletInfo) : Bool :=
  decide (hidden_tablet.parent_tablet_id_ ≠ "") &&
    mapContains hidden_tablets hidden_tablet.parent_tablet_id_

/-- The test of `DoProcessCDCSDKTabletDeletion` on the row of the hidden tablet: the row has a
checkpoint, and it is `OpId::Invalid`, or `OpId::Min` with no last replication time. -/
def DoProcessCDCSDKTabletDeletion.not_streamed (entry : CDCStateTableEntry) : Bool :=
  match entry.checkpoint with
  | some checkpoint =>
    decide (checkpoint = OpId.Invalid) ||
      (decide (checkpoint = OpId.Min) && entry.last_replication_time.isNone)
  | none => false

/-- The test of `DoProcessCDCSDKTabletDeletion` on the row of a child tablet: there is no row, or
the row has no last replication time. -/
def DoProcessCDCSDKTabletDeletion.child_not_polled (entry_opt : Option CDCStateTableEntry) :
    Bool :=
  match entry_opt with
  | none => true
  | some entry => entry.last_replication_time.isNone

/-- The loop of `DoProcessCDCSDKTabletDeletion` over the children of a hidden tablet: the value
of `found_all_children`, or the status of a failed fetch. -/
def DoProcessCDCSDKTabletDeletion.children_loop (cm : CatalogManager) (stream_id : StreamId) :
    List TabletId → Except Status Bool
  | [] => Except.ok true
  | child_tablet_id :: rest =>
    match TryFetchEntry cm { tablet_id := child_tablet_id, stream_id := stream_id } with
    | Except.error status => Except.error status
    | Except.ok entry_opt =>
      if DoProcessCDCSDKTabletDeletion.child_not_polled entry_opt then Except.ok false
      else DoProcessCDCSDKTabletDeletion.children_loop cm stream_id rest

/-- The loop of `DoProcessCDCSDKTabletDeletion` over the streams of the table of a hidden
tablet, with the two counters `count_tablet_streams_to_delete` and
`count_streams_already_deleted` and the keys `entries_to_delete`; the status of a failed fetch
ends the call. -/
def DoProcessCDCSDKTabletDeletion.stream_loop (cm : CatalogManager) (tablet_id : TabletId)
    (hidden_tablet : HiddenReplicationParentTabletInfo) :
    List StreamId → Nat → Nat → List CDCStateTableKey →
    Except Status (Nat × Nat × List CDCStateTableKey)
  | [], count_tablet_streams_to_delete, count_streams_already_deleted, entries_to_delete =>
    Except.ok (count_tablet_streams_to_delete, count_streams_already_deleted, entries_to_delete)
  | stream_id :: rest, count_tablet_streams_to_delete, count_streams_already_deleted,
      entries_to_delete =>
    match TryFetchEntry cm { tablet_id := tablet_id, stream_id := stream_id } with
    | Except.error status => Except.error status
    | Except.ok none =>
      DoProcessCDCSDKTabletDeletion.stream_loop cm tablet_id hidden_tablet rest
        count_tablet_streams_to_delete (count_streams_already_deleted + 1) entries_to_delete
    | Except.ok (some entry) =>
      if DoProcessCDCSDKTabletDeletion.not_streamed entry then
        DoProcessCDCSDKTabletDeletion.stream_loop cm tablet_id hidden_tablet rest
          (count_tablet_streams_to_delete + 1) count_streams_already_deleted entries_to_delete
      else
        match DoProcessCDCSDKTabletDeletion.children_loop cm stream_id
            [hidden_tablet.split_tablets_.1, hidden_tablet.split_tablets_.2] with
        | Except.error status => Except.error status
        | Except.ok true =>
          DoProcessCDCSDKTabletDeletion.stream_loop cm tablet_id hidden_tablet rest
            (count_tablet_streams_to_delete + 1) count_streams_already_deleted
            (entries_to_delete ++ [{ tablet_id := tablet_id, stream_id := stream_id }])
        | Except.ok false =>
          DoProcessCDCSDKTabletDeletion.stream_loop cm tablet_id hidden_tablet rest
            count_tablet_streams_to_delete count_streams_already_deleted entries_to_delete

/-- The loop of `DoProcessCDCSDKTabletDeletion` over the hidden tablets (`hidden_tablets` is the
copy of `retained_by_cdcsdk_` the loop runs over): the tablets to delete and the keys
`entries_to_delete`. A tablet whose parent is among the hidden tablets is skipped. -/
def DoProcessCDCSDKTabletDeletion.tablet_loop (cm : CatalogManager)
    (hidden_tablets : List (TabletId × HiddenReplicationParentTabletInfo)) :
    List (TabletId × HiddenReplicationParentTabletInfo) → List TabletId →
    List CDCStateTableKey → Except Status (List TabletId × List CDCStateTableKey)
  | [], tablets_to_delete, entries_to_delete => Except.ok (tablets_to_delete, entries_to_delete)
  | entry :: rest, tablets_to_delete, entries_to_delete =>
    if DoProcessCDCSDKTabletDeletion.parent_retained hidden_tablets entry.2 then
      DoProcessCDCSDKTabletDeletion.tablet_loop cm hidden_tablets rest tablets_to_delete
        entries_to_delete
    else
      match DoProcessCDCSDKTabletDeletion.stream_loop cm entry.1 entry.2
          (GetCDCSDKStreamsForTable cm entry.2.table_id_) 0 0 entries_to_delete with
      | Except.error status => Except.error status
      | Except.ok counts =>
        if counts.1 + counts.2.1 = (GetCDCSDKStreamsForTable cm entry.2.table_id_).length then
          DoProcessCDCSDKTabletDeletion.tablet_loop cm hidden_tablets rest
            (tablets_to_delete ++ [entry.1]) counts.2.2
        else
          DoProcessCDCSDKTabletDeletion.tablet_loop cm hidden_tablets rest tablets_to_delete
            counts.2.2

/-- The function `CatalogManager::DoProcessCDCSDKTabletDeletion`: the status and the state after
the call. The fetches of the CDC state table answer with `cdc_state_table_status`, its writes
with the statuses of `env`; `entries_to_update` is never filled. -/
def DoProcessCDCSDKTabletDeletion (env : CleanupWriteEnv) (cm : CatalogManager) :
    Status × CatalogManager :=
  if cm.retained_by_cdcsdk_.isEmpty then (Status.OK, cm)
  else
    match DoProcessCDCSDKTabletDeletion.tablet_loop cm cm.retained_by_cdcsdk_
        cm.retained_by_cdcsdk_ [] [] with
    | Except.error status => (status, cm)
    | Except.ok (tablets_to_delete, entries_to_delete) =>
      match env.update_entries with
      | Status.error code msg master_error =>
        ((Status.error code msg master_error).CloneAndPrepend
          "Error updating cdc stream rows from cdc_state table", cm)
      | Status.OK =>
        match env.delete_entries with
        | Status.error code msg master_error =>
          ((Status.error code msg master_error).CloneAndPrepend
            "Error deleting cdc stream rows from cdc_state table",
            { cm with cdc_state_table_ := UpdateEntries cm.cdc_state_table_ [] })
        | Status.OK =>
          (Status.OK,
            { cm with
              cdc_state_table_ :=
                DeleteEntries (UpdateEntries cm.cdc_state_table_ []) entries_to_delete
              retained_by_cdcsdk_ :=
                tablets_to_delete.foldl (fun m tablet_id => mapErase m tablet_id)
                  cm.retained_by_cdcsdk_ })

/-! ### The words of the claim about hidden tablets -/

/-- The stream has polled the child tablet: the CDC state table has a row for the child and the
stream, with a last replication time. -/
def childPolled (cm : CatalogManager) (child_tablet_id : TabletId) (stream_id : StreamId) :
    Bool :=
  match cm.cdc_state_table_.find?
      (fun row => decide (row.key = { tablet_id := child_tablet_id, stream_id := stream_id })) with
  | none => false
  | some row => row.last_replication_time.isSome

/-- What the claim asks of a stream for a hidden tablet to be released: the row of the tablet
and the stream is absent, or its checkpoint is `OpId::Invalid`, or its checkpoint is `OpId::Min`
and it has no last replication time, or both children have a row with a last replication
time. -/
def streamReleasesTablet (cm : CatalogManager) (tablet_id : TabletId)
    (hidden_tablet : HiddenReplicationParentTabletInfo) (stream_id : StreamId) : Bool :=
  match cm.cdc_state_table_.find?
      (fun row => decide (row.key = { tablet_id := tablet_id, stream_id := stream_id })) with
  | none => true
  | some row =>
    decide (row.checkpoint = some OpId.Invalid) ||
      (decide (row.checkpoint = some OpId.Min) && row.last_replication_time.isNone) ||
      (childPolled cm hidden_tablet.split_tablets_.1 stream_id &&
        childPolled cm hidden_tablet.split_tablets_.2 stream_id)

/-- The condition of the claim on a hidden tablet: every stream of the table of the tablet
releases it. -/
def releasedAsClaimed (cm : CatalogManager) (tablet_id : TabletId)
    (hidden_tablet : HiddenReplicationParentTabletInfo) : Bool :=
  (GetCDCSDKStreamsForTable cm hidden_tablet.table_id_).all
    (streamReleasesTablet cm tablet_id hidden_tablet)

/-! ## Loading the streams -/

/-- The function `CDCStreamLoader::AddDefaultValuesIfMissing`: a record loaded without the
source type or the checkpoint type option gets the one of an xCluster stream. `metadata` is the
record read from the sys catalog and `pb` its staged copy. -/
def CDCStreamLoader.AddDefaultValuesIfMissing (metadata pb : SysCDCStreamEntryPB) :
    SysCDCStreamEntryPB :=
  let source_type_present :=
    metadata.options.any (fun option => decide (option.key = cdc.kSourceType))
  let checkpoint_type_present :=
    metadata.options.any (fun option => decide (option.key = cdc.kCheckpointType))
  let pb1 : SysCDCStreamEntryPB :=
    if !source_type_present then
      { pb with options := pb.options ++ [⟨cdc.kSourceType, "XCLUSTER"⟩] }
    else pb
  if !checkpoint_type_present then
    { pb1 with options := pb1.options ++ [⟨cdc.kCheckpointType, "IMPLICIT"⟩] }
  else pb1

/-- The lookup of `CDCStreamLoader::Visit`: the namespace of a record with a namespace id, the
first table of a record without one. The result is `none` when the record has neither a
namespace id nor a table (`table_id(0)` of an empty list), `some none` when the namespace or
the table is not in the catalog. -/
def CDCStreamLoader.Visit.lookup (cm : CatalogManager) (metadata : SysCDCStreamEntryPB) :
    Option (Option (Option NamespaceInfo × Option TableInfo)) :=
  match metadata.namespace_id with
  | some namespace_id =>
    match mapFind cm.namespace_ids_map_ namespace_id with
    | none => some none
    | some ns => some (some (some ns, none))
  | none =>
    match metadata.table_id with
    | [] => none
    | table_id :: _ =>
      match mapFind cm.tables_ table_id with
      | none => some none
      | some table => some (some (none, some table))

/-- The state that `CDCStreamLoader::Visit` gives the loaded record: DELETING when the table or
the namespace of the stream is being deleted and the record is not DELETING yet, ACTIVE when
the record has no state. -/
def CDCStreamLoader.Visit.with_state (ns : Option NamespaceInfo) (table : Option TableInfo)
    (pb : SysCDCStreamEntryPB) : SysCDCStreamEntryPB :=
  let parent_deleting : Bool :=
    (match table with
      | some table => table.is_deleting
      | none => false) ||
    (match ns with
      | some ns => decide (ns.state = SysNamespaceEntryPB.State.DELETING)
      | none => false)
  if parent_deleting && !pb.is_deleting then pb.set_state SysCDCStreamEntryPB.State.DELETING
  else if pb.state.isNone then pb.set_state SysCDCStreamEntryPB.State.ACTIVE
  else pb

/-- The test of `CDCStreamLoader::Visit` for the scans of the tables of the namespace: the
record is ACTIVE or DELETING_METADATA and the namespace of the stream is RUNNING. -/
def CDCStreamLoader.Visit.scans (ns : Option NamespaceInfo) (metadata : SysCDCStreamEntryPB) :
    Bool :=
  (decide (metadata.get_state = SysCDCStreamEntryPB.State.ACTIVE) ||
    decide (metadata.get_state = SysCDCStreamEntryPB.State.DELETING_METADATA)) &&
  (match ns with
    | some ns => decide (ns.state = SysNamespaceEntryPB.State.RUNNING)
    | none => false)

/-- The function `CDCStreamLoader::Visit`: the status and the state after the visit of one
stream record of the sys catalog. `FromString` is `xrepl::StreamId::FromString`, which is not
part of the sources. The result is `none` when `InsertOrDie` finds the id in
`xrepl_stream_ids_in_use_` already, or when the record has neither a namespace id nor a table.
The scans of the tables of the namespace that follow the commit of a loaded CDCSDK stream
(`FindAllTablesMissingInCDCSDKStream` and the two after it) fill the maps of the tables to
process from the schemas of the tables; they are the function `scan` here. The registration of
an xCluster stream with the xCluster manager is not part of the embedding. -/
def CDCStreamLoader.Visit (FromString : String → Except Status StreamId)
    (scan : CatalogManager → StreamId → SysCDCStreamEntryPB → CatalogManager)
    (cm : CatalogManager) (stream_id_str : String) (metadata : SysCDCStreamEntryPB) :
    Option (Status × CatalogManager) :=
  match FromString stream_id_str with
  | Except.error status => some (status, cm)
  | Except.ok stream_id =>
    if stream_id ∈ cm.xrepl_stream_ids_in_use_ then none
    else
      let cm1 : CatalogManager :=
        { cm with
          xrepl_stream_ids_in_use_ := cm.xrepl_stream_ids_in_use_ ++ [stream_id]
          cdc_enabled_ := true }
      match CDCStreamLoader.Visit.lookup cm1 metadata with
      | none => none
      | some none => some (Status.OK, cm1)
      | some (some (ns, table)) =>
        let pb := CDCStreamLoader.Visit.with_state ns table
          (CDCStreamLoader.AddDefaultValuesIfMissing metadata metadata)
        let cm2 : CatalogManager :=
          { cm1 with
            cdc_stream_map_ := mapAssign cm1.cdc_stream_map_ stream_id pb
            cdcsdk_tables_to_stream_map_ :=
              if ns.isSome then
                addToTablesToStreamMap cm1.cdcsdk_tables_to_stream_map_ stream_id
                  metadata.table_id
              else cm1.cdcsdk_tables_to_stream_map_
            cdcsdk_replication_slots_to_stream_map_ :=
              match metadata.cdcsdk_ysql_replication_slot_name with
              | some slot_name =>
                if ns.isSome then
                  mapAssign cm1.cdcsdk_replication_slots_to_stream_map_ slot_name stream_id
                else cm1.cdcsdk_replication_slots_to_stream_map_
              | none => cm1.cdcsdk_replication_slots_to_stream_map_ }
        if CDCStreamLoader.Visit.scans ns metadata then
          some (Status.OK, scan cm2 stream_id metadata)
        else some (Status.OK, cm2)

/-! ## Tables added after the creation of a stream -/

/-- The function `CatalogManager::RemoveTableFromCDCSDKUnprocessedMap`: the table leaves the
unprocessed set of the namespace, and a set left empty leaves the map. -/
def RemoveTableFromCDCSDKUnprocessedMap (cm : CatalogManager) (table_id : TableId)
    (ns_id : NamespaceId) : CatalogManager :=
  match mapFind cm.namespace_to_cdcsdk_unprocessed_table_map_ ns_id with
  | none => cm
  | some unprocessed_tables =>
    if (unprocessed_tables.filter (fun id => decide (id ≠ table_id))).isEmpty then
      { cm with
        namespace_to_cdcsdk_unprocessed_table_map_ :=
          mapErase cm.namespace_to_cdcsdk_unprocessed_table_map_ ns_id }
    else
      { cm with
        namespace_to_cdcsdk_unprocessed_table_map_ :=
          mapAssign cm.namespace_to_cdcsdk_unprocessed_table_map_ ns_id
            (unprocessed_tables.filter (fun id => decide (id ≠ table_id))) }

/-- What the collaborators of `ProcessNewTablesForCDCSDKStreams` answer during one call:
`GetTableLocations` for a table (its status and, when the response is initialized, the tablets
of the table), `AlterTable` for a table, `GetSchema` for a table, and, for a table and a
stream, `InsertEntries` of the CDC state table and `Upsert` of the sys catalog. -/
structure ProcessNewTablesEnv where
  GetTableLocations : TableId → Status × Option (List TabletId) := fun _ => (Status.OK, some [])
  AlterTable : TableId → Status := fun _ => Status.OK
  GetSchema : TableId → Status := fun _ => Status.OK
  InsertEntries : TableId → StreamId → Status := fun _ _ => Status.OK
  Upsert : TableId → StreamId → Status := fun _ _ => Status.OK

/-- The rows that `ProcessNewTablesForCDCSDKStreams` inserts for a stream: one per tablet of the
table, with the checkpoint `OpId::Invalid` and the times 0. -/
def ProcessNewTablesForCDCSDKStreams.entries (stream_id : StreamId)
    (tablets : List TabletId) : List CDCStateTableEntry :=
  tablets.map (fun tablet_id =>
    { key := { tablet_id := tablet_id, stream_id := stream_id }
      checkpoint := some OpId.Invalid
      active_time := some 0
      cdc_sdk_safe_time := some 0 })

/-- The two tests of `ProcessNewTablesForCDCSDKStreams` under the write lock of a stream that
skip the stream: it is deleting, or the table is in its unqualified list. -/
def ProcessNewTablesForCDCSDKStreams.skips (pb : SysCDCStreamEntryPB) (table_id : TableId) :
    Bool :=
  pb.is_deleting ||
    (decide (pb.unqualified_table_id.length > 0) && decide (table_id ∈ pb.unqualified_table_id))

/-- The record that `ProcessNewTablesForCDCSDKStreams` stages for a stream: the table appended
to the table list and, for a slot with the replica identities enabled, the replica identity of
the table stored; the status of `FindTableById` or `GetSchema` when they fail. -/
def ProcessNewTablesForCDCSDKStreams.staged (env : ProcessNewTablesEnv) (cm : CatalogManager)
    (table_id : TableId) (with_replica_identity : Bool) (pb : SysCDCStreamEntryPB) :
    Except Status SysCDCStreamEntryPB :=
  if with_replica_identity then
    match FindTableById cm table_id with
    | Except.error status => Except.error status
    | Except.ok table =>
      match env.GetSchema table_id with
      | Status.error code msg master_error => Except.error (Status.error code msg master_error)
      | Status.OK =>
        Except.ok
          { pb with
            table_id := pb.table_id ++ [table_id]
            replica_identity_map :=
              if mapContains pb.replica_identity_map table_id then pb.replica_identity_map
              else pb.replica_identity_map ++ [(table_id, table.replica_identity)] }
  else Except.ok { pb with table_id := pb.table_id ++ [table_id] }

/-- The state after a stream has absorbed the table: the staged record written to the sys
catalog and committed, and the stream in the table-to-streams index of the table. -/
def ProcessNewTablesForCDCSDKStreams.absorbed (cm : CatalogManager) (table_id : TableId)
    (stream_id : StreamId) (pb : SysCDCStreamEntryPB) : CatalogManager :=
  { cm with
    sys_catalog_ := cm.sys_catalog_ ++ [SysCatalogWrite.UpsertStreams [(stream_id, pb)]]
    cdcsdk_tables_to_stream_map_ :=
      addToTablesToStreamMap cm.cdcsdk_tables_to_stream_map_ stream_id [table_id]
    cdc_stream_map_ := mapAssign cm.cdc_stream_map_ stream_id pb }

/-- The state after the rows of a stream are inserted, when they are (`insert_entries`). -/
def ProcessNewTablesForCDCSDKStreams.inserted (cm : CatalogManager) (insert_entries : Bool)
    (stream_id : StreamId) (tablets : List TabletId) : CatalogManager :=
  if insert_entries then
    { cm with
      cdc_state_table_ := cm.cdc_state_table_ ++
        ProcessNewTablesForCDCSDKStreams.entries stream_id tablets }
  else cm

/-- The loop of `ProcessNewTablesForCDCSDKStreams` over the streams of a table, with
`namespace_id` and `stream_pending`. The first component of the result is the status of an
early return of the function. A stream of the list is a stream of `cdc_stream_map_`; the result
is `none` for an id that is not in the map. -/
def ProcessNewTablesForCDCSDKStreams.stream_loop (env : ProcessNewTablesEnv)
    (table_id : TableId) (tablets : List TabletId) (insert_entries : Bool)
    (with_replica_identity : Bool) :
    List StreamId → CatalogManager → NamespaceId → Bool →
    Option (Option Status × CatalogManager × NamespaceId × Bool)
  | [], cm, namespace_id, stream_pending => some (none, cm, namespace_id, stream_pending)
  | stream_id :: rest, cm, namespace_id, stream_pending =>
    match mapFind cm.cdc_stream_map_ stream_id with
    | none => none
    | some pb =>
      if insert_entries ∧ env.InsertEntries table_id stream_id ≠ Status.OK then
        ProcessNewTablesForCDCSDKStreams.stream_loop env table_id tablets insert_entries
          with_replica_identity rest cm namespace_id true
      else if ProcessNewTablesForCDCSDKStreams.skips pb table_id then
        ProcessNewTablesForCDCSDKStreams.stream_loop env table_id tablets insert_entries
          with_replica_identity rest
          (ProcessNewTablesForCDCSDKStreams.inserted cm insert_entries stream_id tablets)
          namespace_id stream_pending
      else
        match ProcessNewTablesForCDCSDKStreams.staged env cm table_id with_replica_identity
            pb with
        | Except.error status =>
          some (some status,
            ProcessNewTablesForCDCSDKStreams.inserted cm insert_entries stream_id tablets,
            namespace_id, stream_pending)
        | Except.ok pb1 =>
          if env.Upsert table_id stream_id ≠ Status.OK then
            ProcessNewTablesForCDCSDKStreams.stream_loop env table_id tablets insert_entries
              with_replica_identity rest
              (ProcessNewTablesForCDCSDKStreams.inserted cm insert_entries stream_id tablets)
              namespace_id true
          else
            ProcessNewTablesForCDCSDKStreams.stream_loop env table_id tablets insert_entries
              with_replica_identity rest
              (ProcessNewTablesForCDCSDKStreams.absorbed
                (ProcessNewTablesForCDCSDKStreams.inserted cm insert_entries stream_id tablets)
                table_id stream_id pb1)
              pb1.get_namespace_id stream_pending

/-- The value of `has_replication_slot_consumption` in `ProcessNewTablesForCDCSDKStreams`: the
first stream of the table has a slot name; `none` when the list of streams is empty or its
first stream is not in `cdc_stream_map_`. -/
def ProcessNewTablesForCDCSDKStreams.has_replication_slot_consumption (cm : CatalogManager)
    (streams : List StreamId) : Option Bool :=
  match streams with
  | [] => none
  | stream_id :: _ =>
    match mapFind cm.cdc_stream_map_ stream_id with
    | none => none
    | some pb => some (decide (pb.GetCdcsdkYsqlReplicationSlotName ≠ ""))

/-- The test `s.IsNotFound()`. -/
def Status.IsNotFound : Status → Bool
  | Status.OK => false
  | Status.error code _ _ => decide (code = StatusCode.NotFound)

/-- The body of the loop of `ProcessNewTablesForCDCSDKStreams`, for one table and the streams
that miss it: the status of an early return of the function, if any, and the state after the
pass. The result is `none` when the list of streams is empty or has an id that is not in
`cdc_stream_map_`. -/
def ProcessNewTablesForCDCSDKStreams.table_pass (env : ProcessNewTablesEnv)
    (cm : CatalogManager) (table_id : TableId) (streams : List StreamId) :
    Option (Option Status × CatalogManager) :=
  if (env.GetTableLocations table_id).1 ≠ Status.OK then
    if (env.GetTableLocations table_id).1.IsNotFound then
      match streams with
      | [] => none
      | stream_id :: _ =>
        match mapFind cm.cdc_stream_map_ stream_id with
        | none => none
        | some pb =>
          some (none, RemoveTableFromCDCSDKUnprocessedMap cm table_id pb.get_namespace_id)
    else some (none, cm)
  else
    match (env.GetTableLocations table_id).2 with
    | none => some (none, cm)
    | some tablets =>
      match ProcessNewTablesForCDCSDKStreams.has_replication_slot_consumption cm streams with
      | none => none
      | some has_replication_slot_consumption =>
        if (!cm.flags.ysql_yb_enable_replication_slot_consumption ||
              !has_replication_slot_consumption) ∧
            env.AlterTable table_id ≠ Status.OK then
          some (none, cm)
        else
          match ProcessNewTablesForCDCSDKStreams.stream_loop env table_id tablets
              (!cm.flags.ysql_yb_enable_replication_slot_consumption ||
                !has_replication_slot_consumption)
              (cm.flags.ysql_yb_enable_replica_identity && has_replication_slot_consumption)
              streams cm "" false with
          | none => none
          | some (some status, cm1, _, _) => some (some status, cm1)
          | some (none, cm1, namespace_id, stream_pending) =>
            if !stream_pending then
              some (none, RemoveTableFromCDCSDKUnprocessedMap cm1 table_id namespace_id)
            else some (none, cm1)

/-- The loop of `ProcessNewTablesForCDCSDKStreams` over the tables, with the counter
`processed_tables`. -/
def ProcessNewTablesForCDCSDKStreams.loop (env : ProcessNewTablesEnv) :
    List (TableId × List StreamId) → Int → CatalogManager → Option (Status × CatalogManager)
  | [], _, cm => some (Status.OK, cm)
  | entry :: rest, processed_tables, cm =>
    if processed_tables ≥ cm.flags.cdcsdk_table_processing_limit_per_run then
      some (Status.OK, cm)
    else
      match ProcessNewTablesForCDCSDKStreams.table_pass env cm entry.1 entry.2 with
      | none => none
      | some (some status, cm1) => some (status, cm1)
      | some (none, cm1) =>
        ProcessNewTablesForCDCSDKStreams.loop env rest (processed_tables + 1) cm1

/-- The function `CatalogManager::ProcessNewTablesForCDCSDKStreams`: the status and the state
after the call; the streams of a table are their ids in `cdc_stream_map_`. -/
def ProcessNewTablesForCDCSDKStreams (env : ProcessNewTablesEnv) (cm : CatalogManager)
    (table_to_unprocessed_streams_map : List (TableId × List StreamId)) :
    Option (Status × CatalogManager) :=
  ProcessNewTablesForCDCSDKStreams.loop env table_to_unprocessed_streams_map 0 cm

/-! ### The words of the claim about the tables to process -/

/-- The CDC-state insert or the sys-catalog write of the pass fails for the stream: the rows
are to be inserted and `InsertEntries` fails, or the stream is not skipped and `Upsert`
fails. -/
def streamWriteFails (env : ProcessNewTablesEnv) (cm : CatalogManager) (table_id : TableId)
    (insert_entries : Bool) (stream_id : StreamId) : Bool :=
  (insert_entries && decide (env.InsertEntries table_id stream_id ≠ Status.OK)) ||
    (match mapFind cm.cdc_stream_map_ stream_id with
      | some pb =>
        !ProcessNewTablesForCDCSDKStreams.skips pb table_id &&
          decide (env.Upsert table_id stream_id ≠ Status.OK)
      | none => false)

/-- The stream absorbs the table in the pass: it is a stream of the namespace, it is not
skipped, its rows are inserted when they are to be, the replica identity of the table is found
when it is to be stored, and the sys-catalog write succeeds. -/
def streamAbsorbs (env : ProcessNewTablesEnv) (cm : CatalogManager) (table_id : TableId)
    (insert_entries with_replica_identity : Bool) (namespace_id : NamespaceId)
    (stream_id : StreamId) : Bool :=
  (!insert_entries || decide (env.InsertEntries table_id stream_id = Status.OK)) &&
    decide (env.Upsert table_id stream_id = Status.OK) &&
    (match mapFind cm.cdc_stream_map_ stream_id with
      | some pb =>
        !ProcessNewTablesForCDCSDKStreams.skips pb table_id &&
          decide (pb.get_namespace_id = namespace_id) &&
          (match ProcessNewTablesForCDCSDKStreams.staged env cm table_id with_replica_identity
              pb with
            | Except.ok _ => true
            | Except.error _ => false)
      | none => false)

/-! ### Sample inputs -/

/-- A stand-in for `xrepl::StreamId::FromString`, which is not part of the sources, for the
sample inputs: it reads the ids "1" to "4". -/
def sampleFromString (s : String) : Except Status StreamId :=
  match mapFind [("1", 1), ("2", 2), ("3", 3), ("4", 4)] s with
  | some id => Except.ok id
  | none => Except.error (Status.error StatusCode.InvalidArgument "Invalid stream id" none)

/-- A sample state: stream 1 is an ACTIVE xCluster stream with the record format WAL, stream 2 is
DELETING, stream 3 is an ACTIVE CDCSDK stream with the slot `slot_a`. -/
def sampleDeleteState : CatalogManager :=
  { cdc_stream_map_ :=
      [(1, { table_id := ["t1"], options := [⟨"record_format", "WAL"⟩],
             state := some SysCDCStreamEntryPB.State.ACTIVE }),
       (2, { table_id := ["t2"], state := some SysCDCStreamEntryPB.State.DELETING }),
       (3, { table_id := ["t3"], namespace_id := some "ns",
             state := some SysCDCStreamEntryPB.State.ACTIVE,
             cdcsdk_ysql_replication_slot_name := some "slot_a" })]
    cdcsdk_replication_slots_to_stream_map_ := [("slot_a", 3)]
    cdc_state_table_ := [{ key := { tablet_id := "tablet1", stream_id := 3 } }] }

/-- A sample state for listing: stream 5 is a stream of the namespace `ns1` that covers the
tables t1 and t2, stream 6 is a stream of the namespace `ns2`, which has no table. -/
def sampleListState : CatalogManager :=
  { cdc_stream_map_ :=
      [(5, { table_id := ["t1", "t2"], namespace_id := some "ns1",
             state := some SysCDCStreamEntryPB.State.ACTIVE }),
       (6, { namespace_id := some "ns2", state := some SysCDCStreamEntryPB.State.ACTIVE })]
    tables_ := [("t1", { namespace_id := "ns1" }), ("t2", { namespace_id := "ns1" })] }

/-- A sample state for the schema versions: the stream 1 of the group `group1` replicates into
the table `c1`; the registry stores current = (7, 7) and old = (3, 3) for it; the version of the
cluster config is 4. -/
def sampleSchemaState : CatalogManager :=
  { xcluster_consumer_table_stream_ids_map_ := [("c1", [("group1", 1)])]
    tables_ := [("c1", {})]
    cluster_config_ :=
      { version := 4
        consumer_registry := some
          { producer_map :=
              [("group1",
                { stream_map :=
                    [(1, { consumer_table_id := "c1"
                           schema_versions := some
                             { current_producer_schema_version := 7
                               current_consumer_schema_version := 7
                               old_producer_schema_version := 3
                               old_consumer_schema_version := 3 } })] })] } } }

/-- The stream entry of `sampleSchemaState`, as `UpdateConsumerOnProducerMetadata` locates it. -/
def sampleSchemaLocated : UpdateConsumerOnProducerMetadata.Located :=
  { stream_id := 1
    consumer_table_id := "c1"
    registry :=
      { producer_map :=
          [("group1",
            { stream_map :=
                [(1, { consumer_table_id := "c1"
                       schema_versions := some
                         { current_producer_schema_version := 7
                           current_consumer_schema_version := 7
                           old_producer_schema_version := 3
                           old_consumer_schema_version := 3 } })] })] }
    producer_entry :=
      { stream_map :=
          [(1, { consumer_table_id := "c1"
                 schema_versions := some
                   { current_producer_schema_version := 7
                     current_consumer_schema_version := 7
                     old_producer_schema_version := 3
                     old_consumer_schema_version := 3 } })] }
    stream_entry :=
      { consumer_table_id := "c1"
        schema_versions := some
          { current_producer_schema_version := 7
            current_consumer_schema_version := 7
            old_producer_schema_version := 3
            old_consumer_schema_version := 3 } } }

/-- A sample state for the slots: the PGSQL namespace `ns` with the table `t1`, no stream, and
the backfill of slot names enabled. -/
def sampleSlotState : CatalogManager :=
  { namespace_ids_map_ := [("ns", {})]
    tables_ := [("t1", { namespace_id := "ns" })]
    flags := { enable_backfilling_cdc_stream_with_replication_slot := true } }

/-- A sample request for a CDCSDK stream without a slot name (a yb-admin stream). -/
def sampleLegacyRequest : CreateCDCStreamRequestPB :=
  { namespace_id := some "ns"
    options := [⟨"record_type", "CHANGE"⟩, ⟨"id_type", "NAMESPACEID"⟩,
      ⟨"source_type", "CDCSDK"⟩] }

/-- A sample state with one slot allowed: the stream 1 of the slot `slot_a` is DELETING and the
slot index still has its name. -/
def sampleFullSlotState : CatalogManager :=
  { cdc_stream_map_ :=
      [(1, { table_id := ["t1"], namespace_id := some "ns",
             state := some SysCDCStreamEntryPB.State.DELETING,
             cdcsdk_ysql_replication_slot_name := some "slot_a" })]
    cdcsdk_tables_to_stream_map_ := [("t1", [1])]
    cdcsdk_replication_slots_to_stream_map_ := [("slot_a", 1)]
    namespace_ids_map_ := [("ns", {})]
    tables_ := [("t1", { namespace_id := "ns" })]
    flags := { max_replication_slots := 1 } }

/-- A sample state: the group `g1` with the tables t1 and t2 is INITIALIZING and has no
validated table; the group `g2` is DELETING. -/
def sampleUniverseState : CatalogManager :=
  { universe_replication_map_ :=
      [("g1", { pb := { replication_group_id := "g1", tables := ["t1", "t2"] } }),
        ("g2", { pb := { replication_group_id := "g2"
                         state := SysUniverseReplicationEntryPB.State.DELETING } })] }

/-- Sample validation callbacks: table t1, table t1 again, table t2, and a table t3. -/
def sampleCallbacks : List ValidationCallback :=
  [{ producer_table := "t1", consumer_table := "c1" },
    { producer_table := "t1", consumer_table := "c1" },
    { producer_table := "t2", consumer_table := "c2" },
    { producer_table := "t3", consumer_table := "c3" }]

/-- A sample state for the merge: the group `g1` (table t1, stream s1) and its shadow group
`g1.ALTER` (table t2, stream s2), each with an entry in the consumer registry. -/
def sampleMergeState : CatalogManager :=
  { universe_replication_map_ :=
      [("g1", { pb := { replication_group_id := "g1", tables := ["t1"]
                        state := SysUniverseReplicationEntryPB.State.ACTIVE
                        validated_tables := [("t1", "c1")], table_streams := [("t1", "s1")] } }),
        ("g1.ALTER", { pb := { replication_group_id := "g1.ALTER", tables := ["t2"]
                               state := SysUniverseReplicationEntryPB.State.ACTIVE
                               validated_tables := [("t2", "c2")]
                               table_streams := [("t2", "s2")] } })]
    cluster_config_ :=
      { version := 4
        consumer_registry := some
          { producer_map :=
              [("g1", { stream_map := [(1, { consumer_table_id := "c1" })] }),
                ("g1.ALTER", { stream_map := [(2, { consumer_table_id := "c2" })] })] } } }

/-- The sample state for the merge, with a consumer registry that has an entry for the shadow
group `g1.ALTER` and none for the group `g1`. -/
def sampleMergeStateShadowOnly : CatalogManager :=
  { sampleMergeState with
    cluster_config_ :=
      { version := 4
        consumer_registry := some
          { producer_map :=
              [("g1.ALTER", { stream_map := [(2, { consumer_table_id := "c2" })] })] } } }

/-- A sample alter request: it has the field of the namespace to remove, set to the empty
string, and one table to remove. -/
def sampleAlterRequest : AlterUniverseReplicationRequestPB :=
  { replication_group_id := some "g1"
    producer_namespace_id_to_remove := some ""
    producer_table_ids_to_remove := ["t1"] }

/-- A sample state for the backfill of a slot name: the backfill is enabled; the streams 1 and 2
are CDCSDK streams of the PGSQL namespace `ns` without a slot name; stream 1 has the option
`record_type`, stream 2 has no option. -/
def sampleBackfillState : CatalogManager :=
  { flags := { enable_backfilling_cdc_stream_with_replication_slot := true }
    namespace_ids_map_ := [("ns", {})]
    cdc_stream_map_ :=
      [(1, { table_id := ["t1"], namespace_id := some "ns"
             options := [⟨"record_type", "CHANGE"⟩] }),
        (2, { table_id := ["t1"], namespace_id := some "ns" })] }

/-- A sample split: the tablet `p` splits into `c1` and `c2`. -/
def sampleSplit : SplitTabletIds :=
  { source := "p", children := ("c1", "c2") }

/-- A sample state for a tablet split: the user table t1 is covered by the xCluster stream 1
and by the CDCSDK stream 3 (of the namespace `ns`, not a consistent snapshot stream); the row of
the parent tablet `p` for stream 3 has the active time 100 and the safe time 200. -/
def sampleSplitState : CatalogManager :=
  { cdc_stream_map_ :=
      [(1, { table_id := ["t1"] }),
        (3, { table_id := ["t1"], namespace_id := some "ns" })]
    tables_ := [("t1", { namespace_id := "ns" })]
    cdc_state_table_ :=
      [{ key := { tablet_id := "p", stream_id := 1 }, checkpoint := some (2, 7) },
        { key := { tablet_id := "p", stream_id := 3 }, checkpoint := some (2, 7)
          active_time := some 100, cdc_sdk_safe_time := some 200 }] }

/-- The sample state for a tablet split, with t1 an index instead of a user table. -/
def sampleSplitIndexState : CatalogManager :=
  { sampleSplitState with
    tables_ := [("t1", { namespace_id := "ns", is_user_table := false, is_user_index := true })] }

/-- A sample state for a tablet split with a consistent snapshot stream: the user table t1 is
covered by the CDCSDK stream 4, which has the snapshot metadata; the row of the parent tablet
`p` for stream 4 has the active time 100 and the safe time 200. -/
def sampleSplitSnapshotState : CatalogManager :=
  { cdc_stream_map_ :=
      [(4, { table_id := ["t1"], namespace_id := some "ns"
             cdcsdk_stream_metadata := some
               { snapshot_time := some 50
                 consistent_snapshot_option := some CDCSDKSnapshotOption.USE_SNAPSHOT } })]
    tables_ := [("t1", { namespace_id := "ns" })]
    cdc_state_table_ :=
      [{ key := { tablet_id := "p", stream_id := 4 }, checkpoint := some (2, 7)
         active_time := some 100, cdc_sdk_safe_time := some 200 }] }

/-- A sample request for a stream with the slot `slot_a`. -/
def sampleSlotRequest : CreateCDCStreamRequestPB :=
  { cdcsdk_ysql_replication_slot_name := some "slot_a" }

/-- A sample state in which the sys catalog refuses every write: the namespace `ns` with the
table t1, no stream. -/
def sampleFailingSysCatalogState : CatalogManager :=
  { namespace_ids_map_ := [("ns", {})]
    tables_ := [("t1", { namespace_id := "ns" })]
    sys_catalog_status := Status.error StatusCode.IllegalState "Node is not the leader" none }

/-- A sample bootstrap that failed in RESTORE_SNAPSHOT: the bootstrap streams 1 and 2, the
producer snapshot 5, the consumer snapshot 8 and the imported objects. -/
def sampleFailedBootstrap : CleanupFailedReplicationBootstrapInfo :=
  { state := SysUniverseReplicationBootstrapEntryPB.State.RESTORE_SNAPSHOT
    bootstrap_ids := [1, 2]
    old_snapshot_id := 5
    new_snapshot_id := 8
    namespace_map := ["ns"]
    type_map := ["ty"]
    tables_data := ["t1"] }

/-- A sample state for the cleanup of deleted streams: stream 1 is an ACTIVE xCluster stream,
stream 2 a DELETING xCluster stream, stream 4 a DELETING CDCSDK stream of the namespace `ns`;
each has a row in the CDC state table. -/
def sampleCleanupState : CatalogManager :=
  { cdc_stream_map_ :=
      [(1, { table_id := ["t1"], state := some SysCDCStreamEntryPB.State.ACTIVE }),
       (2, { table_id := ["t2"], state := some SysCDCStreamEntryPB.State.DELETING }),
       (4, { table_id := ["t4"], namespace_id := some "ns",
             state := some SysCDCStreamEntryPB.State.DELETING })]
    cdcsdk_tables_to_stream_map_ := [("t4", [4])]
    xrepl_stream_ids_in_use_ := [1, 2, 4]
    cdc_state_table_ :=
      [{ key := { tablet_id := "tablet1", stream_id := 1 }, checkpoint := some (3, 7) },
       { key := { tablet_id := "tablet2", stream_id := 2 }, checkpoint := some (1, 1) },
       { key := { tablet_id := "tablet4", stream_id := 4 }, checkpoint := some (2, 5) }] }

/-- A sample state with two hidden tablets of the table t: the tablet `p`, and its child `c1`,
which has split in turn. Stream 5 covers the table; its row for `p` has the checkpoint
`OpId::Invalid`, and it has no row for `c1`. -/
def sampleHiddenState : CatalogManager :=
  { cdcsdk_tables_to_stream_map_ := [("t", [5])]
    retained_by_cdcsdk_ :=
      [("p", { table_id_ := "t", split_tablets_ := ("c1", "c2") }),
       ("c1", { table_id_ := "t", parent_tablet_id_ := "p", split_tablets_ := ("g1", "g2") })]
    cdc_state_table_ :=
      [{ key := { tablet_id := "p", stream_id := 5 }, checkpoint := some OpId.Invalid }] }

/-- A sample state for the load of the streams: the namespace `ns` with the table t1, no stream
loaded yet. -/
def sampleLoadState : CatalogManager :=
  { namespace_ids_map_ := [("ns", {})]
    tables_ := [("t1", { namespace_id := "ns" })] }

/-- A sample state for the tables to process: the streams 1 and 2 of the namespace `ns` cover
the table t1; the table t2 of the namespace is in its unprocessed set. -/
def sampleNewTableState : CatalogManager :=
  { namespace_ids_map_ := [("ns", {})]
    tables_ := [("t1", { namespace_id := "ns" }), ("t2", { namespace_id := "ns" })]
    cdc_stream_map_ :=
      [(1, { table_id := ["t1"], namespace_id := some "ns",
             state := some SysCDCStreamEntryPB.State.ACTIVE }),
       (2, { table_id := ["t1"], namespace_id := some "ns",
             state := some SysCDCStreamEntryPB.State.ACTIVE })]
    cdcsdk_tables_to_stream_map_ := [("t1", [1, 2])]
    namespace_to_cdcsdk_unprocessed_table_map_ := [("ns", ["t2"])] }

/-- Sample collaborators: every table has the one tablet `tablet9`, and every call succeeds. -/
def sampleNewTableEnv : ProcessNewTablesEnv :=
  { GetTableLocations := fun _ => (Status.OK, some ["tablet9"]) }

/-- Sample collaborators: as `sampleNewTableEnv`, but the sys catalog refuses the write of
stream 2. -/
def sampleNewTableFailingEnv : ProcessNewTablesEnv :=
  { GetTableLocations := fun _ => (Status.OK, some ["tablet9"])
    Upsert := fun _ stream_id =>
      if stream_id = 2 then Status.error StatusCode.IllegalState "Node is not the leader" none
      else Status.OK }

/-- A sample state in which stream 7, a new stream of the namespace `ns` over the table t1 with
the slot `slot_a`, has been added to the maps (its record is staged and not committed) and the
sys catalog refuses every write. -/
def sampleAddedToMapsState : CatalogManager :=
  { namespace_ids_map_ := [("ns", {})]
    tables_ := [("t1", { namespace_id := "ns" })]
    cdc_stream_map_ :=
      [(7, { table_id := ["t1"], namespace_id := some "ns",
             cdcsdk_ysql_replication_slot_name := some "slot_a" })]
    cdcsdk_tables_to_stream_map_ := [("t1", [7])]
    cdcsdk_replication_slots_to_stream_map_ := [("slot_a", 7)]
    xrepl_stream_ids_in_use_ := [7]
    sys_catalog_status := Status.error StatusCode.IllegalState "Node is not the leader" none }

/-! ## Theorems -/

theorem ReplicationSlotValidateName_loop_ok (l : List Char) :
    ReplicationSlotValidateName.loop l = Status.OK ↔ ∀ c ∈ l, slotNameCharOk c = true := by
  induction l with
  | nil => simp [ReplicationSlotValidateName.loop]
  | cons c rest ih =>
    by_cases hc : slotNameCharOk c = true
    · simp [ReplicationSlotValidateName.loop, hc, ih]
    · simp [ReplicationSlotValidateName.loop, hc, RETURN_INVALID_REQUEST_STATUS]

theorem ReplicationSlotValidateName_loop_error (l : List Char) :
    ReplicationSlotValidateName.loop l = Status.OK ∨
      ∃ msg, ReplicationSlotValidateName.loop l =
        Status.error StatusCode.InvalidArgument msg (some MasterErrorPB.INVALID_REQUEST) := by
  induction l with
  | nil => simp [ReplicationSlotValidateName.loop]
  | cons c rest ih =>
    by_cases hc : slotNameCharOk c = true
    · simpa [ReplicationSlotValidateName.loop, hc] using ih
    · right
      simp only [ReplicationSlotValidateName.loop, hc, Bool.not_false, if_true]
      exact ⟨_, rfl⟩

theorem slotNameCharOk_iff (c : Char) :
    slotNameCharOk c = true ↔ (('a' ≤ c ∧ c ≤ 'z') ∨ ('0' ≤ c ∧ c ≤ '9') ∨ c = '_') := by
  simp [slotNameCharOk, or_assoc]

/-- C1: `ReplicationSlotValidateName` returns OK exactly for the names that are non-empty, have
fewer than 64 characters and consist of the characters a-z, 0-9 and underscore only; for every
other name it returns an InvalidArgument status carrying the INVALID_REQUEST code. -/
theorem ReplicationSlotValidateName_spec (name : String) :
    (ReplicationSlotValidateName name = Status.OK ↔
      (name ≠ "" ∧ name.length < 64 ∧
        ∀ c ∈ name.data, ('a' ≤ c ∧ c ≤ 'z') ∨ ('0' ≤ c ∧ c ≤ '9') ∨ c = '_')) ∧
    (ReplicationSlotValidateName name ≠ Status.OK →
      ∃ msg, ReplicationSlotValidateName name =
        Status.error StatusCode.InvalidArgument msg (some MasterErrorPB.INVALID_REQUEST)) := by
  have hne : name ≠ "" ↔ name.data ≠ [] := by
    constructor
    · intro h hd
      apply h
      cases name
      simp_all
    · intro h hn
      apply h
      simp [hn]
  constructor
  · unfold ReplicationSlotValidateName
    by_cases h1 : name.data = []
    · simp [h1, RETURN_INVALID_REQUEST_STATUS, hne]
    · by_cases h2 : name.length ≥ 64
      · have h2' : ¬ name.length < 64 := by omega
        simp [h1, h2, h2', RETURN_INVALID_REQUEST_STATUS]
      · have h2' : name.length < 64 := by omega
        simp only [List.isEmpty_iff, h1, if_false, h2, ReplicationSlotValidateName_loop_ok,
          hne, ne_eq, not_false_eq_true, true_and, h2', slotNameCharOk_iff]
  · intro hnot
    unfold ReplicationSlotValidateName at hnot ⊢
    by_cases h1 : name.data = []
    · simp only [h1, List.isEmpty_nil, if_true]
      exact ⟨_, rfl⟩
    · by_cases h2 : name.length ≥ 64
      · simp only [List.isEmpty_iff, h1, if_false, h2, if_true]
        exact ⟨_, rfl⟩
      · simp only [List.isEmpty_iff, h1, if_false, h2] at hnot ⊢
        rcases ReplicationSlotValidateName_loop_error name.data with h | h
        · exact absurd h hnot
        · exact h

/-! ### Deleting streams -/

theorem GetStreamIfValidForDelete_loop_eq (options : List CDCStreamOptionsPB) :
    GetStreamIfValidForDelete.loop options =
      if recordFormat options = some "WAL" then some GetStreamIfValidForDelete.not_supported
      else none := by
  induction options with
  | nil => simp [GetStreamIfValidForDelete.loop, recordFormat]
  | cons o rest ih =>
    by_cases hk : o.key = "record_format"
    · by_cases hv : o.value = "WAL"
      · simp [GetStreamIfValidForDelete.loop, recordFormat, hk, hv]
      · simp [GetStreamIfValidForDelete.loop, recordFormat, hk, hv]
    · simp only [GetStreamIfValidForDelete.loop, hk, if_false, ih]
      simp [recordFormat, hk]

theorem started_deleting_of_active (pb : SysCDCStreamEntryPB)
    (h : pb.get_state = SysCDCStreamEntryPB.State.ACTIVE) : pb.started_deleting = false := by
  simp [SysCDCStreamEntryPB.started_deleting, h]

theorem GetStreamIfValidForDelete_of_not_blocked (cm : CatalogManager) (id : StreamId)
    (force_delete : Bool) (h : force_delete = true ∨ activeWalStream cm id = false) :
    GetStreamIfValidForDelete cm id force_delete =
      Except.ok (if liveStream cm id then some id else none) := by
  unfold GetStreamIfValidForDelete liveStream
  unfold activeWalStream at h
  cases hf : mapFind cm.cdc_stream_map_ id with
  | none => simp
  | some pb =>
    rw [hf] at h
    by_cases hd : pb.started_deleting = true
    · simp [hd]
    · simp only [hd, if_false, Bool.not_false, if_true, Bool.false_eq_true]
      rcases h with h | h
      · simp [h]
      · by_cases ha : pb.get_state = SysCDCStreamEntryPB.State.ACTIVE
        · simp only [ha, decide_True, Bool.true_and, decide_eq_false_iff_not] at h
          simp [GetStreamIfValidForDelete_loop_eq, h]
        · simp [ha]

theorem GetStreamIfValidForDelete_of_blocked (cm : CatalogManager) (id : StreamId)
    (h : activeWalStream cm id = true) :
    GetStreamIfValidForDelete cm id false =
      Except.error GetStreamIfValidForDelete.not_supported := by
  unfold GetStreamIfValidForDelete
  unfold activeWalStream at h
  cases hf : mapFind cm.cdc_stream_map_ id with
  | none => simp [hf] at h
  | some pb =>
    rw [hf] at h
    simp only [Bool.and_eq_true, decide_eq_true_eq] at h
    simp [started_deleting_of_active pb h.1, h.1, GetStreamIfValidForDelete_loop_eq, h.2]

theorem DeleteCDCStream_ids_loop_eq (FromString : String → Except Status StreamId)
    (cm : CatalogManager) (force_delete : Bool) (l : List String) :
    ∀ (streams : List StreamId) (resp : DeleteCDCStreamResponsePB),
    (∀ s ∈ l, ∃ id, FromString s = Except.ok id) →
    (force_delete = true ∨
      ∀ s ∈ l, ∀ id, FromString s = Except.ok id → activeWalStream cm id = false) →
    DeleteCDCStream.ids_loop FromString cm force_delete l streams resp =
      (none, streams ++ idsFound FromString cm l,
        { resp with
          not_found_stream_ids :=
            resp.not_found_stream_ids ++ l.filter (idMissing FromString cm) }) := by
  induction l with
  | nil =>
    intro streams resp _ _
    simp [DeleteCDCStream.ids_loop, idsFound]
  | cons s rest ih =>
    intro streams resp hparse hnb
    obtain ⟨id, hid⟩ := hparse s (List.mem_cons_self _ _)
    have hparse1 : ∀ t ∈ rest, ∃ id, FromString t = Except.ok id :=
      fun t ht => hparse t (List.mem_cons_of_mem _ ht)
    have hnb1 : force_delete = true ∨
        ∀ t ∈ rest, ∀ id, FromString t = Except.ok id → activeWalStream cm id = false := by
      rcases hnb with h | h
      · exact Or.inl h
      · exact Or.inr (fun t ht => h t (List.mem_cons_of_mem _ ht))
    have hget := GetStreamIfValidForDelete_of_not_blocked cm id force_delete
      (hnb.imp (fun h => h) (fun h => h s (List.mem_cons_self _ _) id hid))
    by_cases hl : liveStream cm id = true
    · simp only [DeleteCDCStream.ids_loop, hid, hget, hl, if_true]
      rw [ih _ _ hparse1 hnb1]
      simp [idsFound, idMissing, hid, hl]
    · simp only [DeleteCDCStream.ids_loop, hid, hget, hl, if_false, Bool.false_eq_true]
      rw [ih _ _ hparse1 hnb1]
      simp [idsFound, idMissing, hid, hl]

theorem DeleteCDCStream_slots_loop_eq (cm : CatalogManager) (force_delete : Bool)
    (hnil : mapFind cm.cdc_stream_map_ StreamId.Nil = none) (l : List String) :
    ∀ (streams : List StreamId) (resp : DeleteCDCStreamResponsePB),
    (force_delete = true ∨
      ∀ n ∈ l, ∀ id, mapFind cm.cdcsdk_replication_slots_to_stream_map_ n = some id →
        activeWalStream cm id = false) →
    DeleteCDCStream.slots_loop cm force_delete l streams resp =
      (none, streams ++ slotsFound cm l,
        { resp with
          not_found_cdcsdk_ysql_replication_slot_names :=
            resp.not_found_cdcsdk_ysql_replication_slot_names ++ l.filter (slotMissing cm) }) := by
  have hnil_live : liveStream cm StreamId.Nil = false := by simp [liveStream, hnil]
  have hnil_wal : activeWalStream cm StreamId.Nil = false := by simp [activeWalStream, hnil]
  induction l with
  | nil =>
    intro streams resp _
    simp [DeleteCDCStream.slots_loop, slotsFound]
  | cons n rest ih =>
    intro streams resp hnb
    have hnb1 : force_delete = true ∨
        ∀ t ∈ rest, ∀ id, mapFind cm.cdcsdk_replication_slots_to_stream_map_ t = some id →
          activeWalStream cm id = false := by
      rcases hnb with h | h
      · exact Or.inl h
      · exact Or.inr (fun t ht => h t (List.mem_cons_of_mem _ ht))
    cases hf : mapFind cm.cdcsdk_replication_slots_to_stream_map_ n with
    | none =>
      have hget := GetStreamIfValidForDelete_of_not_blocked cm StreamId.Nil force_delete
        (Or.inr hnil_wal)
      simp only [DeleteCDCStream.slots_loop, hf, hget, hnil_live, if_false, Bool.false_eq_true]
      rw [ih _ _ hnb1]
      simp [slotsFound, slotMissing, hf]
    | some id =>
      have hget := GetStreamIfValidForDelete_of_not_blocked cm id force_delete
        (hnb.imp (fun h => h) (fun h => h n (List.mem_cons_self _ _) id hf))
      by_cases hl : liveStream cm id = true
      · simp only [DeleteCDCStream.slots_loop, hf, hget, hl, if_true]
        rw [ih _ _ hnb1]
        simp [slotsFound, slotMissing, hf, hl]
      · simp only [DeleteCDCStream.slots_loop, hf, hget, hl, if_false, Bool.false_eq_true]
        rw [ih _ _ hnb1]
        simp [slotsFound, slotMissing, hf, hl]

theorem DropXReplStreams_commit_eq (streams : List StreamId)
    (m : List (StreamId × SysCDCStreamEntryPB)) :
    DropXReplStreams.commit SysCDCStreamEntryPB.State.DELETING streams m =
      markDeleting streams m := rfl

theorem markDeleting_nil (m : List (StreamId × SysCDCStreamEntryPB)) : markDeleting [] m = m := by
  simp [markDeleting]

theorem DropXReplStreams_deleting_ok (cm : CatalogManager) (streams : List StreamId)
    (hok : cm.sys_catalog_status = Status.OK) (hnodup : streams.Nodup) :
    ∃ cm1, DropXReplStreams cm streams SysCDCStreamEntryPB.State.DELETING =
        some (Status.OK, cm1) ∧
      cm1.cdc_stream_map_ = markDeleting streams cm.cdc_stream_map_ ∧
      cm1 = { cm with cdc_stream_map_ := cm1.cdc_stream_map_, sys_catalog_ := cm1.sys_catalog_ } := by
  unfold DropXReplStreams
  by_cases he : streams = []
  · subst he
    exact ⟨cm, by simp, by simp [markDeleting_nil], rfl⟩
  · refine ⟨{ cm with
        cdc_stream_map_ :=
          DropXReplStreams.commit SysCDCStreamEntryPB.State.DELETING streams cm.cdc_stream_map_
        sys_catalog_ := cm.sys_catalog_ ++ [SysCatalogWrite.UpsertStreams
          (DropXReplStreams.staged cm SysCDCStreamEntryPB.State.DELETING streams)] },
      ?_, rfl, rfl⟩
    simp [he, hok, hnodup]

theorem DropXReplStreams_deleting_none (cm : CatalogManager) (streams : List StreamId) :
    DropXReplStreams cm streams SysCDCStreamEntryPB.State.DELETING = none ↔ ¬ streams.Nodup := by
  unfold DropXReplStreams
  by_cases he : streams = []
  · subst he
    simp
  · by_cases hn : streams.Nodup
    · cases hs : cm.sys_catalog_status <;> simp [he, hn]
    · simp [he, hn]

theorem filter_ne_nil_iff {α : Type} (p : α → Bool) (l : List α) :
    l.filter p ≠ [] ↔ ∃ a ∈ l, p a = true := by
  simp [List.filter_eq_nil_iff]

theorem DeleteCDCStream_eq (FromString : String → Except Status StreamId) (cm : CatalogManager)
    (req : DeleteCDCStreamRequestPB)
    (hreq : req.stream_id ≠ [] ∨ req.cdcsdk_ysql_replication_slot_name ≠ [])
    (hparse : ∀ s ∈ req.stream_id, ∃ id, FromString s = Except.ok id)
    (hnil : mapFind cm.cdc_stream_map_ StreamId.Nil = none)
    (hnb : req.force_delete = true ∨
      ((∀ s ∈ req.stream_id, ∀ id, FromString s = Except.ok id →
          activeWalStream cm id = false) ∧
        (∀ n ∈ req.cdcsdk_ysql_replication_slot_name, ∀ id,
          mapFind cm.cdcsdk_replication_slots_to_stream_map_ n = some id →
            activeWalStream cm id = false))) :
    DeleteCDCStream FromString cm req =
      let resp : DeleteCDCStreamResponsePB :=
        { not_found_stream_ids := req.stream_id.filter (idMissing FromString cm)
          not_found_cdcsdk_ysql_replication_slot_names :=
            req.cdcsdk_ysql_replication_slot_name.filter (slotMissing cm) }
      if ((∃ s ∈ req.stream_id, idMissing FromString cm s = true) ∨
          (∃ n ∈ req.cdcsdk_ysql_replication_slot_name, slotMissing cm n = true)) ∧
          req.ignore_errors = false then
        some (Status.error StatusCode.NotFound (DeleteCDCStream.missing_message resp)
          (some MasterErrorPB.OBJECT_NOT_FOUND), resp, cm)
      else
        (DropXReplStreams cm
            (idsFound FromString cm req.stream_id ++
              slotsFound cm req.cdcsdk_ysql_replication_slot_name)
            SysCDCStreamEntryPB.State.DELETING).map (fun r => (r.1, resp, r.2)) := by
  have h0 : ¬ (req.stream_id.length = 0 ∧ req.cdcsdk_ysql_replication_slot_name.length = 0) := by
    simp only [List.length_eq_zero]
    tauto
  have h1 := DeleteCDCStream_ids_loop_eq FromString cm req.force_delete req.stream_id [] {}
    hparse (hnb.imp (fun h => h) (fun h => h.1))
  have h2 := DeleteCDCStream_slots_loop_eq cm req.force_delete hnil
    req.cdcsdk_ysql_replication_slot_name (idsFound FromString cm req.stream_id)
    { not_found_stream_ids := req.stream_id.filter (idMissing FromString cm) }
    (hnb.imp (fun h => h) (fun h => h.2))
  simp only [List.nil_append] at h1 h2
  unfold DeleteCDCStream
  simp only [h0, if_false, h1, h2]
  by_cases hm : ((∃ s ∈ req.stream_id, idMissing FromString cm s = true) ∨
      (∃ n ∈ req.cdcsdk_ysql_replication_slot_name, slotMissing cm n = true)) ∧
      req.ignore_errors = false
  · have hc : ((!(req.stream_id.filter (idMissing FromString cm)).isEmpty ||
        !(req.cdcsdk_ysql_replication_slot_name.filter (slotMissing cm)).isEmpty) &&
        !req.ignore_errors) = true := by
      simp only [Bool.and_eq_true, Bool.or_eq_true, Bool.not_eq_true', List.isEmpty_eq_false,
        filter_ne_nil_iff]
      exact hm
    simp only [hc, if_true]
    rw [if_pos hm]
  · have hc : ¬ ((!(req.stream_id.filter (idMissing FromString cm)).isEmpty ||
        !(req.cdcsdk_ysql_replication_slot_name.filter (slotMissing cm)).isEmpty) &&
        !req.ignore_errors) = true := by
      simp only [Bool.and_eq_true, Bool.or_eq_true, Bool.not_eq_true', List.isEmpty_eq_false,
        filter_ne_nil_iff]
      exact hm
    simp only [hc, if_false, Bool.false_eq_true]
    rw [if_neg hm]

theorem GetStreamIfValidForDelete_cases (cm : CatalogManager) (id : StreamId) :
    GetStreamIfValidForDelete cm id false =
        Except.error GetStreamIfValidForDelete.not_supported ∨
      ∃ r, GetStreamIfValidForDelete cm id false = Except.ok r := by
  by_cases h : activeWalStream cm id = true
  · exact Or.inl (GetStreamIfValidForDelete_of_blocked cm id h)
  · exact Or.inr ⟨_, GetStreamIfValidForDelete_of_not_blocked cm id false
      (Or.inr (by simpa using h))⟩

theorem DeleteCDCStream_ids_loop_cases (FromString : String → Except Status StreamId)
    (cm : CatalogManager) (l : List String) :
    ∀ (streams : List StreamId) (resp : DeleteCDCStreamResponsePB),
    (∀ s ∈ l, ∃ id, FromString s = Except.ok id) →
    (∃ st rs, DeleteCDCStream.ids_loop FromString cm false l streams resp =
        (some GetStreamIfValidForDelete.not_supported, st, rs)) ∨
      ((∀ s ∈ l, ∀ id, FromString s = Except.ok id → activeWalStream cm id = false) ∧
        ∃ st rs, DeleteCDCStream.ids_loop FromString cm false l streams resp = (none, st, rs)) := by
  induction l with
  | nil =>
    intro streams resp _
    exact Or.inr ⟨by simp, _, _, rfl⟩
  | cons s rest ih =>
    intro streams resp hparse
    obtain ⟨id, hid⟩ := hparse s (List.mem_cons_self _ _)
    have hparse1 : ∀ t ∈ rest, ∃ id, FromString t = Except.ok id :=
      fun t ht => hparse t (List.mem_cons_of_mem _ ht)
    by_cases hb : activeWalStream cm id = true
    · left
      simp only [DeleteCDCStream.ids_loop, hid, GetStreamIfValidForDelete_of_blocked cm id hb]
      exact ⟨_, _, rfl⟩
    · have hb1 : activeWalStream cm id = false := by simpa using hb
      have hget := GetStreamIfValidForDelete_of_not_blocked cm id false (Or.inr hb1)
      have key : ∀ st rs,
          (∃ st1 rs1, DeleteCDCStream.ids_loop FromString cm false rest st rs =
            (some GetStreamIfValidForDelete.not_supported, st1, rs1)) ∨
          ((∀ t ∈ s :: rest, ∀ id, FromString t = Except.ok id →
              activeWalStream cm id = false) ∧
            ∃ st1 rs1, DeleteCDCStream.ids_loop FromString cm false rest st rs =
              (none, st1, rs1)) := by
        intro st rs
        rcases ih st rs hparse1 with h | ⟨h1, h2⟩
        · exact Or.inl h
        · refine Or.inr ⟨?_, h2⟩
          intro t ht i hi
          rcases List.mem_cons.mp ht with rfl | ht1
          · rw [hid] at hi
            cases hi
            exact hb1
          · exact h1 t ht1 i hi
      by_cases hl : liveStream cm id = true
      · simp only [DeleteCDCStream.ids_loop, hid, hget, hl, if_true]
        exact key _ _
      · simp only [DeleteCDCStream.ids_loop, hid, hget, hl, if_false, Bool.false_eq_true]
        exact key _ _

theorem DeleteCDCStream_slots_loop_blocked (cm : CatalogManager) (id : StreamId)
    (hwal : activeWalStream cm id = true) (l : List String) :
    ∀ (streams : List StreamId) (resp : DeleteCDCStreamResponsePB),
    (∃ n ∈ l, mapFind cm.cdcsdk_replication_slots_to_stream_map_ n = some id) →
    ∃ st rs, DeleteCDCStream.slots_loop cm false l streams resp =
      (some GetStreamIfValidForDelete.not_supported, st, rs) := by
  induction l with
  | nil =>
    intro _ _ h
    simp at h
  | cons n rest ih =>
    intro streams resp h
    obtain ⟨m, hm, hf⟩ := h
    simp only [DeleteCDCStream.slots_loop]
    rcases GetStreamIfValidForDelete_cases cm
      (match mapFind cm.cdcsdk_replication_slots_to_stream_map_ n with
        | some id => id
        | none => StreamId.Nil) with hg | ⟨r, hg⟩
    · rw [hg]
      exact ⟨_, _, rfl⟩
    · have hrest : ∃ k ∈ rest, mapFind cm.cdcsdk_replication_slots_to_stream_map_ k = some id := by
        rcases List.mem_cons.mp hm with rfl | hm1
        · exfalso
          rw [hf] at hg
          rw [GetStreamIfValidForDelete_of_blocked cm id hwal] at hg
          cases hg
        · exact ⟨m, hm1, hf⟩
      rw [hg]
      cases r with
      | none => exact ih _ _ hrest
      | some stream => exact ih _ _ hrest

theorem mapFind_map_value {K V : Type} [DecidableEq K] (f : K → V → V) (m : List (K × V))
    (k : K) : mapFind (m.map (fun e => (e.1, f e.1 e.2))) k = (mapFind m k).map (f k) := by
  induction m with
  | nil => simp [mapFind]
  | cons e rest ih =>
    obtain ⟨k1, v⟩ := e
    by_cases hk : k1 = k
    · subst hk
      simp [mapFind]
    · simp [mapFind, hk, ih]

theorem mapFind_markDeleting (found : List StreamId) (m : List (StreamId × SysCDCStreamEntryPB))
    (id : StreamId) (hid : id ∈ found) (pb : SysCDCStreamEntryPB)
    (h : mapFind m id = some pb) :
    mapFind (markDeleting found m) id =
      some (pb.set_state SysCDCStreamEntryPB.State.DELETING) := by
  have h1 := mapFind_map_value (fun k v =>
    if k ∈ found then SysCDCStreamEntryPB.set_state v SysCDCStreamEntryPB.State.DELETING else v)
    m id
  rw [show markDeleting found m = m.map (fun e => (e.1, (fun k v =>
    if k ∈ found then SysCDCStreamEntryPB.set_state v SysCDCStreamEntryPB.State.DELETING else v)
    e.1 e.2)) from rfl, h1]
  simp [h, hid]

/-- The batch semantics of `DeleteCDCStream` for a request that names at least one stream, by ids
that `StreamId::FromString` reads and by slot names, none of them stopped by the force-delete
check (the nil id being no stream of the map). If a requested id or slot name has no live stream
and `ignore_errors` is false, the call returns NotFound (OBJECT_NOT_FOUND) and the state is the
one before the call. Otherwise, when the request names no live stream twice and the sys catalog
accepts the write, the call returns OK, the response lists exactly the missing ids and slot
names, the stream map is the one before the call with the state of exactly the found streams set
to DELETING, the CDC state table is untouched, and nothing but the stream map and the sys catalog
has changed; and when the request names a live stream twice, the call does not return. -/
theorem DeleteCDCStream_batch_of_nodup (FromString : String → Except Status StreamId)
    (cm : CatalogManager) (req : DeleteCDCStreamRequestPB)
    (hreq : req.stream_id ≠ [] ∨ req.cdcsdk_ysql_replication_slot_name ≠ [])
    (hparse : ∀ s ∈ req.stream_id, ∃ id, FromString s = Except.ok id)
    (hnil : mapFind cm.cdc_stream_map_ StreamId.Nil = none)
    (hnb : req.force_delete = true ∨
      ((∀ s ∈ req.stream_id, ∀ id, FromString s = Except.ok id →
          activeWalStream cm id = false) ∧
        (∀ n ∈ req.cdcsdk_ysql_replication_slot_name, ∀ id,
          mapFind cm.cdcsdk_replication_slots_to_stream_map_ n = some id →
            activeWalStream cm id = false))) :
    ((((∃ s ∈ req.stream_id, idMissing FromString cm s = true) ∨
          (∃ n ∈ req.cdcsdk_ysql_replication_slot_name, slotMissing cm n = true)) ∧
        req.ignore_errors = false) →
      ∃ msg, DeleteCDCStream FromString cm req =
        some (Status.error StatusCode.NotFound msg (some MasterErrorPB.OBJECT_NOT_FOUND),
          { not_found_stream_ids := req.stream_id.filter (idMissing FromString cm)
            not_found_cdcsdk_ysql_replication_slot_names :=
              req.cdcsdk_ysql_replication_slot_name.filter (slotMissing cm) }, cm)) ∧
    (¬ (((∃ s ∈ req.stream_id, idMissing FromString cm s = true) ∨
          (∃ n ∈ req.cdcsdk_ysql_replication_slot_name, slotMissing cm n = true)) ∧
        req.ignore_errors = false) →
      (idsFound FromString cm req.stream_id ++
        slotsFound cm req.cdcsdk_ysql_replication_slot_name).Nodup →
      cm.sys_catalog_status = Status.OK →
      ∃ cm1, DeleteCDCStream FromString cm req =
          some (Status.OK,
            { not_found_stream_ids := req.stream_id.filter (idMissing FromString cm)
              not_found_cdcsdk_ysql_replication_slot_names :=
                req.cdcsdk_ysql_replication_slot_name.filter (slotMissing cm) }, cm1) ∧
        cm1.cdc_stream_map_ =
          markDeleting (idsFound FromString cm req.stream_id ++
            slotsFound cm req.cdcsdk_ysql_replication_slot_name) cm.cdc_stream_map_ ∧
        cm1.cdc_state_table_ = cm.cdc_state_table_ ∧
        cm1 = { cm with
          cdc_stream_map_ := cm1.cdc_stream_map_
          sys_catalog_ := cm1.sys_catalog_ }) ∧
    (¬ (((∃ s ∈ req.stream_id, idMissing FromString cm s = true) ∨
          (∃ n ∈ req.cdcsdk_ysql_replication_slot_name, slotMissing cm n = true)) ∧
        req.ignore_errors = false) →
      ¬ (idsFound FromString cm req.stream_id ++
        slotsFound cm req.cdcsdk_ysql_replication_slot_name).Nodup →
      DeleteCDCStream FromString cm req = none) := by
  have heq := DeleteCDCStream_eq FromString cm req hreq hparse hnil hnb
  refine ⟨?_, ?_, ?_⟩
  · intro hm
    rw [heq]
    simp only [if_pos hm]
    exact ⟨_, rfl⟩
  · intro hm hnd hok
    obtain ⟨cm1, h1, h2, h3⟩ := DropXReplStreams_deleting_ok cm (idsFound FromString cm
      req.stream_id ++ slotsFound cm req.cdcsdk_ysql_replication_slot_name) hok hnd
    refine ⟨cm1, ?_, h2, ?_, h3⟩
    · rw [heq]
      simp only [if_neg hm, h1, Option.map_some']
    · rw [h3]
  · intro hm hnd
    rw [heq]
    simp only [if_neg hm]
    rw [(DropXReplStreams_deleting_none cm _).2 hnd]
    rfl

/-- The batch semantics at a sample input: the request names the live stream 3 by its slot, the
deleting stream 2 by id and an unknown slot, with `ignore_errors`. -/
theorem DeleteCDCStream_batch_sample :
    ∃ cm1, DeleteCDCStream sampleFromString sampleDeleteState
        { stream_id := ["2"], ignore_errors := true,
          cdcsdk_ysql_replication_slot_name := ["slot_a", "slot_b"] } =
      some (Status.OK,
        { not_found_stream_ids := ["2"],
          not_found_cdcsdk_ysql_replication_slot_names := ["slot_b"] }, cm1) := by
  obtain ⟨cm1, h, _⟩ := (DeleteCDCStream_batch_of_nodup sampleFromString sampleDeleteState
    { stream_id := ["2"], ignore_errors := true,
      cdcsdk_ysql_replication_slot_name := ["slot_a", "slot_b"] }
    (by decide)
    (by
      intro s hs
      simp only [List.mem_singleton] at hs
      subst hs
      exact ⟨2, by rfl⟩)
    (by decide)
    (Or.inr ⟨by
      intro s hs id hid
      simp only [List.mem_singleton] at hs
      subst hs
      rw [show sampleFromString "2" = Except.ok 2 by rfl] at hid
      cases hid
      decide, by
      intro n hn id hid
      simp only [List.mem_cons, List.mem_singleton, List.not_mem_nil, or_false] at hn
      rcases hn with rfl | rfl
      · rw [show mapFind sampleDeleteState.cdcsdk_replication_slots_to_stream_map_ "slot_a" =
          some 3 by decide] at hid
        cases hid
        decide
      · rw [show mapFind sampleDeleteState.cdcsdk_replication_slots_to_stream_map_ "slot_b" =
          none by decide] at hid
        cases hid⟩)).2.1 (by simp) (by decide) (by decide)
  exact ⟨cm1, h⟩

/-- C3 (the code at the failing input): in a state where stream 3 is a live stream with the
replication slot `slot_a`, a `DeleteCDCStream` request that names stream 3 twice, by its id
twice or by its id and its slot name, collects the stream twice, so `DropXReplStreams` asks for
the write lock of the same stream a second time and the call does not return: no status, no
response, no stream marked DELETING. The request that names stream 3 once returns OK and leaves
it in state DELETING. -/
theorem DeleteCDCStream_double_lock :
    DeleteCDCStream sampleFromString sampleDeleteState { stream_id := ["3", "3"] } = none ∧
    DeleteCDCStream sampleFromString sampleDeleteState
      { stream_id := ["3"], cdcsdk_ysql_replication_slot_name := ["slot_a"] } = none ∧
    DeleteCDCStream sampleFromString sampleDeleteState
      { cdcsdk_ysql_replication_slot_name := ["slot_a", "slot_a"], ignore_errors := true } =
        none ∧
    (DeleteCDCStream sampleFromString sampleDeleteState { stream_id := ["3"] }).map
        (fun r => (r.1, r.2.1, (mapFind r.2.2.cdc_stream_map_ 3).map (fun pb => pb.state))) =
      some (Status.OK, ({} : DeleteCDCStreamResponsePB),
        some (some SysCDCStreamEntryPB.State.DELETING)) := by
  refine ⟨by rfl, by rfl, by rfl, by rfl⟩

theorem liveStream_of_activeWal (cm : CatalogManager) (id : StreamId)
    (h : activeWalStream cm id = true) :
    liveStream cm id = true ∧ ∃ pb, mapFind cm.cdc_stream_map_ id = some pb := by
  unfold activeWalStream at h
  unfold liveStream
  cases hf : mapFind cm.cdc_stream_map_ id with
  | none => simp [hf] at h
  | some pb =>
    rw [hf] at h
    simp only [Bool.and_eq_true, decide_eq_true_eq] at h
    exact ⟨by simp [started_deleting_of_active pb h.1], pb, rfl⟩

theorem mem_idsFound (FromString : String → Except Status StreamId) (cm : CatalogManager)
    (l : List String) (s : String) (id : StreamId) (hs : s ∈ l)
    (hid : FromString s = Except.ok id) (hl : liveStream cm id = true) :
    id ∈ idsFound FromString cm l := by
  unfold idsFound
  rw [List.mem_filterMap]
  exact ⟨s, hs, by simp [hid, hl]⟩

theorem mem_slotsFound (cm : CatalogManager) (l : List String) (n : String) (id : StreamId)
    (hn : n ∈ l) (hid : mapFind cm.cdcsdk_replication_slots_to_stream_map_ n = some id)
    (hl : liveStream cm id = true) : id ∈ slotsFound cm l := by
  unfold slotsFound
  rw [List.mem_filterMap]
  exact ⟨n, hn, by simp [hid, hl]⟩

theorem DropXReplStreams_deleting_status (cm cm1 : CatalogManager) (streams : List StreamId)
    (hne : streams ≠ [])
    (hok : DropXReplStreams cm streams SysCDCStreamEntryPB.State.DELETING =
      some (Status.OK, cm1)) :
    cm.sys_catalog_status = Status.OK ∧ streams.Nodup := by
  unfold DropXReplStreams at hok
  by_cases hn : streams.Nodup
  · cases hs : cm.sys_catalog_status with
    | OK => exact ⟨rfl, hn⟩
    | error c m e => simp [hne, hn, hs] at hok
  · simp [hne, hn] at hok

/-- C4: a stream in state ACTIVE whose record format is WAL, named by a `DeleteCDCStream`
request (by an id that `StreamId::FromString` reads, or by a slot name). With `force_delete`
false the call returns NotSupported (INVALID_REQUEST) and the state is the one before the call,
so no stream is marked DELETING. With `force_delete` true the check accepts the stream, the
stream is in state DELETING whenever the call returns OK, and the call does return OK when the
sys catalog accepts the write, no requested name is missing or `ignore_errors` is set, and the
request names no live stream twice (the nil id being no stream of the map); under the same
conditions a request that names a live stream twice does not return. -/
theorem DeleteCDCStream_force_delete_check (FromString : String → Except Status StreamId)
    (cm : CatalogManager) (req : DeleteCDCStreamRequestPB) (id : StreamId)
    (hparse : ∀ t ∈ req.stream_id, ∃ i, FromString t = Except.ok i)
    (hnamed : (∃ s ∈ req.stream_id, FromString s = Except.ok id) ∨
      (∃ n ∈ req.cdcsdk_ysql_replication_slot_name,
        mapFind cm.cdcsdk_replication_slots_to_stream_map_ n = some id))
    (hwal : activeWalStream cm id = true) :
    (req.force_delete = false →
      ∃ msg resp, DeleteCDCStream FromString cm req =
        some (Status.error StatusCode.NotSupported msg (some MasterErrorPB.INVALID_REQUEST),
          resp, cm)) ∧
    (req.force_delete = true →
      GetStreamIfValidForDelete cm id true = Except.ok (some id) ∧
      (mapFind cm.cdc_stream_map_ StreamId.Nil = none →
        ∀ resp cm1, DeleteCDCStream FromString cm req = some (Status.OK, resp, cm1) →
        ∃ pb, mapFind cm.cdc_stream_map_ id = some pb ∧
          mapFind cm1.cdc_stream_map_ id =
            some (pb.set_state SysCDCStreamEntryPB.State.DELETING)) ∧
      (mapFind cm.cdc_stream_map_ StreamId.Nil = none →
        cm.sys_catalog_status = Status.OK →
        (req.ignore_errors = true ∨
          ((∀ s ∈ req.stream_id, idMissing FromString cm s = false) ∧
            (∀ n ∈ req.cdcsdk_ysql_replication_slot_name, slotMissing cm n = false))) →
        ((idsFound FromString cm req.stream_id ++
            slotsFound cm req.cdcsdk_ysql_replication_slot_name).Nodup →
          ∃ resp cm1, DeleteCDCStream FromString cm req = some (Status.OK, resp, cm1)) ∧
        (¬ (idsFound FromString cm req.stream_id ++
            slotsFound cm req.cdcsdk_ysql_replication_slot_name).Nodup →
          DeleteCDCStream FromString cm req = none))) := by
  obtain ⟨hlive, pb, hpb⟩ := liveStream_of_activeWal cm id hwal
  have hreq : req.stream_id ≠ [] ∨ req.cdcsdk_ysql_replication_slot_name ≠ [] := by
    rcases hnamed with ⟨s, hs, _⟩ | ⟨n, hn, _⟩
    · exact Or.inl (List.ne_nil_of_mem hs)
    · exact Or.inr (List.ne_nil_of_mem hn)
  have h0 : ¬ (req.stream_id.length = 0 ∧ req.cdcsdk_ysql_replication_slot_name.length = 0) := by
    simp only [List.length_eq_zero]
    tauto
  constructor
  · intro hf
    unfold DeleteCDCStream
    simp only [h0, if_false, hf]
    rcases DeleteCDCStream_ids_loop_cases FromString cm req.stream_id [] {} hparse with
      ⟨st, rs, h1⟩ | ⟨hnone, st, rs, h1⟩
    · rw [h1]
      exact ⟨_, _, rfl⟩
    · rw [h1]
      rcases hnamed with ⟨s, hs, hid⟩ | hslot
      · have := hnone s hs id hid
        rw [hwal] at this
        cases this
      · obtain ⟨st2, rs2, h2⟩ := DeleteCDCStream_slots_loop_blocked cm id hwal
          req.cdcsdk_ysql_replication_slot_name st rs hslot
        simp only [h2]
        exact ⟨_, _, rfl⟩
  · intro hf
    have hfound : id ∈ idsFound FromString cm req.stream_id ++
        slotsFound cm req.cdcsdk_ysql_replication_slot_name := by
      rcases hnamed with ⟨s, hs, hid⟩ | ⟨n, hn, hid⟩
      · exact List.mem_append_left _ (mem_idsFound FromString cm _ s id hs hid hlive)
      · exact List.mem_append_right _ (mem_slotsFound cm _ n id hn hid hlive)
    refine ⟨?_, ?_, ?_⟩
    · rw [GetStreamIfValidForDelete_of_not_blocked cm id true (Or.inl rfl), hlive]
      rfl
    · intro hnil resp cm1 hrun
      have heq := DeleteCDCStream_eq FromString cm req hreq hparse hnil (Or.inl hf)
      rw [heq] at hrun
      refine ⟨pb, hpb, ?_⟩
      by_cases hm : ((∃ s ∈ req.stream_id, idMissing FromString cm s = true) ∨
          (∃ n ∈ req.cdcsdk_ysql_replication_slot_name, slotMissing cm n = true)) ∧
          req.ignore_errors = false
      · simp only [if_pos hm, Option.some.injEq, Prod.mk.injEq] at hrun
        exact absurd hrun.1 (by simp)
      · simp only [if_neg hm] at hrun
        rw [Option.map_eq_some'] at hrun
        obtain ⟨⟨st, cm2⟩, hd, he⟩ := hrun
        simp only [Prod.mk.injEq] at he
        obtain ⟨hst, _, hcm⟩ := he
        subst hst
        subst hcm
        obtain ⟨hsys, hnd⟩ := DropXReplStreams_deleting_status cm cm2 _
          (List.ne_nil_of_mem hfound) hd
        obtain ⟨cm3, h1, h2, _⟩ := DropXReplStreams_deleting_ok cm (idsFound FromString cm
          req.stream_id ++ slotsFound cm req.cdcsdk_ysql_replication_slot_name) hsys hnd
        rw [hd] at h1
        simp only [Option.some.injEq, Prod.mk.injEq, true_and] at h1
        subst h1
        rw [h2]
        exact mapFind_markDeleting _ _ id hfound pb hpb
    · intro hnil hsys hmiss
      have heq := DeleteCDCStream_eq FromString cm req hreq hparse hnil (Or.inl hf)
      have hm : ¬ (((∃ s ∈ req.stream_id, idMissing FromString cm s = true) ∨
          (∃ n ∈ req.cdcsdk_ysql_replication_slot_name, slotMissing cm n = true)) ∧
          req.ignore_errors = false) := by
        rintro ⟨hex, hig⟩
        rcases hmiss with h | ⟨h1, h2⟩
        · rw [h] at hig
          cases hig
        · rcases hex with ⟨s, hs, hs1⟩ | ⟨n, hn, hn1⟩
          · rw [h1 s hs] at hs1
            cases hs1
          · rw [h2 n hn] at hn1
            cases hn1
      constructor
      · intro hnd
        obtain ⟨cm1, h1, _, _⟩ := DropXReplStreams_deleting_ok cm (idsFound FromString cm
          req.stream_id ++ slotsFound cm req.cdcsdk_ysql_replication_slot_name) hsys hnd
        rw [heq]
        simp only [if_neg hm, h1, Option.map_some']
        exact ⟨_, cm1, rfl⟩
      · intro hnd
        rw [heq]
        simp only [if_neg hm]
        rw [(DropXReplStreams_deleting_none cm _).2 hnd]
        rfl

/-- C4, at a sample input: stream 1 is ACTIVE with the record format WAL; without
`force_delete` the request for it returns NotSupported and leaves the state alone, with
`force_delete` it returns OK. -/
theorem DeleteCDCStream_force_delete_check_witness :
    (∃ msg resp, DeleteCDCStream sampleFromString sampleDeleteState { stream_id := ["1"] } =
      some (Status.error StatusCode.NotSupported msg (some MasterErrorPB.INVALID_REQUEST),
        resp, sampleDeleteState)) ∧
    (∃ resp cm1, DeleteCDCStream sampleFromString sampleDeleteState
      { stream_id := ["1"], force_delete := true } = some (Status.OK, resp, cm1)) := by
  have hparse : ∀ t ∈ ["1"], ∃ i, sampleFromString t = Except.ok i := by
    intro t ht
    simp only [List.mem_singleton] at ht
    subst ht
    exact ⟨1, by rfl⟩
  have hnamed : (∃ s ∈ ["1"], sampleFromString s = Except.ok 1) ∨
      (∃ n ∈ ([] : List String),
        mapFind sampleDeleteState.cdcsdk_replication_slots_to_stream_map_ n = some 1) :=
    Or.inl ⟨"1", by simp, by rfl⟩
  refine ⟨(DeleteCDCStream_force_delete_check sampleFromString sampleDeleteState
      { stream_id := ["1"] } 1 hparse hnamed (by decide)).1 rfl, ?_⟩
  exact (((DeleteCDCStream_force_delete_check sampleFromString sampleDeleteState
      { stream_id := ["1"], force_delete := true } 1 hparse hnamed (by decide)).2 rfl).2.2
    (by decide) (by decide) (Or.inr ⟨by
      intro s hs
      simp only [List.mem_singleton] at hs
      subst hs
      rfl, by
      intro n hn
      cases hn⟩)).1 (by decide)

/-! ### Listing streams -/

theorem ListCDCStreams_options_loop_none (req : ListCDCStreamsRequestPB)
    (h : req.id_type = none) (options : List CDCStreamOptionsPB) :
    ∀ p, (ListCDCStreams.options_loop req options p).1 = false := by
  induction options with
  | nil => intro p; rfl
  | cons o rest ih =>
    intro p
    by_cases hk : o.key = cdc.kIdType
    · simp [ListCDCStreams.options_loop, hk, h, ih]
    · simp [ListCDCStreams.options_loop, hk, ih]

theorem ListCDCStreams_options_loop_table (req : ListCDCStreamsRequestPB)
    (h : req.id_type = some IdTypePB.TABLE_ID) (options : List CDCStreamOptionsPB) :
    ∀ p, (ListCDCStreams.options_loop req options p).1 =
      !idTypeAgrees IdTypePB.TABLE_ID options := by
  have hg : req.get_id_type = IdTypePB.TABLE_ID := by
    simp [ListCDCStreamsRequestPB.get_id_type, h]
  induction options with
  | nil => intro p; simp [ListCDCStreams.options_loop, idTypeAgrees]
  | cons o rest ih =>
    intro p
    by_cases hk : o.key = cdc.kIdType
    · by_cases hv : o.value = cdc.kNamespaceId
      · simp [ListCDCStreams.options_loop, hk, h, hg, hv, idTypeAgrees]
      · have := ih true
        simp only [idTypeAgrees] at this
        simp [ListCDCStreams.options_loop, hk, h, hg, hv, idTypeAgrees, this]
    · have := ih p
      simp only [idTypeAgrees] at this
      simp [ListCDCStreams.options_loop, hk, idTypeAgrees, this]

theorem ListCDCStreams_options_loop_namespace (req : ListCDCStreamsRequestPB)
    (h : req.id_type = some IdTypePB.NAMESPACE_ID) (options : List CDCStreamOptionsPB) :
    ∀ p, ((!(ListCDCStreams.options_loop req options p).2 && true) ||
        (ListCDCStreams.options_loop req options p).1) =
      !((p || options.any (fun o => decide (o.key = cdc.kIdType))) &&
        options.all (fun o => decide (o.key = cdc.kIdType → o.value = cdc.kNamespaceId))) := by
  have hg : req.get_id_type = IdTypePB.NAMESPACE_ID := by
    simp [ListCDCStreamsRequestPB.get_id_type, h]
  induction options with
  | nil => intro p; simp [ListCDCStreams.options_loop]
  | cons o rest ih =>
    intro p
    by_cases hk : o.key = cdc.kIdType
    · by_cases hv : o.value = cdc.kNamespaceId
      · simpa [ListCDCStreams.options_loop, hk, h, hg, hv] using ih true
      · simp [ListCDCStreams.options_loop, hk, h, hg, hv]
    · simpa [ListCDCStreams.options_loop, hk] using ih p

theorem ListCDCStreams_skip_eq (req : ListCDCStreamsRequestPB)
    (options : List CDCStreamOptionsPB) :
    ((!(ListCDCStreams.options_loop req options false).2 &&
        decide (req.get_id_type = IdTypePB.NAMESPACE_ID)) ||
      (ListCDCStreams.options_loop req options false).1) =
    !(match req.id_type with
      | some id_type => idTypeAgrees id_type options
      | none => true) := by
  cases h : req.id_type with
  | none =>
    have hg : req.get_id_type = IdTypePB.TABLE_ID := by
      simp [ListCDCStreamsRequestPB.get_id_type, h]
    simp [ListCDCStreams_options_loop_none req h, hg]
  | some t =>
    cases t with
    | TABLE_ID =>
      have hg : req.get_id_type = IdTypePB.TABLE_ID := by
        simp [ListCDCStreamsRequestPB.get_id_type, h]
      simp [ListCDCStreams_options_loop_table req h, hg]
    | NAMESPACE_ID =>
      have hg : req.get_id_type = IdTypePB.NAMESPACE_ID := by
        simp [ListCDCStreamsRequestPB.get_id_type, h]
      have := ListCDCStreams_options_loop_namespace req h options false
      simp only [hg, decide_True]
      rw [this]
      simp [idTypeAgrees]

theorem ListCDCStreams_loop_eq (cm : CatalogManager) (req : ListCDCStreamsRequestPB)
    (m : List (StreamId × SysCDCStreamEntryPB)) :
    ListCDCStreams.loop cm req req.table_id m =
      (m.filter (fun e => listedByFirstTable req e.2)).map
        (fun e => ListCDCStreams.add_stream cm e.1 e.2) := by
  induction m with
  | nil => rfl
  | cons e rest ih =>
    obtain ⟨id, ltm⟩ := e
    have hskip := ListCDCStreams_skip_eq req ltm.options
    unfold ListCDCStreams.loop
    rw [ih]
    by_cases hns : req.namespace_id.isSome ∧ req.namespace_id.getD "" ≠ ltm.get_namespace_id
    · have : listedByFirstTable req ltm = false := by
        obtain ⟨h1, h2⟩ := hns
        cases hn : req.namespace_id with
        | none => simp [hn] at h1
        | some ns =>
          simp only [hn, Option.getD_some] at h2
          simp [listedByFirstTable, hn, Ne.symm h2]
      simp [hns, this]
    · rw [if_neg hns]
      have hns1 : (match req.namespace_id with
          | some ns => decide (ltm.get_namespace_id = ns)
          | none => true) = true := by
        cases hn : req.namespace_id with
        | none => rfl
        | some ns =>
          simp only [hn, Option.isSome_some, Option.getD_some, true_and, ne_eq,
            Decidable.not_not] at hns
          simp [hns]
      by_cases htb : req.table_id.isSome ∧ ltm.table_id.length > 0 ∧
          req.table_id ≠ ltm.table_id.head?
      · have : listedByFirstTable req ltm = false := by
          obtain ⟨h1, h2, h3⟩ := htb
          cases ht : req.table_id with
          | none => simp [ht] at h1
          | some t =>
            rw [ht] at h3
            have hne : ltm.table_id ≠ [] := by
              intro h
              simp [h] at h2
            simp [listedByFirstTable, ht, hne, Ne.symm h3]
        simp [htb, this]
      · rw [if_neg htb]
        have htb1 : (match req.table_id with
            | some t => decide (ltm.table_id = [] ∨ ltm.table_id.head? = some t)
            | none => true) = true := by
          cases ht : req.table_id with
          | none => rfl
          | some t =>
            simp only [ht, Option.isSome_some, true_and, gt_iff_lt, List.length_pos, ne_eq,
              not_and, Decidable.not_not] at htb
            by_cases hnil : ltm.table_id = []
            · simp [hnil]
            · simp [(htb hnil).symm]
        by_cases hd : ltm.is_deleting = true
        · simp [hd, listedByFirstTable]
        · simp only [hd, if_false, Bool.false_eq_true]
          have hl : listedByFirstTable req ltm =
              (match req.id_type with
                | some id_type => idTypeAgrees id_type ltm.options
                | none => true) := by
            simp only [listedByFirstTable, hns1, htb1, Bool.and_true]
            simp [hd]
          by_cases hi : (match req.id_type with
              | some id_type => idTypeAgrees id_type ltm.options
              | none => true) = true
          · rw [hi] at hskip hl
            simp only [Bool.not_true] at hskip
            simp [hskip, hl]
          · have hi1 : (match req.id_type with
                | some id_type => idTypeAgrees id_type ltm.options
                | none => true) = false := by simpa using hi
            rw [hi1] at hskip hl
            simp only [Bool.not_false] at hskip
            simp [hskip, hl]

/-- C5 (the claim as written fails): the request asks for the streams of table t2; stream 5 has
t2 in its table list, as its second table, and stream 6 has no table. The filter of the claim
selects stream 5 only; `ListCDCStreams` returns stream 6 only. -/
theorem ListCDCStreams_table_filter_counterexample :
    (ListCDCStreams sampleListState { table_id := some "t2" }).1 = Status.OK ∧
    (ListCDCStreams sampleListState { table_id := some "t2" }).2.streams.map
      (fun stream => stream.stream_id) = [6] ∧
    (sampleListState.cdc_stream_map_.filter
      (fun e => listedAsClaimed { table_id := some "t2" } e.2)).map (fun e => e.1) = [5] := by
  decide

/-- C5 (amended): `ListCDCStreams` fails when the request has a table id that the table catalog
does not have; otherwise it returns OK and exactly the streams of the stream map, each with the
fields of its record, that are not deleting and match every filter present in the request: with
`namespace_id`, the namespace id of the stream equals it; with `table_id`, the table list of the
stream is empty or starts with that table; with `id_type`, the id-type options of the stream
(table id when the stream has none) agree with it. -/
theorem ListCDCStreams_lists_by_first_table (cm : CatalogManager)
    (req : ListCDCStreamsRequestPB) :
    ListCDCStreams cm req =
      if ∃ t, req.table_id = some t ∧ mapFind cm.tables_ t = none then
        (Status.error StatusCode.NotFound "Table not found"
          (some MasterErrorPB.OBJECT_NOT_FOUND), {})
      else
        (Status.OK,
          { streams :=
              (cm.cdc_stream_map_.filter (fun e => listedByFirstTable req e.2)).map
                (fun e => ListCDCStreams.add_stream cm e.1 e.2) }) := by
  have hloop := ListCDCStreams_loop_eq cm req cm.cdc_stream_map_
  unfold ListCDCStreams
  cases ht : req.table_id with
  | none =>
    rw [ht] at hloop
    simp [hloop]
  | some t =>
    rw [ht] at hloop
    cases hf : mapFind cm.tables_ t with
    | none => simp [FindTableById, hf]
    | some table => simp [FindTableById, hf, hloop]

/-! ### Schema versions of the producer -/

theorem mapFind_mapAssign_self {K V : Type} [DecidableEq K] (m : List (K × V)) (k : K) (v : V) :
    mapFind (mapAssign m k v) k = some v := by
  unfold mapAssign
  by_cases hc : mapContains m k = true
  · simp only [hc, if_true]
    rw [mapFind_map_value (fun k1 v1 => if k1 = k then v else v1)]
    unfold mapContains at hc
    cases hf : mapFind m k with
    | none => simp [hf] at hc
    | some v1 => simp
  · simp only [hc, if_false, Bool.false_eq_true]
    induction m with
    | nil => simp [mapFind]
    | cons e rest ih =>
      obtain ⟨k1, v1⟩ := e
      by_cases hk : k1 = k
      · simp [mapContains, mapFind, hk] at hc
      · have hc1 : ¬ mapContains rest k = true := by
          simpa [mapContains, mapFind, hk] using hc
        simp [mapFind, hk, ih hc1]

theorem UpdateConsumerOnProducerMetadata_locate_ok
    (FromString : String → Except Status StreamId) (cm : CatalogManager)
    (req : UpdateConsumerOnProducerMetadataRequestPB)
    (at_ : UpdateConsumerOnProducerMetadata.Located)
    (h : UpdateConsumerOnProducerMetadata.locate FromString cm req = Except.ok at_) :
    FromString req.stream_id = Except.ok at_.stream_id ∧
    findConsumerTable cm.xcluster_consumer_table_stream_ids_map_ req.replication_group_id at_.stream_id = some at_.consumer_table_id ∧
    cm.cluster_config_.consumer_registry = some at_.registry ∧
    mapFind at_.registry.producer_map req.replication_group_id = some at_.producer_entry ∧
    mapFind at_.producer_entry.stream_map at_.stream_id = some at_.stream_entry := by
  unfold UpdateConsumerOnProducerMetadata.locate at h
  cases h1 : FromString req.stream_id with
  | error e => simp [h1] at h
  | ok stream_id =>
    simp only [h1] at h
    cases h2 : findConsumerTable cm.xcluster_consumer_table_stream_ids_map_ req.replication_group_id stream_id with
    | none => simp [h2] at h
    | some consumer_table_id =>
      simp only [h2] at h
      cases h3 : mapFind cm.tables_ consumer_table_id with
      | none => simp [h3] at h
      | some table =>
        simp only [h3] at h
        cases h4 : mapFind (cm.cluster_config_.consumer_registry.getD {}).producer_map
            req.replication_group_id with
        | none => simp [h4] at h
        | some producer_entry =>
          simp only [h4] at h
          cases h5 : mapFind producer_entry.stream_map stream_id with
          | none => simp [h5] at h
          | some stream_entry =>
            simp only [h5, Except.ok.injEq] at h
            subst h
            refine ⟨rfl, h2, ?_, ?_, h5⟩
            · cases h6 : cm.cluster_config_.consumer_registry with
              | none => simp [h6, mapFind] at h4
              | some registry => simp
            · exact h4

theorem requestSchemaVersions_of_locate (FromString : String → Except Status StreamId)
    (IsColocationParentTableId : TableId → Bool) (cm : CatalogManager)
    (req : UpdateConsumerOnProducerMetadataRequestPB)
    (at_ : UpdateConsumerOnProducerMetadata.Located)
    (h : UpdateConsumerOnProducerMetadata.locate FromString cm req = Except.ok at_) :
    requestSchemaVersions FromString IsColocationParentTableId cm req =
      if (IsColocationParentTableId at_.consumer_table_id &&
          decide (req.colocation_id ≠ kColocationIdNotSet)) = true then
        mapFind at_.stream_entry.colocated_schema_versions req.colocation_id
      else at_.stream_entry.schema_versions := by
  obtain ⟨h1, h2, h3, h4, h5⟩ := UpdateConsumerOnProducerMetadata_locate_ok FromString cm req at_ h
  simp only [requestSchemaVersions, h1, h2, storedSchemaVersions, h3, h4, h5]

theorem requestSchemaVersions_staged (FromString : String → Except Status StreamId)
    (IsColocationParentTableId : TableId → Bool) (cm : CatalogManager)
    (req : UpdateConsumerOnProducerMetadataRequestPB)
    (at_ : UpdateConsumerOnProducerMetadata.Located)
    (h : UpdateConsumerOnProducerMetadata.locate FromString cm req = Except.ok at_)
    (versions : SchemaVersionsPB) (cm1 : CatalogManager)
    (hx : cm1.xcluster_consumer_table_stream_ids_map_ =
      cm.xcluster_consumer_table_stream_ids_map_)
    (hcfg : cm1.cluster_config_ = UpdateConsumerOnProducerMetadata.staged cm req at_
      (IsColocationParentTableId at_.consumer_table_id &&
        decide (req.colocation_id ≠ kColocationIdNotSet)) versions) :
    requestSchemaVersions FromString IsColocationParentTableId cm1 req = some versions := by
  obtain ⟨h1, h2, _, _, _⟩ := UpdateConsumerOnProducerMetadata_locate_ok FromString cm req at_ h
  simp only [requestSchemaVersions, h1, hx, h2, hcfg, storedSchemaVersions,
    UpdateConsumerOnProducerMetadata.staged, mapFind_mapAssign_self,
    UpdateConsumerOnProducerMetadata.store]
  by_cases hc : (IsColocationParentTableId at_.consumer_table_id &&
      decide (req.colocation_id ≠ kColocationIdNotSet)) = true
  · simp only [hc, if_true, mapFind_mapAssign_self]
  · simp only [hc, if_false, Bool.false_eq_true]

theorem UpdateConsumerOnProducerMetadata_of_locate
    (FromString : String → Except Status StreamId)
    (IsColocationParentTableId : TableId → Bool) (cm : CatalogManager)
    (req : UpdateConsumerOnProducerMetadataRequestPB)
    (at_ : UpdateConsumerOnProducerMetadata.Located)
    (hflag : cm.flags.xcluster_skip_schema_compatibility_checks_on_alter = false)
    (hloc : UpdateConsumerOnProducerMetadata.locate FromString cm req = Except.ok at_) :
    UpdateConsumerOnProducerMetadata FromString IsColocationParentTableId cm req =
      match UpdateConsumerOnProducerMetadata.compare req
          ((requestSchemaVersions FromString IsColocationParentTableId cm req).getD {})
          ((IsColocationParentTableId at_.consumer_table_id &&
              decide (req.colocation_id ≠ kColocationIdNotSet)) &&
            (requestSchemaVersions FromString IsColocationParentTableId cm req).isNone) with
      | Except.error status => (status, {}, cm)
      | Except.ok (versions, schema_versions_updated) =>
        if schema_versions_updated then
          match cm.sys_catalog_status with
          | Status.OK =>
            (Status.OK, { schema_versions := some versions },
              { cm with
                cluster_config_ := UpdateConsumerOnProducerMetadata.staged cm req at_
                  (IsColocationParentTableId at_.consumer_table_id &&
                    decide (req.colocation_id ≠ kColocationIdNotSet)) versions
                sys_catalog_ := cm.sys_catalog_ ++
                  [SysCatalogWrite.UpsertClusterConfig
                    (UpdateConsumerOnProducerMetadata.staged cm req at_
                      (IsColocationParentTableId at_.consumer_table_id &&
                        decide (req.colocation_id ≠ kColocationIdNotSet)) versions)] })
          | Status.error code msg master_error => (Status.error code msg master_error, {}, cm)
        else (Status.OK, { schema_versions := some versions }, cm) := by
  have hreq := requestSchemaVersions_of_locate FromString IsColocationParentTableId cm req at_ hloc
  unfold UpdateConsumerOnProducerMetadata
  simp only [hflag, if_false, Bool.false_eq_true, hloc, hreq]
  by_cases hc : (IsColocationParentTableId at_.consumer_table_id &&
      decide (req.colocation_id ≠ kColocationIdNotSet)) = true
  · simp only [hc, if_true, Bool.true_and]
  · have hc1 : (IsColocationParentTableId at_.consumer_table_id &&
        decide (req.colocation_id ≠ kColocationIdNotSet)) = false := by simpa using hc
    simp only [hc1, if_false, Bool.false_eq_true, Option.getD_some, Option.isNone_some,
      Bool.false_and]

/-- C8: the lookups of the call succeeding and the sys catalog accepting the write, a request
whose producer version `rp` is greater than the stored current producer version `cp` returns OK,
and the versions stored for the stream (or for the colocation id of the request) and returned
after the call are current = (`rp`, `rc`) and old = (`cp`, `cc`), the current pair stored before
the call (zeros when nothing was stored). -/
theorem UpdateConsumerOnProducerMetadata_newer_producer_version
    (FromString : String → Except Status StreamId)
    (IsColocationParentTableId : TableId → Bool) (cm : CatalogManager)
    (req : UpdateConsumerOnProducerMetadataRequestPB)
    (at_ : UpdateConsumerOnProducerMetadata.Located)
    (hflag : cm.flags.xcluster_skip_schema_compatibility_checks_on_alter = false)
    (hloc : UpdateConsumerOnProducerMetadata.locate FromString cm req = Except.ok at_)
    (hsys : cm.sys_catalog_status = Status.OK)
    (hgt : req.producer_schema_version >
      ((requestSchemaVersions FromString IsColocationParentTableId cm req).getD
        {}).current_producer_schema_version) :
    (UpdateConsumerOnProducerMetadata FromString IsColocationParentTableId cm req).1 =
      Status.OK ∧
    (UpdateConsumerOnProducerMetadata FromString IsColocationParentTableId cm
        req).2.1.schema_versions =
      some
        { current_producer_schema_version := req.producer_schema_version
          current_consumer_schema_version := req.consumer_schema_version
          old_producer_schema_version :=
            ((requestSchemaVersions FromString IsColocationParentTableId cm req).getD
              {}).current_producer_schema_version
          old_consumer_schema_version :=
            ((requestSchemaVersions FromString IsColocationParentTableId cm req).getD
              {}).current_consumer_schema_version } ∧
    requestSchemaVersions FromString IsColocationParentTableId
        (UpdateConsumerOnProducerMetadata FromString IsColocationParentTableId cm req).2.2 req =
      some
        { current_producer_schema_version := req.producer_schema_version
          current_consumer_schema_version := req.consumer_schema_version
          old_producer_schema_version :=
            ((requestSchemaVersions FromString IsColocationParentTableId cm req).getD
              {}).current_producer_schema_version
          old_consumer_schema_version :=
            ((requestSchemaVersions FromString IsColocationParentTableId cm req).getD
              {}).current_consumer_schema_version } := by
  rw [UpdateConsumerOnProducerMetadata_of_locate FromString IsColocationParentTableId cm req at_
    hflag hloc]
  simp only [UpdateConsumerOnProducerMetadata.compare, hgt, if_true, hsys]
  refine ⟨trivial, trivial, ?_⟩
  exact requestSchemaVersions_staged FromString IsColocationParentTableId cm req at_ hloc _ _
    rfl rfl

/-- C8, at a sample input: stored current = (7, 7), old = (3, 3); the request (9, 8) is stored
and returned as current = (9, 8), old = (7, 7). -/
theorem UpdateConsumerOnProducerMetadata_newer_producer_version_witness :
    (UpdateConsumerOnProducerMetadata sampleFromString (fun _ => false) sampleSchemaState
      { replication_group_id := "group1", stream_id := "1", producer_schema_version := 9,
        consumer_schema_version := 8 }).1 = Status.OK ∧
    requestSchemaVersions sampleFromString (fun _ => false)
      (UpdateConsumerOnProducerMetadata sampleFromString (fun _ => false) sampleSchemaState
        { replication_group_id := "group1", stream_id := "1", producer_schema_version := 9,
          consumer_schema_version := 8 }).2.2
      { replication_group_id := "group1", stream_id := "1", producer_schema_version := 9,
        consumer_schema_version := 8 } =
      some
        { current_producer_schema_version := 9
          current_consumer_schema_version := 8
          old_producer_schema_version := 7
          old_consumer_schema_version := 7 } := by
  have h := UpdateConsumerOnProducerMetadata_newer_producer_version sampleFromString
    (fun _ => false) sampleSchemaState
    { replication_group_id := "group1", stream_id := "1", producer_schema_version := 9,
      consumer_schema_version := 8 } sampleSchemaLocated (by rfl) (by rfl) (by rfl) (by decide)
  exact ⟨h.1, h.2.2⟩

/-- C9 (the claim as written fails): stored current = (7, 7), old = (3, 3); the request has the
producer version 5, between 3 and 7, and the consumer version 2, smaller than the stored old
consumer version 3. The call returns OK and the request's pair is stored as the old pair. -/
theorem UpdateConsumerOnProducerMetadata_between_counterexample :
    requestSchemaVersions sampleFromString (fun _ => false) sampleSchemaState
      { replication_group_id := "group1", stream_id := "1", producer_schema_version := 5,
        consumer_schema_version := 2 } =
      some
        { current_producer_schema_version := 7
          current_consumer_schema_version := 7
          old_producer_schema_version := 3
          old_consumer_schema_version := 3 } ∧
    (UpdateConsumerOnProducerMetadata sampleFromString (fun _ => false) sampleSchemaState
      { replication_group_id := "group1", stream_id := "1", producer_schema_version := 5,
        consumer_schema_version := 2 }).1 = Status.OK ∧
    requestSchemaVersions sampleFromString (fun _ => false)
      (UpdateConsumerOnProducerMetadata sampleFromString (fun _ => false) sampleSchemaState
        { replication_group_id := "group1", stream_id := "1", producer_schema_version := 5,
          consumer_schema_version := 2 }).2.2
      { replication_group_id := "group1", stream_id := "1", producer_schema_version := 5,
        consumer_schema_version := 2 } =
      some
        { current_producer_schema_version := 7
          current_consumer_schema_version := 7
          old_producer_schema_version := 5
          old_consumer_schema_version := 2 } := by
  decide

/-- C9 (amended): the lookups of the call succeeding and the sys catalog accepting the write, a
request whose producer version lies strictly between the stored old and current producer
versions returns OK, and its pair is stored and returned as the old pair while the current pair
stays, whatever the consumer version of the request. -/
theorem UpdateConsumerOnProducerMetadata_between_versions
    (FromString : String → Except Status StreamId)
    (IsColocationParentTableId : TableId → Bool) (cm : CatalogManager)
    (req : UpdateConsumerOnProducerMetadataRequestPB)
    (at_ : UpdateConsumerOnProducerMetadata.Located)
    (hflag : cm.flags.xcluster_skip_schema_compatibility_checks_on_alter = false)
    (hloc : UpdateConsumerOnProducerMetadata.locate FromString cm req = Except.ok at_)
    (hsys : cm.sys_catalog_status = Status.OK)
    (hlt : req.producer_schema_version <
      ((requestSchemaVersions FromString IsColocationParentTableId cm req).getD
        {}).current_producer_schema_version)
    (hgt : req.producer_schema_version >
      ((requestSchemaVersions FromString IsColocationParentTableId cm req).getD
        {}).old_producer_schema_version) :
    (UpdateConsumerOnProducerMetadata FromString IsColocationParentTableId cm req).1 =
      Status.OK ∧
    (UpdateConsumerOnProducerMetadata FromString IsColocationParentTableId cm
        req).2.1.schema_versions =
      some
        { current_producer_schema_version :=
            ((requestSchemaVersions FromString IsColocationParentTableId cm req).getD
              {}).current_producer_schema_version
          current_consumer_schema_version :=
            ((requestSchemaVersions FromString IsColocationParentTableId cm req).getD
              {}).current_consumer_schema_version
          old_producer_schema_version := req.producer_schema_version
          old_consumer_schema_version := req.consumer_schema_version } ∧
    requestSchemaVersions FromString IsColocationParentTableId
        (UpdateConsumerOnProducerMetadata FromString IsColocationParentTableId cm req).2.2 req =
      some
        { current_producer_schema_version :=
            ((requestSchemaVersions FromString IsColocationParentTableId cm req).getD
              {}).current_producer_schema_version
          current_consumer_schema_version :=
            ((requestSchemaVersions FromString IsColocationParentTableId cm req).getD
              {}).current_consumer_schema_version
          old_producer_schema_version := req.producer_schema_version
          old_consumer_schema_version := req.consumer_schema_version } := by
  rw [UpdateConsumerOnProducerMetadata_of_locate FromString IsColocationParentTableId cm req at_
    hflag hloc]
  have hng : ¬ req.producer_schema_version >
      ((requestSchemaVersions FromString IsColocationParentTableId cm req).getD
        {}).current_producer_schema_version := by omega
  simp only [UpdateConsumerOnProducerMetadata.compare, hng, if_false, hlt, hgt, if_true, hsys]
  refine ⟨trivial, trivial, ?_⟩
  exact requestSchemaVersions_staged FromString IsColocationParentTableId cm req at_ hloc _ _
    rfl rfl

/-- C9 (amended), at a sample input: stored current = (7, 7), old = (3, 3); the request (5, 2)
is stored as the old pair. -/
theorem UpdateConsumerOnProducerMetadata_between_versions_witness :
    requestSchemaVersions sampleFromString (fun _ => false)
      (UpdateConsumerOnProducerMetadata sampleFromString (fun _ => false) sampleSchemaState
        { replication_group_id := "group1", stream_id := "1", producer_schema_version := 5,
          consumer_schema_version := 2 }).2.2
      { replication_group_id := "group1", stream_id := "1", producer_schema_version := 5,
        consumer_schema_version := 2 } =
      some
        { current_producer_schema_version := 7
          current_consumer_schema_version := 7
          old_producer_schema_version := 5
          old_consumer_schema_version := 2 } :=
  (UpdateConsumerOnProducerMetadata_between_versions sampleFromString
    (fun _ => false) sampleSchemaState
    { replication_group_id := "group1", stream_id := "1", producer_schema_version := 5,
      consumer_schema_version := 2 } sampleSchemaLocated (by rfl) (by rfl) (by rfl) (by decide)
    (by decide)).2.2

theorem UpdateConsumerOnProducerMetadata_cases
    (FromString : String → Except Status StreamId)
    (IsColocationParentTableId : TableId → Bool) (cm : CatalogManager)
    (req : UpdateConsumerOnProducerMetadataRequestPB) :
    (UpdateConsumerOnProducerMetadata FromString IsColocationParentTableId cm req).2.2 = cm ∨
    ∃ at_ versions,
      UpdateConsumerOnProducerMetadata.locate FromString cm req = Except.ok at_ ∧
      UpdateConsumerOnProducerMetadata.compare req
          ((requestSchemaVersions FromString IsColocationParentTableId cm req).getD {})
          ((IsColocationParentTableId at_.consumer_table_id &&
              decide (req.colocation_id ≠ kColocationIdNotSet)) &&
            (requestSchemaVersions FromString IsColocationParentTableId cm req).isNone) =
        Except.ok (versions, true) ∧
      (UpdateConsumerOnProducerMetadata FromString IsColocationParentTableId cm req).2.2 =
        { cm with
          cluster_config_ := UpdateConsumerOnProducerMetadata.staged cm req at_
            (IsColocationParentTableId at_.consumer_table_id &&
              decide (req.colocation_id ≠ kColocationIdNotSet)) versions
          sys_catalog_ := cm.sys_catalog_ ++
            [SysCatalogWrite.UpsertClusterConfig
              (UpdateConsumerOnProducerMetadata.staged cm req at_
                (IsColocationParentTableId at_.consumer_table_id &&
                  decide (req.colocation_id ≠ kColocationIdNotSet)) versions)] } := by
  by_cases hflag : cm.flags.xcluster_skip_schema_compatibility_checks_on_alter = true
  · left
    simp [UpdateConsumerOnProducerMetadata, hflag]
  · have hflag1 : cm.flags.xcluster_skip_schema_compatibility_checks_on_alter = false := by
      simpa using hflag
    cases hloc : UpdateConsumerOnProducerMetadata.locate FromString cm req with
    | error status =>
      left
      simp [UpdateConsumerOnProducerMetadata, hflag1, hloc]
    | ok at_ =>
      rw [UpdateConsumerOnProducerMetadata_of_locate FromString IsColocationParentTableId cm req
        at_ hflag1 hloc]
      cases hcmp : UpdateConsumerOnProducerMetadata.compare req
          ((requestSchemaVersions FromString IsColocationParentTableId cm req).getD {})
          ((IsColocationParentTableId at_.consumer_table_id &&
              decide (req.colocation_id ≠ kColocationIdNotSet)) &&
            (requestSchemaVersions FromString IsColocationParentTableId cm req).isNone) with
      | error status => left; rfl
      | ok r =>
        obtain ⟨versions, updated⟩ := r
        cases updated with
        | false => left; rfl
        | true =>
          cases hsys : cm.sys_catalog_status with
          | error c m e =>
            left
            simp [hsys]
          | OK =>
            right
            refine ⟨at_, versions, rfl, hcmp, ?_⟩
            simp [hsys]

theorem UpdateConsumerOnProducerMetadata_compare_updated
    (req : UpdateConsumerOnProducerMetadataRequestPB) (pb versions : SchemaVersionsPB)
    (updated0 : Bool)
    (h : UpdateConsumerOnProducerMetadata.compare req pb updated0 = Except.ok (versions, true)) :
    versions ≠ pb ∨ updated0 = true := by
  unfold UpdateConsumerOnProducerMetadata.compare at h
  by_cases h1 : req.producer_schema_version > pb.current_producer_schema_version
  · simp only [h1, if_true, Except.ok.injEq, Prod.mk.injEq, and_true] at h
    left
    intro he
    rw [← h] at he
    have := congrArg SchemaVersionsPB.current_producer_schema_version he
    simp only at this
    omega
  · simp only [h1, if_false] at h
    by_cases h2 : req.producer_schema_version < pb.current_producer_schema_version
    · simp only [h2, if_true] at h
      by_cases h3 : req.producer_schema_version > pb.old_producer_schema_version
      · simp only [h3, if_true, Except.ok.injEq, Prod.mk.injEq, and_true] at h
        left
        intro he
        rw [← h] at he
        have := congrArg SchemaVersionsPB.old_producer_schema_version he
        simp only at this
        omega
      · simp only [h3, if_false, Except.ok.injEq, Prod.mk.injEq] at h
        exact Or.inr h.2
    · simp only [h2, if_false] at h
      by_cases h4 : req.consumer_schema_version ≥ pb.current_consumer_schema_version
      · simp only [h4, if_true, Except.ok.injEq, Prod.mk.injEq] at h
        exact Or.inr h.2
      · simp [h4] at h

/-- C10: a call of `UpdateConsumerOnProducerMetadata`, successful or not, the version of the
cluster config being below the largest `int32`. The call increments the version by one and
appends a write of the new cluster config to the sys catalog if and only if the schema versions stored for the stream (or for the colocation
id of the request) differ after the call from before it, or an entry that was missing before has
been created; when neither is the case, the state after the call, with the consumer registry,
its version and the sys catalog, is the state before it. -/
theorem UpdateConsumerOnProducerMetadata_persists_iff_changed
    (FromString : String → Except Status StreamId)
    (IsColocationParentTableId : TableId → Bool) (cm : CatalogManager)
    (req : UpdateConsumerOnProducerMetadataRequestPB)
    (hversion : cm.cluster_config_.version < 2 ^ 31 - 1) :
    (((UpdateConsumerOnProducerMetadata FromString IsColocationParentTableId cm
          req).2.2.cluster_config_.version = cm.cluster_config_.version + 1 ∧
        (UpdateConsumerOnProducerMetadata FromString IsColocationParentTableId cm
          req).2.2.sys_catalog_ = cm.sys_catalog_ ++
            [SysCatalogWrite.UpsertClusterConfig
              (UpdateConsumerOnProducerMetadata FromString IsColocationParentTableId cm
                req).2.2.cluster_config_]) ↔
      ((requestSchemaVersions FromString IsColocationParentTableId
            (UpdateConsumerOnProducerMetadata FromString IsColocationParentTableId cm req).2.2
            req).getD {} ≠
          (requestSchemaVersions FromString IsColocationParentTableId cm req).getD {} ∨
        (requestSchemaVersions FromString IsColocationParentTableId cm req = none ∧
          requestSchemaVersions FromString IsColocationParentTableId
            (UpdateConsumerOnProducerMetadata FromString IsColocationParentTableId cm req).2.2
            req ≠ none))) ∧
    (¬ ((requestSchemaVersions FromString IsColocationParentTableId
            (UpdateConsumerOnProducerMetadata FromString IsColocationParentTableId cm req).2.2
            req).getD {} ≠
          (requestSchemaVersions FromString IsColocationParentTableId cm req).getD {} ∨
        (requestSchemaVersions FromString IsColocationParentTableId cm req = none ∧
          requestSchemaVersions FromString IsColocationParentTableId
            (UpdateConsumerOnProducerMetadata FromString IsColocationParentTableId cm req).2.2
            req ≠ none)) →
      (UpdateConsumerOnProducerMetadata FromString IsColocationParentTableId cm req).2.2 =
        cm) := by
  rcases UpdateConsumerOnProducerMetadata_cases FromString IsColocationParentTableId cm req with
    h | ⟨at_, versions, hloc, hcmp, h⟩
  · rw [h]
    refine ⟨⟨?_, ?_⟩, fun _ => rfl⟩
    · rintro ⟨hv, _⟩
      omega
    · rintro (h1 | ⟨h1, h2⟩)
      · exact absurd rfl h1
      · exact absurd h1 h2
  · have hafter := requestSchemaVersions_staged FromString IsColocationParentTableId cm req at_
      hloc versions
      (UpdateConsumerOnProducerMetadata FromString IsColocationParentTableId cm req).2.2
      (by rw [h]) (by rw [h])
    have hchanged : (requestSchemaVersions FromString IsColocationParentTableId
            (UpdateConsumerOnProducerMetadata FromString IsColocationParentTableId cm req).2.2
            req).getD {} ≠
          (requestSchemaVersions FromString IsColocationParentTableId cm req).getD {} ∨
        (requestSchemaVersions FromString IsColocationParentTableId cm req = none ∧
          requestSchemaVersions FromString IsColocationParentTableId
            (UpdateConsumerOnProducerMetadata FromString IsColocationParentTableId cm req).2.2
            req ≠ none) := by
      rw [hafter]
      rcases UpdateConsumerOnProducerMetadata_compare_updated req _ versions _ hcmp with hne | hu
      · exact Or.inl hne
      · right
        simp only [Bool.and_eq_true, Option.isNone_iff_eq_none] at hu
        exact ⟨hu.2, by simp⟩
    refine ⟨⟨fun _ => hchanged, fun _ => ?_⟩, fun hn => absurd hchanged hn⟩
    rw [h]
    refine ⟨?_, rfl⟩
    show int32_incr cm.cluster_config_.version = cm.cluster_config_.version + 1
    unfold int32_incr
    rw [if_neg (by omega)]

/-- C10, at a sample input: stored current = (7, 7), old = (3, 3), version 4; the request
(9, 8) changes the stored versions, and the version is 5 after the call. -/
theorem UpdateConsumerOnProducerMetadata_persists_iff_changed_witness :
    (UpdateConsumerOnProducerMetadata sampleFromString (fun _ => false) sampleSchemaState
      { replication_group_id := "group1", stream_id := "1", producer_schema_version := 9,
        consumer_schema_version := 8 }).2.2.cluster_config_.version = 4 + 1 :=
  ((UpdateConsumerOnProducerMetadata_persists_iff_changed sampleFromString (fun _ => false)
    sampleSchemaState
    { replication_group_id := "group1", stream_id := "1", producer_schema_version := 9,
      consumer_schema_version := 8 } (by decide)).1.2 (Or.inl (by decide))).1

/-! ### Slots -/

theorem mapContains_eq_false_iff {K V : Type} [DecidableEq K] (m : List (K × V)) (k : K) :
    mapContains m k = false ↔ ∀ e ∈ m, e.1 ≠ k := by
  induction m with
  | nil => simp [mapContains, mapFind]
  | cons e rest ih =>
    obtain ⟨k1, v1⟩ := e
    by_cases hk : k1 = k
    · simp [mapContains, mapFind, hk]
    · have : mapContains ((k1, v1) :: rest) k = mapContains rest k := by
        simp [mapContains, mapFind, hk]
      rw [this, ih]
      simp [hk]

theorem mapContains_mapErase {K V : Type} [DecidableEq K] (m : List (K × V)) (k : K) :
    mapContains (mapErase m k) k = false := by
  rw [mapContains_eq_false_iff]
  intro e he
  simp only [mapErase, List.mem_filter, decide_eq_true_eq] at he
  exact he.2

theorem mapErase_of_not_contains {K V : Type} [DecidableEq K] (m : List (K × V)) (k : K)
    (h : mapContains m k = false) : mapErase m k = m := by
  rw [mapContains_eq_false_iff] at h
  simp only [mapErase, List.filter_eq_self, decide_eq_true_eq]
  exact h

theorem filter_key_of_not_contains {K V : Type} [DecidableEq K] (m : List (K × V)) (k : K)
    (h : mapContains m k = false) : m.filter (fun e => decide (e.1 = k)) = [] := by
  rw [mapContains_eq_false_iff] at h
  simp only [List.filter_eq_nil_iff, decide_eq_true_eq]
  exact h

theorem mapAssign_of_not_contains {K V : Type} [DecidableEq K] (m : List (K × V)) (k : K)
    (v : V) (h : mapContains m k = false) : mapAssign m k v = m ++ [(k, v)] := by
  simp [mapAssign, h]

theorem GenerateNewXreplStreamId_state (cm : CatalogManager) (random : List StreamId) :
    ∀ id cm2 rest, GenerateNewXreplStreamId cm random = some (id, cm2, rest) → cm2 = cm := by
  induction random with
  | nil =>
    intro id cm2 rest h
    simp [GenerateNewXreplStreamId] at h
  | cons c random ih =>
    intro id cm2 rest h
    unfold GenerateNewXreplStreamId at h
    by_cases hc : (!cm.xrepl_stream_ids_in_use_.contains c) = true
    · simp only [hc, if_true, Option.some.injEq, Prod.mk.injEq] at h
      exact h.2.1.symm
    · simp only [hc, if_false, Bool.false_eq_true] at h
      exact ih id cm2 rest h

theorem CreateNewCdcsdkStream_post_commit_ok (cm : CatalogManager)
    (req : CreateCDCStreamRequestPB) (stream_id : StreamId) (env : CreateStreamEnv)
    (resp resp1 : CreateCDCStreamResponsePB) (cm1 : CatalogManager)
    (h : CreateNewCdcsdkStream.post_commit cm req stream_id env resp = (Status.OK, resp1, cm1)) :
    cm1.cdcsdk_replication_slots_to_stream_map_ = cm.cdcsdk_replication_slots_to_stream_map_ ∧
    resp1.stream_id = resp.stream_id := by
  unfold CreateNewCdcsdkStream.post_commit at h
  cases h1 : env.populate_cdc_state_table_first with
  | error c m e => simp [h1] at h
  | OK =>
    cases h2 : env.set_retention_barriers with
    | error c m e => simp [h1, h2] at h
    | OK =>
      simp only [h1, h2] at h
      by_cases hcs : (req.cdcsdk_consistent_snapshot_option.isSome &&
          cm.flags.yb_enable_cdc_consistent_snapshot_streams) = true
      · cases h3 : cm.sys_catalog_status with
        | error c m e => simp [hcs, h3] at h
        | OK =>
          cases h4 : env.populate_cdc_state_table_second with
          | error c m e => simp [hcs, h3, h4] at h
          | OK =>
            simp only [hcs, if_true, h3, h4, Prod.mk.injEq, true_and] at h
            obtain ⟨hr, hc⟩ := h
            subst hr
            subst hc
            exact ⟨rfl, rfl⟩
      · cases h4 : env.populate_cdc_state_table_second with
        | error c m e => simp [hcs, h4] at h
        | OK =>
          simp only [hcs, if_false, Bool.false_eq_true, h4, Prod.mk.injEq, true_and] at h
          obtain ⟨hr, hc⟩ := h
          subst hr
          subst hc
          exact ⟨rfl, rfl⟩

theorem CreateNewCdcsdkStream_check_slot_cases (cm : CatalogManager)
    (slot_name : ReplicationSlotName) :
    (∃ c m e sl, CreateNewCdcsdkStream.check_slot cm slot_name =
        (some (Status.error c m e), sl)) ∨
    (∃ sl, CreateNewCdcsdkStream.check_slot cm slot_name = (none, sl) ∧
      mapContains sl slot_name = false ∧ mapSize sl < cm.flags.max_replication_slots) := by
  unfold CreateNewCdcsdkStream.check_slot
  by_cases hc : mapContains cm.cdcsdk_replication_slots_to_stream_map_ slot_name = true
  · simp only [hc, if_true]
    cases hf : mapFind cm.cdcsdk_replication_slots_to_stream_map_ slot_name with
    | none =>
      simp only []
      exact Or.inl ⟨_, _, _, _, rfl⟩
    | some stream_id =>
      simp only []
      cases hs : mapFind cm.cdc_stream_map_ stream_id with
      | none =>
        simp only []
        exact Or.inl ⟨_, _, _, _, rfl⟩
      | some stream =>
        simp only []
        by_cases hd : stream.is_deleting = true
        · simp only [hd, Bool.not_true, Bool.false_eq_true, if_false]
          by_cases hsz : mapSize (mapErase cm.cdcsdk_replication_slots_to_stream_map_ slot_name) ≥
              cm.flags.max_replication_slots
          · simp only [hsz, if_true]
            exact Or.inl ⟨_, _, _, _, rfl⟩
          · simp only [hsz, if_false]
            exact Or.inr ⟨_, rfl, mapContains_mapErase _ _, by omega⟩
        · simp only [hd, Bool.not_false, if_true]
          exact Or.inl ⟨_, _, _, _, rfl⟩
  · have hc1 : mapContains cm.cdcsdk_replication_slots_to_stream_map_ slot_name = false := by
      simpa using hc
    simp only [hc1, if_false, Bool.false_eq_true]
    by_cases hsz : mapSize cm.cdcsdk_replication_slots_to_stream_map_ ≥
        cm.flags.max_replication_slots
    · simp only [hsz, if_true]
      exact Or.inl ⟨_, _, _, _, rfl⟩
    · simp only [hsz, if_false]
      exact Or.inr ⟨_, rfl, hc1, by omega⟩

theorem CreateNewCdcsdkStream_check_slot_present (cm : CatalogManager)
    (slot_name : ReplicationSlotName) (id : StreamId) (pb : SysCDCStreamEntryPB)
    (h1 : mapFind cm.cdcsdk_replication_slots_to_stream_map_ slot_name = some id)
    (h2 : mapFind cm.cdc_stream_map_ id = some pb) (h3 : pb.is_deleting = false) :
    CreateNewCdcsdkStream.check_slot cm slot_name =
      (some (Status.error StatusCode.AlreadyPresent
        "CDC stream with the given replication slot name already exists"
        (some MasterErrorPB.OBJECT_ALREADY_PRESENT)),
        cm.cdcsdk_replication_slots_to_stream_map_) := by
  simp [CreateNewCdcsdkStream.check_slot, mapContains, h1, h2, h3]

theorem CreateNewCdcsdkStream_check_slot_full (cm : CatalogManager)
    (slot_name : ReplicationSlotName)
    (hfree : mapFind cm.cdcsdk_replication_slots_to_stream_map_ slot_name = none ∨
      ∃ id pb, mapFind cm.cdcsdk_replication_slots_to_stream_map_ slot_name = some id ∧
        mapFind cm.cdc_stream_map_ id = some pb ∧ pb.is_deleting = true)
    (hfull : mapSize (mapErase cm.cdcsdk_replication_slots_to_stream_map_ slot_name) ≥
      cm.flags.max_replication_slots) :
    CreateNewCdcsdkStream.check_slot cm slot_name =
      (some (Status.error StatusCode.ReplicationSlotLimitReached
        "Replication slot limit reached"
        (some MasterErrorPB.REPLICATION_SLOT_LIMIT_REACHED)),
        mapErase cm.cdcsdk_replication_slots_to_stream_map_ slot_name) := by
  rcases hfree with h | ⟨id, pb, h1, h2, h3⟩
  · have hc : mapContains cm.cdcsdk_replication_slots_to_stream_map_ slot_name = false := by
      simp [mapContains, h]
    rw [mapErase_of_not_contains _ _ hc] at hfull ⊢
    simp [CreateNewCdcsdkStream.check_slot, hc, hfull]
  · simp [CreateNewCdcsdkStream.check_slot, mapContains, h1, h2, h3, hfull]

theorem CreateNewCdcsdkStream_check_namespace_error (namespace_id : NamespaceId)
    (has_replication_slot_name : Bool) (m : List (StreamId × SysCDCStreamEntryPB))
    (status : Status)
    (h : CreateNewCdcsdkStream.check_namespace namespace_id has_replication_slot_name m =
      some status) : status ≠ Status.OK := by
  induction m with
  | nil => simp [CreateNewCdcsdkStream.check_namespace] at h
  | cons e rest ih =>
    obtain ⟨id, stream⟩ := e
    unfold CreateNewCdcsdkStream.check_namespace at h
    split at h
    · split at h
      · simp only [Option.some.injEq] at h
        rw [← h]
        simp
      · split at h
        · simp only [Option.some.injEq] at h
          rw [← h]
          simp
        · exact ih h
    · exact ih h

theorem CreateNewCdcsdkStream_add_tables_error (cm : CatalogManager) (flag : Bool)
    (table_ids : List TableId) :
    ∀ (metadata : SysCDCStreamEntryPB) (status : Status),
      CreateNewCdcsdkStream.add_tables cm flag table_ids metadata = Except.error status →
      status ≠ Status.OK := by
  induction table_ids with
  | nil =>
    intro metadata status h
    simp [CreateNewCdcsdkStream.add_tables] at h
  | cons t rest ih =>
    intro metadata status h
    unfold CreateNewCdcsdkStream.add_tables at h
    cases flag with
    | false =>
      simp only [Bool.false_eq_true, if_false] at h
      exact ih _ _ h
    | true =>
      simp only [if_true] at h
      unfold FindTableById at h
      cases hf : mapFind cm.tables_ t with
      | none =>
        simp only [hf, Except.error.injEq] at h
        rw [← h]
        simp
      | some table =>
        simp only [hf] at h
        exact ih _ _ h

theorem CreateNewCdcsdkStream_metadata_error (cm : CatalogManager)
    (req : CreateCDCStreamRequestPB) (table_ids : List TableId) (namespace_id : NamespaceId)
    (status : Status)
    (h : CreateNewCdcsdkStream.metadata cm req table_ids namespace_id = Except.error status) :
    status ≠ Status.OK := by
  unfold CreateNewCdcsdkStream.metadata at h
  simp only at h
  split at h
  · rename_i st hst
    simp only [Except.error.injEq] at h
    subst h
    exact CreateNewCdcsdkStream_add_tables_error cm _ table_ids _ _ hst
  · simp at h

/-- C7 (amended): `CreateNewCdcsdkStream` with a slot name, the CDC state table being there.
It fails with AlreadyPresent when the name belongs to a stream that is not deleting. When the
name is new, or belongs to a deleting stream, it fails with ReplicationSlotLimitReached when the
slot index holds `max_replication_slots` or more names other than the requested one. When it
returns OK, the slot index has one entry for the name, the one of the new stream, and holds at
most `max_replication_slots` names. -/
theorem CreateNewCdcsdkStream_slot_checks (cm : CatalogManager)
    (req : CreateCDCStreamRequestPB) (table_ids : List TableId) (namespace_id : NamespaceId)
    (env : CreateStreamEnv) (name : String)
    (hname : req.cdcsdk_ysql_replication_slot_name = some name)
    (henv : env.create_cdc_state_table = Status.OK) :
    ((∃ id pb, mapFind cm.cdcsdk_replication_slots_to_stream_map_ name = some id ∧
        mapFind cm.cdc_stream_map_ id = some pb ∧ pb.is_deleting = false) →
      ∃ cm1, CreateNewCdcsdkStream cm req table_ids namespace_id env =
        some (Status.error StatusCode.AlreadyPresent
          "CDC stream with the given replication slot name already exists"
          (some MasterErrorPB.OBJECT_ALREADY_PRESENT), {}, cm1)) ∧
    ((mapFind cm.cdcsdk_replication_slots_to_stream_map_ name = none ∨
        ∃ id pb, mapFind cm.cdcsdk_replication_slots_to_stream_map_ name = some id ∧
          mapFind cm.cdc_stream_map_ id = some pb ∧ pb.is_deleting = true) →
      mapSize (mapErase cm.cdcsdk_replication_slots_to_stream_map_ name) ≥
        cm.flags.max_replication_slots →
      ∃ cm1, CreateNewCdcsdkStream cm req table_ids namespace_id env =
        some (Status.error StatusCode.ReplicationSlotLimitReached
          "Replication slot limit reached"
          (some MasterErrorPB.REPLICATION_SLOT_LIMIT_REACHED), {}, cm1)) ∧
    (∀ resp cm1, CreateNewCdcsdkStream cm req table_ids namespace_id env =
        some (Status.OK, resp, cm1) →
      ∃ id, resp.stream_id = some id ∧
        cm1.cdcsdk_replication_slots_to_stream_map_.filter (fun e => decide (e.1 = name)) =
          [(name, id)] ∧
        mapSize cm1.cdcsdk_replication_slots_to_stream_map_ ≤
          cm.flags.max_replication_slots) := by
  refine ⟨?_, ?_, ?_⟩
  · rintro ⟨id, pb, h1, h2, h3⟩
    unfold CreateNewCdcsdkStream
    simp only [henv, hname, Option.isSome_some, if_true, Option.getD_some,
      CreateNewCdcsdkStream_check_slot_present cm name id pb h1 h2 h3]
    exact ⟨_, rfl⟩
  · intro hfree hfull
    unfold CreateNewCdcsdkStream
    simp only [henv, hname, Option.isSome_some, if_true, Option.getD_some,
      CreateNewCdcsdkStream_check_slot_full cm name hfree hfull]
    exact ⟨_, rfl⟩
  · intro resp cm1 h
    unfold CreateNewCdcsdkStream at h
    simp only [henv, hname, Option.isSome_some, if_true, Option.getD_some, true_and] at h
    rcases CreateNewCdcsdkStream_check_slot_cases cm name with
      ⟨c, m, e, sl, hcs⟩ | ⟨sl, hcs, hnot, hsize⟩
    · simp [hcs] at h
    · simp only [hcs] at h
      cases hns : CreateNewCdcsdkStream.check_namespace namespace_id true cm.cdc_stream_map_ with
      | some status =>
        have := CreateNewCdcsdkStream_check_namespace_error _ _ _ _ hns
        simp only [hns, Option.some.injEq, Prod.mk.injEq] at h
        exact absurd h.1 this
      | none =>
        simp only [hns] at h
        cases hgen : GenerateNewXreplStreamId
            { cm with cdcsdk_replication_slots_to_stream_map_ := sl } env.random with
        | none => simp [hgen] at h
        | some g =>
          obtain ⟨stream_id, cm2, rest⟩ := g
          have hcm2 := GenerateNewXreplStreamId_state _ _ _ _ _ hgen
          subst hcm2
          simp only [hgen] at h
          cases hmeta : CreateNewCdcsdkStream.metadata
              { cm with cdcsdk_replication_slots_to_stream_map_ := sl } req table_ids
              namespace_id with
          | error status =>
            have := CreateNewCdcsdkStream_metadata_error _ _ _ _ _ hmeta
            simp only [hmeta, Option.some.injEq, Prod.mk.injEq] at h
            exact absurd h.1 this
          | ok metadata =>
            simp only [hmeta, hnot, Bool.false_eq_true, if_false] at h
            have hslots : mapAssign sl name stream_id = sl ++ [(name, stream_id)] :=
              mapAssign_of_not_contains sl name stream_id hnot
            have hfilter : (sl ++ [(name, stream_id)]).filter (fun e => decide (e.1 = name)) =
                [(name, stream_id)] := by
              rw [List.filter_append, filter_key_of_not_contains sl name hnot]
              simp
            have hlen : mapSize (sl ++ [(name, stream_id)]) ≤ cm.flags.max_replication_slots := by
              simp only [mapSize, List.length_append, List.length_singleton] at hsize ⊢
              omega
            cases hsys : cm.sys_catalog_status with
            | error c m e => simp [hsys] at h
            | OK =>
              simp only [hsys] at h
              split at h
              · simp only [Option.some.injEq, Prod.mk.injEq, true_and] at h
                obtain ⟨hr, hc⟩ := h
                subst hr
                subst hc
                refine ⟨stream_id, rfl, ?_, ?_⟩
                · simp only [hslots]
                  exact hfilter
                · simp only [hslots]
                  exact hlen
              · simp only [Option.some.injEq] at h
                obtain ⟨h1, h2⟩ := CreateNewCdcsdkStream_post_commit_ok _ _ _ _ _ _ _ h
                refine ⟨stream_id, h2, ?_, ?_⟩
                · rw [h1]
                  simp only [hslots]
                  exact hfilter
                · rw [h1]
                  simp only [hslots]
                  exact hlen

/-- C7 (amended), at a sample input: the slot `slot_a` belongs to the ACTIVE stream 3; a create
request with that slot name fails with AlreadyPresent. -/
theorem CreateNewCdcsdkStream_slot_checks_witness :
    ∃ cm1, CreateNewCdcsdkStream sampleDeleteState
        { namespace_id := some "ns", cdcsdk_ysql_replication_slot_name := some "slot_a" }
        ["t3"] "ns" {} =
      some (Status.error StatusCode.AlreadyPresent
        "CDC stream with the given replication slot name already exists"
        (some MasterErrorPB.OBJECT_ALREADY_PRESENT), {}, cm1) :=
  (CreateNewCdcsdkStream_slot_checks sampleDeleteState
    { namespace_id := some "ns", cdcsdk_ysql_replication_slot_name := some "slot_a" }
    ["t3"] "ns" {} "slot_a" rfl rfl).1
    ⟨3, { table_id := ["t3"], namespace_id := some "ns",
          state := some SysCDCStreamEntryPB.State.ACTIVE,
          cdcsdk_ysql_replication_slot_name := some "slot_a" },
      by decide, by decide, by decide⟩

/-- C6 (the code at the failing input): two `CreateNewCdcsdkStream` calls without a slot name
create the streams 1 and 2 on the namespace `ns`, which has streams of one kind only; then
`YsqlBackfillReplicationSlotNameToCDCSDKStream` gives stream 1 the slot name `slot_a` and returns
OK, and `ns` has a stream with a slot name and a stream without one. -/
theorem YsqlBackfill_mixes_namespace :
    (CreateNewCdcsdkStream sampleSlotState sampleLegacyRequest ["t1"] "ns"
      { random := [1] }).bind (fun first =>
        (CreateNewCdcsdkStream first.2.2 sampleLegacyRequest ["t1"] "ns"
          { random := [2] }).map (fun second =>
            (first.1, second.1, second.2.2.cdc_stream_map_.map (fun e => e.1),
              namespaceHasBothKinds second.2.2 "ns",
              (YsqlBackfillReplicationSlotNameToCDCSDKStream sampleFromString second.2.2
                { stream_id := some "1",
                  cdcsdk_ysql_replication_slot_name := some "slot_a" }).1,
              namespaceHasBothKinds
                (YsqlBackfillReplicationSlotNameToCDCSDKStream sampleFromString second.2.2
                  { stream_id := some "1",
                    cdcsdk_ysql_replication_slot_name := some "slot_a" }).2 "ns"))) =
      some (Status.OK, Status.OK, [1, 2], false, Status.OK, true) := by
  decide

/-- C7 (the claim as written fails): one slot is allowed and the slot index holds one name,
`slot_a`, of a stream that is DELETING; `CreateNewCdcsdkStream` with the slot name `slot_a` does
not fail with ReplicationSlotLimitReached, it returns OK. -/
theorem CreateNewCdcsdkStream_limit_counterexample :
    mapSize sampleFullSlotState.cdcsdk_replication_slots_to_stream_map_ ≥
      sampleFullSlotState.flags.max_replication_slots ∧
    (CreateNewCdcsdkStream sampleFullSlotState
      { namespace_id := some "ns", options := [⟨"record_type", "CHANGE"⟩],
        cdcsdk_ysql_replication_slot_name := some "slot_a" } ["t1"] "ns"
      { random := [2] }).map (fun r => r.1) = some Status.OK := by
  decide

/-- C2 (the code at the failing input): with an empty in-use set and the random draws 7, 7,
`GenerateNewXreplStreamId` returns the id 7 and leaves the in-use set empty; so
`InitNewXReplStream` returns 7, the in-use set of the state after the call is empty, and a
second call returns 7 again, for the entry of the first stream in the stream map. -/
theorem GenerateNewXreplStreamId_does_not_record :
    GenerateNewXreplStreamId {} [7, 7] = some (7, {}, [7]) ∧
    InitNewXReplStream {} [7, 7] = some (7, { cdc_stream_map_ := [(7, {})] }, [7]) ∧
    ({ cdc_stream_map_ := [(7, {})] } : CatalogManager).xrepl_stream_ids_in_use_ = [] ∧
    InitNewXReplStream { cdc_stream_map_ := [(7, {})] } [7] =
      some (7, { cdc_stream_map_ := [(7, {})] }, []) := by
  refine ⟨by rfl, by rfl, by rfl, by rfl⟩

/-! ### Replication groups: validation and failure -/

theorem mapContains_iff_mem_keys {K V : Type} [DecidableEq K] (m : List (K × V)) (k : K) :
    mapContains m k = true ↔ k ∈ m.map Prod.fst := by
  rw [← Bool.not_eq_false, mapContains_eq_false_iff]
  simp only [List.mem_map, not_forall]
  constructor
  · rintro ⟨e, he, h⟩
    exact ⟨e, he, not_ne_iff.mp h⟩
  · rintro ⟨e, he, h⟩
    exact ⟨e, he, fun hne => hne h⟩

theorem keys_mapAssign {K V : Type} [DecidableEq K] (m : List (K × V)) (k : K) (v : V) :
    (mapAssign m k v).map Prod.fst =
      if mapContains m k = true then m.map Prod.fst else m.map Prod.fst ++ [k] := by
  unfold mapAssign
  by_cases hc : mapContains m k = true
  · simp only [hc, if_true, List.map_map]
    apply List.map_congr_left
    intro e _
    rfl
  · simp only [hc, if_false, Bool.false_eq_true, List.map_append, List.map_cons, List.map_nil]

theorem distinctTables_eq_card (l : List TableId) : distinctTables l = l.toFinset.card := by
  unfold distinctTables
  rw [List.card_toFinset]

theorem distinctTables_append_singleton (seen : List TableId) (p : TableId) :
    distinctTables (seen ++ [p]) =
      if p ∈ seen then distinctTables seen else distinctTables seen + 1 := by
  rw [distinctTables_eq_card, distinctTables_eq_card, List.toFinset_append]
  simp only [List.toFinset_cons, List.toFinset_nil, insert_emptyc_eq]
  by_cases hp : p ∈ seen
  · simp only [hp, if_true]
    congr 1
    rw [Finset.union_eq_left]
    intro x hx
    simp only [Finset.mem_singleton] at hx
    subst hx
    exact List.mem_toFinset.mpr hp
  · simp only [hp, if_false]
    rw [Finset.union_comm, ← Finset.insert_eq, Finset.card_insert_of_not_mem]
    intro h
    exact hp (List.mem_toFinset.mp h)

theorem distinctTables_le_append (a b : List TableId) :
    distinctTables a ≤ distinctTables (a ++ b) := by
  rw [distinctTables_eq_card, distinctTables_eq_card]
  apply Finset.card_le_card
  intro x hx
  rw [List.mem_toFinset] at hx ⊢
  exact List.mem_append_left _ hx

theorem validatedInv_step (m : List (TableId × TableId)) (seen : List TableId)
    (p c : TableId) (h : validatedInv m seen) :
    validatedInv (mapAssign m p c) (seen ++ [p]) := by
  obtain ⟨h1, h2⟩ := h
  constructor
  · unfold mapSize at h1 ⊢
    rw [distinctTables_append_singleton, ← h1]
    have hl : (mapAssign m p c).length = ((mapAssign m p c).map Prod.fst).length := by simp
    rw [hl, keys_mapAssign]
    by_cases hc : mapContains m p = true
    · simp only [hc, if_true, (h2 p).mp hc, List.length_map]
    · have hp : ¬ p ∈ seen := fun hp => hc ((h2 p).mpr hp)
      simp only [hc, if_false, hp, Bool.false_eq_true, List.length_append, List.length_map,
        List.length_singleton]
  · intro k
    rw [mapContains_iff_mem_keys, keys_mapAssign]
    by_cases hc : mapContains m p = true
    · simp only [hc, if_true, List.mem_append, List.mem_singleton]
      rw [← mapContains_iff_mem_keys, h2]
      constructor
      · exact Or.inl
      · rintro (h | h)
        · exact h
        · rw [h]; exact (h2 p).mp hc
    · simp only [hc, if_false, Bool.false_eq_true, List.mem_append, List.mem_singleton]
      rw [← mapContains_iff_mem_keys, h2]

theorem AddValidatedTableToUniverseReplication_ok (IsColocationParentTableId : TableId → Bool)
    (cm : CatalogManager) (universe_id : ReplicationGroupId)
    (producer_table consumer_table : TableId)
    (producer_schema_version consumer_schema_version : Nat)
    (colocated_schema_versions : List (Nat × Nat × Nat)) (info : UniverseReplicationInfo)
    (h : mapFind cm.universe_replication_map_ universe_id = some info)
    (hsys : cm.sys_catalog_status = Status.OK) :
    ∃ cm1 info1,
      AddValidatedTableToUniverseReplication IsColocationParentTableId cm universe_id
        producer_table consumer_table producer_schema_version consumer_schema_version
        colocated_schema_versions = some (Status.OK, cm1) ∧
      mapFind cm1.universe_replication_map_ universe_id = some info1 ∧
      cm1.sys_catalog_status = Status.OK ∧
      info1.pb.tables = info.pb.tables ∧
      info1.pb.transactional = info.pb.transactional ∧
      info1.pb.state = info.pb.state ∧
      info1.pb.validated_tables =
        mapAssign info.pb.validated_tables producer_table consumer_table := by
  unfold AddValidatedTableToUniverseReplication
  simp only [h, hsys]
  exact ⟨_, _, rfl, mapFind_mapAssign_self _ _ _, rfl, rfl, rfl, rfl, rfl⟩

theorem CreateCdcStreamsIfReplicationValidated_initializing
    (GetOrCreateXClusterRpcTasks : ReplicationGroupId → List String → Status)
    (cm : CatalogManager) (universe_id : ReplicationGroupId)
    (table_bootstrap_ids : List (TableId × StreamId)) (info : UniverseReplicationInfo)
    (h : mapFind cm.universe_replication_map_ universe_id = some info)
    (hs : info.pb.state = SysUniverseReplicationEntryPB.State.INITIALIZING)
    (hsys : cm.sys_catalog_status = Status.OK)
    (hrpc : ∀ addresses, GetOrCreateXClusterRpcTasks universe_id addresses = Status.OK) :
    ∃ cm1 info1,
      CreateCdcStreamsIfReplicationValidated GetOrCreateXClusterRpcTasks cm universe_id
        table_bootstrap_ids =
        some (Status.OK, cm1,
          if mapSize info.pb.validated_tables = info.pb.tables.length then
            CreateCdcStreamsIfReplicationValidated.loop table_bootstrap_ids
              info.pb.transactional info.pb.tables
          else []) ∧
      mapFind cm1.universe_replication_map_ universe_id = some info1 ∧
      cm1.sys_catalog_status = Status.OK ∧
      info1.pb.tables = info.pb.tables ∧
      info1.pb.transactional = info.pb.transactional ∧
      info1.pb.validated_tables = info.pb.validated_tables ∧
      info1.pb.state =
        (if mapSize info.pb.validated_tables = info.pb.tables.length then
          SysUniverseReplicationEntryPB.State.VALIDATED
        else SysUniverseReplicationEntryPB.State.INITIALIZING) := by
  unfold CreateCdcStreamsIfReplicationValidated
  have hd : info.pb.is_deleted_or_failed = false := by
    simp [SysUniverseReplicationEntryPB.is_deleted_or_failed, hs]
  simp only [h, hd, hs, ne_eq, not_true_eq_false, if_false, Bool.false_eq_true, hrpc, hsys]
  by_cases hn : mapSize info.pb.validated_tables = info.pb.tables.length
  · simp only [hn, not_true_eq_false, if_false, if_true]
    exact ⟨_, _, rfl, mapFind_mapAssign_self _ _ _, rfl, rfl, rfl, rfl, rfl⟩
  · simp only [hn, not_false_eq_true, if_true, if_false]
    exact ⟨_, _, rfl, h, hsys, rfl, rfl, rfl, hs⟩

theorem CreateCdcStreamsIfReplicationValidated_validated
    (GetOrCreateXClusterRpcTasks : ReplicationGroupId → List String → Status)
    (cm : CatalogManager) (universe_id : ReplicationGroupId)
    (table_bootstrap_ids : List (TableId × StreamId)) (info : UniverseReplicationInfo)
    (h : mapFind cm.universe_replication_map_ universe_id = some info)
    (hs : info.pb.state = SysUniverseReplicationEntryPB.State.VALIDATED) :
    CreateCdcStreamsIfReplicationValidated GetOrCreateXClusterRpcTasks cm universe_id
      table_bootstrap_ids = some (Status.OK, cm, []) := by
  unfold CreateCdcStreamsIfReplicationValidated
  have hd : info.pb.is_deleted_or_failed = false := by
    simp [SysUniverseReplicationEntryPB.is_deleted_or_failed, hs]
  simp [h, hd, hs]

theorem validationCallback_initializing (IsColocationParentTableId : TableId → Bool)
    (GetOrCreateXClusterRpcTasks : ReplicationGroupId → List String → Status)
    (cm : CatalogManager) (universe_id : ReplicationGroupId) (cb : ValidationCallback)
    (info : UniverseReplicationInfo)
    (h : mapFind cm.universe_replication_map_ universe_id = some info)
    (hs : info.pb.state = SysUniverseReplicationEntryPB.State.INITIALIZING)
    (hsys : cm.sys_catalog_status = Status.OK)
    (hrpc : ∀ addresses, GetOrCreateXClusterRpcTasks universe_id addresses = Status.OK) :
    ∃ cm1 info1,
      validationCallback IsColocationParentTableId GetOrCreateXClusterRpcTasks cm universe_id cb =
        some (Status.OK, cm1,
          if mapSize (mapAssign info.pb.validated_tables cb.producer_table cb.consumer_table) =
              info.pb.tables.length then
            CreateCdcStreamsIfReplicationValidated.loop cb.table_bootstrap_ids
              info.pb.transactional info.pb.tables
          else []) ∧
      mapFind cm1.universe_replication_map_ universe_id = some info1 ∧
      cm1.sys_catalog_status = Status.OK ∧
      info1.pb.tables = info.pb.tables ∧
      info1.pb.transactional = info.pb.transactional ∧
      info1.pb.validated_tables =
        mapAssign info.pb.validated_tables cb.producer_table cb.consumer_table ∧
      info1.pb.state =
        (if mapSize (mapAssign info.pb.validated_tables cb.producer_table cb.consumer_table) =
            info.pb.tables.length then SysUniverseReplicationEntryPB.State.VALIDATED
          else SysUniverseReplicationEntryPB.State.INITIALIZING) := by
  obtain ⟨cmA, infoA, hA, hfA, hsysA, htA, htrA, hstA, hvA⟩ :=
    AddValidatedTableToUniverseReplication_ok IsColocationParentTableId cm universe_id
      cb.producer_table cb.consumer_table cb.producer_schema_version cb.consumer_schema_version
      cb.colocated_schema_versions info h hsys
  obtain ⟨cm1, info1, hC, hf1, hsys1, ht1, htr1, hv1, hst1⟩ :=
    CreateCdcStreamsIfReplicationValidated_initializing GetOrCreateXClusterRpcTasks cmA
      universe_id cb.table_bootstrap_ids infoA hfA (hstA.trans hs) hsysA hrpc
  unfold validationCallback
  rw [hA]
  simp only []
  rw [hC, hvA, htA, htrA]
  refine ⟨cm1, info1, rfl, hf1, hsys1, ht1.trans htA, htr1.trans htrA, hv1.trans hvA, ?_⟩
  rw [hst1, hvA, htA]

theorem validationCallback_validated (IsColocationParentTableId : TableId → Bool)
    (GetOrCreateXClusterRpcTasks : ReplicationGroupId → List String → Status)
    (cm : CatalogManager) (universe_id : ReplicationGroupId) (cb : ValidationCallback)
    (info : UniverseReplicationInfo)
    (h : mapFind cm.universe_replication_map_ universe_id = some info)
    (hs : info.pb.state = SysUniverseReplicationEntryPB.State.VALIDATED)
    (hsys : cm.sys_catalog_status = Status.OK) :
    ∃ cm1 info1,
      validationCallback IsColocationParentTableId GetOrCreateXClusterRpcTasks cm universe_id cb =
        some (Status.OK, cm1, []) ∧
      mapFind cm1.universe_replication_map_ universe_id = some info1 ∧
      cm1.sys_catalog_status = Status.OK ∧
      info1.pb.state = SysUniverseReplicationEntryPB.State.VALIDATED := by
  obtain ⟨cmA, infoA, hA, hfA, hsysA, _, _, hstA, _⟩ :=
    AddValidatedTableToUniverseReplication_ok IsColocationParentTableId cm universe_id
      cb.producer_table cb.consumer_table cb.producer_schema_version cb.consumer_schema_version
      cb.colocated_schema_versions info h hsys
  unfold validationCallback
  rw [hA]
  simp only []
  rw [CreateCdcStreamsIfReplicationValidated_validated GetOrCreateXClusterRpcTasks cmA
    universe_id cb.table_bootstrap_ids infoA hfA (hstA.trans hs)]
  exact ⟨cmA, infoA, rfl, hfA, hsysA, hstA.trans hs⟩


theorem CreateCdcStreamsIfReplicationValidated_loop_length
    (table_bootstrap_ids : List (TableId × StreamId)) (transactional : Bool)
    (tables : List TableId) :
    (CreateCdcStreamsIfReplicationValidated.loop table_bootstrap_ids transactional
      tables).length = tables.length := by
  induction tables with
  | nil => rfl
  | cons t rest ih => simp [CreateCdcStreamsIfReplicationValidated.loop, ih]

theorem runValidationCallbacks_validated (IsColocationParentTableId : TableId → Bool)
    (GetOrCreateXClusterRpcTasks : ReplicationGroupId → List String → Status)
    (universe_id : ReplicationGroupId) (cbs : List ValidationCallback) :
    ∀ (cm : CatalogManager) (info : UniverseReplicationInfo),
      mapFind cm.universe_replication_map_ universe_id = some info →
      info.pb.state = SysUniverseReplicationEntryPB.State.VALIDATED →
      cm.sys_catalog_status = Status.OK →
      runValidationCallbacks IsColocationParentTableId GetOrCreateXClusterRpcTasks universe_id
        cm cbs =
        some (cbs.map (fun _ =>
          (Status.OK, some SysUniverseReplicationEntryPB.State.VALIDATED, []))) := by
  induction cbs with
  | nil => intro cm info _ _ _; rfl
  | cons cb rest ih =>
    intro cm info h hs hsys
    obtain ⟨cm1, info1, hv, hf1, hsys1, hs1⟩ :=
      validationCallback_validated IsColocationParentTableId GetOrCreateXClusterRpcTasks cm
        universe_id cb info h hs hsys
    unfold runValidationCallbacks
    rw [hv]
    simp only []
    rw [ih cm1 info1 hf1 hs1 hsys1]
    simp only [universeState, hf1, Option.map_some', hs1, List.map_cons]

theorem runValidationCallbacks_initializing (IsColocationParentTableId : TableId → Bool)
    (GetOrCreateXClusterRpcTasks : ReplicationGroupId → List String → Status)
    (universe_id : ReplicationGroupId)
    (hrpc : ∀ addresses, GetOrCreateXClusterRpcTasks universe_id addresses = Status.OK)
    (cbs : List ValidationCallback) :
    ∀ (cm : CatalogManager) (info : UniverseReplicationInfo) (seen : List TableId),
      mapFind cm.universe_replication_map_ universe_id = some info →
      info.pb.state = SysUniverseReplicationEntryPB.State.INITIALIZING →
      cm.sys_catalog_status = Status.OK →
      validatedInv info.pb.validated_tables seen →
      distinctTables seen < info.pb.tables.length →
      ∃ outcomes,
        runValidationCallbacks IsColocationParentTableId GetOrCreateXClusterRpcTasks universe_id
          cm cbs = some outcomes ∧
        outcomes.length = cbs.length ∧
        (∀ k cb, cbs[k]? = some cb →
          outcomes[k]? = some (validationOutcome info.pb.tables info.pb.transactional
            (seen ++ (cbs.take k).map (fun c => c.producer_table)) cb)) ∧
        (outcomes.filter (fun t => !t.2.2.isEmpty)).length =
          if info.pb.tables.length ≤
              distinctTables (seen ++ cbs.map (fun c => c.producer_table)) then 1 else 0 := by
  induction cbs with
  | nil =>
    intro cm info seen _ _ _ _ hlt
    refine ⟨[], rfl, rfl, ?_, ?_⟩
    · intro k cb hk
      simp at hk
    · simp only [List.filter_nil, List.length_nil, List.map_nil, List.append_nil]
      rw [if_neg (by omega)]
  | cons cb rest ih =>
    intro cm info seen h hs hsys hinv hlt
    obtain ⟨cm1, info1, hv, hf1, hsys1, ht1, htr1, hv1, hs1⟩ :=
      validationCallback_initializing IsColocationParentTableId GetOrCreateXClusterRpcTasks cm
        universe_id cb info h hs hsys hrpc
    have hinv1 := validatedInv_step info.pb.validated_tables seen cb.producer_table
      cb.consumer_table hinv
    have hsize : mapSize (mapAssign info.pb.validated_tables cb.producer_table
        cb.consumer_table) = distinctTables (seen ++ [cb.producer_table]) := hinv1.1
    have hle : distinctTables (seen ++ [cb.producer_table]) ≤ distinctTables seen + 1 := by
      rw [distinctTables_append_singleton]
      split <;> omega
    have happ : ∀ l : List TableId, seen ++ cb.producer_table :: l =
        (seen ++ [cb.producer_table]) ++ l := by
      intro l
      simp
    rw [hsize] at hv hs1
    unfold runValidationCallbacks
    rw [hv]
    simp only []
    by_cases hn : distinctTables (seen ++ [cb.producer_table]) = info.pb.tables.length
    · -- this callback validates the last table
      rw [if_pos hn] at hs1
      rw [runValidationCallbacks_validated IsColocationParentTableId GetOrCreateXClusterRpcTasks
        universe_id rest cm1 info1 hf1 hs1 hsys1]
      simp only [Option.map_some', hsize, hn, if_true, universeState, hf1, hs1]
      refine ⟨_, rfl, by simp, ?_, ?_⟩
      · intro k cb1 hk
        cases k with
        | zero =>
          simp only [List.getElem?_cons_zero, Option.some.injEq] at hk
          subst hk
          simp only [List.getElem?_cons_zero, List.take_zero, List.map_nil, List.append_nil,
            validationOutcome, hn, lt_irrefl, if_false, hlt, if_true]
        | succ k =>
          simp only [List.getElem?_cons_succ] at hk
          have hk1 : k < rest.length := (List.getElem?_eq_some_iff.mp hk).1
          have hge : ∀ l : List TableId, ¬ distinctTables (seen ++ cb.producer_table :: l) <
              info.pb.tables.length := by
            intro l
            rw [happ, ← hn]
            exact Nat.not_lt.mpr (distinctTables_le_append _ _)
          simp only [List.getElem?_cons_succ, List.take_succ_cons, List.map_cons,
            validationOutcome]
          rw [List.getElem?_map, hk]
          have h1 := hge ((rest.take k).map (fun c => c.producer_table) ++ [cb1.producer_table])
          have h2 := hge ((rest.take k).map (fun c => c.producer_table))
          rw [← List.cons_append, ← List.append_assoc] at h1
          simp only [Option.map_some', h1, h2, if_false]
      · have hlen : (CreateCdcStreamsIfReplicationValidated.loop cb.table_bootstrap_ids
            info.pb.transactional info.pb.tables).isEmpty = false := by
          rw [List.isEmpty_eq_false]
          intro he
          have := CreateCdcStreamsIfReplicationValidated_loop_length cb.table_bootstrap_ids
            info.pb.transactional info.pb.tables
          rw [he] at this
          simp only [List.length_nil] at this
          omega
        have hrest : (List.filter (fun t : Status × Option SysUniverseReplicationEntryPB.State ×
            List XClusterRpcCall => !t.2.2.isEmpty)
            (rest.map (fun _ =>
              (Status.OK, some SysUniverseReplicationEntryPB.State.VALIDATED, [])))) = [] := by
          rw [List.filter_eq_nil_iff]
          intro t ht
          simp only [List.mem_map] at ht
          obtain ⟨_, _, rfl⟩ := ht
          simp
        rw [List.filter_cons]
        simp only [hlen, Bool.not_false, if_true, hrest, List.length_singleton, List.map_cons]
        rw [if_pos]
        rw [happ, ← hn]
        exact distinctTables_le_append _ _
    · -- fewer tables than the group has are validated
      rw [if_neg hn] at hs1
      have hlt1 : distinctTables (seen ++ [cb.producer_table]) < info1.pb.tables.length := by
        rw [ht1]; omega
      have hinv1' : validatedInv info1.pb.validated_tables (seen ++ [cb.producer_table]) := by
        rw [hv1]; exact hinv1
      obtain ⟨outcomes, hrun, hlen, hpt, hcount⟩ :=
        ih cm1 info1 (seen ++ [cb.producer_table]) hf1 hs1 hsys1 hinv1' hlt1
      rw [hrun]
      simp only [Option.map_some', hn, if_false, universeState, hf1, hs1]
      refine ⟨_, rfl, by simp [hlen], ?_, ?_⟩
      · intro k cb1 hk
        cases k with
        | zero =>
          simp only [List.getElem?_cons_zero, Option.some.injEq] at hk
          subst hk
          have : distinctTables (seen ++ [cb.producer_table]) < info.pb.tables.length := by
            omega
          simp only [List.getElem?_cons_zero, List.take_zero, List.map_nil, List.append_nil,
            validationOutcome, this, if_true]
        | succ k =>
          simp only [List.getElem?_cons_succ] at hk
          have := hpt k cb1 hk
          rw [ht1, htr1] at this
          simp only [List.getElem?_cons_succ, List.take_succ_cons, List.map_cons]
          rw [happ]
          exact this
      · rw [List.filter_cons]
        simp only [List.isEmpty_nil, Bool.not_true, Bool.false_eq_true, if_false, List.map_cons]
        rw [hcount, ht1]
        simp only [List.append_assoc, List.singleton_append]

/-- C11: a group of n > 0 tables in state INITIALIZING with no validated table, the sys catalog
accepting the writes and the client of the producer being set up: every sequence of validation
callbacks (`AddValidatedTableToUniverseReplication` followed by
`CreateCdcStreamsIfReplicationValidated`) runs to its end with one outcome per callback; the
callback k returns OK, leaves the group INITIALIZING and starts nothing while the callbacks up to
it validated fewer than n distinct tables, makes the group VALIDATED and starts the creation of
the streams of the group when it validates the n-th distinct table, and leaves it VALIDATED and
starts nothing afterwards; the number of callbacks that start the creation of streams is 1 when
the sequence validates n distinct tables, and 0 otherwise. -/
theorem validation_barrier (IsColocationParentTableId : TableId → Bool)
    (GetOrCreateXClusterRpcTasks : ReplicationGroupId → List String → Status)
    (cm : CatalogManager) (universe_id : ReplicationGroupId) (info : UniverseReplicationInfo)
    (cbs : List ValidationCallback)
    (h : mapFind cm.universe_replication_map_ universe_id = some info)
    (hs : info.pb.state = SysUniverseReplicationEntryPB.State.INITIALIZING)
    (hv : info.pb.validated_tables = [])
    (hn : 0 < info.pb.tables.length)
    (hsys : cm.sys_catalog_status = Status.OK)
    (hrpc : ∀ addresses, GetOrCreateXClusterRpcTasks universe_id addresses = Status.OK) :
    ∃ outcomes,
      runValidationCallbacks IsColocationParentTableId GetOrCreateXClusterRpcTasks universe_id
        cm cbs = some outcomes ∧
      outcomes.length = cbs.length ∧
      (∀ k cb, cbs[k]? = some cb →
        outcomes[k]? = some (validationOutcome info.pb.tables info.pb.transactional
          ((cbs.take k).map (fun c => c.producer_table)) cb)) ∧
      (outcomes.filter (fun t => !t.2.2.isEmpty)).length =
        if info.pb.tables.length ≤ distinctTables (cbs.map (fun c => c.producer_table))
        then 1 else 0 := by
  have hinv : validatedInv info.pb.validated_tables [] := by
    rw [hv]
    refine ⟨rfl, ?_⟩
    intro k
    simp [mapContains, mapFind]
  have := runValidationCallbacks_initializing IsColocationParentTableId
    GetOrCreateXClusterRpcTasks universe_id hrpc cbs cm info [] h hs hsys hinv hn
  simpa using this


/-- C11, at a sample input: the group `g1` has the tables t1 and t2; the callbacks validate t1,
t1, t2 and t3: the third one makes the group VALIDATED and is the only one that starts the
creation of the streams. -/
theorem validation_barrier_witness :
    ∃ outcomes,
      runValidationCallbacks (fun _ => false) (fun _ _ => Status.OK) "g1" sampleUniverseState
        sampleCallbacks = some outcomes ∧
      outcomes.length = sampleCallbacks.length ∧
      (∀ k cb, sampleCallbacks[k]? = some cb →
        outcomes[k]? = some (validationOutcome ["t1", "t2"] false
          ((sampleCallbacks.take k).map (fun c => c.producer_table)) cb)) ∧
      (outcomes.filter (fun t => !t.2.2.isEmpty)).length =
        if 2 ≤ distinctTables (sampleCallbacks.map (fun c => c.producer_table)) then 1 else 0 :=
  validation_barrier (fun _ => false) (fun _ _ => Status.OK) sampleUniverseState "g1"
    { pb := { replication_group_id := "g1", tables := ["t1", "t2"] } } sampleCallbacks
    rfl rfl rfl (by decide) rfl (fun _ => rfl)

/-- C12 (the claim as written fails): the group `g2` is DELETING; after
`MarkUniverseReplicationFailed`, with the sys catalog accepting the write, it is FAILED and not
DELETED_ERROR. -/
theorem MarkUniverseReplicationFailed_deleting_counterexample :
    (MarkUniverseReplicationFailed sampleUniverseState "g2"
      (Status.error StatusCode.IOError "producer unreachable" none)).bind
        (fun cm1 => universeState cm1 "g2") =
      some SysUniverseReplicationEntryPB.State.FAILED := by
  rfl

/-- C12 (amended): `MarkUniverseReplicationFailed` on a group of the map always records the
failure status on the group. When the sys catalog accepts the write, the group is DELETED_ERROR
when it was DELETED and FAILED from every other state (DELETING included), and that record is
the one write added to the sys catalog; when the sys catalog refuses the write, the record of the
group in memory is unchanged and nothing is added to the sys catalog. -/
theorem MarkUniverseReplicationFailed_transition (cm : CatalogManager)
    (universe_id : ReplicationGroupId) (failure_status : Status) (info : UniverseReplicationInfo)
    (h : mapFind cm.universe_replication_map_ universe_id = some info) :
    ∃ cm1, MarkUniverseReplicationFailed cm universe_id failure_status = some cm1 ∧
      (cm.sys_catalog_status = Status.OK →
        mapFind cm1.universe_replication_map_ universe_id = some
          { pb := { info.pb with
              state := if info.pb.state = SysUniverseReplicationEntryPB.State.DELETED then
                  SysUniverseReplicationEntryPB.State.DELETED_ERROR
                else SysUniverseReplicationEntryPB.State.FAILED }
            setup_universe_replication_error_ := failure_status } ∧
        cm1.sys_catalog_ = cm.sys_catalog_ ++
          [SysCatalogWrite.UpsertUniverseReplication
            { info.pb with
              state := if info.pb.state = SysUniverseReplicationEntryPB.State.DELETED then
                  SysUniverseReplicationEntryPB.State.DELETED_ERROR
                else SysUniverseReplicationEntryPB.State.FAILED }]) ∧
      (cm.sys_catalog_status ≠ Status.OK →
        mapFind cm1.universe_replication_map_ universe_id = some
          { info with setup_universe_replication_error_ := failure_status } ∧
        cm1.sys_catalog_ = cm.sys_catalog_) := by
  unfold MarkUniverseReplicationFailed MarkUniverseReplicationFailed.locked
  simp only [h]
  refine ⟨_, rfl, ?_, ?_⟩
  · intro hsys
    simp only [hsys]
    refine ⟨?_, ?_⟩
    · rw [mapFind_mapAssign_self]
      by_cases hd : info.pb.state = SysUniverseReplicationEntryPB.State.DELETED
      · simp only [hd, if_true]
      · simp only [hd, if_false]
    · by_cases hd : info.pb.state = SysUniverseReplicationEntryPB.State.DELETED
      · simp only [hd, if_true]
      · simp only [hd, if_false]
  · intro hsys
    cases hst : cm.sys_catalog_status with
    | OK => exact absurd hst hsys
    | error code msg master_error =>
      simp only []
      exact ⟨mapFind_mapAssign_self _ _ _, trivial⟩

/-- C12 (amended), at a sample input: the group `g2` is DELETING and the sys catalog accepts the
write: the group is FAILED afterwards, with the failure status recorded and the record written. -/
theorem MarkUniverseReplicationFailed_transition_witness :
    ∃ cm1, MarkUniverseReplicationFailed sampleUniverseState "g2"
        (Status.error StatusCode.IOError "producer unreachable" none) = some cm1 ∧
      mapFind cm1.universe_replication_map_ "g2" = some
        { pb := { replication_group_id := "g2"
                  state := SysUniverseReplicationEntryPB.State.FAILED }
          setup_universe_replication_error_ :=
            Status.error StatusCode.IOError "producer unreachable" none } ∧
      cm1.sys_catalog_ = [SysCatalogWrite.UpsertUniverseReplication
        { replication_group_id := "g2", state := SysUniverseReplicationEntryPB.State.FAILED }] :=
  match MarkUniverseReplicationFailed_transition sampleUniverseState "g2"
      (Status.error StatusCode.IOError "producer unreachable" none)
      { pb := { replication_group_id := "g2"
                state := SysUniverseReplicationEntryPB.State.DELETING } } rfl with
  | ⟨cm1, h1, h2, _⟩ => ⟨cm1, h1, h2 rfl⟩


/-! ### Replication groups: alter and merge -/

/-- C13 (the code at the failing input): the request has one table to remove and the field of
the namespace to remove set to the empty string. `AlterUniverseReplication` counts one operation
(the count tests the namespace for being non-empty), so it does not reject the request; the
dispatch tests the presence of the namespace field, so the operation it performs is the removal
of the namespace (the empty one), and the removal of the tables, the one operation counted, is
not performed. -/
theorem AlterUniverseReplication_dispatch_mismatch
    (perform : AlterOperation → CatalogManager → AlterUniverseReplicationRequestPB →
      Status × CatalogManager) (universe_uuid : Option String) :
    AlterUniverseReplication.config_count sampleAlterRequest = 1 ∧
      sampleAlterRequest.producer_table_ids_to_remove = ["t1"] ∧
      sampleAlterRequest.producer_namespace_id_to_remove.getD "" = "" ∧
      AlterUniverseReplication perform universe_uuid sampleMergeState sampleAlterRequest =
        perform AlterOperation.RemoveNamespaceFromReplicationGroup sampleMergeState
          sampleAlterRequest := by
  refine ⟨by decide, rfl, rfl, ?_⟩
  unfold AlterUniverseReplication
  have h1 : ¬ (sampleAlterRequest.replication_group_id.getD "" = "") := by decide
  have h2 : ValidateUniverseUUID sampleAlterRequest.universe_uuid universe_uuid = Status.OK := rfl
  have h3 : mapFind sampleMergeState.universe_replication_map_
      (sampleAlterRequest.replication_group_id.getD "") =
      some { pb := { replication_group_id := "g1", tables := ["t1"]
                     state := SysUniverseReplicationEntryPB.State.ACTIVE
                     validated_tables := [("t1", "c1")], table_streams := [("t1", "s1")] } } := by
    rfl
  have h4 : ¬ (AlterUniverseReplication.config_count sampleAlterRequest ≠ 1) := by decide
  have h5 : ¬ (sampleAlterRequest.producer_master_addresses.length > 0) := by decide
  have h6 : sampleAlterRequest.producer_namespace_id_to_remove.isSome = true := rfl
  rw [if_neg h1, h2]
  simp only [h3]
  rw [if_neg h4, if_neg h5, if_pos h6]

theorem mapFind_append {K V : Type} [DecidableEq K] (a b : List (K × V)) (k : K) :
    mapFind (a ++ b) k = (mapFind a k).orElse (fun _ => mapFind b k) := by
  induction a with
  | nil => simp [mapFind]
  | cons e rest ih =>
    by_cases hk : e.1 = k
    · simp [mapFind, hk]
    · simp [mapFind, hk, ih]

theorem mapContains_eq_isSome {K V : Type} [DecidableEq K] (m : List (K × V)) (k : K) :
    mapContains m k = (mapFind m k).isSome := by
  rfl

theorem mapFind_mapInsertRange {K V : Type} [DecidableEq K] (other : List (K × V)) :
    ∀ (m : List (K × V)) (k : K),
      mapFind (mapInsertRange m other) k = (mapFind m k).orElse (fun _ => mapFind other k) := by
  induction other with
  | nil =>
    intro m k
    cases h : mapFind m k <;> simp [mapInsertRange, mapFind, h]
  | cons e rest ih =>
    intro m k
    have hstep : mapInsertRange m (e :: rest) =
        mapInsertRange (if mapContains m e.1 then m else m ++ [e]) rest := rfl
    rw [hstep, ih]
    by_cases hc : mapContains m e.1 = true
    · simp only [hc, if_true]
      cases hm : mapFind m k with
      | some v => simp
      | none =>
        have hne : e.1 ≠ k := by
          intro he
          rw [mapContains_eq_isSome, he, hm] at hc
          simp at hc
        simp [mapFind, hne]
    · simp only [hc, if_false, Bool.false_eq_true]
      rw [mapFind_append]
      cases hm : mapFind m k with
      | some v => simp
      | none =>
        by_cases he : e.1 = k
        · simp [mapFind, he]
        · simp [mapFind, he]

theorem mapFind_mapAssign_ne {K V : Type} [DecidableEq K] (m : List (K × V)) (k k1 : K) (v : V)
    (h : k ≠ k1) : mapFind (mapAssign m k v) k1 = mapFind m k1 := by
  unfold mapAssign
  by_cases hc : mapContains m k = true
  · simp only [hc, if_true]
    rw [mapFind_map_value (fun k2 v2 => if k2 = k then v else v2)]
    cases hm : mapFind m k1 with
    | none => rfl
    | some v1 => simp [Ne.symm h]
  · simp only [hc, if_false, Bool.false_eq_true]
    rw [mapFind_append]
    cases hm : mapFind m k1 with
    | none => simp [mapFind, h]
    | some v1 => simp

theorem mapFind_mapErase_self {K V : Type} [DecidableEq K] (m : List (K × V)) (k : K) :
    mapFind (mapErase m k) k = none := by
  have := mapContains_mapErase m k
  rw [mapContains_eq_isSome] at this
  cases h : mapFind (mapErase m k) k with
  | none => rfl
  | some v => rw [h] at this; simp at this

theorem mapFind_mapErase_ne {K V : Type} [DecidableEq K] (m : List (K × V)) (k k1 : K)
    (h : k ≠ k1) : mapFind (mapErase m k) k1 = mapFind m k1 := by
  induction m with
  | nil => rfl
  | cons e rest ih =>
    obtain ⟨k2, v2⟩ := e
    have ih1 : mapFind (rest.filter (fun e => decide (e.1 ≠ k))) k1 = mapFind rest k1 := ih
    show mapFind (List.filter (fun e => decide (e.1 ≠ k)) ((k2, v2) :: rest)) k1 = _
    by_cases he : k2 = k
    · subst he
      rw [List.filter_cons_of_neg (by simp), ih1]
      simp [mapFind, h]
    · rw [List.filter_cons_of_pos (by simp [he])]
      by_cases he1 : k2 = k1
      · simp [mapFind, he1]
      · simp only [mapFind, he1, if_false]
        exact ih1

/-- C14 (the claim as written fails): the consumer registry has a producer entry for the shadow
group `g1.ALTER` and none for the group `g1`; `MergeUniverseReplication` returns OK and marks
the shadow group DELETED, and the registry still has the producer entry of the shadow group. -/
theorem MergeUniverseReplication_registry_counterexample :
    (MergeUniverseReplication sampleMergeStateShadowOnly "g1.ALTER" "g1" none).map
        (fun r => (r.1, universeState r.2 "g1.ALTER",
          mapContains (r.2.cluster_config_.consumer_registry.getD {}).producer_map "g1.ALTER")) =
      some (Status.OK, some SysUniverseReplicationEntryPB.State.DELETED, true) := by
  rfl

theorem MergeUniverseReplication_producer_map_of_missing (pm : List (String × ProducerEntryPB))
    (original_id universe_id : ReplicationGroupId)
    (h : mapFind pm original_id = none ∨ mapFind pm universe_id = none) :
    MergeUniverseReplication.producer_map pm original_id universe_id = pm := by
  unfold MergeUniverseReplication.producer_map
  rcases h with h | h
  · rw [h]
  · rw [h]
    cases mapFind pm original_id <;> rfl

/-- C14 (amended): the test flags being unset, the original group G and the shadow group G1
being two groups of the map, and the callback (if any) returning OK: `MergeUniverseReplication`
returns OK; the table list of G is its list followed by the list of G1; its table-to-stream map
and validated-table map are the unions of the two maps (on a key of both, the value of G is
kept); G1 is DELETED with an empty table list and empty table maps. When the consumer registry
has a producer entry for both groups, the registry has no producer entry for G1 afterwards, and
the streams of the entry of G are the union of the streams of the two entries. When the registry
lacks one of the two entries, it is left as it is: an entry of G1 without an entry of G stays in
the registry. -/
theorem MergeUniverseReplication_result (cm : CatalogManager)
    (universe_id original_id : ReplicationGroupId) (on_success_cb : Option Status)
    (G G1 : UniverseReplicationInfo)
    (hfail : cm.flags.TEST_fail_universe_replication_merge = false)
    (hexit : cm.flags.TEST_exit_unfinished_merging = false)
    (hG : mapFind cm.universe_replication_map_ original_id = some G)
    (hG1 : mapFind cm.universe_replication_map_ universe_id = some G1)
    (hne : universe_id ≠ original_id)
    (hcb : on_success_cb = none ∨ on_success_cb = some Status.OK) :
    ∃ cm1 merged shadow,
      MergeUniverseReplication cm universe_id original_id on_success_cb = some (Status.OK, cm1) ∧
      mapFind cm1.universe_replication_map_ original_id = some merged ∧
      merged.pb.tables = G.pb.tables ++ G1.pb.tables ∧
      (∀ t, mapFind merged.pb.table_streams t =
        (mapFind G.pb.table_streams t).orElse (fun _ => mapFind G1.pb.table_streams t)) ∧
      (∀ t, mapFind merged.pb.validated_tables t =
        (mapFind G.pb.validated_tables t).orElse (fun _ => mapFind G1.pb.validated_tables t)) ∧
      mapFind cm1.universe_replication_map_ universe_id = some shadow ∧
      shadow.pb.state = SysUniverseReplicationEntryPB.State.DELETED ∧
      shadow.pb.tables = [] ∧ shadow.pb.table_streams = [] ∧ shadow.pb.validated_tables = [] ∧
      (∀ original_entry alter_entry,
        mapFind (cm.cluster_config_.consumer_registry.getD {}).producer_map original_id =
          some original_entry →
        mapFind (cm.cluster_config_.consumer_registry.getD {}).producer_map universe_id =
          some alter_entry →
        ∃ registry1 entry1,
          cm1.cluster_config_.consumer_registry = some registry1 ∧
          mapFind registry1.producer_map universe_id = none ∧
          mapFind registry1.producer_map original_id = some entry1 ∧
          (∀ s, mapFind entry1.stream_map s =
            (mapFind original_entry.stream_map s).orElse
              (fun _ => mapFind alter_entry.stream_map s))) ∧
      (mapFind (cm.cluster_config_.consumer_registry.getD {}).producer_map original_id = none ∨
        mapFind (cm.cluster_config_.consumer_registry.getD {}).producer_map universe_id = none →
        cm1.cluster_config_.consumer_registry =
          some (cm.cluster_config_.consumer_registry.getD {})) := by
  have hrun : MergeUniverseReplication cm universe_id original_id on_success_cb =
      some (Status.OK,
        { cm with
          cluster_config_ := MergeUniverseReplication.cluster_config cm.cluster_config_
            original_id universe_id
          universe_replication_map_ :=
            mapAssign
              (mapAssign cm.universe_replication_map_ universe_id
                { G1 with pb := MergeUniverseReplication.alter G1.pb })
              original_id { G with pb := MergeUniverseReplication.original G.pb G1.pb }
          sys_catalog_ :=
            match cm.sys_catalog_status with
            | Status.OK =>
              cm.sys_catalog_ ++ [SysCatalogWrite.Mutate
                (MergeUniverseReplication.original G.pb G1.pb)
                (MergeUniverseReplication.alter G1.pb)
                (MergeUniverseReplication.cluster_config cm.cluster_config_ original_id
                  universe_id)]
            | Status.error _ _ _ => cm.sys_catalog_
          universes_to_clear_ := cm.universes_to_clear_ ++ [universe_id] }) := by
    unfold MergeUniverseReplication
    simp only [hfail, hexit, hG, hG1, hne, if_false, Bool.false_eq_true]
    rcases hcb with rfl | rfl <;> rfl
  refine ⟨_, { G with pb := MergeUniverseReplication.original G.pb G1.pb },
    { G1 with pb := MergeUniverseReplication.alter G1.pb },
    hrun, ?_, rfl, ?_, ?_, ?_, rfl, rfl, rfl, rfl, ?_, ?_⟩
  · exact mapFind_mapAssign_self _ _ _
  · intro t
    exact mapFind_mapInsertRange _ _ _
  · intro t
    exact mapFind_mapInsertRange _ _ _
  · show mapFind (mapAssign (mapAssign cm.universe_replication_map_ universe_id _) original_id _)
      universe_id = _
    rw [mapFind_mapAssign_ne _ _ _ _ (Ne.symm hne)]
    exact mapFind_mapAssign_self _ _ _
  · intro original_entry alter_entry horiginal halter
    refine ⟨_, { original_entry with
      stream_map := mapInsertRange original_entry.stream_map alter_entry.stream_map },
      rfl, ?_, ?_, ?_⟩
    · simp only [MergeUniverseReplication.producer_map, horiginal, halter]
      exact mapFind_mapErase_self _ _
    · simp only [MergeUniverseReplication.producer_map, horiginal, halter]
      rw [mapFind_mapErase_ne _ _ _ hne]
      exact mapFind_mapAssign_self _ _ _
    · intro s
      exact mapFind_mapInsertRange _ _ _
  · intro hmissing
    show some _ = some _
    rw [MergeUniverseReplication_producer_map_of_missing _ _ _ hmissing]

/-- C14 (amended), at two sample inputs. In the first, `g1` has the table t1 and `g1.ALTER` the
table t2, each with a producer entry: after the merge `g1` has t1 and t2, `g1.ALTER` is DELETED
and has no producer entry. In the second, the registry has a producer entry for `g1.ALTER` and
none for `g1`: after the merge `g1` has t1 and t2, `g1.ALTER` is DELETED and the registry is the
one before the call. -/
theorem MergeUniverseReplication_result_witness :
    (∃ cm1 merged,
      MergeUniverseReplication sampleMergeState "g1.ALTER" "g1" none = some (Status.OK, cm1) ∧
      mapFind cm1.universe_replication_map_ "g1" = some merged ∧
      merged.pb.tables = ["t1", "t2"] ∧
      universeState cm1 "g1.ALTER" = some SysUniverseReplicationEntryPB.State.DELETED ∧
      mapFind (cm1.cluster_config_.consumer_registry.getD {}).producer_map "g1.ALTER" = none) ∧
    (∃ cm1 merged,
      MergeUniverseReplication sampleMergeStateShadowOnly "g1.ALTER" "g1" none =
        some (Status.OK, cm1) ∧
      mapFind cm1.universe_replication_map_ "g1" = some merged ∧
      merged.pb.tables = ["t1", "t2"] ∧
      universeState cm1 "g1.ALTER" = some SysUniverseReplicationEntryPB.State.DELETED ∧
      cm1.cluster_config_.consumer_registry =
        sampleMergeStateShadowOnly.cluster_config_.consumer_registry) :=
  ⟨match MergeUniverseReplication_result sampleMergeState "g1.ALTER" "g1" none
      { pb := { replication_group_id := "g1", tables := ["t1"]
                state := SysUniverseReplicationEntryPB.State.ACTIVE
                validated_tables := [("t1", "c1")], table_streams := [("t1", "s1")] } }
      { pb := { replication_group_id := "g1.ALTER", tables := ["t2"]
                state := SysUniverseReplicationEntryPB.State.ACTIVE
                validated_tables := [("t2", "c2")], table_streams := [("t2", "s2")] } }
      rfl rfl rfl rfl (by decide) (Or.inl rfl) with
    | ⟨cm1, merged, shadow, h1, h2, h3, _, _, h6, h7, _, _, _, h11, _⟩ =>
      match h11 { stream_map := [(1, { consumer_table_id := "c1" })] }
          { stream_map := [(2, { consumer_table_id := "c2" })] } rfl rfl with
      | ⟨registry1, _, hr, hnone, _, _⟩ =>
        ⟨cm1, merged, h1, h2, h3, by simp only [universeState, h6, Option.map_some', h7],
          by rw [hr]; exact hnone⟩,
    match MergeUniverseReplication_result sampleMergeStateShadowOnly "g1.ALTER" "g1" none
      { pb := { replication_group_id := "g1", tables := ["t1"]
                state := SysUniverseReplicationEntryPB.State.ACTIVE
                validated_tables := [("t1", "c1")], table_streams := [("t1", "s1")] } }
      { pb := { replication_group_id := "g1.ALTER", tables := ["t2"]
                state := SysUniverseReplicationEntryPB.State.ACTIVE
                validated_tables := [("t2", "c2")], table_streams := [("t2", "s2")] } }
      rfl rfl rfl rfl (by decide) (Or.inl rfl) with
    | ⟨cm1, merged, shadow, h1, h2, h3, _, _, h6, h7, _, _, _, _, h12⟩ =>
      ⟨cm1, merged, h1, h2, h3, by simp only [universeState, h6, Option.map_some', h7],
        h12 (Or.inl rfl)⟩⟩

/-- C15 (the code at the failing input): the sys catalog refuses the multi-row write of
`MergeUniverseReplication`; the call returns OK, nothing is in the sys catalog, and the three
staged mutations are committed in memory all the same: the shadow group is DELETED, the group
`g1` has the tables of both, the cluster config has the next version and no producer entry for
the shadow group. -/
theorem MergeUniverseReplication_commits_after_failed_write :
    (MergeUniverseReplication
        { sampleMergeState with
          sys_catalog_status := Status.error StatusCode.IOError "write failed" none }
        "g1.ALTER" "g1" none).map
        (fun r => (r.1, r.2.sys_catalog_, universeState r.2 "g1.ALTER",
          (mapFind r.2.universe_replication_map_ "g1").map (fun g => g.pb.tables),
          r.2.cluster_config_.version,
          mapContains (r.2.cluster_config_.consumer_registry.getD {}).producer_map "g1.ALTER")) =
      some (Status.OK, [], some SysUniverseReplicationEntryPB.State.DELETED,
        some ["t1", "t2"], 5, false) := by
  rfl

/-! ### Backfilling a slot name: the protocol -/

/-- C16 (the code at the failing input): the backfill of the slot name `slot_a` into stream 1
returns OK and the stream in memory has the slot name, and nothing was written to the sys
catalog: the function has no write between the mutation and the commit. The backfill of
`slot_b` into stream 2, which has no `record_type` option, returns NotFound, and the slot-name
index, which had no `slot_b` before the call, maps `slot_b` to stream 2 after it. -/
theorem YsqlBackfill_not_commit_or_abort :
    ((YsqlBackfillReplicationSlotNameToCDCSDKStream sampleFromString sampleBackfillState
        { stream_id := some "1", cdcsdk_ysql_replication_slot_name := some "slot_a" }).1 =
        Status.OK ∧
      (mapFind (YsqlBackfillReplicationSlotNameToCDCSDKStream sampleFromString
        sampleBackfillState
        { stream_id := some "1", cdcsdk_ysql_replication_slot_name := some "slot_a" }).2.cdc_stream_map_
        1).map (fun pb => pb.cdcsdk_ysql_replication_slot_name) = some (some "slot_a") ∧
      (YsqlBackfillReplicationSlotNameToCDCSDKStream sampleFromString sampleBackfillState
        { stream_id := some "1", cdcsdk_ysql_replication_slot_name := some "slot_a" }).2.sys_catalog_ =
        []) ∧
    ((YsqlBackfillReplicationSlotNameToCDCSDKStream sampleFromString sampleBackfillState
        { stream_id := some "2", cdcsdk_ysql_replication_slot_name := some "slot_b" }).1 =
        Status.error StatusCode.NotFound "Option record_type not present in stream" none ∧
      mapFind sampleBackfillState.cdcsdk_replication_slots_to_stream_map_ "slot_b" = none ∧
      mapFind (YsqlBackfillReplicationSlotNameToCDCSDKStream sampleFromString
        sampleBackfillState
        { stream_id := some "2", cdcsdk_ysql_replication_slot_name := some "slot_b" }).2.cdcsdk_replication_slots_to_stream_map_
        "slot_b" = some 2) := by
  refine ⟨⟨?_, ?_, ?_⟩, ?_, ?_, ?_⟩ <;> rfl

/-! ### Tablet splits -/

theorem children_entries_keys (stream_type : CDCRequestSource) (stream_id : StreamId)
    (split_tablet_ids : SplitTabletIds) (last_active_time : Nat)
    (parent_entry_opt : Option CDCStateTableEntry) :
    (UpdateCDCProducerOnTabletSplit.children_entries stream_type stream_id split_tablet_ids
      last_active_time parent_entry_opt).map (fun r => r.key) =
      [{ tablet_id := split_tablet_ids.children.1, stream_id := stream_id },
        { tablet_id := split_tablet_ids.children.2, stream_id := stream_id }] := by
  cases stream_type <;> rfl

theorem children_entries_checkpoint (stream_type : CDCRequestSource) (stream_id : StreamId)
    (split_tablet_ids : SplitTabletIds) (last_active_time : Nat)
    (parent_entry_opt : Option CDCStateTableEntry) :
    ∀ r ∈ UpdateCDCProducerOnTabletSplit.children_entries stream_type stream_id
      split_tablet_ids last_active_time parent_entry_opt, r.checkpoint = some OpId.Min := by
  intro r hr
  cases stream_type <;>
    simp only [UpdateCDCProducerOnTabletSplit.children_entries, List.map_cons, List.map_nil,
      List.mem_cons, List.mem_singleton, List.not_mem_nil, or_false] at hr <;>
    rcases hr with rfl | rfl <;> rfl

theorem fetch_parent_ok (cm : CatalogManager) (stream_type : CDCRequestSource)
    (split_tablet_ids : SplitTabletIds) (stream_id : StreamId)
    (hst : cm.cdc_state_table_status = Status.OK) :
    ∃ parent_entry_opt, UpdateCDCProducerOnTabletSplit.fetch_parent cm stream_type
      split_tablet_ids stream_id = Except.ok parent_entry_opt := by
  cases stream_type with
  | XCLUSTER => exact ⟨none, rfl⟩
  | CDCSDK =>
    simp only [UpdateCDCProducerOnTabletSplit.fetch_parent, TryFetchEntry, hst]
    exact ⟨_, rfl⟩

theorem stream_loop_rows (cm : CatalogManager) (stream_type : CDCRequestSource)
    (split_tablet_ids : SplitTabletIds) (now : Nat)
    (hst : cm.cdc_state_table_status = Status.OK)
    (streams : List (StreamId × SysCDCStreamEntryPB)) :
    ∃ rows,
      UpdateCDCProducerOnTabletSplit.stream_loop cm stream_type split_tablet_ids now streams =
        Except.ok rows ∧
      rows.map (fun r => r.key) = (streams.map (fun s => s.1)).flatMap (fun s =>
        [{ tablet_id := split_tablet_ids.children.1, stream_id := s },
          { tablet_id := split_tablet_ids.children.2, stream_id := s }]) ∧
      (∀ r ∈ rows, r.checkpoint = some OpId.Min) := by
  induction streams with
  | nil => exact ⟨[], rfl, rfl, by simp⟩
  | cons stream rest ih =>
    obtain ⟨rows, hrows, hkeys, hcp⟩ := ih
    obtain ⟨parent, hparent⟩ := fetch_parent_ok cm stream_type split_tablet_ids stream.1 hst
    unfold UpdateCDCProducerOnTabletSplit.stream_loop
    simp only [hparent, hrows]
    refine ⟨_, rfl, ?_, ?_⟩
    · rw [List.map_append, children_entries_keys, hkeys]
      rfl
    · intro r hr
      rcases List.mem_append.mp hr with h | h
      · exact children_entries_checkpoint _ _ _ _ _ r h
      · exact hcp r h

theorem ReVerifyChildrenEntriesOnTabletSplit_same (cm : CatalogManager)
    (producer_table_id : TableId) (entries : List CDCStateTableEntry)
    (ids : List StreamId)
    (hids : ∀ s ∈ ids, s ∈ (GetXReplStreamsForTable cm producer_table_id
      CDCRequestSource.CDCSDK).map (fun s => s.1)) :
    ReVerifyChildrenEntriesOnTabletSplit cm producer_table_id entries ids = (Status.OK, cm) := by
  unfold ReVerifyChildrenEntriesOnTabletSplit
  have hnil : (entries.filter (fun entry =>
      decide (entry.key.stream_id ∈ ids) &&
        !decide (entry.key.stream_id ∈
          (GetXReplStreamsForTable cm producer_table_id CDCRequestSource.CDCSDK).map
            (fun s => s.1)))) = [] := by
    rw [List.filter_eq_nil_iff]
    intro e _
    by_cases he : e.key.stream_id ∈ ids
    · simp [he, hids _ he]
    · simp [he]
  simp only [hnil, List.map_nil, List.isEmpty_nil, Bool.not_true, Bool.false_eq_true, if_false]

theorem streams_CDCSDK_subset (cm : CatalogManager) (producer_table_id : TableId) :
    ∀ s ∈ (UpdateCDCProducerOnTabletSplit.streams cm producer_table_id
      CDCRequestSource.CDCSDK).map (fun s => s.1),
      s ∈ (GetXReplStreamsForTable cm producer_table_id CDCRequestSource.CDCSDK).map
        (fun s => s.1) := by
  intro s hs
  unfold UpdateCDCProducerOnTabletSplit.streams at hs
  cases hf : mapFind cm.tables_ producer_table_id with
  | none => rw [hf] at hs; exact hs
  | some table_info =>
    rw [hf] at hs
    simp only [] at hs
    by_cases he : (!IsTableEligibleForCDCSDKStream cm.flags table_info none) = true
    · rw [if_pos he] at hs
      simp at hs
    · rw [if_neg he] at hs
      exact hs

theorem UpdateCDCProducerOnTabletSplit_eq (cm : CatalogManager) (producer_table_id : TableId)
    (split_tablet_ids : SplitTabletIds) (now : Nat)
    (hst : cm.cdc_state_table_status = Status.OK)
    (xcluster_rows cdcsdk_rows : List CDCStateTableEntry)
    (hx : UpdateCDCProducerOnTabletSplit.stream_loop cm CDCRequestSource.XCLUSTER
      split_tablet_ids now
      (UpdateCDCProducerOnTabletSplit.streams cm producer_table_id CDCRequestSource.XCLUSTER) =
      Except.ok xcluster_rows)
    (hc : UpdateCDCProducerOnTabletSplit.stream_loop cm CDCRequestSource.CDCSDK
      split_tablet_ids now
      (UpdateCDCProducerOnTabletSplit.streams cm producer_table_id CDCRequestSource.CDCSDK) =
      Except.ok cdcsdk_rows) :
    UpdateCDCProducerOnTabletSplit cm producer_table_id split_tablet_ids now =
      (Status.OK,
        { cm with cdc_state_table_ := cm.cdc_state_table_ ++ (xcluster_rows ++ cdcsdk_rows) }) := by
  unfold UpdateCDCProducerOnTabletSplit
  simp only [hx, hc, hst]
  by_cases hcond : (!(xcluster_rows ++ cdcsdk_rows).isEmpty &&
      !((UpdateCDCProducerOnTabletSplit.streams cm producer_table_id
        CDCRequestSource.CDCSDK).map (fun s => s.1)).isEmpty) = true
  · rw [if_pos hcond]
    exact ReVerifyChildrenEntriesOnTabletSplit_same _ producer_table_id _ _
      (streams_CDCSDK_subset cm producer_table_id)
  · rw [if_neg hcond]

/-- C17 (amended): the CDC state table accepting the reads and the insert,
`UpdateCDCProducerOnTabletSplit` returns OK and appends to the table, for every stream it
builds rows for, exactly two rows, one per child tablet, and no other row, each with the
checkpoint `OpId::Min`; the streams are the xCluster streams of the table and, unless the table
is in the catalog and not eligible for a CDCSDK stream (an index, a materialized view, a system
table), its CDCSDK streams; the rows are twice as many as these streams. -/
theorem UpdateCDCProducerOnTabletSplit_rows (cm : CatalogManager) (producer_table_id : TableId)
    (split_tablet_ids : SplitTabletIds) (now : Nat)
    (hst : cm.cdc_state_table_status = Status.OK) :
    ∃ rows,
      UpdateCDCProducerOnTabletSplit cm producer_table_id split_tablet_ids now =
        (Status.OK, { cm with cdc_state_table_ := cm.cdc_state_table_ ++ rows }) ∧
      rows.map (fun r => r.key) = (splitStreams cm producer_table_id).flatMap (fun s =>
        [{ tablet_id := split_tablet_ids.children.1, stream_id := s },
          { tablet_id := split_tablet_ids.children.2, stream_id := s }]) ∧
      (∀ r ∈ rows, r.checkpoint = some OpId.Min) ∧
      rows.length = 2 * (splitStreams cm producer_table_id).length := by
  obtain ⟨xrows, hx, hxk, hxc⟩ := stream_loop_rows cm CDCRequestSource.XCLUSTER
    split_tablet_ids now hst
    (UpdateCDCProducerOnTabletSplit.streams cm producer_table_id CDCRequestSource.XCLUSTER)
  obtain ⟨crows, hc, hck, hcc⟩ := stream_loop_rows cm CDCRequestSource.CDCSDK
    split_tablet_ids now hst
    (UpdateCDCProducerOnTabletSplit.streams cm producer_table_id CDCRequestSource.CDCSDK)
  have hkeys : (xrows ++ crows).map (fun r => r.key) =
      (splitStreams cm producer_table_id).flatMap (fun s =>
        [{ tablet_id := split_tablet_ids.children.1, stream_id := s },
          { tablet_id := split_tablet_ids.children.2, stream_id := s }]) := by
    rw [List.map_append, hxk, hck, splitStreams, List.map_append, List.flatMap_append]
  refine ⟨xrows ++ crows,
    UpdateCDCProducerOnTabletSplit_eq cm producer_table_id split_tablet_ids now hst xrows crows
      hx hc, hkeys, ?_, ?_⟩
  · intro r hr
    rcases List.mem_append.mp hr with h | h
    · exact hxc r h
    · exact hcc r h
  · have hlen := congrArg List.length hkeys
    rw [List.length_map] at hlen
    rw [hlen]
    generalize splitStreams cm producer_table_id = l
    induction l with
    | nil => rfl
    | cons a l ih =>
      simp only [List.flatMap_cons, List.length_append, List.length_cons, List.length_nil, ih]
      omega

theorem stream_loop_mem (cm : CatalogManager) (split_tablet_ids : SplitTabletIds) (now : Nat)
    (s : StreamId) (pb : SysCDCStreamEntryPB) (parent_entry_opt : Option CDCStateTableEntry)
    (hparent : UpdateCDCProducerOnTabletSplit.fetch_parent cm CDCRequestSource.CDCSDK
      split_tablet_ids s = Except.ok parent_entry_opt)
    (streams : List (StreamId × SysCDCStreamEntryPB)) :
    ∀ rows, (s, pb) ∈ streams →
      UpdateCDCProducerOnTabletSplit.stream_loop cm CDCRequestSource.CDCSDK split_tablet_ids now
        streams = Except.ok rows →
      ∀ r ∈ UpdateCDCProducerOnTabletSplit.children_entries CDCRequestSource.CDCSDK s
        split_tablet_ids
        (UpdateCDCProducerOnTabletSplit.last_active_time pb now parent_entry_opt)
        parent_entry_opt, r ∈ rows := by
  induction streams with
  | nil => intro rows hs; simp at hs
  | cons stream rest ih =>
    intro rows hs hrun r hr
    unfold UpdateCDCProducerOnTabletSplit.stream_loop at hrun
    cases hf : UpdateCDCProducerOnTabletSplit.fetch_parent cm CDCRequestSource.CDCSDK
        split_tablet_ids stream.1 with
    | error status => rw [hf] at hrun; simp at hrun
    | ok parent1 =>
      rw [hf] at hrun
      simp only [] at hrun
      cases hl : UpdateCDCProducerOnTabletSplit.stream_loop cm CDCRequestSource.CDCSDK
          split_tablet_ids now rest with
      | error status => rw [hl] at hrun; simp at hrun
      | ok entries =>
        rw [hl] at hrun
        simp only [Except.ok.injEq] at hrun
        subst hrun
        rcases List.mem_cons.mp hs with h | h
        · subst h
          simp only [] at hf
          rw [hparent] at hf
          simp only [Except.ok.injEq] at hf
          subst hf
          exact List.mem_append_left _ hr
        · exact List.mem_append_right _ (ih entries h hl r hr)

/-- C18 (the claim as written fails): the CDCSDK stream 3 covers t1 and is not a consistent
snapshot stream; the row of the parent tablet has the active time 100 and the safe time 200; the
clock reads 999. The two child rows of stream 3 have the safe time 200 of the parent and the
active time 999 of the clock, not the active time of the parent. -/
theorem UpdateCDCProducerOnTabletSplit_active_time_counterexample :
    sampleSplitState.cdc_state_table_.find?
        (fun row => decide (row.key = { tablet_id := "p", stream_id := 3 })) =
      some { key := { tablet_id := "p", stream_id := 3 }, checkpoint := some (2, 7)
             active_time := some 100, cdc_sdk_safe_time := some 200 } ∧
    (GetXReplStreamsForTable sampleSplitState "t1" CDCRequestSource.CDCSDK).map (fun s => s.1) =
      [3] ∧
    ((UpdateCDCProducerOnTabletSplit sampleSplitState "t1" sampleSplit 999).2.cdc_state_table_.filter
        (fun row => decide (row.key.stream_id = 3) && decide (row.key.tablet_id ≠ "p"))).map
        (fun row => (row.key.tablet_id, row.active_time, row.cdc_sdk_safe_time)) =
      [("c1", some 999, some 200), ("c2", some 999, some 200)] := by
  refine ⟨?_, ?_, ?_⟩ <;> rfl

/-- C18 (amended): the CDC state table accepting the reads and the insert, the table being
eligible for a CDCSDK stream (or not in the catalog), for a CDCSDK stream that covers the table
and whose parent tablet row has an active time a and a safe time t: both child rows inserted by
`UpdateCDCProducerOnTabletSplit` have the checkpoint `OpId::Min` and the safe time t; their
active time is a when the stream is a consistent snapshot stream, and the reading of the clock
otherwise. -/
theorem UpdateCDCProducerOnTabletSplit_inherits (cm : CatalogManager)
    (producer_table_id : TableId) (split_tablet_ids : SplitTabletIds) (now : Nat)
    (s : StreamId) (pb : SysCDCStreamEntryPB) (parent : CDCStateTableEntry) (a t : Nat)
    (hst : cm.cdc_state_table_status = Status.OK)
    (helig : ∀ table_info, mapFind cm.tables_ producer_table_id = some table_info →
      IsTableEligibleForCDCSDKStream cm.flags table_info none = true)
    (hs : (s, pb) ∈ GetXReplStreamsForTable cm producer_table_id CDCRequestSource.CDCSDK)
    (hparent : cm.cdc_state_table_.find?
      (fun row => decide (row.key = { tablet_id := split_tablet_ids.source, stream_id := s })) =
      some parent)
    (ha : parent.active_time = some a) (ht : parent.cdc_sdk_safe_time = some t) :
    ∃ rows,
      UpdateCDCProducerOnTabletSplit cm producer_table_id split_tablet_ids now =
        (Status.OK, { cm with cdc_state_table_ := cm.cdc_state_table_ ++ rows }) ∧
      ∀ child ∈ [split_tablet_ids.children.1, split_tablet_ids.children.2],
        ({ key := { tablet_id := child, stream_id := s }
           checkpoint := some OpId.Min
           active_time := some (if pb.IsConsistentSnapshotStream then a else now)
           cdc_sdk_safe_time := some t } : CDCStateTableEntry) ∈ rows := by
  obtain ⟨xrows, hx, _, _⟩ := stream_loop_rows cm CDCRequestSource.XCLUSTER
    split_tablet_ids now hst
    (UpdateCDCProducerOnTabletSplit.streams cm producer_table_id CDCRequestSource.XCLUSTER)
  obtain ⟨crows, hc, _, _⟩ := stream_loop_rows cm CDCRequestSource.CDCSDK
    split_tablet_ids now hst
    (UpdateCDCProducerOnTabletSplit.streams cm producer_table_id CDCRequestSource.CDCSDK)
  have hstreams : UpdateCDCProducerOnTabletSplit.streams cm producer_table_id
      CDCRequestSource.CDCSDK =
      GetXReplStreamsForTable cm producer_table_id CDCRequestSource.CDCSDK := by
    unfold UpdateCDCProducerOnTabletSplit.streams
    cases hf : mapFind cm.tables_ producer_table_id with
    | none => rfl
    | some table_info => simp only [helig table_info hf, Bool.not_true, Bool.false_eq_true,
        if_false]
  have hfetch : UpdateCDCProducerOnTabletSplit.fetch_parent cm CDCRequestSource.CDCSDK
      split_tablet_ids s = Except.ok (some parent) := by
    simp only [UpdateCDCProducerOnTabletSplit.fetch_parent, TryFetchEntry, hst, hparent]
  refine ⟨xrows ++ crows,
    UpdateCDCProducerOnTabletSplit_eq cm producer_table_id split_tablet_ids now hst xrows crows
      hx hc, ?_⟩
  intro child hchild
  apply List.mem_append_right
  rw [hstreams] at hc
  apply stream_loop_mem cm split_tablet_ids now s pb (some parent) hfetch _ crows hs hc
  have hb1 : (some parent).bind (fun parent => parent.active_time) = some a := ha
  have hb2 : (some parent).bind (fun parent => parent.cdc_sdk_safe_time) = some t := ht
  simp only [UpdateCDCProducerOnTabletSplit.children_entries,
    UpdateCDCProducerOnTabletSplit.last_active_time, hb1, hb2, List.map_cons, List.map_nil]
  simp only [List.mem_cons, List.mem_singleton, List.not_mem_nil, or_false] at hchild ⊢
  rcases hchild with rfl | rfl
  · exact Or.inl rfl
  · exact Or.inr rfl

/-- C18 (amended), at a sample input: stream 4 is a consistent snapshot stream whose parent row
has the active time 100 and the safe time 200; both child rows have them. -/
theorem UpdateCDCProducerOnTabletSplit_inherits_witness :
    ∃ rows,
      UpdateCDCProducerOnTabletSplit sampleSplitSnapshotState "t1" sampleSplit 999 =
        (Status.OK, { sampleSplitSnapshotState with
          cdc_state_table_ := sampleSplitSnapshotState.cdc_state_table_ ++ rows }) ∧
      ∀ child ∈ ["c1", "c2"],
        ({ key := { tablet_id := child, stream_id := 4 }
           checkpoint := some OpId.Min
           active_time := some 100
           cdc_sdk_safe_time := some 200 } : CDCStateTableEntry) ∈ rows :=
  UpdateCDCProducerOnTabletSplit_inherits sampleSplitSnapshotState "t1" sampleSplit 999 4
    { table_id := ["t1"], namespace_id := some "ns"
      cdcsdk_stream_metadata := some
        { snapshot_time := some 50
          consistent_snapshot_option := some CDCSDKSnapshotOption.USE_SNAPSHOT } }
    { key := { tablet_id := "p", stream_id := 4 }, checkpoint := some (2, 7)
      active_time := some 100, cdc_sdk_safe_time := some 200 } 100 200
    rfl (by intro table_info h; cases h; rfl) (by decide) rfl rfl rfl

/-- C17 (the claim as written fails): t1 is an index, with t1 in the table list of the xCluster
stream 1 and of the CDCSDK stream 3; `UpdateCDCProducerOnTabletSplit` returns OK and inserts the
two rows of stream 1 only: 2 rows, not 4, and none for the CDCSDK stream. -/
theorem UpdateCDCProducerOnTabletSplit_index_counterexample :
    (GetXReplStreamsForTable sampleSplitIndexState "t1" CDCRequestSource.XCLUSTER).map
        (fun s => s.1) = [1] ∧
    (GetXReplStreamsForTable sampleSplitIndexState "t1" CDCRequestSource.CDCSDK).map
        (fun s => s.1) = [3] ∧
    (UpdateCDCProducerOnTabletSplit sampleSplitIndexState "t1" sampleSplit 999).1 = Status.OK ∧
    ((UpdateCDCProducerOnTabletSplit sampleSplitIndexState "t1" sampleSplit
        999).2.cdc_state_table_.drop sampleSplitIndexState.cdc_state_table_.length).map
        (fun row => (row.key.tablet_id, row.key.stream_id)) = [("c1", 1), ("c2", 1)] := by
  refine ⟨?_, ?_, ?_, ?_⟩ <;> rfl

/-- C17 (amended), at a sample input: the user table t1 is covered by the xCluster stream 1 and
the CDCSDK stream 3: exactly 4 rows are inserted, for the two children and the two streams, each
with the checkpoint `OpId::Min`. -/
theorem UpdateCDCProducerOnTabletSplit_rows_witness :
    ∃ rows,
      UpdateCDCProducerOnTabletSplit sampleSplitState "t1" sampleSplit 999 =
        (Status.OK, { sampleSplitState with
          cdc_state_table_ := sampleSplitState.cdc_state_table_ ++ rows }) ∧
      rows.map (fun r => r.key) =
        [{ tablet_id := "c1", stream_id := 1 }, { tablet_id := "c2", stream_id := 1 },
          { tablet_id := "c1", stream_id := 3 }, { tablet_id := "c2", stream_id := 3 }] ∧
      (∀ r ∈ rows, r.checkpoint = some OpId.Min) ∧
      rows.length = 4 :=
  UpdateCDCProducerOnTabletSplit_rows sampleSplitState "t1" sampleSplit 999 rfl

/-! ### Required request fields -/

/-- C19 (the claim as written fails): an `IsBootstrapRequired` request without a table id and
an `IsSetupNamespaceReplicationWithBootstrapDone` request without a replication group id are
refused with InvalidArgument and change no state, and the status of neither carries a master
error code: it is not INVALID_REQUEST. -/
theorem IsBootstrapRequired_no_master_error_counterexample :
    IsBootstrapRequired sampleFromString (fun _ _ => (Status.OK, false)) false sampleDeleteState
        {} =
      (Status.error StatusCode.InvalidArgument "Table ID required" none, {}, sampleDeleteState) ∧
    IsSetupNamespaceReplicationWithBootstrapDone sampleDeleteState {} =
      (Status.error StatusCode.InvalidArgument "Replication group ID must be provided" none, {},
        sampleDeleteState) := by
  constructor <;> rfl

/-- C19 (amended): `DeleteCDCStream` without a stream id and without a slot name,
`IsBootstrapRequired` without a table id and `IsSetupNamespaceReplicationWithBootstrapDone`
without a replication group id each return an InvalidArgument status, with an empty response and
the state unchanged; the status of `DeleteCDCStream` carries the master error code
INVALID_REQUEST, the status of the other two carries no master error code. -/
theorem required_fields_checked_first :
    (∀ (FromString : String → Except Status StreamId) (cm : CatalogManager)
        (req : DeleteCDCStreamRequestPB),
        req.stream_id = [] → req.cdcsdk_ysql_replication_slot_name = [] →
        DeleteCDCStream FromString cm req =
          some (Status.error StatusCode.InvalidArgument
            "No CDC Stream ID or YSQL Replication Slot Name given"
            (some MasterErrorPB.INVALID_REQUEST), {}, cm)) ∧
    (∀ (FromString : String → Except Status StreamId)
        (IsTableBootstrapRequired : TableId → StreamId → Status × Bool) (timed_out : Bool)
        (cm : CatalogManager) (req : IsBootstrapRequiredRequestPB),
        req.table_ids = [] →
        IsBootstrapRequired FromString IsTableBootstrapRequired timed_out cm req =
          (Status.error StatusCode.InvalidArgument "Table ID required" none, {}, cm)) ∧
    (∀ (cm : CatalogManager) (req : IsSetupNamespaceReplicationWithBootstrapDoneRequestPB),
        req.replication_group_id = none →
        IsSetupNamespaceReplicationWithBootstrapDone cm req =
          (Status.error StatusCode.InvalidArgument "Replication group ID must be provided" none,
            {}, cm)) := by
  refine ⟨?_, ?_, ?_⟩
  · intro FromString cm req h1 h2
    unfold DeleteCDCStream
    simp [h1, h2]
  · intro FromString IsTableBootstrapRequired timed_out cm req h
    unfold IsBootstrapRequired
    simp [h]
  · intro cm req h
    unfold IsSetupNamespaceReplicationWithBootstrapDone
    simp [h]

/-- C19 (amended), at a sample input: the three handlers on the empty request. -/
theorem required_fields_checked_first_witness :
    DeleteCDCStream sampleFromString sampleDeleteState {} =
      some (Status.error StatusCode.InvalidArgument
        "No CDC Stream ID or YSQL Replication Slot Name given"
        (some MasterErrorPB.INVALID_REQUEST), {}, sampleDeleteState) ∧
    IsBootstrapRequired sampleFromString (fun _ _ => (Status.OK, false)) false
        sampleDeleteState {} =
      (Status.error StatusCode.InvalidArgument "Table ID required" none, {}, sampleDeleteState) ∧
    IsSetupNamespaceReplicationWithBootstrapDone sampleDeleteState {} =
      (Status.error StatusCode.InvalidArgument "Replication group ID must be provided" none, {},
        sampleDeleteState) :=
  ⟨required_fields_checked_first.1 sampleFromString sampleDeleteState {} rfl rfl,
    required_fields_checked_first.2.1 sampleFromString (fun _ _ => (Status.OK, false)) false
      sampleDeleteState {} rfl,
    required_fields_checked_first.2.2 sampleDeleteState {} rfl⟩

/-! ### Updating streams -/

theorem stdMapAssign_keys_mem {V : Type} (m : List (StreamId × V)) (k : StreamId) (v : V)
    (k1 : StreamId) :
    k1 ∈ (stdMapAssign m k v).map Prod.fst ↔ k1 = k ∨ k1 ∈ m.map Prod.fst := by
  induction m with
  | nil => simp [stdMapAssign]
  | cons e rest ih =>
    obtain ⟨k2, v2⟩ := e
    unfold stdMapAssign
    by_cases h1 : k < k2
    · simp [h1]
    · by_cases h2 : k = k2
      · subst h2
        simp
      · simp only [h1, h2, if_false, List.map_cons, List.mem_cons, ih]
        tauto

theorem stdMapAssign_sorted {V : Type} (m : List (StreamId × V)) (k : StreamId) (v : V)
    (hm : (m.map Prod.fst).Pairwise (fun a b => a < b)) :
    ((stdMapAssign m k v).map Prod.fst).Pairwise (fun a b => a < b) := by
  induction m with
  | nil => simp [stdMapAssign]
  | cons e rest ih =>
    obtain ⟨k2, v2⟩ := e
    simp only [List.map_cons, List.pairwise_cons] at hm
    unfold stdMapAssign
    by_cases h1 : k < k2
    · simp only [h1, if_true, List.map_cons, List.pairwise_cons, List.mem_cons]
      refine ⟨?_, hm⟩
      intro a ha
      rcases ha with rfl | ha
      · exact h1
      · exact lt_trans h1 (hm.1 a ha)
    · by_cases h2 : k = k2
      · subst h2
        simp only [lt_irrefl, if_false, if_true, List.map_cons, List.pairwise_cons]
        exact hm
      · simp only [h1, h2, if_false, List.map_cons, List.pairwise_cons]
        refine ⟨?_, ih hm.2⟩
        intro a ha
        rw [stdMapAssign_keys_mem] at ha
        rcases ha with rfl | ha
        · exact lt_of_le_of_ne (not_lt.mp h1) (Ne.symm h2)
        · exact hm.1 a ha

theorem stdMapAssign_values {V : Type} (m : List (StreamId × V)) (k : StreamId) (v : V) :
    ∀ e ∈ stdMapAssign m k v, e.2 = v ∨ e ∈ m := by
  induction m with
  | nil =>
    intro e he
    simp only [stdMapAssign, List.mem_singleton] at he
    exact Or.inl (by rw [he])
  | cons e1 rest ih =>
    obtain ⟨k2, v2⟩ := e1
    intro e he
    unfold stdMapAssign at he
    by_cases h1 : k < k2
    · rw [if_pos h1, List.mem_cons] at he
      rcases he with he | he
      · exact Or.inl (by rw [he])
      · exact Or.inr he
    · rw [if_neg h1] at he
      by_cases h2 : k = k2
      · rw [if_pos h2, List.mem_cons] at he
        rcases he with he | he
        · exact Or.inl (by rw [he])
        · exact Or.inr (List.mem_cons_of_mem _ he)
      · rw [if_neg h2, List.mem_cons] at he
        rcases he with he | he
        · exact Or.inr (by rw [he]; exact List.mem_cons_self _ _)
        · rcases ih e he with h | h
          · exact Or.inl h
          · exact Or.inr (List.mem_cons_of_mem _ h)

theorem UpdateCDCStreams_collect_ok (cm : CatalogManager) (stream_ids : List StreamId) :
    ∀ (update_entries : List SysCDCStreamEntryPB)
      (m m1 : List (StreamId × SysCDCStreamEntryPB)),
      stream_ids.length = update_entries.length →
      (m.map Prod.fst).Pairwise (fun a b => a < b) →
      UpdateCDCStreams.collect cm stream_ids update_entries m = Except.ok m1 →
      (m1.map Prod.fst).Pairwise (fun a b => a < b) ∧
      (∀ k, k ∈ m1.map Prod.fst ↔ k ∈ m.map Prod.fst ∨ k ∈ stream_ids) ∧
      (∀ e ∈ m1, e ∈ m ∨ e.2 ∈ update_entries) := by
  induction stream_ids with
  | nil =>
    intro update_entries m m1 hlen hm h
    cases update_entries with
    | nil =>
      simp only [UpdateCDCStreams.collect, Except.ok.injEq] at h
      subst h
      exact ⟨hm, by simp, fun e he => Or.inl he⟩
    | cons e es => simp at hlen
  | cons id ids ih =>
    intro update_entries m m1 hlen hm h
    cases update_entries with
    | nil => simp at hlen
    | cons e es =>
      unfold UpdateCDCStreams.collect at h
      cases hf : mapFind cm.cdc_stream_map_ id with
      | none => rw [hf] at h; simp at h
      | some pb =>
        rw [hf] at h
        simp only [] at h
        have hlen1 : ids.length = es.length := by simpa using hlen
        obtain ⟨h1, h2, h3⟩ := ih es (stdMapAssign m id e) m1 hlen1
          (stdMapAssign_sorted m id e hm) h
        refine ⟨h1, ?_, ?_⟩
        · intro k
          rw [h2, stdMapAssign_keys_mem, List.mem_cons]
          tauto
        · intro e1 he1
          rcases h3 e1 he1 with h4 | h4
          · rcases stdMapAssign_values m id e e1 h4 with h5 | h5
            · exact Or.inr (by rw [h5]; exact List.mem_cons_self _ _)
            · exact Or.inl h5
          · exact Or.inr (List.mem_cons_of_mem _ h4)

theorem UpdateCDCStreams_lock_loop_defined (cm : CatalogManager)
    (m : List (StreamId × SysCDCStreamEntryPB))
    (hdef : ∀ e ∈ m, (UpdateCDCStreams.erase_state_options e.2.options).isSome = true) :
    ∃ r stream_locks, UpdateCDCStreams.lock_loop cm m = some (r, stream_locks) ∧
      stream_locks <+: m.map Prod.fst ∧
      (∀ streams_to_update, r = Except.ok streams_to_update →
        stream_locks = m.map Prod.fst) := by
  induction m with
  | nil => exact ⟨Except.ok [], [], rfl, List.prefix_refl _, fun _ _ => rfl⟩
  | cons e rest ih =>
    obtain ⟨stream_id, entry⟩ := e
    obtain ⟨r, locks, hrun, hpre, hall⟩ := ih (fun e he => hdef e (List.mem_cons_of_mem _ he))
    have hd := hdef (stream_id, entry) (List.mem_cons_self _ _)
    unfold UpdateCDCStreams.lock_loop
    by_cases hdel : UpdateCDCStreams.is_deleting cm stream_id = true
    · rw [if_pos hdel]
      refine ⟨_, _, rfl, ?_, ?_⟩
      · simp only [List.map_cons]
        exact List.prefix_iff_eq_append.mpr (by simp)
      · intro s hs
        simp at hs
    · rw [if_neg hdel]
      cases he : UpdateCDCStreams.erase_state_options entry.options with
      | none => rw [he] at hd; simp at hd
      | some options =>
        simp only [hrun]
        cases r with
        | error status =>
          refine ⟨_, _, rfl, ?_, ?_⟩
          · simp only [List.map_cons]
            exact (List.prefix_cons_inj stream_id).mpr hpre
          · intro s hs
            simp at hs
        | ok staged =>
          refine ⟨_, _, rfl, ?_, ?_⟩
          · simp only [List.map_cons]
            exact (List.prefix_cons_inj stream_id).mpr hpre
          · intro s _
            simp only [List.map_cons]
            rw [hall staged rfl]

/-- The locks of `UpdateCDCStreams`, for a batch whose option loops stay inside the options: the
call returns; the write locks it takes are the locks of streams of the batch, in strictly
ascending order of the stream id; when it returns OK it has taken the lock of every stream of
the batch and committed the locks in the order it took them; when it returns an error it has
committed none and the state is unchanged. -/
theorem UpdateCDCStreams_locks_ascending (cm : CatalogManager) (stream_ids : List StreamId)
    (update_entries : List SysCDCStreamEntryPB)
    (hdef : ∀ entry ∈ update_entries,
      (UpdateCDCStreams.erase_state_options entry.options).isSome = true) :
    ∃ status cm1 stream_locks commits,
      UpdateCDCStreams cm stream_ids update_entries =
        some (status, cm1, stream_locks, commits) ∧
      stream_locks.Pairwise (fun a b => a < b) ∧
      (∀ id ∈ stream_locks, id ∈ stream_ids) ∧
      (status = Status.OK →
        commits = stream_locks ∧ ∀ id, id ∈ stream_locks ↔ id ∈ stream_ids) ∧
      (status ≠ Status.OK → commits = [] ∧ cm1 = cm) := by
  unfold UpdateCDCStreams
  by_cases h1 : ¬ (stream_ids.length > 0)
  · rw [if_pos h1]
    exact ⟨_, _, _, _, rfl, List.Pairwise.nil, by simp, by simp, fun _ => ⟨rfl, rfl⟩⟩
  rw [if_neg h1]
  by_cases h2 : ¬ (stream_ids.length = update_entries.length)
  · rw [if_pos h2]
    exact ⟨_, _, _, _, rfl, List.Pairwise.nil, by simp, by simp, fun _ => ⟨rfl, rfl⟩⟩
  rw [if_neg h2]
  have hlen : stream_ids.length = update_entries.length := not_not.mp h2
  cases hc : UpdateCDCStreams.collect cm stream_ids update_entries [] with
  | error status =>
    simp only []
    refine ⟨_, _, _, _, rfl, List.Pairwise.nil, by simp, ?_, fun _ => ⟨rfl, rfl⟩⟩
    intro hs
    subst hs
    exfalso
    -- collect fails with NotFound only
    clear h1 h2 hdef
    revert hc
    generalize ([] : List (StreamId × SysCDCStreamEntryPB)) = m
    intro hc
    induction stream_ids generalizing update_entries m with
    | nil => cases update_entries <;> simp [UpdateCDCStreams.collect] at hc
    | cons id ids ih =>
      cases update_entries with
      | nil => simp at hlen
      | cons e es =>
        unfold UpdateCDCStreams.collect at hc
        cases hf : mapFind cm.cdc_stream_map_ id with
        | none => rw [hf] at hc; simp at hc
        | some pb =>
          rw [hf] at hc
          exact ih es (by simpa using hlen) _ hc
  | ok m =>
    simp only []
    obtain ⟨hsorted, hkeys, hvals⟩ := UpdateCDCStreams_collect_ok cm stream_ids update_entries
      [] m hlen List.Pairwise.nil hc
    have hdefm : ∀ e ∈ m, (UpdateCDCStreams.erase_state_options e.2.options).isSome = true := by
      intro e he
      rcases hvals e he with h | h
      · simp at h
      · exact hdef _ h
    obtain ⟨r, locks, hrun, hpre, hall⟩ := UpdateCDCStreams_lock_loop_defined cm m hdefm
    have hlocks_sorted : locks.Pairwise (fun a b => a < b) :=
      List.Pairwise.sublist hpre.sublist hsorted
    have hlocks_mem : ∀ id ∈ locks, id ∈ stream_ids := by
      intro id hid
      have := (hkeys id).mp (hpre.subset hid)
      simpa using this
    rw [hrun]
    cases r with
    | error status =>
      simp only []
      refine ⟨_, _, _, _, rfl, hlocks_sorted, hlocks_mem, ?_, fun _ => ⟨rfl, rfl⟩⟩
      intro hs
      subst hs
      exfalso
      -- the loop fails with NotFound only
      clear hlocks_sorted hlocks_mem hpre hall hsorted hkeys hvals hc
      induction m generalizing locks with
      | nil => simp [UpdateCDCStreams.lock_loop] at hrun
      | cons e rest ih =>
        obtain ⟨stream_id, entry⟩ := e
        unfold UpdateCDCStreams.lock_loop at hrun
        by_cases hdel : UpdateCDCStreams.is_deleting cm stream_id = true
        · rw [if_pos hdel] at hrun
          simp at hrun
        · rw [if_neg hdel] at hrun
          cases he : UpdateCDCStreams.erase_state_options entry.options with
          | none => rw [he] at hrun; simp at hrun
          | some options =>
            rw [he] at hrun
            simp only [] at hrun
            cases hl : UpdateCDCStreams.lock_loop cm rest with
            | none => rw [hl] at hrun; simp at hrun
            | some p =>
              obtain ⟨r1, locks1⟩ := p
              rw [hl] at hrun
              cases r1 with
              | ok staged => simp at hrun
              | error status1 =>
                simp only [Option.some.injEq, Prod.mk.injEq, Except.error.injEq] at hrun
                exact ih (fun e he => hdefm e (List.mem_cons_of_mem _ he)) locks1
                  (by rw [hl, hrun.1])
    | ok staged =>
      simp only []
      have hl := hall staged rfl
      cases hsys : cm.sys_catalog_status with
      | error code msg master_error =>
        simp only []
        refine ⟨_, _, _, _, rfl, hlocks_sorted, hlocks_mem, ?_, fun _ => ⟨rfl, rfl⟩⟩
        intro hs
        simp at hs
      | OK =>
        simp only []
        refine ⟨_, _, _, _, rfl, hlocks_sorted, hlocks_mem, ?_, ?_⟩
        · intro _
          refine ⟨rfl, ?_⟩
          intro id
          rw [hl, hkeys]
          simp
        · intro hs
          exact absurd rfl hs

theorem UpdateCDCStreams_collect_cases (cm : CatalogManager) (stream_ids : List StreamId) :
    ∀ (update_entries : List SysCDCStreamEntryPB) (m : List (StreamId × SysCDCStreamEntryPB)),
      stream_ids.length = update_entries.length →
      (UpdateCDCStreams.collect cm stream_ids update_entries m =
          Except.error (Status.error StatusCode.NotFound "Could not find CDC stream"
            (some MasterErrorPB.OBJECT_NOT_FOUND)) ∧
        ∃ id ∈ stream_ids, mapFind cm.cdc_stream_map_ id = none) ∨
      ((∃ m1, UpdateCDCStreams.collect cm stream_ids update_entries m = Except.ok m1) ∧
        ∀ id ∈ stream_ids, ∃ pb, mapFind cm.cdc_stream_map_ id = some pb) := by
  induction stream_ids with
  | nil =>
    intro update_entries m hlen
    cases update_entries with
    | nil => exact Or.inr ⟨⟨m, rfl⟩, by simp⟩
    | cons e es => simp at hlen
  | cons id ids ih =>
    intro update_entries m hlen
    cases update_entries with
    | nil => simp at hlen
    | cons e es =>
      have hlen1 : ids.length = es.length := by simpa using hlen
      unfold UpdateCDCStreams.collect
      cases hf : mapFind cm.cdc_stream_map_ id with
      | none => exact Or.inl ⟨rfl, id, List.mem_cons_self _ _, hf⟩
      | some pb =>
        simp only []
        rcases ih es (stdMapAssign m id e) hlen1 with ⟨h1, id1, hid1, hnone⟩ | ⟨h1, h2⟩
        · exact Or.inl ⟨h1, id1, List.mem_cons_of_mem _ hid1, hnone⟩
        · refine Or.inr ⟨h1, ?_⟩
          intro id1 hid1
          rcases List.mem_cons.mp hid1 with h | h
          · exact ⟨pb, by rw [h]; exact hf⟩
          · exact h2 id1 h

theorem UpdateCDCStreams_lock_loop_cases (cm : CatalogManager)
    (m : List (StreamId × SysCDCStreamEntryPB))
    (hdef : ∀ e ∈ m, (UpdateCDCStreams.erase_state_options e.2.options).isSome = true) :
    ((∃ stream_locks, UpdateCDCStreams.lock_loop cm m =
          some (Except.error (Status.error StatusCode.NotFound "CDC stream has been deleted"
            (some MasterErrorPB.OBJECT_NOT_FOUND)), stream_locks)) ∧
        ∃ e ∈ m, UpdateCDCStreams.is_deleting cm e.1 = true) ∨
      ((∃ streams_to_update stream_locks, UpdateCDCStreams.lock_loop cm m =
          some (Except.ok streams_to_update, stream_locks)) ∧
        ∀ e ∈ m, UpdateCDCStreams.is_deleting cm e.1 = false) := by
  induction m with
  | nil => exact Or.inr ⟨⟨[], [], rfl⟩, by simp⟩
  | cons e rest ih =>
    obtain ⟨stream_id, entry⟩ := e
    have hd := hdef (stream_id, entry) (List.mem_cons_self _ _)
    unfold UpdateCDCStreams.lock_loop
    by_cases hdel : UpdateCDCStreams.is_deleting cm stream_id = true
    · rw [if_pos hdel]
      exact Or.inl ⟨⟨_, rfl⟩, (stream_id, entry), List.mem_cons_self _ _, hdel⟩
    · rw [if_neg hdel]
      cases he : UpdateCDCStreams.erase_state_options entry.options with
      | none => rw [he] at hd; simp at hd
      | some options =>
        simp only []
        rcases ih (fun e he => hdef e (List.mem_cons_of_mem _ he)) with
          ⟨⟨locks, h1⟩, e1, he1, hdel1⟩ | ⟨⟨staged, locks, h1⟩, h2⟩
        · rw [h1]
          exact Or.inl ⟨⟨_, rfl⟩, e1, List.mem_cons_of_mem _ he1, hdel1⟩
        · rw [h1]
          refine Or.inr ⟨⟨_, _, rfl⟩, ?_⟩
          intro e1 he1
          rcases List.mem_cons.mp he1 with h | h
          · rw [h]
            simpa using hdel
          · exact h2 e1 h

theorem UpdateCDCStreams_ok_iff (cm : CatalogManager) (stream_ids : List StreamId)
    (update_entries : List SysCDCStreamEntryPB)
    (hdef : ∀ entry ∈ update_entries,
      (UpdateCDCStreams.erase_state_options entry.options).isSome = true)
    (status : Status) (cm1 : CatalogManager) (stream_locks commits : List StreamId)
    (hrun : UpdateCDCStreams cm stream_ids update_entries =
      some (status, cm1, stream_locks, commits)) :
    status = Status.OK ↔
      (0 < stream_ids.length ∧ stream_ids.length = update_entries.length ∧
        (∀ id ∈ stream_ids, ∃ pb, mapFind cm.cdc_stream_map_ id = some pb ∧
          pb.is_deleting = false) ∧
        cm.sys_catalog_status = Status.OK) := by
  unfold UpdateCDCStreams at hrun
  by_cases h1 : ¬ (stream_ids.length > 0)
  · rw [if_pos h1] at hrun
    simp only [Option.some.injEq, Prod.mk.injEq] at hrun
    rw [← hrun.1]
    constructor
    · intro h
      cases h
    · intro h
      exact absurd h.1 h1
  rw [if_neg h1] at hrun
  by_cases h2 : ¬ (stream_ids.length = update_entries.length)
  · rw [if_pos h2] at hrun
    simp only [Option.some.injEq, Prod.mk.injEq] at hrun
    rw [← hrun.1]
    constructor
    · intro h
      cases h
    · intro h
      exact absurd h.2.1 h2
  rw [if_neg h2] at hrun
  have hlen : stream_ids.length = update_entries.length := not_not.mp h2
  have hpos : 0 < stream_ids.length := not_not.mp h1
  rcases UpdateCDCStreams_collect_cases cm stream_ids update_entries [] hlen with
    ⟨hc, id, hid, hnone⟩ | ⟨⟨m, hc⟩, hfound⟩
  · rw [hc] at hrun
    simp only [Option.some.injEq, Prod.mk.injEq] at hrun
    rw [← hrun.1]
    constructor
    · intro h
      cases h
    · intro h
      obtain ⟨pb, hpb, _⟩ := h.2.2.1 id hid
      rw [hnone] at hpb
      cases hpb
  · rw [hc] at hrun
    simp only [] at hrun
    obtain ⟨_, hkeys, hvals⟩ := UpdateCDCStreams_collect_ok cm stream_ids update_entries
      [] m hlen List.Pairwise.nil hc
    have hdefm : ∀ e ∈ m, (UpdateCDCStreams.erase_state_options e.2.options).isSome = true := by
      intro e he
      rcases hvals e he with h | h
      · simp at h
      · exact hdef _ h
    rcases UpdateCDCStreams_lock_loop_cases cm m hdefm with
      ⟨⟨locks, hl⟩, e, he, hdel⟩ | ⟨⟨staged, locks, hl⟩, hlive⟩
    · rw [hl] at hrun
      simp only [Option.some.injEq, Prod.mk.injEq] at hrun
      rw [← hrun.1]
      constructor
      · intro h
        cases h
      · intro h
        have hmem : e.1 ∈ stream_ids := by
          have := (hkeys e.1).mp (List.mem_map_of_mem Prod.fst he)
          simpa using this
        obtain ⟨pb, hpb, hnd⟩ := h.2.2.1 e.1 hmem
        unfold UpdateCDCStreams.is_deleting at hdel
        rw [hpb] at hdel
        simp only [] at hdel
        rw [hnd] at hdel
        cases hdel
    · rw [hl] at hrun
      simp only [] at hrun
      have hall : ∀ id ∈ stream_ids, ∃ pb, mapFind cm.cdc_stream_map_ id = some pb ∧
          pb.is_deleting = false := by
        intro id hid
        obtain ⟨pb, hpb⟩ := hfound id hid
        refine ⟨pb, hpb, ?_⟩
        have hk : id ∈ m.map Prod.fst := (hkeys id).mpr (Or.inr hid)
        obtain ⟨e, he, hfst⟩ := List.mem_map.mp hk
        have := hlive e he
        rw [hfst] at this
        unfold UpdateCDCStreams.is_deleting at this
        rw [hpb] at this
        exact this
      cases hsys : cm.sys_catalog_status with
      | error code msg master_error =>
        rw [hsys] at hrun
        simp only [Option.some.injEq, Prod.mk.injEq] at hrun
        rw [← hrun.1]
        constructor
        · intro h
          cases h
        · intro h
          cases h.2.2.2
      | OK =>
        rw [hsys] at hrun
        simp only [Option.some.injEq, Prod.mk.injEq] at hrun
        rw [← hrun.1]
        exact ⟨fun _ => ⟨hpos, hlen, hall, rfl⟩, fun _ => rfl⟩

/-- C20: for every batch of stream ids and update entries whose option loops stay inside the
options, `UpdateCDCStreams` returns; the write locks it takes are the locks of streams of the
batch, in strictly ascending order of the stream id (so none twice); when it returns OK it has
taken the lock of every stream of the batch and committed the locks in the order it took them;
when it returns an error it has committed none and the state is unchanged; and it returns OK
exactly when the batch is not empty, has as many update entries as stream ids, every stream of
the batch is in the stream map and not deleting, and the sys catalog accepts the write. -/
theorem UpdateCDCStreams_lock_order (cm : CatalogManager) (stream_ids : List StreamId)
    (update_entries : List SysCDCStreamEntryPB)
    (hdef : ∀ entry ∈ update_entries,
      (UpdateCDCStreams.erase_state_options entry.options).isSome = true) :
    ∃ status cm1 stream_locks commits,
      UpdateCDCStreams cm stream_ids update_entries =
        some (status, cm1, stream_locks, commits) ∧
      stream_locks.Pairwise (fun a b => a < b) ∧
      (∀ id ∈ stream_locks, id ∈ stream_ids) ∧
      (status = Status.OK →
        commits = stream_locks ∧ ∀ id, id ∈ stream_locks ↔ id ∈ stream_ids) ∧
      (status ≠ Status.OK → commits = [] ∧ cm1 = cm) ∧
      (status = Status.OK ↔
        (0 < stream_ids.length ∧ stream_ids.length = update_entries.length ∧
          (∀ id ∈ stream_ids, ∃ pb, mapFind cm.cdc_stream_map_ id = some pb ∧
            pb.is_deleting = false) ∧
          cm.sys_catalog_status = Status.OK)) := by
  obtain ⟨status, cm1, stream_locks, commits, hrun, h1, h2, h3, h4⟩ :=
    UpdateCDCStreams_locks_ascending cm stream_ids update_entries hdef
  exact ⟨status, cm1, stream_locks, commits, hrun, h1, h2, h3, h4,
    UpdateCDCStreams_ok_iff cm stream_ids update_entries hdef status cm1 stream_locks commits
      hrun⟩

/-- C20, at a sample input: the batch names the streams 3, 1 and 3 again; the call returns OK,
and the locks of the streams 1 and 3 are taken and committed, in that order. -/
theorem UpdateCDCStreams_lock_order_witness :
    (UpdateCDCStreams sampleDeleteState [3, 1, 3] [{}, {}, {}]).map
        (fun r => (r.1, r.2.2.1, r.2.2.2)) = some (Status.OK, [1, 3], [1, 3]) ∧
    ∃ status cm1 stream_locks commits,
      UpdateCDCStreams sampleDeleteState [3, 1, 3] [{}, {}, {}] =
        some (status, cm1, stream_locks, commits) ∧
      stream_locks.Pairwise (fun a b => a < b) ∧
      (∀ id ∈ stream_locks, id ∈ [3, 1, 3]) ∧
      (status = Status.OK →
        commits = stream_locks ∧ ∀ id, id ∈ stream_locks ↔ id ∈ [3, 1, 3]) ∧
      (status ≠ Status.OK → commits = [] ∧ cm1 = sampleDeleteState) ∧
      (status = Status.OK ↔
        (0 < [3, 1, 3].length ∧ [3, 1, 3].length = [({} : SysCDCStreamEntryPB), {}, {}].length ∧
          (∀ id ∈ [3, 1, 3], ∃ pb, mapFind sampleDeleteState.cdc_stream_map_ id = some pb ∧
            pb.is_deleting = false) ∧
          sampleDeleteState.sys_catalog_status = Status.OK)) :=
  ⟨rfl, UpdateCDCStreams_lock_order sampleDeleteState [3, 1, 3] [{}, {}, {}]
    (by
      intro entry h
      simp only [List.mem_cons, List.mem_singleton, List.not_mem_nil, or_false, or_self] at h
      subst h
      rfl)⟩

/-! ### Rollback, cleanup, eligibility, state options and version sequences -/

/-- C23: `IsTableEligibleForCDCSDKStream` on a table with its schema. A schema with the synthetic
`ybrowid` column makes the table ineligible, whatever its kind and the flags; without that column
and with the test-only index flag unset, the table is eligible if and only if it is not a
materialized view and is a user table. -/
theorem IsTableEligibleForCDCSDKStream_spec (flags : Flags) (table_info : TableInfo)
    (schema : Schema) :
    ((∃ col ∈ schema.columns, col.order = kYBRowId) →
      IsTableEligibleForCDCSDKStream flags table_info (some schema) = false) ∧
    ((¬ ∃ col ∈ schema.columns, col.order = kYBRowId) →
      flags.TEST_cdcsdk_add_indexes_to_stream = false →
      (IsTableEligibleForCDCSDKStream flags table_info (some schema) = true ↔
        table_info.is_matview = false ∧ table_info.is_user_table = true)) := by
  constructor
  · intro h
    have hany : schema.columns.any (fun col => decide (col.order = kYBRowId)) = true := by
      simpa [List.any_eq_true] using h
    simp [IsTableEligibleForCDCSDKStream, hany]
  · intro h hflag
    have hany : schema.columns.any (fun col => decide (col.order = kYBRowId)) = false := by
      rw [Bool.eq_false_iff]
      intro hc
      apply h
      simpa [List.any_eq_true] using hc
    simp only [IsTableEligibleForCDCSDKStream, hany, hflag]
    cases table_info.is_matview <;> cases table_info.is_user_table <;> simp

/-- C23, at sample inputs: a user index whose schema has the `ybrowid` column is ineligible; a
user table with a primary key is eligible. -/
theorem IsTableEligibleForCDCSDKStream_spec_witness :
    IsTableEligibleForCDCSDKStream {} { is_user_index := true, is_user_table := false }
        (some { columns := [⟨1⟩, ⟨kYBRowId⟩] }) = false ∧
      (IsTableEligibleForCDCSDKStream {} { namespace_id := "ns" } (some { columns := [⟨1⟩] })
          = true ↔
        ({ namespace_id := "ns" } : TableInfo).is_matview = false ∧
          ({ namespace_id := "ns" } : TableInfo).is_user_table = true) :=
  ⟨(IsTableEligibleForCDCSDKStream_spec {} { is_user_index := true, is_user_table := false }
      { columns := [⟨1⟩, ⟨kYBRowId⟩] }).1 ⟨⟨kYBRowId⟩, by simp, rfl⟩,
    (IsTableEligibleForCDCSDKStream_spec {} { namespace_id := "ns" } { columns := [⟨1⟩] }).2
      (by decide) rfl⟩

/-- C29 (the code at the failing input): an update entry of stream 1 with the options state,
state, record type. The loop erases the first state option and steps over the second one, so the
call returns OK and the stored metadata keeps a state option. With the state option in the last
position the loop steps past the end of the options (no result). -/
theorem UpdateCDCStreams_keeps_state_option :
    (UpdateCDCStreams sampleDeleteState [1]
        [{ table_id := ["t1"],
           options := [⟨cdc.kStreamState, "ACTIVE"⟩, ⟨cdc.kStreamState, "DELETING"⟩,
             ⟨cdc.kRecordType, "CHANGE"⟩] }]).map
      (fun r => (r.1, (mapFind r.2.1.cdc_stream_map_ 1).map (fun pb => pb.options))) =
      some (Status.OK, some [⟨cdc.kStreamState, "DELETING"⟩, ⟨cdc.kRecordType, "CHANGE"⟩]) ∧
    UpdateCDCStreams sampleDeleteState [1]
        [{ table_id := ["t1"],
           options := [⟨cdc.kRecordType, "CHANGE"⟩, ⟨cdc.kStreamState, "ACTIVE"⟩] }] = none := by
  constructor <;> rfl

/-- C21 (the code at the failing input): `CreateNewCdcsdkStream` for the slot `slot_a` over the
table t1, the draw of the stream id being 7 and the sys catalog refusing the write, so that the
rollback runs in state `kAddedToMaps`. The call fails, the stream is out of the primary map, its
id is not in use and nothing was written, but the table-to-streams index and the slot index still
hold the stream 7. The same for `RollbackFailedCreateCDCSDKStream` itself on the state in which
stream 7 has been added to the maps. -/
theorem RollbackFailedCreateCDCSDKStream_leaves_index_entries :
    (CreateNewCdcsdkStream sampleFailingSysCatalogState sampleSlotRequest ["t1"] "ns"
        { random := [7] }).map
      (fun r => (r.1.ok, r.2.2.cdc_stream_map_, r.2.2.xrepl_stream_ids_in_use_,
        r.2.2.sys_catalog_, r.2.2.cdcsdk_tables_to_stream_map_,
        r.2.2.cdcsdk_replication_slots_to_stream_map_)) =
      some (false, [], [], [], [("t1", [7])], [("slot_a", 7)]) ∧
    (RollbackFailedCreateCDCSDKStream sampleAddedToMapsState 7
        CDCSDKStreamCreationState.kAddedToMaps).cdc_stream_map_ = [] ∧
    (RollbackFailedCreateCDCSDKStream sampleAddedToMapsState 7
        CDCSDKStreamCreationState.kAddedToMaps).xrepl_stream_ids_in_use_ = [] ∧
    (RollbackFailedCreateCDCSDKStream sampleAddedToMapsState 7
        CDCSDKStreamCreationState.kAddedToMaps).sys_catalog_ = [] ∧
    (RollbackFailedCreateCDCSDKStream sampleAddedToMapsState 7
        CDCSDKStreamCreationState.kAddedToMaps).cdcsdk_tables_to_stream_map_ =
      [("t1", [7])] ∧
    (RollbackFailedCreateCDCSDKStream sampleAddedToMapsState 7
        CDCSDKStreamCreationState.kAddedToMaps).cdcsdk_replication_slots_to_stream_map_ =
      [("slot_a", 7)] := by
  refine ⟨by rfl, by rfl, by rfl, by rfl, by rfl, by rfl⟩

theorem eraseFromTablesToStreamMap_keeps_absent (stream_id : StreamId) (tables : List TableId) :
    ∀ (m : List (TableId × List StreamId)) (t : TableId),
      stream_id ∉ (mapFind m t).getD [] →
      stream_id ∉ (mapFind (eraseFromTablesToStreamMap m stream_id tables) t).getD [] := by
  induction tables with
  | nil => intro m t h; exact h
  | cons t0 rest ih =>
    intro m t h
    unfold eraseFromTablesToStreamMap
    apply ih
    by_cases ht : t0 = t
    · subst ht
      rw [mapFind_mapAssign_self]
      simp
    · rw [mapFind_mapAssign_ne _ _ _ _ ht]
      exact h

theorem eraseFromTablesToStreamMap_erases (stream_id : StreamId) (tables : List TableId) :
    ∀ (m : List (TableId × List StreamId)) (t : TableId), t ∈ tables →
      stream_id ∉ (mapFind (eraseFromTablesToStreamMap m stream_id tables) t).getD [] := by
  induction tables with
  | nil => intro m t h; simp at h
  | cons t0 rest ih =>
    intro m t h
    unfold eraseFromTablesToStreamMap
    by_cases ht : t0 = t
    · subst ht
      apply eraseFromTablesToStreamMap_keeps_absent
      rw [mapFind_mapAssign_self]
      simp
    · have hr : t ∈ rest := by
        rcases List.mem_cons.mp h with h1 | h1
        · exact absurd h1.symm ht
        · exact h1
      exact ih _ t hr

/-- C26: `CleanupXReplStreamFromMaps` on a stream id with the record `stream` that the call
reads. When the id is in the primary map, the call returns OK and afterwards the id is not in the
primary map, not in the table-to-streams set of any table of the record, not in the in-use set,
the slot index does not map the slot name of the record to the id, and a slot index whose entry
for that name points to another stream is left as it was. When the id is not in the primary map,
the call returns IllegalState and the state is unchanged. -/
theorem CleanupXReplStreamFromMaps_spec (cm : CatalogManager) (stream_id : StreamId)
    (stream : SysCDCStreamEntryPB) :
    (mapContains cm.cdc_stream_map_ stream_id = true →
      (CleanupXReplStreamFromMaps cm stream_id stream).1 = Status.OK ∧
      mapContains (CleanupXReplStreamFromMaps cm stream_id stream).2.cdc_stream_map_ stream_id
        = false ∧
      (∀ t ∈ stream.table_id,
        stream_id ∉ (mapFind
          (CleanupXReplStreamFromMaps cm stream_id stream).2.cdcsdk_tables_to_stream_map_
          t).getD []) ∧
      stream_id ∉ (CleanupXReplStreamFromMaps cm stream_id stream).2.xrepl_stream_ids_in_use_ ∧
      (stream.GetCdcsdkYsqlReplicationSlotName ≠ "" →
        mapFind
          (CleanupXReplStreamFromMaps cm stream_id stream).2.cdcsdk_replication_slots_to_stream_map_
          stream.GetCdcsdkYsqlReplicationSlotName ≠ some stream_id) ∧
      (∀ other : StreamId, other ≠ stream_id →
        mapFind cm.cdcsdk_replication_slots_to_stream_map_
          stream.GetCdcsdkYsqlReplicationSlotName = some other →
        (CleanupXReplStreamFromMaps cm stream_id stream).2.cdcsdk_replication_slots_to_stream_map_
          = cm.cdcsdk_replication_slots_to_stream_map_)) ∧
    (mapContains cm.cdc_stream_map_ stream_id = false →
      CleanupXReplStreamFromMaps cm stream_id stream =
        (Status.error StatusCode.IllegalState "XRepl stream not found in map" none, cm)) := by
  constructor
  · intro hc
    simp only [CleanupXReplStreamFromMaps, hc, not_true_eq_false, if_false, RecoverXreplStreamId]
    refine ⟨trivial, mapContains_mapErase _ _, ?_, ?_, ?_, ?_⟩
    · intro t ht
      exact eraseFromTablesToStreamMap_erases stream_id stream.table_id _ t ht
    · simp [List.mem_filter]
    · intro hname
      by_cases hfind : mapFind cm.cdcsdk_replication_slots_to_stream_map_
          stream.GetCdcsdkYsqlReplicationSlotName = some stream_id
      · rw [if_pos ⟨hname, hfind⟩, mapFind_mapErase_self]
        simp
      · rw [if_neg (fun h => hfind h.2)]
        exact hfind
    · intro other hother hfind
      rw [if_neg]
      intro h
      rw [hfind] at h
      exact hother (Option.some.inj h.2)
  · intro hc
    simp [CleanupXReplStreamFromMaps, hc]

/-- C26, at sample inputs: stream 3 of the sample state is cleaned up; stream 4 is not in the
primary map and the call fails with IllegalState, the state unchanged. -/
theorem CleanupXReplStreamFromMaps_spec_witness :
    (CleanupXReplStreamFromMaps sampleDeleteState 3
        { table_id := ["t3"], namespace_id := some "ns",
          cdcsdk_ysql_replication_slot_name := some "slot_a" }).1 = Status.OK ∧
      mapContains (CleanupXReplStreamFromMaps sampleDeleteState 3
        { table_id := ["t3"], namespace_id := some "ns",
          cdcsdk_ysql_replication_slot_name := some "slot_a" }).2.cdc_stream_map_ 3 = false ∧
      CleanupXReplStreamFromMaps sampleDeleteState 4 {} =
        (Status.error StatusCode.IllegalState "XRepl stream not found in map" none,
          sampleDeleteState) :=
  ⟨((CleanupXReplStreamFromMaps_spec sampleDeleteState 3
      { table_id := ["t3"], namespace_id := some "ns",
        cdcsdk_ysql_replication_slot_name := some "slot_a" }).1 (by decide)).1,
    ((CleanupXReplStreamFromMaps_spec sampleDeleteState 3
      { table_id := ["t3"], namespace_id := some "ns",
        cdcsdk_ysql_replication_slot_name := some "slot_a" }).1 (by decide)).2.1,
    (CleanupXReplStreamFromMaps_spec sampleDeleteState 4 {}).2 (by decide)⟩

theorem UpdateConsumerOnProducerMetadata_compare_not_older
    (req : UpdateConsumerOnProducerMetadataRequestPB) (pb versions : SchemaVersionsPB)
    (updated0 updated : Bool)
    (h0 : pb.old_producer_schema_version ≤ pb.current_producer_schema_version)
    (h : UpdateConsumerOnProducerMetadata.compare req pb updated0 =
      Except.ok (versions, updated)) :
    schemaVersionsNotOlder pb versions := by
  unfold UpdateConsumerOnProducerMetadata.compare at h
  unfold schemaVersionsNotOlder
  by_cases h1 : req.producer_schema_version > pb.current_producer_schema_version
  · simp only [h1, if_true, Except.ok.injEq, Prod.mk.injEq] at h
    rw [← h.1]
    simp only
    omega
  · simp only [h1, if_false] at h
    by_cases h2 : req.producer_schema_version < pb.current_producer_schema_version
    · simp only [h2, if_true] at h
      by_cases h3 : req.producer_schema_version > pb.old_producer_schema_version
      · simp only [h3, if_true, Except.ok.injEq, Prod.mk.injEq] at h
        rw [← h.1]
        simp only
        omega
      · simp only [h3, if_false, Except.ok.injEq, Prod.mk.injEq] at h
        rw [← h.1]
        simp only
        omega
    · simp only [h2, if_false] at h
      by_cases h4 : req.consumer_schema_version ≥ pb.current_consumer_schema_version
      · simp only [h4, if_true, Except.ok.injEq, Prod.mk.injEq] at h
        rw [← h.1]
        simp only
        omega
      · simp [h4] at h

theorem requestSchemaVersions_same_key (FromString : String → Except Status StreamId)
    (IsColocationParentTableId : TableId → Bool) (cm : CatalogManager)
    (req probe : UpdateConsumerOnProducerMetadataRequestPB)
    (h1 : req.replication_group_id = probe.replication_group_id)
    (h2 : req.stream_id = probe.stream_id) (h3 : req.colocation_id = probe.colocation_id) :
    requestSchemaVersions FromString IsColocationParentTableId cm req =
      requestSchemaVersions FromString IsColocationParentTableId cm probe := by
  unfold requestSchemaVersions
  rw [h1, h2, h3]

theorem UpdateConsumerOnProducerMetadata_step_not_older
    (FromString : String → Except Status StreamId)
    (IsColocationParentTableId : TableId → Bool) (cm : CatalogManager)
    (req probe : UpdateConsumerOnProducerMetadataRequestPB)
    (h1 : req.replication_group_id = probe.replication_group_id)
    (h2 : req.stream_id = probe.stream_id) (h3 : req.colocation_id = probe.colocation_id)
    (h0 : ((requestSchemaVersions FromString IsColocationParentTableId cm probe).getD
        {}).old_producer_schema_version ≤
      ((requestSchemaVersions FromString IsColocationParentTableId cm probe).getD
        {}).current_producer_schema_version) :
    schemaVersionsNotOlder
      ((requestSchemaVersions FromString IsColocationParentTableId cm probe).getD {})
      ((requestSchemaVersions FromString IsColocationParentTableId
        (UpdateConsumerOnProducerMetadata FromString IsColocationParentTableId cm req).2.2
        probe).getD {}) := by
  have hkey := requestSchemaVersions_same_key FromString IsColocationParentTableId cm req probe
    h1 h2 h3
  rcases UpdateConsumerOnProducerMetadata_cases FromString IsColocationParentTableId cm req with
    hsame | ⟨at_, versions, hloc, hcmp, hstate⟩
  · rw [hsame]
    exact ⟨le_refl _, le_refl _, h0⟩
  · have hstored : requestSchemaVersions FromString IsColocationParentTableId
        (UpdateConsumerOnProducerMetadata FromString IsColocationParentTableId cm req).2.2
        probe = some versions := by
      rw [← requestSchemaVersions_same_key FromString IsColocationParentTableId _ req probe
        h1 h2 h3]
      exact requestSchemaVersions_staged FromString IsColocationParentTableId cm req at_ hloc
        versions _ (by rw [hstate]) (by rw [hstate])
    rw [hstored, Option.getD_some]
    rw [hkey] at hcmp
    exact UpdateConsumerOnProducerMetadata_compare_not_older req _ versions _ true h0 hcmp

/-- C30: a sequence of `UpdateConsumerOnProducerMetadata` calls (successful or not) for one
replication group, stream and colocation id, starting in a state whose stored old producer
version is at most the current one. After each call the stored current and old producer versions
are at least what they were before the call, and the old one is at most the current one. -/
theorem UpdateConsumerOnProducerMetadata_versions_never_go_back
    (FromString : String → Except Status StreamId)
    (IsColocationParentTableId : TableId → Bool)
    (probe : UpdateConsumerOnProducerMetadataRequestPB)
    (reqs : List UpdateConsumerOnProducerMetadataRequestPB) :
    ∀ cm : CatalogManager,
    (∀ req ∈ reqs, req.replication_group_id = probe.replication_group_id ∧
      req.stream_id = probe.stream_id ∧ req.colocation_id = probe.colocation_id) →
    ((requestSchemaVersions FromString IsColocationParentTableId cm probe).getD
        {}).old_producer_schema_version ≤
      ((requestSchemaVersions FromString IsColocationParentTableId cm probe).getD
        {}).current_producer_schema_version →
    List.Chain schemaVersionsNotOlder
      ((requestSchemaVersions FromString IsColocationParentTableId cm probe).getD {})
      (schemaVersionsAfterCalls FromString IsColocationParentTableId probe cm reqs) := by
  induction reqs with
  | nil => intro cm _ _; exact List.Chain.nil
  | cons req rest ih =>
    intro cm hreqs h0
    obtain ⟨h1, h2, h3⟩ := hreqs req (List.mem_cons_self _ _)
    have hstep := UpdateConsumerOnProducerMetadata_step_not_older FromString
      IsColocationParentTableId cm req probe h1 h2 h3 h0
    unfold schemaVersionsAfterCalls
    exact List.Chain.cons hstep
      (ih _ (fun r hr => hreqs r (List.mem_cons_of_mem _ hr)) hstep.2.2)

/-- C30, at a sample input: stored current = 7, old = 3; the calls with the producer versions 9
and 8 leave (9, 7) and then (9, 8). -/
theorem UpdateConsumerOnProducerMetadata_versions_never_go_back_witness :
    List.Chain schemaVersionsNotOlder
      ((requestSchemaVersions sampleFromString (fun _ => false) sampleSchemaState
        { replication_group_id := "group1", stream_id := "1" }).getD {})
      (schemaVersionsAfterCalls sampleFromString (fun _ => false)
        { replication_group_id := "group1", stream_id := "1" } sampleSchemaState
        [{ replication_group_id := "group1", stream_id := "1", producer_schema_version := 9,
           consumer_schema_version := 8 },
         { replication_group_id := "group1", stream_id := "1", producer_schema_version := 8,
           consumer_schema_version := 8 }]) :=
  UpdateConsumerOnProducerMetadata_versions_never_go_back sampleFromString (fun _ => false)
    { replication_group_id := "group1", stream_id := "1" }
    [{ replication_group_id := "group1", stream_id := "1", producer_schema_version := 9,
       consumer_schema_version := 8 },
     { replication_group_id := "group1", stream_id := "1", producer_schema_version := 8,
       consumer_schema_version := 8 }]
    sampleSchemaState
    (by
      intro req hreq
      simp only [List.mem_cons, List.mem_singleton, List.not_mem_nil, or_false] at hreq
      rcases hreq with hreq | hreq <;> rw [hreq] <;> exact ⟨rfl, rfl, rfl⟩)
    (by decide)

/-- The versions that the two sample calls leave. -/
theorem schemaVersionsAfterCalls_sample :
    schemaVersionsAfterCalls sampleFromString (fun _ => false)
        { replication_group_id := "group1", stream_id := "1" } sampleSchemaState
        [{ replication_group_id := "group1", stream_id := "1", producer_schema_version := 9,
           consumer_schema_version := 8 },
         { replication_group_id := "group1", stream_id := "1", producer_schema_version := 8,
           consumer_schema_version := 8 }] =
      [{ current_producer_schema_version := 9, current_consumer_schema_version := 8,
         old_producer_schema_version := 7, old_consumer_schema_version := 7 },
       { current_producer_schema_version := 9, current_consumer_schema_version := 8,
         old_producer_schema_version := 8, old_consumer_schema_version := 8 }] := by
  rfl

/-! ### Clearing a failed replication bootstrap -/

/-- C22: the calls that `DoClearFailedReplicationBootstrap` makes, in their order, by the state
the bootstrap failed in. In CREATE_CONSUMER_SNAPSHOT, TRANSFER_SNAPSHOT, RESTORE_SNAPSHOT and
SETUP_REPLICATION: the deletion of the consumer snapshot (when one is recorded), of the imported
objects, of the producer snapshot (when one is recorded) and of the producer CDC streams; in
IMPORT_SNAPSHOT the last three; in CREATE_PRODUCER_SNAPSHOT the last two; in BOOTSTRAP_PRODUCER
the last one; in the other six states none. -/
theorem DoClearFailedReplicationBootstrap_steps (env : BootstrapCleanupEnv)
    (info : CleanupFailedReplicationBootstrapInfo) :
    (info.state ∈ [SysUniverseReplicationBootstrapEntryPB.State.CREATE_CONSUMER_SNAPSHOT,
        SysUniverseReplicationBootstrapEntryPB.State.TRANSFER_SNAPSHOT,
        SysUniverseReplicationBootstrapEntryPB.State.RESTORE_SNAPSHOT,
        SysUniverseReplicationBootstrapEntryPB.State.SETUP_REPLICATION] →
      (DoClearFailedReplicationBootstrap env info).2 =
        (if info.new_snapshot_id = TxnSnapshotId.Nil then []
          else [BootstrapCleanupCall.SnapshotCoordinatorDelete info.new_snapshot_id]) ++
        [BootstrapCleanupCall.DeleteNewSnapshotObjects info.namespace_map info.type_map
          info.tables_data] ++
        (if info.old_snapshot_id = TxnSnapshotId.Nil then []
          else [BootstrapCleanupCall.ClientDeleteSnapshot info.old_snapshot_id]) ++
        [BootstrapCleanupCall.ClientDeleteCDCStream info.bootstrap_ids true false]) ∧
    (info.state = SysUniverseReplicationBootstrapEntryPB.State.IMPORT_SNAPSHOT →
      (DoClearFailedReplicationBootstrap env info).2 =
        [BootstrapCleanupCall.DeleteNewSnapshotObjects info.namespace_map info.type_map
          info.tables_data] ++
        (if info.old_snapshot_id = TxnSnapshotId.Nil then []
          else [BootstrapCleanupCall.ClientDeleteSnapshot info.old_snapshot_id]) ++
        [BootstrapCleanupCall.ClientDeleteCDCStream info.bootstrap_ids true false]) ∧
    (info.state = SysUniverseReplicationBootstrapEntryPB.State.CREATE_PRODUCER_SNAPSHOT →
      (DoClearFailedReplicationBootstrap env info).2 =
        (if info.old_snapshot_id = TxnSnapshotId.Nil then []
          else [BootstrapCleanupCall.ClientDeleteSnapshot info.old_snapshot_id]) ++
        [BootstrapCleanupCall.ClientDeleteCDCStream info.bootstrap_ids true false]) ∧
    (info.state = SysUniverseReplicationBootstrapEntryPB.State.BOOTSTRAP_PRODUCER →
      (DoClearFailedReplicationBootstrap env info).2 =
        [BootstrapCleanupCall.ClientDeleteCDCStream info.bootstrap_ids true false]) ∧
    (info.state ∈ [SysUniverseReplicationBootstrapEntryPB.State.INITIALIZING,
        SysUniverseReplicationBootstrapEntryPB.State.DONE,
        SysUniverseReplicationBootstrapEntryPB.State.FAILED,
        SysUniverseReplicationBootstrapEntryPB.State.DELETING,
        SysUniverseReplicationBootstrapEntryPB.State.DELETED,
        SysUniverseReplicationBootstrapEntryPB.State.DELETED_ERROR] →
      (DoClearFailedReplicationBootstrap env info).2 = []) := by
  obtain ⟨state, bootstrap_ids, old_snapshot_id, new_snapshot_id, namespace_map, type_map,
    tables_data⟩ := info
  by_cases hold : old_snapshot_id = TxnSnapshotId.Nil <;>
    by_cases hnew : new_snapshot_id = TxnSnapshotId.Nil <;>
    cases state <;>
    simp [DoClearFailedReplicationBootstrap,
      DoClearFailedReplicationBootstrap.create_consumer_snapshot,
      DoClearFailedReplicationBootstrap.import_snapshot,
      DoClearFailedReplicationBootstrap.create_producer_snapshot,
      DoClearFailedReplicationBootstrap.bootstrap_producer, hold, hnew]

/-- C22, at sample inputs: a bootstrap that failed in RESTORE_SNAPSHOT with the consumer
snapshot 8 and the producer snapshot 5 makes the four calls, newest first; one that failed in
BOOTSTRAP_PRODUCER only deletes the producer CDC streams; one in state DONE makes no call. -/
theorem DoClearFailedReplicationBootstrap_steps_witness :
    (DoClearFailedReplicationBootstrap {} sampleFailedBootstrap).2 =
      [BootstrapCleanupCall.SnapshotCoordinatorDelete 8,
        BootstrapCleanupCall.DeleteNewSnapshotObjects ["ns"] ["ty"] ["t1"],
        BootstrapCleanupCall.ClientDeleteSnapshot 5,
        BootstrapCleanupCall.ClientDeleteCDCStream [1, 2] true false] ∧
    (DoClearFailedReplicationBootstrap {}
      { sampleFailedBootstrap with
        state := SysUniverseReplicationBootstrapEntryPB.State.BOOTSTRAP_PRODUCER }).2 =
      [BootstrapCleanupCall.ClientDeleteCDCStream [1, 2] true false] ∧
    (DoClearFailedReplicationBootstrap {}
      { sampleFailedBootstrap with
        state := SysUniverseReplicationBootstrapEntryPB.State.DONE }).2 = [] :=
  ⟨(DoClearFailedReplicationBootstrap_steps {} sampleFailedBootstrap).1 (by decide),
    (DoClearFailedReplicationBootstrap_steps {}
      { sampleFailedBootstrap with
        state := SysUniverseReplicationBootstrapEntryPB.State.BOOTSTRAP_PRODUCER }).2.2.2.1 rfl,
    (DoClearFailedReplicationBootstrap_steps {}
      { sampleFailedBootstrap with
        state := SysUniverseReplicationBootstrapEntryPB.State.DONE }).2.2.2.2 (by decide)⟩

/-! ### Cleaning up deleted streams -/

theorem mapFind_eq_none_of_not_mem_keys {K V : Type} [DecidableEq K] (m : List (K × V)) (k : K)
    (h : k ∉ m.map Prod.fst) : mapFind m k = none := by
  induction m with
  | nil => rfl
  | cons e rest ih =>
    obtain ⟨k1, v1⟩ := e
    simp only [List.map_cons, List.mem_cons, not_or] at h
    simp only [mapFind, if_neg (Ne.symm h.1)]
    exact ih h.2

theorem mapFind_filter_of_nodup {K V : Type} [DecidableEq K] (p : K × V → Bool) (k : K) :
    ∀ m : List (K × V), (m.map Prod.fst).Nodup →
      mapFind (m.filter p) k =
        (mapFind m k).bind (fun v => if p (k, v) = true then some v else none) := by
  intro m
  induction m with
  | nil => intro _; rfl
  | cons e rest ih =>
    intro h
    obtain ⟨k1, v1⟩ := e
    simp only [List.map_cons, List.nodup_cons] at h
    by_cases hk : k1 = k
    · subst hk
      by_cases hp : p (k1, v1) = true
      · simp [List.filter, hp, mapFind]
      · have hp1 : p (k1, v1) = false := by simpa using hp
        simp only [List.filter, hp1, mapFind, if_true, Option.some_bind, if_false,
          Bool.false_eq_true]
        apply mapFind_eq_none_of_not_mem_keys
        intro hmem
        apply h.1
        rw [List.mem_map] at hmem ⊢
        obtain ⟨e, he, hek⟩ := hmem
        exact ⟨e, (List.mem_filter.mp he).1, hek⟩
    · by_cases hp : p (k1, v1) = true
      · simp only [List.filter, hp, mapFind, if_neg hk]
        exact ih h.2
      · have hp1 : p (k1, v1) = false := by simpa using hp
        simp only [List.filter, hp1, mapFind, if_neg hk]
        exact ih h.2

theorem mapFind_FindXReplStreamsMarkedForDeletion (cm : CatalogManager) (id : StreamId)
    (hkeys : (cm.cdc_stream_map_.map Prod.fst).Nodup) :
    mapFind (FindXReplStreamsMarkedForDeletion cm SysCDCStreamEntryPB.State.DELETING) id =
      (mapFind cm.cdc_stream_map_ id).bind
        (fun stream => if stream.is_deleting = true then some stream else none) := by
  unfold FindXReplStreamsMarkedForDeletion
  rw [mapFind_filter_of_nodup _ _ _ hkeys]
  simp

theorem CleanupXReplStreamFromMaps_cdc_state_table (cm : CatalogManager) (stream_id : StreamId)
    (stream : SysCDCStreamEntryPB) :
    (CleanupXReplStreamFromMaps cm stream_id stream).2.cdc_state_table_ = cm.cdc_state_table_ := by
  unfold CleanupXReplStreamFromMaps
  by_cases hc : mapContains cm.cdc_stream_map_ stream_id = true
  · simp [hc, RecoverXreplStreamId]
  · simp [hc]

theorem CleanUpDeletedXReplStreams_cleanup_cdc_state_table
    (streams : List (StreamId × SysCDCStreamEntryPB)) :
    ∀ cm : CatalogManager,
      (CleanUpDeletedXReplStreams.cleanup streams cm).2.cdc_state_table_ =
        cm.cdc_state_table_ := by
  induction streams with
  | nil => intro cm; rfl
  | cons stream rest ih =>
    intro cm
    unfold CleanUpDeletedXReplStreams.cleanup
    cases h : (CleanupXReplStreamFromMaps cm stream.1 stream.2).1 with
    | OK =>
      simp only
      rw [ih, CleanupXReplStreamFromMaps_cdc_state_table]
    | error code msg master_error =>
      simp only
      rw [CleanupXReplStreamFromMaps_cdc_state_table]

theorem entries_to_update_find (streams : List (StreamId × SysCDCStreamEntryPB))
    (row : CDCStateTableEntry) :
    ∀ table : List CDCStateTableEntry,
      (CleanUpDeletedXReplStreams.is_cdcsdk_row streams row = true → row ∈ table →
        (CleanUpDeletedXReplStreams.entries_to_update streams table).find?
          (fun u => decide (u.key = row.key)) =
            some { key := row.key, checkpoint := some OpId.Max }) ∧
      (CleanUpDeletedXReplStreams.is_cdcsdk_row streams row = false →
        (CleanUpDeletedXReplStreams.entries_to_update streams table).find?
          (fun u => decide (u.key = row.key)) = none) := by
  have hkey : ∀ e : CDCStateTableEntry, e.key = row.key →
      CleanUpDeletedXReplStreams.is_cdcsdk_row streams e =
        CleanUpDeletedXReplStreams.is_cdcsdk_row streams row := by
    intro e he
    unfold CleanUpDeletedXReplStreams.is_cdcsdk_row
    rw [he]
  intro table
  induction table with
  | nil =>
    constructor
    · intro _ hmem; simp at hmem
    · intro _; rfl
  | cons e rest ih =>
    unfold CleanUpDeletedXReplStreams.entries_to_update at ih ⊢
    by_cases hek : e.key = row.key
    · constructor
      · intro hrow _
        have he := hkey e hek
        rw [hrow] at he
        simp [List.filter, he, hek]
      · intro hrow
        have he := hkey e hek
        rw [hrow] at he
        simp only [List.filter, he]
        exact ih.2 hrow
    · constructor
      · intro hrow hmem
        have hmem1 : row ∈ rest := by
          rcases List.mem_cons.mp hmem with h | h
          · exact absurd (by rw [h]) hek
          · exact h
        cases he : CleanUpDeletedXReplStreams.is_cdcsdk_row streams e with
        | true =>
          simp only [List.filter, he, List.map_cons, List.find?, hek, decide_False]
          exact ih.1 hrow hmem1
        | false =>
          simp only [List.filter, he]
          exact ih.1 hrow hmem1
      · intro hrow
        cases he : CleanUpDeletedXReplStreams.is_cdcsdk_row streams e with
        | true =>
          simp only [List.filter, he, List.map_cons, List.find?, hek, decide_False]
          exact ih.2 hrow
        | false =>
          simp only [List.filter, he]
          exact ih.2 hrow

theorem entries_to_delete_mem (streams : List (StreamId × SysCDCStreamEntryPB))
    (table : List CDCStateTableEntry) (row : CDCStateTableEntry) (hmem : row ∈ table) :
    row.key ∈ CleanUpDeletedXReplStreams.entries_to_delete streams table ↔
      CleanUpDeletedXReplStreams.is_xcluster_row streams row = true := by
  unfold CleanUpDeletedXReplStreams.entries_to_delete
  simp only [List.mem_map, List.mem_filter]
  constructor
  · rintro ⟨e, ⟨_, he⟩, hek⟩
    unfold CleanUpDeletedXReplStreams.is_xcluster_row at he ⊢
    rw [← hek]
    exact he
  · intro h
    exact ⟨row, ⟨hmem, h⟩, rfl⟩

theorem filter_map_eq_filterMap {α β : Type} (f : α → β) (p : β → Bool) (g : α → Option β)
    (l : List α) (h : ∀ a ∈ l, g a = if p (f a) = true then some (f a) else none) :
    (l.map f).filter p = l.filterMap g := by
  induction l with
  | nil => rfl
  | cons a rest ih =>
    have ha := h a (List.mem_cons_self _ _)
    have hr := ih (fun b hb => h b (List.mem_cons_of_mem _ hb))
    by_cases hp : p (f a) = true
    · rw [if_pos hp] at ha
      simp [List.filter, hp, List.filterMap_cons, ha, hr]
    · rw [if_neg hp] at ha
      have hp1 : p (f a) = false := by simpa using hp
      simp [List.filter, hp1, List.filterMap_cons, ha, hr]

theorem UpdateEntries_eq_map (table updates : List CDCStateTableEntry) :
    UpdateEntries table updates =
      table.map (fun row =>
        ((updates.find? (fun u => decide (u.key = row.key))).map
          (fun u => { row with checkpoint := u.checkpoint })).getD row) := by
  unfold UpdateEntries
  apply List.map_congr_left
  intro row _
  cases updates.find? (fun u => decide (u.key = row.key)) <;> rfl

theorem is_cdcsdk_row_of_nodup (cm : CatalogManager) (row : CDCStateTableEntry)
    (hkeys : (cm.cdc_stream_map_.map Prod.fst).Nodup) :
    CleanUpDeletedXReplStreams.is_cdcsdk_row
        (FindXReplStreamsMarkedForDeletion cm SysCDCStreamEntryPB.State.DELETING) row =
      ((mapFind cm.cdc_stream_map_ row.key.stream_id).map
        (fun stream => stream.is_deleting && decide (stream.get_namespace_id ≠ ""))).getD
        false := by
  unfold CleanUpDeletedXReplStreams.is_cdcsdk_row
  rw [mapFind_FindXReplStreamsMarkedForDeletion cm _ hkeys]
  cases mapFind cm.cdc_stream_map_ row.key.stream_id with
  | none => rfl
  | some stream => cases hdel : stream.is_deleting <;> simp [hdel]

theorem is_xcluster_row_of_nodup (cm : CatalogManager) (row : CDCStateTableEntry)
    (hkeys : (cm.cdc_stream_map_.map Prod.fst).Nodup) :
    CleanUpDeletedXReplStreams.is_xcluster_row
        (FindXReplStreamsMarkedForDeletion cm SysCDCStreamEntryPB.State.DELETING) row =
      ((mapFind cm.cdc_stream_map_ row.key.stream_id).map
        (fun stream => stream.is_deleting && decide (stream.get_namespace_id = ""))).getD
        false := by
  unfold CleanUpDeletedXReplStreams.is_xcluster_row
  rw [mapFind_FindXReplStreamsMarkedForDeletion cm _ hkeys]
  cases mapFind cm.cdc_stream_map_ row.key.stream_id with
  | none => rfl
  | some stream => cases hdel : stream.is_deleting <;> simp [hdel]

theorem cleanedRow_eq (cm : CatalogManager) (row : CDCStateTableEntry)
    (hkeys : (cm.cdc_stream_map_.map Prod.fst).Nodup) (hmem : row ∈ cm.cdc_state_table_) :
    cleanedRow cm row =
      if decide
          (((((CleanUpDeletedXReplStreams.entries_to_update
              (FindXReplStreamsMarkedForDeletion cm SysCDCStreamEntryPB.State.DELETING)
              cm.cdc_state_table_).find? (fun u => decide (u.key = row.key))).map
            (fun u => { row with checkpoint := u.checkpoint })).getD row).key ∉
            CleanUpDeletedXReplStreams.entries_to_delete
              (FindXReplStreamsMarkedForDeletion cm SysCDCStreamEntryPB.State.DELETING)
              cm.cdc_state_table_) = true then
        some
          ((((CleanUpDeletedXReplStreams.entries_to_update
              (FindXReplStreamsMarkedForDeletion cm SysCDCStreamEntryPB.State.DELETING)
              cm.cdc_state_table_).find? (fun u => decide (u.key = row.key))).map
            (fun u => { row with checkpoint := u.checkpoint })).getD row)
      else none := by
  have hu := entries_to_update_find
    (FindXReplStreamsMarkedForDeletion cm SysCDCStreamEntryPB.State.DELETING) row
    cm.cdc_state_table_
  have hd := entries_to_delete_mem
    (FindXReplStreamsMarkedForDeletion cm SysCDCStreamEntryPB.State.DELETING)
    cm.cdc_state_table_ row hmem
  have hc := is_cdcsdk_row_of_nodup cm row hkeys
  have hx := is_xcluster_row_of_nodup cm row hkeys
  unfold cleanedRow
  cases hs : mapFind cm.cdc_stream_map_ row.key.stream_id with
  | none =>
    rw [hs] at hc hx
    simp only [Option.map_none', Option.getD_none] at hc hx
    rw [hu.2 hc]
    have hnot : row.key ∉ CleanUpDeletedXReplStreams.entries_to_delete
        (FindXReplStreamsMarkedForDeletion cm SysCDCStreamEntryPB.State.DELETING)
        cm.cdc_state_table_ := by
      rw [hd, hx]; simp
    simp [hnot]
  | some stream =>
    rw [hs] at hc hx
    simp only [Option.map_some', Option.getD_some] at hc hx
    cases hdel : stream.is_deleting with
    | false =>
      rw [hdel] at hc hx
      simp only [Bool.false_and] at hc hx
      rw [hu.2 hc]
      have hnot : row.key ∉ CleanUpDeletedXReplStreams.entries_to_delete
          (FindXReplStreamsMarkedForDeletion cm SysCDCStreamEntryPB.State.DELETING)
          cm.cdc_state_table_ := by
        rw [hd, hx]; simp
      simp [hnot, hdel]
    | true =>
      rw [hdel] at hc hx
      simp only [Bool.true_and] at hc hx
      by_cases hns : stream.get_namespace_id = ""
      · have hc1 : CleanUpDeletedXReplStreams.is_cdcsdk_row
            (FindXReplStreamsMarkedForDeletion cm SysCDCStreamEntryPB.State.DELETING) row =
            false := by rw [hc]; simp [hns]
        have hx1 : CleanUpDeletedXReplStreams.is_xcluster_row
            (FindXReplStreamsMarkedForDeletion cm SysCDCStreamEntryPB.State.DELETING) row =
            true := by rw [hx]; simp [hns]
        rw [hu.2 hc1]
        have hin : row.key ∈ CleanUpDeletedXReplStreams.entries_to_delete
            (FindXReplStreamsMarkedForDeletion cm SysCDCStreamEntryPB.State.DELETING)
            cm.cdc_state_table_ := by
          rw [hd]; exact hx1
        simp [hin, hns, hdel]
      · have hc1 : CleanUpDeletedXReplStreams.is_cdcsdk_row
            (FindXReplStreamsMarkedForDeletion cm SysCDCStreamEntryPB.State.DELETING) row =
            true := by rw [hc]; simp [hns]
        have hx1 : CleanUpDeletedXReplStreams.is_xcluster_row
            (FindXReplStreamsMarkedForDeletion cm SysCDCStreamEntryPB.State.DELETING) row =
            false := by rw [hx]; simp [hns]
        rw [hu.1 hc1 hmem]
        have hnot : row.key ∉ CleanUpDeletedXReplStreams.entries_to_delete
            (FindXReplStreamsMarkedForDeletion cm SysCDCStreamEntryPB.State.DELETING)
            cm.cdc_state_table_ := by
          rw [hd, hx1]; simp
        simp [hnot, hns, hdel]

theorem CleanUpDeletedXReplStreams_table (cm : CatalogManager)
    (hkeys : (cm.cdc_stream_map_.map Prod.fst).Nodup) :
    DeleteEntries
      (UpdateEntries cm.cdc_state_table_
        (CleanUpDeletedXReplStreams.entries_to_update
          (FindXReplStreamsMarkedForDeletion cm SysCDCStreamEntryPB.State.DELETING)
          cm.cdc_state_table_))
      (CleanUpDeletedXReplStreams.entries_to_delete
        (FindXReplStreamsMarkedForDeletion cm SysCDCStreamEntryPB.State.DELETING)
        cm.cdc_state_table_) = cm.cdc_state_table_.filterMap (cleanedRow cm) := by
  rw [UpdateEntries_eq_map]
  unfold DeleteEntries
  exact filter_map_eq_filterMap _ _ _ _ (fun row hmem => cleanedRow_eq cm row hkeys hmem)

/-- C25: `CleanUpDeletedXReplStreams` with the scan and the writes of the CDC state table
succeeding, the ids of `cdc_stream_map_` being distinct. Whatever the status of the call, the
CDC state table after it is the one before it with, for each row: the checkpoint `OpId::Max` when
the stream of the row is marked DELETING and has a namespace id, the row deleted when the stream
is marked DELETING and has no namespace id, and the row unchanged otherwise. -/
theorem CleanUpDeletedXReplStreams_rows (env : CleanupWriteEnv) (cm : CatalogManager)
    (hkeys : (cm.cdc_stream_map_.map Prod.fst).Nodup)
    (hscan : cm.cdc_state_table_status = Status.OK)
    (hupdate : env.update_entries = Status.OK)
    (hdelete : env.delete_entries = Status.OK) :
    (CleanUpDeletedXReplStreams env cm).2.cdc_state_table_ =
      cm.cdc_state_table_.filterMap (cleanedRow cm) := by
  have htable := CleanUpDeletedXReplStreams_table cm hkeys
  unfold CleanUpDeletedXReplStreams
  simp only [hscan, hupdate, hdelete]
  by_cases hempty : (FindXReplStreamsMarkedForDeletion cm
      SysCDCStreamEntryPB.State.DELETING).isEmpty = true
  · rw [if_pos hempty]
    have hnil : FindXReplStreamsMarkedForDeletion cm SysCDCStreamEntryPB.State.DELETING = [] :=
      List.isEmpty_iff.mp hempty
    rw [← htable, hnil]
    have hu : CleanUpDeletedXReplStreams.entries_to_update [] cm.cdc_state_table_ = [] := by
      simp [CleanUpDeletedXReplStreams.entries_to_update,
        CleanUpDeletedXReplStreams.is_cdcsdk_row, mapFind]
    have hd : CleanUpDeletedXReplStreams.entries_to_delete [] cm.cdc_state_table_ = [] := by
      simp [CleanUpDeletedXReplStreams.entries_to_delete,
        CleanUpDeletedXReplStreams.is_xcluster_row, mapFind]
    rw [hu, hd, UpdateEntries_eq_map]
    simp [DeleteEntries]
  · rw [if_neg hempty]
    cases hremove : env.remove_streams_from_sys_catalog with
    | error code msg master_error => exact htable
    | OK =>
      simp only
      cases hsys : cm.sys_catalog_status with
      | error code msg master_error => exact htable
      | OK =>
        simp only
        rw [CleanUpDeletedXReplStreams_cleanup_cdc_state_table]
        exact htable

/-- C25, at a sample input: stream 2 is a DELETING xCluster stream, stream 4 a DELETING CDCSDK
stream, stream 1 is ACTIVE; the row of stream 2 is deleted, the row of stream 4 gets the
checkpoint `OpId::Max`, the row of stream 1 is unchanged. -/
theorem CleanUpDeletedXReplStreams_rows_witness :
    (CleanUpDeletedXReplStreams {} sampleCleanupState).2.cdc_state_table_ =
      sampleCleanupState.cdc_state_table_.filterMap (cleanedRow sampleCleanupState) ∧
    (CleanUpDeletedXReplStreams {} sampleCleanupState).2.cdc_state_table_ =
      [{ key := { tablet_id := "tablet1", stream_id := 1 }, checkpoint := some (3, 7) },
       { key := { tablet_id := "tablet4", stream_id := 4 }, checkpoint := some OpId.Max }] :=
  ⟨CleanUpDeletedXReplStreams_rows {} sampleCleanupState (by decide) rfl rfl rfl, by rfl⟩

/-! ### Hidden tablets retained for CDCSDK -/

theorem TryFetchEntry_of_ok (cm : CatalogManager) (key : CDCStateTableKey)
    (h : cm.cdc_state_table_status = Status.OK) :
    TryFetchEntry cm key =
      Except.ok (cm.cdc_state_table_.find? (fun row => decide (row.key = key))) := by
  unfold TryFetchEntry
  rw [h]

theorem children_loop_of_ok (cm : CatalogManager) (stream_id : StreamId) (c1 c2 : TabletId)
    (h : cm.cdc_state_table_status = Status.OK) :
    DoProcessCDCSDKTabletDeletion.children_loop cm stream_id [c1, c2] =
      Except.ok (childPolled cm c1 stream_id && childPolled cm c2 stream_id) := by
  simp only [DoProcessCDCSDKTabletDeletion.children_loop, TryFetchEntry_of_ok cm _ h,
    childPolled, DoProcessCDCSDKTabletDeletion.child_not_polled]
  cases cm.cdc_state_table_.find?
      (fun row => decide (row.key = { tablet_id := c1, stream_id := stream_id })) with
  | none => simp
  | some row1 =>
    cases h1 : row1.last_replication_time with
    | none => simp [h1]
    | some t1 =>
      cases cm.cdc_state_table_.find?
          (fun row => decide (row.key = { tablet_id := c2, stream_id := stream_id })) with
      | none => simp [h1]
      | some row2 =>
        cases h2 : row2.last_replication_time <;> simp [h1, h2]

theorem not_streamed_eq (entry : CDCStateTableEntry) :
    DoProcessCDCSDKTabletDeletion.not_streamed entry =
      (decide (entry.checkpoint = some OpId.Invalid) ||
        (decide (entry.checkpoint = some OpId.Min) && entry.last_replication_time.isNone)) := by
  unfold DoProcessCDCSDKTabletDeletion.not_streamed
  cases entry.checkpoint with
  | none => simp
  | some checkpoint => simp

theorem stream_loop_counts (cm : CatalogManager) (tablet_id : TabletId)
    (hidden_tablet : HiddenReplicationParentTabletInfo)
    (h : cm.cdc_state_table_status = Status.OK) (streams : List StreamId) :
    ∀ (a b : Nat) (dels : List CDCStateTableKey),
      ∃ a1 b1 dels1,
        DoProcessCDCSDKTabletDeletion.stream_loop cm tablet_id hidden_tablet streams a b dels =
          Except.ok (a1, b1, dels1) ∧
        a1 + b1 ≤ a + b + streams.length ∧
        (a1 + b1 = a + b + streams.length ↔
          ∀ s ∈ streams, streamReleasesTablet cm tablet_id hidden_tablet s = true) := by
  induction streams with
  | nil =>
    intro a b dels
    exact ⟨a, b, dels, rfl, by simp, by simp⟩
  | cons s rest ih =>
    intro a b dels
    unfold DoProcessCDCSDKTabletDeletion.stream_loop
    rw [TryFetchEntry_of_ok cm _ h]
    have hrel : streamReleasesTablet cm tablet_id hidden_tablet s =
        match cm.cdc_state_table_.find?
          (fun row => decide (row.key = { tablet_id := tablet_id, stream_id := s })) with
        | none => true
        | some row =>
          DoProcessCDCSDKTabletDeletion.not_streamed row ||
            (childPolled cm hidden_tablet.split_tablets_.1 s &&
              childPolled cm hidden_tablet.split_tablets_.2 s) := by
      unfold streamReleasesTablet
      cases cm.cdc_state_table_.find?
          (fun row => decide (row.key = { tablet_id := tablet_id, stream_id := s })) with
      | none => rfl
      | some row => simp only [not_streamed_eq]
    cases hrow : cm.cdc_state_table_.find?
        (fun row => decide (row.key = { tablet_id := tablet_id, stream_id := s })) with
    | none =>
      rw [hrow] at hrel
      obtain ⟨a1, b1, dels1, heq, hle, hiff⟩ := ih a (b + 1) dels
      refine ⟨a1, b1, dels1, heq, ?_, ?_⟩
      · simp only [List.length_cons]; omega
      · simp only [List.length_cons, List.mem_cons, forall_eq_or_imp, hrel, true_and]
        rw [← hiff]
        omega
    | some row =>
      rw [hrow] at hrel
      simp only at hrel ⊢
      by_cases hns : DoProcessCDCSDKTabletDeletion.not_streamed row = true
      · rw [if_pos hns]
        obtain ⟨a1, b1, dels1, heq, hle, hiff⟩ := ih (a + 1) b dels
        refine ⟨a1, b1, dels1, heq, ?_, ?_⟩
        · simp only [List.length_cons]; omega
        · simp only [List.length_cons, List.mem_cons, forall_eq_or_imp, hrel, hns,
            Bool.true_or, true_and]
          rw [← hiff]
          omega
      · rw [if_neg hns]
        have hns1 : DoProcessCDCSDKTabletDeletion.not_streamed row = false := by
          simpa using hns
        rw [children_loop_of_ok cm s _ _ h]
        cases hch : (childPolled cm hidden_tablet.split_tablets_.1 s &&
            childPolled cm hidden_tablet.split_tablets_.2 s) with
        | true =>
          simp only
          obtain ⟨a1, b1, dels1, heq, hle, hiff⟩ := ih (a + 1) b
            (dels ++ [{ tablet_id := tablet_id, stream_id := s }])
          refine ⟨a1, b1, dels1, heq, ?_, ?_⟩
          · simp only [List.length_cons]; omega
          · simp only [List.length_cons, List.mem_cons, forall_eq_or_imp, hrel, hns1, hch,
              Bool.or_true, true_and]
            rw [← hiff]
            omega
        | false =>
          simp only
          obtain ⟨a1, b1, dels1, heq, hle, hiff⟩ := ih a b dels
          refine ⟨a1, b1, dels1, heq, ?_, ?_⟩
          · simp only [List.length_cons]; omega
          · simp only [List.length_cons, List.mem_cons, forall_eq_or_imp, hrel, hns1, hch,
              Bool.or_false, Bool.false_eq_true, false_and, iff_false]
            omega

theorem tablet_loop_of_ok (cm : CatalogManager)
    (hidden_tablets : List (TabletId × HiddenReplicationParentTabletInfo))
    (h : cm.cdc_state_table_status = Status.OK)
    (l : List (TabletId × HiddenReplicationParentTabletInfo)) :
    ∀ (tablets : List TabletId) (dels : List CDCStateTableKey),
      ∃ dels1,
        DoProcessCDCSDKTabletDeletion.tablet_loop cm hidden_tablets l tablets dels =
          Except.ok
            (tablets ++
              (l.filter (fun entry =>
                !DoProcessCDCSDKTabletDeletion.parent_retained hidden_tablets entry.2 &&
                  releasedAsClaimed cm entry.1 entry.2)).map (fun entry => entry.1),
              dels1) := by
  induction l with
  | nil =>
    intro tablets dels
    exact ⟨dels, by simp [DoProcessCDCSDKTabletDeletion.tablet_loop]⟩
  | cons entry rest ih =>
    intro tablets dels
    unfold DoProcessCDCSDKTabletDeletion.tablet_loop
    by_cases hp : DoProcessCDCSDKTabletDeletion.parent_retained hidden_tablets entry.2 = true
    · rw [if_pos hp]
      obtain ⟨dels1, heq⟩ := ih tablets dels
      refine ⟨dels1, ?_⟩
      rw [heq]
      simp [List.filter, hp]
    · rw [if_neg hp]
      have hp1 : DoProcessCDCSDKTabletDeletion.parent_retained hidden_tablets entry.2 = false := by
        simpa using hp
      obtain ⟨a1, b1, dels0, hs, hle, hiff⟩ := stream_loop_counts cm entry.1 entry.2 h
        (GetCDCSDKStreamsForTable cm entry.2.table_id_) 0 0 dels
      rw [hs]
      simp only
      have hrel : releasedAsClaimed cm entry.1 entry.2 = true ↔
          a1 + b1 = (GetCDCSDKStreamsForTable cm entry.2.table_id_).length := by
        unfold releasedAsClaimed
        rw [List.all_eq_true, ← hiff]
        omega
      by_cases hc : a1 + b1 = (GetCDCSDKStreamsForTable cm entry.2.table_id_).length
      · rw [if_pos hc]
        obtain ⟨dels1, heq⟩ := ih (tablets ++ [entry.1]) dels0
        refine ⟨dels1, ?_⟩
        rw [heq]
        simp [List.filter, hp1, hrel.mpr hc]
      · rw [if_neg hc]
        have hrel1 : releasedAsClaimed cm entry.1 entry.2 = false := by
          rw [Bool.eq_false_iff]
          exact fun hr => hc (hrel.mp hr)
        obtain ⟨dels1, heq⟩ := ih tablets dels0
        refine ⟨dels1, ?_⟩
        rw [heq]
        simp [List.filter, hp1, hrel1]

theorem mapContains_mapErase_ne {K V : Type} [DecidableEq K] (m : List (K × V)) (k k1 : K)
    (h : k ≠ k1) : mapContains (mapErase m k) k1 = mapContains m k1 := by
  unfold mapContains
  rw [mapFind_mapErase_ne m k k1 h]

theorem mapContains_foldl_mapErase {K V : Type} [DecidableEq K] (ks : List K) :
    ∀ (m : List (K × V)) (k : K),
      mapContains (ks.foldl (fun m k1 => mapErase m k1) m) k = false ↔
        k ∈ ks ∨ mapContains m k = false := by
  induction ks with
  | nil => intro m k; simp
  | cons k0 rest ih =>
    intro m k
    rw [List.foldl_cons, ih]
    by_cases hk : k0 = k
    · subst hk
      simp [mapContains_mapErase]
    · rw [mapContains_mapErase_ne m k0 k hk]
      simp only [List.mem_cons]
      constructor
      · rintro (h1 | h1)
        · exact Or.inl (Or.inr h1)
        · exact Or.inr h1
      · rintro ((h1 | h1) | h1)
        · exact absurd h1.symm hk
        · exact Or.inl h1
        · exact Or.inr h1

theorem mapContains_of_mem {K V : Type} [DecidableEq K] (m : List (K × V)) (k : K) (v : V)
    (h : (k, v) ∈ m) : mapContains m k = true := by
  cases hc : mapContains m k with
  | true => rfl
  | false =>
    rw [mapContains_eq_false_iff] at hc
    exact absurd rfl (hc (k, v) h)

theorem eq_of_mem_of_nodup_keys {K V : Type} (m : List (K × V)) (k : K) (v1 v2 : V)
    (hkeys : (m.map Prod.fst).Nodup) (h1 : (k, v1) ∈ m) (h2 : (k, v2) ∈ m) : v1 = v2 := by
  induction m with
  | nil => simp at h1
  | cons e rest ih =>
    simp only [List.map_cons, List.nodup_cons] at hkeys
    rcases List.mem_cons.mp h1 with e1 | e1 <;> rcases List.mem_cons.mp h2 with e2 | e2
    · rw [← e1] at e2
      exact (Prod.mk.inj e2).2.symm
    · exfalso
      apply hkeys.1
      rw [← e1]
      exact List.mem_map.mpr ⟨(k, v2), e2, rfl⟩
    · exfalso
      apply hkeys.1
      rw [← e2]
      exact List.mem_map.mpr ⟨(k, v1), e1, rfl⟩
    · exact ih hkeys.2 e1 e2

/-- C27 (the claim as written fails): the hidden tablet `c1` of the sample state meets the
condition of the claim (stream 5, the only stream of its table, has no row for it), but its
parent `p` is retained as well, so the call, which returns OK, releases `p` only and keeps
`c1`. -/
theorem DoProcessCDCSDKTabletDeletion_parent_counterexample :
    releasedAsClaimed sampleHiddenState "c1"
        { table_id_ := "t", parent_tablet_id_ := "p", split_tablets_ := ("g1", "g2") } = true ∧
      (DoProcessCDCSDKTabletDeletion {} sampleHiddenState).1 = Status.OK ∧
      (DoProcessCDCSDKTabletDeletion {} sampleHiddenState).2.retained_by_cdcsdk_ =
        [("c1", { table_id_ := "t", parent_tablet_id_ := "p", split_tablets_ := ("g1", "g2") })] := by
  refine ⟨by decide, by rfl, by rfl⟩

/-- C27 (amended): `DoProcessCDCSDKTabletDeletion` with the fetches and the writes of the CDC
state table succeeding, the tablets of `retained_by_cdcsdk_` being distinct. The call returns OK,
and a retained tablet is out of `retained_by_cdcsdk_` after it if and only if its parent tablet
is not retained and, for every stream of `cdcsdk_tables_to_stream_map_` for its table, the row
of the tablet is absent, or has the checkpoint `OpId::Invalid`, or has the checkpoint
`OpId::Min` and no last replication time, or both children have a row with a last replication
time. -/
theorem DoProcessCDCSDKTabletDeletion_releases (env : CleanupWriteEnv) (cm : CatalogManager)
    (hkeys : (cm.retained_by_cdcsdk_.map Prod.fst).Nodup)
    (hfetch : cm.cdc_state_table_status = Status.OK)
    (hupdate : env.update_entries = Status.OK)
    (hdelete : env.delete_entries = Status.OK) :
    (DoProcessCDCSDKTabletDeletion env cm).1 = Status.OK ∧
    ∀ (tablet_id : TabletId) (hidden_tablet : HiddenReplicationParentTabletInfo),
      (tablet_id, hidden_tablet) ∈ cm.retained_by_cdcsdk_ →
      (mapContains (DoProcessCDCSDKTabletDeletion env cm).2.retained_by_cdcsdk_ tablet_id = false ↔
        DoProcessCDCSDKTabletDeletion.parent_retained cm.retained_by_cdcsdk_ hidden_tablet =
            false ∧
          releasedAsClaimed cm tablet_id hidden_tablet = true) := by
  unfold DoProcessCDCSDKTabletDeletion
  by_cases hempty : cm.retained_by_cdcsdk_.isEmpty = true
  · rw [if_pos hempty]
    refine ⟨rfl, ?_⟩
    intro tablet_id hidden_tablet hmem
    rw [List.isEmpty_iff.mp hempty] at hmem
    simp at hmem
  · rw [if_neg hempty]
    obtain ⟨dels1, heq⟩ := tablet_loop_of_ok cm cm.retained_by_cdcsdk_ hfetch
      cm.retained_by_cdcsdk_ [] []
    rw [heq]
    simp only [hupdate, hdelete, List.nil_append]
    refine ⟨trivial, ?_⟩
    intro tablet_id hidden_tablet hmem
    rw [mapContains_foldl_mapErase, mapContains_of_mem _ _ _ hmem]
    simp only [Bool.true_eq_false, or_false, List.mem_map, List.mem_filter, Bool.and_eq_true,
      Bool.not_eq_true', Prod.exists, exists_and_right, exists_eq_right]
    constructor
    · rintro ⟨info, hinfo, hcond⟩
      have := eq_of_mem_of_nodup_keys _ _ _ _ hkeys hinfo hmem
      subst this
      exact hcond
    · intro hcond
      exact ⟨hidden_tablet, hmem, hcond⟩

/-- C27 (amended), at the sample input: the tablet `p` has no parent and stream 5 has not
streamed from it, so it is released; the tablet `c1`, whose parent `p` is retained, is not. -/
theorem DoProcessCDCSDKTabletDeletion_releases_witness :
    (DoProcessCDCSDKTabletDeletion {} sampleHiddenState).1 = Status.OK ∧
      mapContains (DoProcessCDCSDKTabletDeletion {} sampleHiddenState).2.retained_by_cdcsdk_ "p" =
        false ∧
      mapContains (DoProcessCDCSDKTabletDeletion {} sampleHiddenState).2.retained_by_cdcsdk_ "c1" =
        true :=
  ⟨(DoProcessCDCSDKTabletDeletion_releases {} sampleHiddenState (by decide) rfl rfl rfl).1,
    ((DoProcessCDCSDKTabletDeletion_releases {} sampleHiddenState (by decide) rfl rfl rfl).2 "p"
      { table_id_ := "t", split_tablets_ := ("c1", "c2") } (by decide)).mpr
      ⟨by decide, by decide⟩,
    by
      cases hc : mapContains
          (DoProcessCDCSDKTabletDeletion {} sampleHiddenState).2.retained_by_cdcsdk_ "c1" with
      | true => rfl
      | false =>
        have h := ((DoProcessCDCSDKTabletDeletion_releases {} sampleHiddenState (by decide) rfl
          rfl rfl).2 "c1"
          { table_id_ := "t", parent_tablet_id_ := "p", split_tablets_ := ("g1", "g2") }
          (by decide)).mp hc
        exact absurd h.1 (by decide)⟩

/-! ### Loading the streams -/

/-- C28 (the claim as written fails): the visit of the record of stream 1, a stream of the
namespace `gone`, which is not in the catalog. The visit returns OK and the stream map and the
two reverse indexes stay empty, but the in-use set, empty before the visit, holds the id 1
after it. -/
theorem CDCStreamLoader_Visit_in_use_counterexample :
    (CDCStreamLoader.Visit sampleFromString (fun cm _ _ => cm) sampleLoadState "1"
        { namespace_id := some "gone", table_id := ["t1"] }).map
      (fun r => (r.1, r.2.cdc_stream_map_, r.2.cdcsdk_tables_to_stream_map_,
        r.2.cdcsdk_replication_slots_to_stream_map_, r.2.xrepl_stream_ids_in_use_)) =
      some (Status.OK, [], [], [], [1]) ∧
    sampleLoadState.xrepl_stream_ids_in_use_ = [] := by
  constructor <;> rfl

/-- C28 (amended): the visit of a stream record whose id parses and is not in use yet, and whose
namespace (for a record with a namespace id) or first table (for a record without one) is not
in the catalog. The visit returns OK and the state after it is the state before it, with the
primary stream map and the reverse indexes unchanged, except that the id of the stream is in
the in-use set and the CDC service is marked enabled. -/
theorem CDCStreamLoader_Visit_drops_stream (FromString : String → Except Status StreamId)
    (scan : CatalogManager → StreamId → SysCDCStreamEntryPB → CatalogManager)
    (cm : CatalogManager) (stream_id_str : String) (metadata : SysCDCStreamEntryPB)
    (stream_id : StreamId)
    (hid : FromString stream_id_str = Except.ok stream_id)
    (hfresh : stream_id ∉ cm.xrepl_stream_ids_in_use_)
    (hmissing :
      (∃ namespace_id, metadata.namespace_id = some namespace_id ∧
        mapFind cm.namespace_ids_map_ namespace_id = none) ∨
      (metadata.namespace_id = none ∧
        ∃ table_id rest, metadata.table_id = table_id :: rest ∧
          mapFind cm.tables_ table_id = none)) :
    CDCStreamLoader.Visit FromString scan cm stream_id_str metadata =
      some (Status.OK,
        { cm with
          xrepl_stream_ids_in_use_ := cm.xrepl_stream_ids_in_use_ ++ [stream_id]
          cdc_enabled_ := true }) := by
  unfold CDCStreamLoader.Visit
  simp only [hid, if_neg hfresh]
  rcases hmissing with ⟨namespace_id, hns, hfind⟩ | ⟨hns, table_id, rest, htable, hfind⟩
  · simp [CDCStreamLoader.Visit.lookup, hns, hfind]
  · simp [CDCStreamLoader.Visit.lookup, hns, htable, hfind]

/-- C28 (amended), at sample inputs: the record of stream 1 names the namespace `gone`, the
record of stream 2 the table `t9`; neither is in the catalog. -/
theorem CDCStreamLoader_Visit_drops_stream_witness :
    CDCStreamLoader.Visit sampleFromString (fun cm _ _ => cm) sampleLoadState "1"
        { namespace_id := some "gone", table_id := ["t1"] } =
      some (Status.OK,
        { sampleLoadState with xrepl_stream_ids_in_use_ := [] ++ [1], cdc_enabled_ := true }) ∧
    CDCStreamLoader.Visit sampleFromString (fun cm _ _ => cm) sampleLoadState "2"
        { table_id := ["t9"] } =
      some (Status.OK,
        { sampleLoadState with xrepl_stream_ids_in_use_ := [] ++ [2], cdc_enabled_ := true }) :=
  ⟨CDCStreamLoader_Visit_drops_stream sampleFromString (fun cm _ _ => cm) sampleLoadState "1"
      { namespace_id := some "gone", table_id := ["t1"] } 1 rfl (by decide)
      (Or.inl ⟨"gone", rfl, rfl⟩),
    CDCStreamLoader_Visit_drops_stream sampleFromString (fun cm _ _ => cm) sampleLoadState "2"
      { table_id := ["t9"] } 2 rfl (by decide) (Or.inr ⟨rfl, "t9", [], rfl, rfl⟩)⟩

/-- A loaded stream, for comparison: the record of stream 3, a stream of the namespace `ns`
over the table t1 with the slot `slot_a`, enters the stream map and the two reverse indexes. -/
theorem CDCStreamLoader_Visit_loads_stream :
    (CDCStreamLoader.Visit sampleFromString (fun cm _ _ => cm) sampleLoadState "3"
        { namespace_id := some "ns", table_id := ["t1"],
          cdcsdk_ysql_replication_slot_name := some "slot_a" }).map
      (fun r => (r.1, r.2.cdc_stream_map_.map (fun e => (e.1, e.2.state)),
        r.2.cdcsdk_tables_to_stream_map_, r.2.cdcsdk_replication_slots_to_stream_map_,
        r.2.xrepl_stream_ids_in_use_)) =
      some (Status.OK, [(3, some SysCDCStreamEntryPB.State.ACTIVE)], [("t1", [3])],
        [("slot_a", 3)], [3]) := by
  rfl

/-! ### Tables added after the creation of a stream -/

theorem ProcessNewTables_inserted_fields (cm : CatalogManager) (insert_entries : Bool)
    (stream_id : StreamId) (tablets : List TabletId) :
    (ProcessNewTablesForCDCSDKStreams.inserted cm insert_entries stream_id
        tablets).cdc_stream_map_ = cm.cdc_stream_map_ ∧
    (ProcessNewTablesForCDCSDKStreams.inserted cm insert_entries stream_id
        tablets).namespace_to_cdcsdk_unprocessed_table_map_ =
      cm.namespace_to_cdcsdk_unprocessed_table_map_ ∧
    (ProcessNewTablesForCDCSDKStreams.inserted cm insert_entries stream_id tablets).tables_ =
      cm.tables_ ∧
    (ProcessNewTablesForCDCSDKStreams.inserted cm insert_entries stream_id
        tablets).cdcsdk_tables_to_stream_map_ = cm.cdcsdk_tables_to_stream_map_ := by
  unfold ProcessNewTablesForCDCSDKStreams.inserted
  cases insert_entries <;> simp

theorem ProcessNewTables_staged_fields (env : ProcessNewTablesEnv) (cm : CatalogManager)
    (table_id : TableId) (with_replica_identity : Bool) (pb pb1 : SysCDCStreamEntryPB)
    (h : ProcessNewTablesForCDCSDKStreams.staged env cm table_id with_replica_identity pb =
      Except.ok pb1) :
    pb1.table_id = pb.table_id ++ [table_id] ∧ pb1.state = pb.state ∧
      pb1.unqualified_table_id = pb.unqualified_table_id ∧
      pb1.namespace_id = pb.namespace_id := by
  unfold ProcessNewTablesForCDCSDKStreams.staged at h
  cases with_replica_identity with
  | false =>
    simp only [Bool.false_eq_true, if_false, Except.ok.injEq] at h
    subst h
    exact ⟨rfl, rfl, rfl, rfl⟩
  | true =>
    simp only [if_true] at h
    cases hf : FindTableById cm table_id with
    | error status => simp [hf] at h
    | ok table =>
      cases hs : env.GetSchema table_id with
      | error code msg master_error => simp [hf, hs] at h
      | OK =>
        simp only [hf, hs, Except.ok.injEq] at h
        subst h
        exact ⟨rfl, rfl, rfl, rfl⟩

theorem ProcessNewTables_staged_skips (env : ProcessNewTablesEnv) (cm : CatalogManager)
    (table_id : TableId) (with_replica_identity : Bool) (pb pb1 : SysCDCStreamEntryPB)
    (h : ProcessNewTablesForCDCSDKStreams.staged env cm table_id with_replica_identity pb =
      Except.ok pb1) :
    ProcessNewTablesForCDCSDKStreams.skips pb1 table_id =
      ProcessNewTablesForCDCSDKStreams.skips pb table_id := by
  obtain ⟨_, h2, h3, _⟩ := ProcessNewTables_staged_fields env cm table_id
    with_replica_identity pb pb1 h
  unfold ProcessNewTablesForCDCSDKStreams.skips SysCDCStreamEntryPB.is_deleting
    SysCDCStreamEntryPB.get_state
  rw [h2, h3]

theorem ProcessNewTables_staged_congr (env : ProcessNewTablesEnv) (cm1 cm2 : CatalogManager)
    (table_id : TableId) (with_replica_identity : Bool) (pb : SysCDCStreamEntryPB)
    (h : cm1.tables_ = cm2.tables_) :
    ProcessNewTablesForCDCSDKStreams.staged env cm1 table_id with_replica_identity pb =
      ProcessNewTablesForCDCSDKStreams.staged env cm2 table_id with_replica_identity pb := by
  unfold ProcessNewTablesForCDCSDKStreams.staged FindTableById
  rw [h]

theorem mapContains_mapAssign_of_contains {K V : Type} [DecidableEq K] (m : List (K × V))
    (k k1 : K) (v : V) (h : mapContains m k1 = true) : mapContains (mapAssign m k v) k1 = true := by
  by_cases hk : k = k1
  · subst hk
    rw [mapContains_eq_isSome, mapFind_mapAssign_self]
    rfl
  · rw [mapContains_eq_isSome, mapFind_mapAssign_ne m k k1 v hk, ← mapContains_eq_isSome]
    exact h

theorem streamWriteFails_congr (env : ProcessNewTablesEnv) (cm1 cm2 : CatalogManager)
    (table_id : TableId) (insert_entries : Bool) (x : StreamId)
    (h : (mapFind cm1.cdc_stream_map_ x).map
        (fun pb => ProcessNewTablesForCDCSDKStreams.skips pb table_id) =
      (mapFind cm2.cdc_stream_map_ x).map
        (fun pb => ProcessNewTablesForCDCSDKStreams.skips pb table_id)) :
    streamWriteFails env cm1 table_id insert_entries x =
      streamWriteFails env cm2 table_id insert_entries x := by
  unfold streamWriteFails
  cases h1 : mapFind cm1.cdc_stream_map_ x with
  | none =>
    cases h2 : mapFind cm2.cdc_stream_map_ x with
    | none => rfl
    | some pb2 => simp [h1, h2] at h
  | some pb1 =>
    cases h2 : mapFind cm2.cdc_stream_map_ x with
    | none => simp [h1, h2] at h
    | some pb2 =>
      simp only [h1, h2, Option.map_some', Option.some.injEq] at h
      simp only [h]

theorem ProcessNewTables_absorbed_skips (cm : CatalogManager) (table_id : TableId)
    (s x : StreamId) (pb pb1 : SysCDCStreamEntryPB)
    (hfind : mapFind cm.cdc_stream_map_ s = some pb)
    (hskips : ProcessNewTablesForCDCSDKStreams.skips pb1 table_id =
      ProcessNewTablesForCDCSDKStreams.skips pb table_id) :
    (mapFind (ProcessNewTablesForCDCSDKStreams.absorbed cm table_id s pb1).cdc_stream_map_
        x).map (fun pb => ProcessNewTablesForCDCSDKStreams.skips pb table_id) =
      (mapFind cm.cdc_stream_map_ x).map
        (fun pb => ProcessNewTablesForCDCSDKStreams.skips pb table_id) := by
  unfold ProcessNewTablesForCDCSDKStreams.absorbed
  simp only
  by_cases hx : s = x
  · subst hx
    rw [mapFind_mapAssign_self, hfind]
    simp [hskips]
  · rw [mapFind_mapAssign_ne _ _ _ _ hx]

theorem exists_mapFind_of_contains {K V : Type} [DecidableEq K] (m : List (K × V)) (k : K)
    (h : mapContains m k = true) : ∃ v, mapFind m k = some v := by
  rw [mapContains_eq_isSome] at h
  exact Option.isSome_iff_exists.mp h

theorem ProcessNewTables_stream_loop_pending (env : ProcessNewTablesEnv) (table_id : TableId)
    (tablets : List TabletId) (insert_entries with_replica_identity : Bool)
    (streams : List StreamId) :
    ∀ (cm : CatalogManager) (namespace_id : NamespaceId) (stream_pending : Bool),
      (∀ s ∈ streams, mapContains cm.cdc_stream_map_ s = true) →
      ∃ r cm1 namespace_id1 stream_pending1,
        ProcessNewTablesForCDCSDKStreams.stream_loop env table_id tablets insert_entries
            with_replica_identity streams cm namespace_id stream_pending =
          some (r, cm1, namespace_id1, stream_pending1) ∧
        cm1.namespace_to_cdcsdk_unprocessed_table_map_ =
          cm.namespace_to_cdcsdk_unprocessed_table_map_ ∧
        (r = none →
          (stream_pending = true ∨
            ∃ s ∈ streams, streamWriteFails env cm table_id insert_entries s = true) →
          stream_pending1 = true) := by
  induction streams with
  | nil =>
    intro cm namespace_id stream_pending _
    refine ⟨none, cm, namespace_id, stream_pending, rfl, rfl, ?_⟩
    intro _ h
    rcases h with h | ⟨s, hs, _⟩
    · exact h
    · simp at hs
  | cons s rest ih =>
    intro cm namespace_id stream_pending hpresent
    obtain ⟨pb, hfind⟩ := exists_mapFind_of_contains _ _ (hpresent s (List.mem_cons_self _ _))
    have hrest : ∀ x ∈ rest, mapContains cm.cdc_stream_map_ x = true :=
      fun x hx => hpresent x (List.mem_cons_of_mem _ hx)
    obtain ⟨hi1, hi2, _, _⟩ := ProcessNewTables_inserted_fields cm insert_entries s tablets
    unfold ProcessNewTablesForCDCSDKStreams.stream_loop
    simp only [hfind]
    by_cases hins : insert_entries = true ∧ env.InsertEntries table_id s ≠ Status.OK
    · rw [if_pos hins]
      obtain ⟨r, cm1, ns1, p1, heq, hun, hp⟩ := ih cm namespace_id true hrest
      exact ⟨r, cm1, ns1, p1, heq, hun, fun hr _ => hp hr (Or.inl rfl)⟩
    · rw [if_neg hins]
      have hfirst : (insert_entries &&
          decide (env.InsertEntries table_id s ≠ Status.OK)) = false := by
        rw [Bool.eq_false_iff]
        intro hc
        simp only [Bool.and_eq_true, decide_eq_true_eq] at hc
        exact hins hc
      by_cases hskip : ProcessNewTablesForCDCSDKStreams.skips pb table_id = true
      · rw [if_pos hskip]
        obtain ⟨r, cm1, ns1, p1, heq, hun, hp⟩ := ih
          (ProcessNewTablesForCDCSDKStreams.inserted cm insert_entries s tablets) namespace_id
          stream_pending (by rw [hi1]; exact hrest)
        refine ⟨r, cm1, ns1, p1, heq, hun.trans hi2, ?_⟩
        intro hr h
        apply hp hr
        rcases h with h | ⟨x, hx, hfail⟩
        · exact Or.inl h
        · right
          rcases List.mem_cons.mp hx with hxs | hxr
          · exfalso
            rw [hxs] at hfail
            unfold streamWriteFails at hfail
            rw [hfirst, hfind] at hfail
            simp [hskip] at hfail
          · refine ⟨x, hxr, ?_⟩
            rw [streamWriteFails_congr env _ cm table_id insert_entries x (by rw [hi1])]
            exact hfail
      · rw [if_neg hskip]
        cases hst : ProcessNewTablesForCDCSDKStreams.staged env cm table_id
            with_replica_identity pb with
        | error status =>
          exact ⟨some status, _, namespace_id, stream_pending, rfl, hi2,
            fun hr => by simp at hr⟩
        | ok pb1 =>
          simp only
          by_cases hup : env.Upsert table_id s ≠ Status.OK
          · rw [if_pos hup]
            obtain ⟨r, cm1, ns1, p1, heq, hun, hp⟩ := ih
              (ProcessNewTablesForCDCSDKStreams.inserted cm insert_entries s tablets)
              namespace_id true (by rw [hi1]; exact hrest)
            exact ⟨r, cm1, ns1, p1, heq, hun.trans hi2, fun hr _ => hp hr (Or.inl rfl)⟩
          · rw [if_neg hup]
            have hfind1 : mapFind (ProcessNewTablesForCDCSDKStreams.inserted cm insert_entries s
                tablets).cdc_stream_map_ s = some pb := by rw [hi1]; exact hfind
            have hskips := ProcessNewTables_staged_skips env cm table_id with_replica_identity
              pb pb1 hst
            obtain ⟨r, cm1, ns1, p1, heq, hun, hp⟩ := ih
              (ProcessNewTablesForCDCSDKStreams.absorbed
                (ProcessNewTablesForCDCSDKStreams.inserted cm insert_entries s tablets)
                table_id s pb1)
              pb1.get_namespace_id stream_pending
              (by
                intro x hx
                unfold ProcessNewTablesForCDCSDKStreams.absorbed
                simp only
                apply mapContains_mapAssign_of_contains
                rw [hi1]
                exact hrest x hx)
            refine ⟨r, cm1, ns1, p1, heq, ?_, ?_⟩
            · rw [hun]
              unfold ProcessNewTablesForCDCSDKStreams.absorbed
              simp only
              exact hi2
            · intro hr h
              apply hp hr
              rcases h with h | ⟨x, hx, hfail⟩
              · exact Or.inl h
              · right
                rcases List.mem_cons.mp hx with hxs | hxr
                · exfalso
                  rw [hxs] at hfail
                  unfold streamWriteFails at hfail
                  rw [hfirst, hfind] at hfail
                  simp [hup] at hfail
                · refine ⟨x, hxr, ?_⟩
                  rw [streamWriteFails_congr env _ cm table_id insert_entries x
                    ((ProcessNewTables_absorbed_skips _ table_id s x pb pb1 hfind1
                      hskips).trans (by rw [hi1]))]
                  exact hfail
theorem streamAbsorbs_cases (env : ProcessNewTablesEnv) (cm : CatalogManager)
    (table_id : TableId) (insert_entries with_replica_identity : Bool)
    (namespace_id : NamespaceId) (s : StreamId)
    (h : streamAbsorbs env cm table_id insert_entries with_replica_identity namespace_id s =
      true) :
    ¬ (insert_entries = true ∧ env.InsertEntries table_id s ≠ Status.OK) ∧
    ¬ (env.Upsert table_id s ≠ Status.OK) ∧
    ∃ pb pb1, mapFind cm.cdc_stream_map_ s = some pb ∧
      ProcessNewTablesForCDCSDKStreams.skips pb table_id = false ∧
      pb.get_namespace_id = namespace_id ∧
      ProcessNewTablesForCDCSDKStreams.staged env cm table_id with_replica_identity pb =
        Except.ok pb1 := by
  unfold streamAbsorbs at h
  simp only [Bool.and_eq_true, Bool.or_eq_true, Bool.not_eq_true', decide_eq_true_eq] at h
  obtain ⟨⟨hins, hup⟩, hrec⟩ := h
  refine ⟨?_, ?_, ?_⟩
  · rintro ⟨h1, h2⟩
    rcases hins with h3 | h3
    · rw [h1] at h3; exact Bool.noConfusion h3
    · exact h2 h3
  · exact fun h2 => h2 hup
  · cases hfind : mapFind cm.cdc_stream_map_ s with
    | none => simp [hfind] at hrec
    | some pb =>
      simp only [hfind, Bool.and_eq_true, Bool.not_eq_true', decide_eq_true_eq] at hrec
      obtain ⟨⟨hskip, hns⟩, hst⟩ := hrec
      cases hstaged : ProcessNewTablesForCDCSDKStreams.staged env cm table_id
          with_replica_identity pb with
      | error status => simp [hstaged] at hst
      | ok pb1 => exact ⟨pb, pb1, rfl, hskip, hns, hstaged⟩

theorem streamAbsorbs_congr (env : ProcessNewTablesEnv) (cm1 cm2 : CatalogManager)
    (table_id : TableId) (insert_entries with_replica_identity : Bool)
    (namespace_id : NamespaceId) (x : StreamId)
    (hmap : mapFind cm1.cdc_stream_map_ x = mapFind cm2.cdc_stream_map_ x)
    (htables : cm1.tables_ = cm2.tables_) :
    streamAbsorbs env cm1 table_id insert_entries with_replica_identity namespace_id x =
      streamAbsorbs env cm2 table_id insert_entries with_replica_identity namespace_id x := by
  unfold streamAbsorbs
  rw [hmap]
  cases mapFind cm2.cdc_stream_map_ x with
  | none => rfl
  | some pb =>
    simp only
    rw [ProcessNewTables_staged_congr env cm1 cm2 table_id with_replica_identity pb htables]

theorem addToTablesToStreamMap_singleton (m : List (TableId × List StreamId)) (s : StreamId)
    (table_id : TableId) :
    s ∈ (mapFind (addToTablesToStreamMap m s [table_id]) table_id).getD [] ∧
    ∀ x, x ∈ (mapFind m table_id).getD [] →
      x ∈ (mapFind (addToTablesToStreamMap m s [table_id]) table_id).getD [] := by
  simp only [addToTablesToStreamMap, mapFind_mapAssign_self, Option.getD_some]
  by_cases hs : s ∈ (mapFind m table_id).getD []
  · rw [if_pos hs]
    exact ⟨hs, fun x hx => hx⟩
  · rw [if_neg hs]
    exact ⟨by simp, fun x hx => List.mem_append_left _ hx⟩

theorem ProcessNewTables_stream_loop_absorbs (env : ProcessNewTablesEnv) (table_id : TableId)
    (tablets : List TabletId) (insert_entries with_replica_identity : Bool)
    (namespace_id : NamespaceId) (streams : List StreamId) :
    ∀ (cm : CatalogManager) (namespace_id0 : NamespaceId) (stream_pending : Bool),
      streams.Nodup →
      (∀ s ∈ streams, streamAbsorbs env cm table_id insert_entries with_replica_identity
        namespace_id s = true) →
      ∃ cm1,
        ProcessNewTablesForCDCSDKStreams.stream_loop env table_id tablets insert_entries
            with_replica_identity streams cm namespace_id0 stream_pending =
          some (none, cm1, (if streams.isEmpty then namespace_id0 else namespace_id),
            stream_pending) ∧
        cm1.namespace_to_cdcsdk_unprocessed_table_map_ =
          cm.namespace_to_cdcsdk_unprocessed_table_map_ ∧
        (∀ s ∈ streams,
          (mapFind cm1.cdc_stream_map_ s).map (fun pb => pb.table_id) =
            (mapFind cm.cdc_stream_map_ s).map (fun pb => pb.table_id ++ [table_id])) ∧
        (∀ s, s ∉ streams → mapFind cm1.cdc_stream_map_ s = mapFind cm.cdc_stream_map_ s) ∧
        (∀ s, (s ∈ streams ∨ s ∈ (mapFind cm.cdcsdk_tables_to_stream_map_ table_id).getD []) →
          s ∈ (mapFind cm1.cdcsdk_tables_to_stream_map_ table_id).getD []) := by
  induction streams with
  | nil =>
    intro cm namespace_id0 stream_pending _ _
    refine ⟨cm, rfl, rfl, ?_, fun _ _ => rfl, ?_⟩
    · intro s hs; simp at hs
    · intro s hs
      rcases hs with hs | hs
      · simp at hs
      · exact hs
  | cons s rest ih =>
    intro cm namespace_id0 stream_pending hnodup habsorbs
    obtain ⟨hins, hup, pb, pb1, hfind, hskip, hns, hst⟩ := streamAbsorbs_cases env cm table_id
      insert_entries with_replica_identity namespace_id s (habsorbs s (List.mem_cons_self _ _))
    obtain ⟨hi1, hi2, hi3, hi4⟩ := ProcessNewTables_inserted_fields cm insert_entries s tablets
    obtain ⟨hs1, _, _, hs4⟩ := ProcessNewTables_staged_fields env cm table_id
      with_replica_identity pb pb1 hst
    have hnodup1 := List.nodup_cons.mp hnodup
    have hns1 : pb1.get_namespace_id = namespace_id := by
      unfold SysCDCStreamEntryPB.get_namespace_id at hns ⊢
      rw [hs4]
      exact hns
    have hmapX : ∀ x, s ≠ x →
        mapFind (ProcessNewTablesForCDCSDKStreams.absorbed
          (ProcessNewTablesForCDCSDKStreams.inserted cm insert_entries s tablets)
          table_id s pb1).cdc_stream_map_ x = mapFind cm.cdc_stream_map_ x := by
      intro x hx
      unfold ProcessNewTablesForCDCSDKStreams.absorbed
      simp only
      rw [mapFind_mapAssign_ne _ _ _ _ hx, hi1]
    have hmapS : mapFind (ProcessNewTablesForCDCSDKStreams.absorbed
          (ProcessNewTablesForCDCSDKStreams.inserted cm insert_entries s tablets)
          table_id s pb1).cdc_stream_map_ s = some pb1 := by
      unfold ProcessNewTablesForCDCSDKStreams.absorbed
      simp only
      rw [mapFind_mapAssign_self]
    have htablesX : (ProcessNewTablesForCDCSDKStreams.absorbed
          (ProcessNewTablesForCDCSDKStreams.inserted cm insert_entries s tablets)
          table_id s pb1).tables_ = cm.tables_ := by
      unfold ProcessNewTablesForCDCSDKStreams.absorbed
      simp only
      exact hi3
    have hidxX := addToTablesToStreamMap_singleton cm.cdcsdk_tables_to_stream_map_ s table_id
    have hidxEq : (ProcessNewTablesForCDCSDKStreams.absorbed
          (ProcessNewTablesForCDCSDKStreams.inserted cm insert_entries s tablets)
          table_id s pb1).cdcsdk_tables_to_stream_map_ =
        addToTablesToStreamMap cm.cdcsdk_tables_to_stream_map_ s [table_id] := by
      unfold ProcessNewTablesForCDCSDKStreams.absorbed
      simp only
      rw [hi4]
    obtain ⟨cm1, heq, hun, htab, hother, hidx⟩ := ih
      (ProcessNewTablesForCDCSDKStreams.absorbed
        (ProcessNewTablesForCDCSDKStreams.inserted cm insert_entries s tablets) table_id s pb1)
      pb1.get_namespace_id stream_pending hnodup1.2
      (by
        intro x hx
        have hne : s ≠ x := fun h => hnodup1.1 (h ▸ hx)
        rw [streamAbsorbs_congr env _ cm table_id insert_entries with_replica_identity
          namespace_id x (hmapX x hne) htablesX]
        exact habsorbs x (List.mem_cons_of_mem _ hx))
    refine ⟨cm1, ?_, ?_, ?_, ?_, ?_⟩
    · unfold ProcessNewTablesForCDCSDKStreams.stream_loop
      simp only [hfind, if_neg hins, hskip, Bool.false_eq_true, if_false, hst, if_neg hup]
      rw [heq, hns1]
      simp
    · rw [hun]
      unfold ProcessNewTablesForCDCSDKStreams.absorbed
      simp only
      exact hi2
    · intro x hx
      rcases List.mem_cons.mp hx with hxs | hxr
      · rw [hxs, hother s hnodup1.1, hmapS, hfind]
        simp [hs1]
      · have hne : s ≠ x := fun h => hnodup1.1 (h ▸ hxr)
        rw [htab x hxr, hmapX x hne]
    · intro x hx
      have hne : s ≠ x := fun h => hx (h ▸ List.mem_cons_self _ _)
      rw [hother x (fun h => hx (List.mem_cons_of_mem _ h)), hmapX x hne]
    · intro x hx
      apply hidx
      rcases hx with hx | hx
      · rcases List.mem_cons.mp hx with hxs | hxr
        · right
          rw [hidxEq, hxs]
          exact hidxX.1
        · exact Or.inl hxr
      · right
        rw [hidxEq]
        exact hidxX.2 x hx

theorem RemoveTableFromCDCSDKUnprocessedMap_spec (cm : CatalogManager) (table_id : TableId)
    (ns_id : NamespaceId) :
    table_id ∉ (mapFind (RemoveTableFromCDCSDKUnprocessedMap cm table_id
        ns_id).namespace_to_cdcsdk_unprocessed_table_map_ ns_id).getD [] ∧
    (RemoveTableFromCDCSDKUnprocessedMap cm table_id ns_id).cdc_stream_map_ =
      cm.cdc_stream_map_ ∧
    (RemoveTableFromCDCSDKUnprocessedMap cm table_id ns_id).cdcsdk_tables_to_stream_map_ =
      cm.cdcsdk_tables_to_stream_map_ := by
  unfold RemoveTableFromCDCSDKUnprocessedMap
  cases hfind : mapFind cm.namespace_to_cdcsdk_unprocessed_table_map_ ns_id with
  | none => simp [hfind]
  | some unprocessed_tables =>
    simp only
    by_cases hempty : (unprocessed_tables.filter (fun id => decide (id ≠ table_id))).isEmpty =
        true
    · rw [if_pos hempty]
      simp [mapFind_mapErase_self]
    · rw [if_neg hempty]
      simp [mapFind_mapAssign_self, List.mem_filter]

/-- The call of `ProcessNewTablesForCDCSDKStreams` for one table, the limit of tables per run
being positive, is the pass over that table. -/
theorem ProcessNewTablesForCDCSDKStreams_one_table (env : ProcessNewTablesEnv)
    (cm : CatalogManager) (table_id : TableId) (streams : List StreamId)
    (hlimit : 0 < cm.flags.cdcsdk_table_processing_limit_per_run) :
    ProcessNewTablesForCDCSDKStreams env cm [(table_id, streams)] =
      (ProcessNewTablesForCDCSDKStreams.table_pass env cm table_id streams).map
        (fun r => (r.1.getD Status.OK, r.2)) := by
  unfold ProcessNewTablesForCDCSDKStreams ProcessNewTablesForCDCSDKStreams.loop
  rw [if_neg (by omega)]
  cases ProcessNewTablesForCDCSDKStreams.table_pass env cm table_id streams with
  | none => rfl
  | some r =>
    obtain ⟨status, cm1⟩ := r
    cases status with
    | none => simp [ProcessNewTablesForCDCSDKStreams.loop]
    | some status => rfl

/-- C24: one pass of `ProcessNewTablesForCDCSDKStreams` over the table `table_id` and the
streams that miss it, all of them streams of `cdc_stream_map_`, with the tablets of the table
located. If for some stream the CDC-state insert or the sys-catalog write fails, the pass ends
with the unprocessed sets as they were, so the table is still in the set of its namespace. If
the WAL retention is set (when it is to be) and every stream, the streams being distinct,
absorbs the table, the pass ends without an early return, each stream has the table appended to
its table list and is in the table-to-streams index of the table, and the table is not in the
unprocessed set of the namespace of the streams. -/
theorem ProcessNewTablesForCDCSDKStreams_pass (env : ProcessNewTablesEnv) (cm : CatalogManager)
    (table_id : TableId) (streams : List StreamId) (tablets : List TabletId)
    (has_slot : Bool)
    (hloc : env.GetTableLocations table_id = (Status.OK, some tablets))
    (hslot : ProcessNewTablesForCDCSDKStreams.has_replication_slot_consumption cm streams =
      some has_slot)
    (hpresent : ∀ s ∈ streams, mapContains cm.cdc_stream_map_ s = true) :
    ((∃ s ∈ streams, streamWriteFails env cm table_id
        (!cm.flags.ysql_yb_enable_replication_slot_consumption || !has_slot) s = true) →
      ∃ r cm1,
        ProcessNewTablesForCDCSDKStreams.table_pass env cm table_id streams = some (r, cm1) ∧
        cm1.namespace_to_cdcsdk_unprocessed_table_map_ =
          cm.namespace_to_cdcsdk_unprocessed_table_map_) ∧
    (∀ namespace_id : NamespaceId,
      streams.Nodup →
      ((!cm.flags.ysql_yb_enable_replication_slot_consumption || !has_slot) = true →
        env.AlterTable table_id = Status.OK) →
      (∀ s ∈ streams, streamAbsorbs env cm table_id
        (!cm.flags.ysql_yb_enable_replication_slot_consumption || !has_slot)
        (cm.flags.ysql_yb_enable_replica_identity && has_slot) namespace_id s = true) →
      ∃ cm1,
        ProcessNewTablesForCDCSDKStreams.table_pass env cm table_id streams =
          some (none, cm1) ∧
        (∀ s ∈ streams,
          (mapFind cm1.cdc_stream_map_ s).map (fun pb => pb.table_id) =
            (mapFind cm.cdc_stream_map_ s).map (fun pb => pb.table_id ++ [table_id])) ∧
        (∀ s ∈ streams, s ∈ (mapFind cm1.cdcsdk_tables_to_stream_map_ table_id).getD []) ∧
        table_id ∉
          (mapFind cm1.namespace_to_cdcsdk_unprocessed_table_map_ namespace_id).getD []) := by
  have hne : streams ≠ [] := by
    intro h
    rw [h] at hslot
    simp [ProcessNewTablesForCDCSDKStreams.has_replication_slot_consumption] at hslot
  constructor
  · intro hfail
    unfold ProcessNewTablesForCDCSDKStreams.table_pass
    simp only [hloc, ne_eq, not_true_eq_false, if_false, hslot]
    by_cases halter : ((!cm.flags.ysql_yb_enable_replication_slot_consumption || !has_slot) =
        true) ∧ ¬ env.AlterTable table_id = Status.OK
    · rw [if_pos halter]
      exact ⟨none, cm, rfl, rfl⟩
    · rw [if_neg halter]
      obtain ⟨r, cm1, ns1, p1, heq, hun, hp⟩ := ProcessNewTables_stream_loop_pending env
        table_id tablets (!cm.flags.ysql_yb_enable_replication_slot_consumption || !has_slot)
        (cm.flags.ysql_yb_enable_replica_identity && has_slot) streams cm "" false hpresent
      rw [heq]
      cases r with
      | some status => exact ⟨some status, cm1, rfl, hun⟩
      | none =>
        have hp1 := hp rfl (Or.inr hfail)
        rw [hp1]
        exact ⟨none, cm1, rfl, hun⟩
  · intro namespace_id hnodup halter habsorbs
    obtain ⟨cm1, heq, hun, htab, _, hidx⟩ := ProcessNewTables_stream_loop_absorbs env table_id
      tablets (!cm.flags.ysql_yb_enable_replication_slot_consumption || !has_slot)
      (cm.flags.ysql_yb_enable_replica_identity && has_slot) namespace_id streams cm "" false
      hnodup habsorbs
    have hemp : streams.isEmpty = false := by
      cases streams with
      | nil => exact absurd rfl hne
      | cons s rest => rfl
    rw [hemp] at heq
    obtain ⟨hr1, hr2, hr3⟩ := RemoveTableFromCDCSDKUnprocessedMap_spec cm1 table_id namespace_id
    refine ⟨RemoveTableFromCDCSDKUnprocessedMap cm1 table_id namespace_id, ?_, ?_, ?_, hr1⟩
    · unfold ProcessNewTablesForCDCSDKStreams.table_pass
      simp only [hloc, ne_eq, not_true_eq_false, if_false, hslot]
      rw [if_neg (fun h => h.2 (halter h.1)), heq]
      simp
    · intro s hs
      rw [hr2]
      exact htab s hs
    · intro s hs
      rw [hr3]
      exact hidx s (Or.inl hs)

/-- C24, at sample inputs: the pass over the table t2 and the streams 1 and 2. When the sys
catalog refuses the write of stream 2, the unprocessed sets are as they were; when every call
succeeds, both streams have t2 appended and are in the index of t2, and t2 is out of the
unprocessed set of `ns`. -/
theorem ProcessNewTablesForCDCSDKStreams_pass_witness :
    (∃ r cm1,
      ProcessNewTablesForCDCSDKStreams.table_pass sampleNewTableFailingEnv sampleNewTableState
          "t2" [1, 2] = some (r, cm1) ∧
        cm1.namespace_to_cdcsdk_unprocessed_table_map_ =
          sampleNewTableState.namespace_to_cdcsdk_unprocessed_table_map_) ∧
    (∃ cm1,
      ProcessNewTablesForCDCSDKStreams.table_pass sampleNewTableEnv sampleNewTableState "t2"
          [1, 2] = some (none, cm1) ∧
        (∀ s ∈ [1, 2],
          (mapFind cm1.cdc_stream_map_ s).map (fun pb => pb.table_id) =
            (mapFind sampleNewTableState.cdc_stream_map_ s).map
              (fun pb => pb.table_id ++ ["t2"])) ∧
        (∀ s ∈ [1, 2], s ∈ (mapFind cm1.cdcsdk_tables_to_stream_map_ "t2").getD []) ∧
        "t2" ∉ (mapFind cm1.namespace_to_cdcsdk_unprocessed_table_map_ "ns").getD []) :=
  ⟨(ProcessNewTablesForCDCSDKStreams_pass sampleNewTableFailingEnv sampleNewTableState "t2"
      [1, 2] ["tablet9"] false rfl rfl (by decide)).1 ⟨2, by decide, by decide⟩,
    (ProcessNewTablesForCDCSDKStreams_pass sampleNewTableEnv sampleNewTableState "t2" [1, 2]
      ["tablet9"] false rfl rfl (by decide)).2 "ns" (by decide) (fun _ => rfl) (by decide)⟩

/-- The two sample passes, evaluated: with the write of stream 2 refused, stream 1 has
absorbed t2 and t2 is still unprocessed; with every call succeeding, no table is left
unprocessed. -/
theorem ProcessNewTablesForCDCSDKStreams_sample_runs :
    (ProcessNewTablesForCDCSDKStreams sampleNewTableFailingEnv sampleNewTableState
        [("t2", [1, 2])]).map
      (fun r => (r.1, r.2.cdc_stream_map_.map (fun e => (e.1, e.2.table_id)),
        r.2.cdcsdk_tables_to_stream_map_, r.2.namespace_to_cdcsdk_unprocessed_table_map_)) =
      some (Status.OK, [(1, ["t1", "t2"]), (2, ["t1"])], [("t1", [1, 2]), ("t2", [1])],
        [("ns", ["t2"])]) ∧
    (ProcessNewTablesForCDCSDKStreams sampleNewTableEnv sampleNewTableState
        [("t2", [1, 2])]).map
      (fun r => (r.1, r.2.cdc_stream_map_.map (fun e => (e.1, e.2.table_id)),
        r.2.cdcsdk_tables_to_stream_map_, r.2.namespace_to_cdcsdk_unprocessed_table_map_)) =
      some (Status.OK, [(1, ["t1", "t2"]), (2, ["t1", "t2"])],
        [("t1", [1, 2]), ("t2", [1, 2])], []) := by
  constructor <;> rfl

end yb.master
